import Mathlib

/-!
Verification of the MikroTikPatch trust-primitive stack against its
specification.  The Python sources (`sha256.py`, `mikro.py`, `npk.py`,
`toyecc/`) are shallowly embedded: byte strings become `List ℕ`
(each element a byte value), machine words become `ℕ` with explicit
reduction modulo `2 ^ 32`, field and scalar arithmetic becomes `ℕ`
arithmetic modulo the curve constants, and fallible or crashing code paths
become `Option`/`Except` values.  All definitions are executable so that
theorems about concrete inputs can be settled by kernel evaluation.
-/

set_option maxRecDepth 100000
set_option maxHeartbeats 4000000

/-! ## Byte-level helpers (toyecc/Tools.py and struct packing) -/

/-- `2 ^ 32`, the word modulus of the 32-bit hash/cipher arithmetic. -/
def M32 : ℕ := 4294967296

/-- Reduction of a word to 32 bits (`to32bits` in mikro.py, `& 0xffffffff`
in sha256.py).  Python applies the wrap after possibly-negative signed
arithmetic; the callers below phrase subtractions as `x + M32 - y` so the
argument is already non-negative. -/
def to32 (v : ℕ) : ℕ := v % M32

/-- `Tools.bytestoint_le`: little-endian bytes to integer. -/
def leToInt : List ℕ → ℕ
  | [] => 0
  | b :: rest => b + 256 * leToInt rest

/-- `Tools.inttobytes_le`: integer to `len` little-endian bytes. -/
def leBytes : ℕ → ℕ → List ℕ
  | 0, _ => []
  | len + 1, v => v % 256 :: leBytes len (v / 256)

/-- `int.to_bytes(4, 'big')` / `struct.pack('>L', w)` for `w < 2 ^ 32`. -/
def be4 (w : ℕ) : List ℕ :=
  [w / 16777216 % 256, w / 65536 % 256, w / 256 % 256, w % 256]

/-- `struct.unpack('>' + 'L' * k, msg)`: group bytes big-endian, four per
word. -/
def beWords : List ℕ → List ℕ
  | b0 :: b1 :: b2 :: b3 :: rest =>
    (b0 * 16777216 + b1 * 65536 + b2 * 256 + b3) :: beWords rest
  | _ => []

/-- `struct.pack('<H', t)`: 2-byte little-endian tag. -/
def le2 (t : ℕ) : List ℕ := [t % 256, t / 256 % 256]

/-- `struct.pack('<I', v)`: 4-byte little-endian length.  `struct` raises
for `v ≥ 2 ^ 32`; callers are used with smaller values, so the wrap never
fires there. -/
def le4 (v : ℕ) : List ℕ :=
  [v % 256, v / 256 % 256, v / 65536 % 256, v / 16777216 % 256]

/-! ## The SHA-256 digest family (sha256.py)

The class `SHA256` is parameterized by a round-constant table `K` and an
initial state; the subclass `MikroSHA256` in mikro.py overrides both.  We
embed the algorithm once, taking the constant table (as a lookup function)
and the initial state as arguments. -/

/-- The 8-word digest state (`SHA256.State`). -/
structure St where
  a : ℕ
  b : ℕ
  c : ℕ
  d : ℕ
  e : ℕ
  f : ℕ
  g : ℕ
  h : ℕ
deriving DecidableEq, Repr

/-- `SHA256._rrot`: 32-bit right rotation. -/
def rrot (x n : ℕ) : ℕ := ((x % M32) >>> n) ||| ((x <<< (32 - n)) % M32)

/-- `SHA256._shr`. -/
def shr (x n : ℕ) : ℕ := (x % M32) >>> n

/-- `SHA256._ch`.  Python computes `~x & z` on a sign-extended int; since
`z < 2 ^ 32` only the low 32 bits of `~x` matter, written here as
`(0xffffffff ^^^ x)`. -/
def ch (x y z : ℕ) : ℕ := (x &&& y) ^^^ ((4294967295 ^^^ x) &&& z)

/-- `SHA256._maj`. -/
def maj (x y z : ℕ) : ℕ := (x &&& y) ^^^ (x &&& z) ^^^ (y &&& z)

/-- `SHA256._S0`. -/
def bigS0 (x : ℕ) : ℕ := rrot x 2 ^^^ rrot x 13 ^^^ rrot x 22

/-- `SHA256._S1`. -/
def bigS1 (x : ℕ) : ℕ := rrot x 6 ^^^ rrot x 11 ^^^ rrot x 25

/-- `SHA256._s0`. -/
def smallS0 (x : ℕ) : ℕ := rrot x 7 ^^^ rrot x 18 ^^^ shr x 3

/-- `SHA256._s1`. -/
def smallS1 (x : ℕ) : ℕ := rrot x 17 ^^^ rrot x 19 ^^^ shr x 10

/-- `SHA256._T1`. -/
def shaT1 (prev : St) (w k : ℕ) : ℕ :=
  to32 (bigS1 prev.e + ch prev.e prev.f prev.g + prev.h + w + k)

/-- `SHA256._T2`. -/
def shaT2 (prev : St) : ℕ := to32 (bigS0 prev.a + maj prev.a prev.b prev.c)

/-- `SHA256._round`, with the selected round constant `k` passed in
(`K[number % 64]` in the source; `digest` only ever uses offsets that are
multiples of 64, so the index is just the in-block round number). -/
def shaRound (k w : ℕ) (prev : St) : St :=
  { a := to32 (shaT1 prev w k + shaT2 prev)
    b := prev.a
    c := prev.b
    d := prev.c
    e := to32 (prev.d + shaT1 prev w k)
    f := prev.e
    g := prev.f
    h := prev.g }

/-- `SHA256._finalize`. -/
def shaFinalize (st init : St) : St :=
  { a := to32 (st.a + init.a), b := to32 (st.b + init.b)
    c := to32 (st.c + init.c), d := to32 (st.d + init.d)
    e := to32 (st.e + init.e), f := to32 (st.f + init.f)
    g := to32 (st.g + init.g), h := to32 (st.h + init.h) }

/-- One step of `SHA256._expand_message`: append word `i` (16 ≤ i < 64). -/
def expandStep (w : List ℕ) (i : ℕ) : List ℕ :=
  w ++ [to32 (w.getD (i - 16) 0 + smallS0 (w.getD (i - 15) 0) +
              w.getD (i - 7) 0 + smallS1 (w.getD (i - 2) 0))]

/-- `SHA256._expand_message`: 16 words to 64 words. -/
def expandMessage (w : List ℕ) : List ℕ :=
  (List.range 48).foldl (fun acc j => expandStep acc (16 + j)) w

/-- `SHA256._process_block` on a 64-byte block. -/
def processBlock (K : ℕ → ℕ) (block : List ℕ) (st : St) : St :=
  let w := expandMessage (beWords block)
  shaFinalize ((List.range 64).foldl (fun s i => shaRound (K i) (w.getD i 0) s) st) st

/-- `SHA256._pad_message`: the final one or two blocks.  `message` is the
residual tail (< 64 bytes), `length` the bit length of the whole message.
(`struct.pack('>LL', ...)` would raise for a bit length ≥ 2 ^ 64; the wrap
written here never fires for such inputs.) -/
def padMessage (message : List ℕ) (length : ℕ) : List (List ℕ) :=
  if message.length ≤ 55 then
    [message ++ [0x80] ++ List.replicate (55 - message.length) 0 ++
      (be4 ((length >>> 32) % M32) ++ be4 (length % M32))]
  else
    [message ++ [0x80] ++ List.replicate (63 - message.length) 0,
     List.replicate 56 0 ++ (be4 ((length >>> 32) % M32) ++ be4 (length % M32))]

/-- The `update` loop: process full 64-byte blocks, return the final state
and the residual buffer.  Fuel-based (one unit per block) so that the
kernel can evaluate it; `msg.length` units always suffice. -/
def shaUpdateGo (K : ℕ → ℕ) : ℕ → List ℕ → St → St × List ℕ :=
  Nat.rec (fun msg st => (st, msg))
    (fun _ ih msg st =>
      if 64 ≤ msg.length then ih (msg.drop 64) (processBlock K (msg.take 64) st)
      else (st, msg))

/-- `SHA256(msg).digest()` with round constants `K` and initial state
`init`: buffer full blocks, pad the residue, serialize big-endian. -/
def shaDigest (K : ℕ → ℕ) (init : St) (msg : List ℕ) : List ℕ :=
  let r := shaUpdateGo K msg.length msg init
  let final := (padMessage r.2 (8 * msg.length)).foldl
    (fun st block => processBlock K block st) r.1
  be4 final.a ++ be4 final.b ++ be4 final.c ++ be4 final.d ++
  be4 final.e ++ be4 final.f ++ be4 final.g ++ be4 final.h

/-! ## The Mikro constants (mikro.py) -/

/-- `MIKRO_SHA256_K`, the substituted 64-entry round-constant table. -/
def MIKRO_SHA256_K : List ℕ :=
  [0x0548D563, 0x98308EAB, 0x37AF7CCC, 0xDFBC4E3C,
   0xF125AAC9, 0xEC98ACB8, 0x8B540795, 0xD3E0EF0E,
   0x4904D6E5, 0x0DA84981, 0x9A1F8452, 0x00EB7EAA,
   0x96F8E3B3, 0xA6CDB655, 0xE7410F9E, 0x8EECB03D,
   0x9C6A7C25, 0xD77B072F, 0x6E8F650A, 0x124E3640,
   0x7E53785A, 0xE0150772, 0xC61EF4E0, 0xBC57E5E0,
   0xC0F9A285, 0xDB342856, 0x190834C7, 0xFBEB7D8E,
   0x251BED34, 0x0E9F2AAD, 0x256AB901, 0x0A5B7890,
   0x9F124F09, 0xD84A9151, 0x427AF67A, 0x8059C9AA,
   0x13EAB029, 0x3153CDF1, 0x262D405D, 0xA2105D87,
   0x9C745F15, 0xD1613847, 0x294CE135, 0x20FB0F3C,
   0x8424D8ED, 0x8F4201B6, 0x12CA1EA7, 0x2054B091,
   0x463D8288, 0xC83253C3, 0x33EA314A, 0x9696DC92,
   0xD041CE9A, 0xE5477160, 0xC7656BE8, 0x5179FE33,
   0x1F4726F1, 0x5F393AF0, 0x26E2D004, 0x6D020245,
   0x85FDF6D7, 0xB0237C56, 0xFF5FBD94, 0xA8B3F534]

/-- `MIKRO_SHA256_K[i]` as a lookup function. -/
def mK (i : ℕ) : ℕ := MIKRO_SHA256_K.getD i 0

/-- `MikroSHA256.INITIAL_STATE`. -/
def mikroIV : St :=
  { a := 0x5B653932, b := 0x7B145F8F, c := 0x71FFB291, d := 0x38EF925F
    e := 0x03E1AAF9, f := 0x4A2057CC, g := 0x4CAF4DD9, h := 0x643CC9EA }

/-- `mikro_sha256`: the digest family instantiated with the Mikro
constants. -/
def mikroSha256 (data : List ℕ) : List ℕ := shaDigest mK mikroIV data

/-! ## The Mikro block transform (mikro.py `mikro_encode` / `mikro_decode`)

The transform permutes four 32-bit words.  `rotl` in the source leaves
bits above position 31 in place; every use site wraps the result with
`to32bits`, so we mask inside the rotation.  Likewise Python's `x - y`
may be negative and `x ^ y` sign-extends, but only the low 32 bits
survive the `to32bits` wrap, so subtrahends are wrapped as
`to32 (x + M32 - y)` before the XOR. -/

/-- `rotl` specialised to its 32-bit use. -/
def rotl (n d : ℕ) : ℕ := ((n <<< d) % M32) ||| ((n % M32) >>> (32 - d))

/-- The four-word state `s` of the block transform. -/
structure Q4 where
  w0 : ℕ
  w1 : ℕ
  w2 : ℕ
  w3 : ℕ
deriving DecidableEq, Repr

/-- `s[i % 4]`. -/
def getQ (q : Q4) (i : ℕ) : ℕ :=
  match i % 4 with
  | 0 => q.w0
  | 1 => q.w1
  | 2 => q.w2
  | _ => q.w3

/-- `s[i % 4] = v`. -/
def setQ (q : Q4) (i : ℕ) (v : ℕ) : Q4 :=
  match i % 4 with
  | 0 => { q with w0 := v }
  | 1 => { q with w1 := v }
  | 2 => { q with w2 := v }
  | _ => { q with w3 := v }

/-- One round of `mikro_encode` (loop body for index `i`). -/
def encRound (i : ℕ) (q : Q4) : Q4 :=
  let q := setQ q (i + 0) (to32 (rotl (getQ q (i + 3)) (mK (i * 4 + 3) % 16) ^^^ to32 (getQ q (i + 0) + M32 - getQ q (i + 3))))
  let q := setQ q (i + 3) (to32 (getQ q (i + 3) + getQ q (i + 1) + mK (i * 4 + 3)))
  let q := setQ q (i + 1) (to32 (rotl (getQ q (i + 2)) (mK (i * 4 + 2) % 16) ^^^ to32 (getQ q (i + 1) + M32 - getQ q (i + 2))))
  let q := setQ q (i + 0) (to32 (getQ q (i + 0) + getQ q (i + 2) + mK (i * 4 + 2)))
  let q := setQ q (i + 2) (to32 (rotl (getQ q (i + 1)) (mK (i * 4 + 1) % 16) ^^^ to32 (getQ q (i + 2) + M32 - getQ q (i + 1))))
  let q := setQ q (i + 1) (to32 (getQ q (i + 1) + getQ q (i + 3) + mK (i * 4 + 1)))
  let q := setQ q (i + 3) (to32 (rotl (getQ q (i + 0)) (mK (i * 4 + 0) % 16) ^^^ to32 (getQ q (i + 3) + M32 - getQ q (i + 0))))
  let q := setQ q (i + 2) (to32 (getQ q (i + 2) + getQ q (i + 0) + mK (i * 4 + 0)))
  q

/-- One round of `mikro_decode` (loop body for index `i`). -/
def decRound (i : ℕ) (q : Q4) : Q4 :=
  let q := setQ q (i + 2) (to32 (getQ q (i + 2) + M32 + M32 - getQ q (i + 0) - mK (i * 4 + 0)))
  let q := setQ q (i + 3) (to32 ((rotl (getQ q (i + 0)) (mK (i * 4 + 0) % 16) ^^^ getQ q (i + 3)) + getQ q (i + 0)))
  let q := setQ q (i + 1) (to32 (getQ q (i + 1) + M32 + M32 - getQ q (i + 3) - mK (i * 4 + 1)))
  let q := setQ q (i + 2) (to32 ((rotl (getQ q (i + 1)) (mK (i * 4 + 1) % 16) ^^^ getQ q (i + 2)) + getQ q (i + 1)))
  let q := setQ q (i + 0) (to32 (getQ q (i + 0) + M32 + M32 - getQ q (i + 2) - mK (i * 4 + 2)))
  let q := setQ q (i + 1) (to32 ((rotl (getQ q (i + 2)) (mK (i * 4 + 2) % 16) ^^^ getQ q (i + 1)) + getQ q (i + 2)))
  let q := setQ q (i + 3) (to32 (getQ q (i + 3) + M32 + M32 - getQ q (i + 1) - mK (i * 4 + 3)))
  let q := setQ q (i + 0) (to32 ((rotl (getQ q (i + 3)) (mK (i * 4 + 3) % 16) ^^^ getQ q (i + 0)) + getQ q (i + 3)))
  q

/-- The sixteen encode rounds, `i` from 15 down to 0. -/
def encRounds (q : Q4) : Q4 :=
  (List.range 16).reverse.foldl (fun s i => encRound i s) q

/-- The sixteen decode rounds, `i` from 0 to 15. -/
def decRounds (q : Q4) : Q4 :=
  (List.range 16).foldl (fun s i => decRound i s) q

/-- Serialisation of the four words, big-endian (`x.to_bytes(4,'big')`). -/
def bytesOfQ4 (q : Q4) : List ℕ :=
  be4 q.w0 ++ be4 q.w1 ++ be4 q.w2 ++ be4 q.w3

/-- `struct.unpack('>IIII', s)` on a 16-byte block.  The callers of the
transform only supply 16-byte blocks; other lengths are out of contract. -/
def q4OfBytes (bs : List ℕ) : Q4 :=
  match beWords bs with
  | w0 :: w1 :: w2 :: w3 :: _ => ⟨w0, w1, w2, w3⟩
  | _ => ⟨0, 0, 0, 0⟩

/-- `mikro_encode` on a 16-byte block. -/
def mikro_encode (s : List ℕ) : List ℕ := bytesOfQ4 (encRounds (q4OfBytes s))

/-- `mikro_decode` on a 16-byte block. -/
def mikro_decode (s : List ℕ) : List ℕ := bytesOfQ4 (decRounds (q4OfBytes s))

/-! ## Curve25519 arithmetic (toyecc)

`getcurvebyname('Curve25519')` yields the Montgomery curve
`b y^2 = x^3 + a x^2 + x` with the parameters below (CurveDB.py).
Field elements are naturals reduced modulo `p25519`; curve points are
`Pt.inf` (the point at infinity, coordinates `None` in the source) or
affine pairs of reduced coordinates.  Source operations that raise
(`int(None)`, conjugating the point at infinity) are mapped to `none`. -/

/-- The field prime `p = 2 ^ 255 - 19`. -/
def p25519 : ℕ := 2 ^ 255 - 19

/-- The group order `n`. -/
def n25519 : ℕ := 2 ^ 252 + 27742317777372353535851937790883648493

/-- Curve coefficient `a`. -/
def aM : ℕ := 486662

/-- Curve coefficient `b`. -/
def bM : ℕ := 1

/-- `FieldElement._eea`, the extended Euclidean algorithm, fuel-based.
The source keeps the Bezout state `(s, t, u, v)` as signed integers and
its only consumer (`inverse`) reduces the final `v` modulo `m`; here the
four coefficients are kept reduced modulo `m` throughout (subtraction
becomes addition of `m - x`), which yields the same `(gcd, u mod m,
v mod m)`.  800 units of fuel cover all inputs below `m ^ 2`. -/
def eeaGo (m : ℕ) : ℕ → ℕ → ℕ → ℕ → ℕ → ℕ → ℕ → ℕ × ℕ × ℕ :=
  Nat.rec (fun a _ _ _ u v => (a, u, v))
    (fun _ ih a b s t u v =>
      if b = 0 then (a, u, v)
      else ih b (a % b) ((u + (m - s * (a / b) % m)) % m)
        ((v + (m - t * (a / b) % m)) % m) s t)

/-- `_eea(a, b)` with coefficients modulo `m`. -/
def eea (m a b : ℕ) : ℕ × ℕ × ℕ := eeaGo m 800 a b 1 0 0 1

/-- `FieldElement.inverse`: `none` models the "Trying to invert zero"
exception; otherwise the Bezout coefficient `v` of the element. -/
def finv (x m : ℕ) : Option ℕ :=
  if x % m = 0 then none else some (eea m (x % m) m).2.2

/-- Modular exponentiation (`pow(b, e, m)` / `FieldElement.__pow__`),
square-and-multiply with one fuel unit per exponent bit. -/
def powModGo : ℕ → ℕ → ℕ → ℕ → ℕ → ℕ :=
  Nat.rec (fun _ _ _ acc => acc)
    (fun _ ih b e m acc =>
      if e = 0 then acc
      else ih (b * b % m) (e / 2) m (if e % 2 = 1 then acc * b % m else acc))

/-- `pow(b, e, m)` for `e < 2 ^ 300`. -/
def powMod (b e m : ℕ) : ℕ := powModGo 300 (b % m) e m (1 % m)

/-- `pow(d, -1, n)`: `none` models the `ValueError` when `d` is not
invertible. -/
def invMod (d m : ℕ) : Option ℕ :=
  match eea m (d % m) m with
  | (1, _, v) => some v
  | _ => none

/-- Field addition modulo `p25519`. -/
def fadd (x y : ℕ) : ℕ := (x + y) % p25519

/-- Field subtraction modulo `p25519` (operands already reduced). -/
def fsub (x y : ℕ) : ℕ := (x + p25519 - y) % p25519

/-- Field multiplication modulo `p25519`. -/
def fmul (x y : ℕ) : ℕ := x * y % p25519

/-- Field negation (`FieldElement.__neg__`). -/
def fneg (x : ℕ) : ℕ := (p25519 - x % p25519) % p25519

/-- `FieldElement.__floordiv__`: multiply by the inverse; `none` when the
divisor is zero. -/
def fdiv (x y : ℕ) : Option ℕ := (finv y p25519).map (fun i => fmul x i)

/-- An affine curve point, or the point at infinity (`x is None`). -/
inductive Pt where
  | inf : Pt
  | aff : ℕ → ℕ → Pt
deriving DecidableEq, Repr

/-- `int(P.x)`: `none` models the `TypeError` on the point at infinity. -/
def xNat : Pt → Option ℕ
  | .inf => none
  | .aff x _ => some x

/-- `MontgomeryCurve.point_addition` for two finite points.  The three
`//` divisions in each branch each run the extended Euclid of
`FieldElement.inverse`. -/
def paddAff (px py qx qy : ℕ) : Option Pt :=
  if px = qx ∧ py = fneg qy then some .inf
  else if px = qx ∧ py = qy then
    let num := fadd (fadd (fmul 3 (powMod px 2 p25519)) (fmul 2 (fmul px aM))) 1
    match fdiv (powMod num 2 p25519) (fmul (fmul 4 (powMod py 2 p25519)) bM),
          fdiv (fmul num (fadd (fmul 3 px) aM)) (fmul (fmul 2 py) bM),
          fdiv (powMod num 3 p25519) (fmul (fmul 8 (powMod py 3 p25519)) (powMod bM 2 p25519)) with
    | some q1, some q2, some q3 =>
      some (.aff (fadd (fsub (fneg (fmul 2 px)) aM) q1) (fsub (fadd (fneg py) q2) q3))
    | _, _, _ => none
  else
    let dy := fsub py qy
    let dx := fsub px qx
    match fdiv (fmul (powMod dy 2 p25519) bM) (powMod dx 2 p25519),
          fdiv (fmul (fadd (fadd (fmul 2 px) qx) aM) dy) dx,
          fdiv (fmul (powMod dy 3 p25519) bM) (powMod dx 3 p25519) with
    | some q1, some q2, some q3 =>
      some (.aff (fadd (fsub (fsub (fneg px) qx) aM) q1) (fsub (fsub q2 py) q3))
    | _, _, _ => none

/-- `point_addition`, including the neutral-element paths.  `O + Q = Q`;
`P + O` first evaluates `-O`, whose constructor calls `int(None)` and
raises, hence `none`. -/
def padd : Pt → Pt → Option Pt
  | .inf, q => some q
  | .aff _ _, .inf => none
  | .aff px py, .aff qx qy => paddAff px py qx qy

/-- `AffineCurvePoint.__mul__`: double-and-add from the least significant
bit, consuming the scalar (the source iterates over exactly
`scalar.bit_length()` bits, which is the same loop).  One fuel unit per
bit; 300 covers every scalar below `2 ^ 300`. -/
def smulGo : ℕ → ℕ → Pt → Pt → Option Pt :=
  Nat.rec (fun _ _ result => some result)
    (fun _ ih k n result =>
      if k = 0 then some result
      else
        match (if k % 2 = 1 then padd result n else some result) with
        | none => none
        | some result2 =>
          match padd n n with
          | none => none
          | some n2 => ih (k / 2) n2 result2)

/-- `scalar * point` (`result` starts as the neutral element). -/
def smul (k : ℕ) (P : Pt) : Option Pt :=
  if k = 0 then some .inf else smulGo 300 k P .inf

/-- The generator `G` of Curve25519. -/
def G25519 : Pt :=
  .aff 9 0x5f51e65e475f794b1fe122d388b72eb36dc2b28192839e4dd6163a5d81312c14

/-! ## The Mikro KC-DSA scheme (mikro.py) -/

/-- `FieldElement.sqrt`, modelled from the source up to the internal
randomness of `_tonelli_shanks_sqrt`: `none` when the Euler criterion
`is_qnr` test fails (in particular for 0); otherwise Tonelli–Shanks
returns one of the two square roots and `sqrt` orders the pair `(root,
-root)` so the even root comes first — a pair that does not depend on
which root was found.  Since `p25519 ≡ 5 (mod 8)`, the root itself is
computed here with the deterministic Atkin formula, which agrees with any
square root the randomised search finds, up to the parity normalisation
applied afterwards. -/
def sqrtPair (z : ℕ) : Option (ℕ × ℕ) :=
  if powMod z ((p25519 - 1) / 2) p25519 ≠ 1 then none
  else
    let c := powMod z ((p25519 + 3) / 8) p25519
    let r := if c * c % p25519 = z % p25519 then c
             else c * powMod 2 ((p25519 - 1) / 4) p25519 % p25519
    if r % 2 = 0 then some (r, fneg r) else some (fneg r, r)

/-- Bytes 8..23 of the message hash are XORed with the first 16 bytes of
the nonce hash (the `for i in range(16)` loop in sign and verify). -/
def xorNonce : ℕ → List ℕ → List ℕ → List ℕ
  | _, [], _ => []
  | i, b :: rest, nh =>
    (if 8 ≤ i ∧ i < 24 then b ^^^ nh.getD (i - 8) 0 else b) :: xorNonce (i + 1) rest nh

/-- The clamping `h[0] &= 0xF8; h[31] &= 0x7F; h[31] |= 0x40`. -/
def clampHash (l : List ℕ) : List ℕ :=
  let l := l.set 0 (l.getD 0 0 &&& 0xF8)
  l.set 31 (l.getD 31 0 &&& 0x7F ||| 0x40)

/-- The masked little-endian exponent `e` derived from the message and the
nonce hash (steps shared verbatim by `mikro_kcdsa_sign` and
`mikro_kcdsa_verify`). -/
def dataHashInt (data nonce_hash : List ℕ) : ℕ :=
  leToInt (clampHash (xorNonce 0 (mikroSha256 data) nonce_hash))

/-- The nonce of `mikro_kcdsa_sign`: `x(k·G) mod n`.  `none` models the
`int(None.x)` crash when `k·G` has no affine representation. -/
def nonceOf (k : ℕ) : Option ℕ :=
  ((smul k G25519).bind xNat).map (· % n25519)

/-- Everything `mikro_kcdsa_sign` derives before the acceptance check:
the nonce, the 32-byte nonce hash, the exponent `e` and the signature
scalar `s = d⁻¹ (k - e) mod n` (computed in ℤ exactly as Python does,
then normalised). -/
def signParts (data : List ℕ) (d k : ℕ) : Option (ℕ × List ℕ × ℕ × ℕ) :=
  match nonceOf k with
  | none => none
  | some nonce =>
    let nonce_hash := mikroSha256 (leBytes 32 nonce)
    let e := dataHashInt data nonce_hash
    match invMod d n25519 with
    | none => none
    | some dinv =>
      some (nonce, nonce_hash, e, (((dinv : ℤ) * ((k : ℤ) - (e : ℤ))) % (n25519 : ℤ)).toNat)

/-- The checked point `s·Pub + e·G` of one signing iteration, where
`Pub = d·G` is the public key computed by `ECPrivateKey`. -/
def signCheck (data : List ℕ) (d k : ℕ) : Option Pt :=
  match signParts data d k with
  | none => none
  | some (_, _, e, s) =>
    match smul d G25519 with
    | none => none
    | some pub =>
      match smul s pub, smul e G25519 with
      | some P1, some P2 => padd P1 P2
      | _, _ => none

/-- One iteration of the `mikro_kcdsa_sign` retry loop with the drawn
nonce scalar `k` made explicit: `some signature` when the iteration
accepts, `none` when it discards `k` (or crashes). -/
def signStep (data : List ℕ) (d k : ℕ) : Option (List ℕ) :=
  match signParts data d k with
  | none => none
  | some (nonce, nonce_hash, _, s) =>
    match signCheck data d k with
    | none => none
    | some C =>
      match xNat C with
      | none => none
      | some x => if x = nonce then some (nonce_hash.take 16 ++ leBytes 32 s) else none

/-- One signing iteration as this specification sentence describes it:
modelled from the spec, "accept iff `x(s·Pub + e·G) mod n == nonce`" —
identical to `signStep` except that the checked x-coordinate is reduced
modulo `n` before the comparison. -/
def signStepSpec (data : List ℕ) (d k : ℕ) : Option (List ℕ) :=
  match signParts data d k with
  | none => none
  | some (nonce, nonce_hash, _, s) =>
    match signCheck data d k with
    | none => none
    | some C =>
      match xNat C with
      | none => none
      | some x => if x % n25519 = nonce then some (nonce_hash.take 16 ++ leBytes 32 s) else none

/-- The x-coordinate `mikro_kcdsa_verify` derives for one candidate
public point: `x(s·P + e·G)`, unreduced.  `none` models the `int(None)`
crash. -/
def verifyCandX (s e : ℕ) (P : Pt) : Option ℕ :=
  match smul s P, smul e G25519 with
  | some P1, some P2 => (padd P1 P2).bind xNat
  | _, _ => none

/-- The candidate loop of `mikro_kcdsa_verify`: first match wins, `False`
when no candidate matches, `none` on a crash. -/
def verifyLoop : List Pt → ℕ → ℕ → List ℕ → Option Bool
  | [], _, _, _ => some false
  | P :: rest, s, e, nh =>
    match verifyCandX s e P with
    | none => none
    | some nonce =>
      if (mikroSha256 (leBytes 32 nonce)).take nh.length = nh then some true
      else verifyLoop rest s e nh

/-- The curve polynomial `x^3 + a x^2 + x` at the decoded public key. -/
def pubPoly (public_key : List ℕ) : ℕ :=
  let x := leToInt public_key % p25519
  fadd (fadd (powMod x 3 p25519) (fmul aM (powMod x 2 p25519))) x

/-- `mikro_kcdsa_verify`.  `none` models an uncaught exception: iterating
over `sqrt() = None` (TypeError), indexing a nonce hash shorter than 16
bytes in the XOR loop (IndexError, only possible when the signature has
fewer than 16 bytes), or `int(None.x)` in the candidate loop. -/
def verifyM (data signature public_key : List ℕ) : Option Bool :=
  let x := leToInt public_key % p25519
  match sqrtPair (pubPoly public_key) with
  | none => none
  | some (y1, y2) =>
    let nh := signature.take 16
    let s := leToInt (signature.drop 16)
    if nh.length < 16 then none
    else verifyLoop [Pt.aff x y1, Pt.aff x y2] s (dataHashInt data nh) nh

/-! ## The Nova package container (npk.py)

Parts are tag/data pairs; a NAME_INFO body is decoded into the structured
record (kept here as its four raw fields; the source additionally round
trips the name through UTF-8 decoding, which is the identity on the byte
strings a well-formed package carries and is not load-bearing for any
claim below). -/

/-- The decoded NAME_INFO record (`NpkNameInfo`): 16 name bytes, 4 version
bytes, the build timestamp and 12 reserved bytes. -/
structure NameInfoRec where
  name : List ℕ
  version : List ℕ
  btime : ℕ
  unknow : List ℕ
deriving DecidableEq, Repr

/-- A part body: opaque bytes, or the structured NAME_INFO record. -/
inductive PartData where
  | raw : List ℕ → PartData
  | info : NameInfoRec → PartData
deriving DecidableEq, Repr

/-- A container part (`NpkPartItem`). -/
structure NpkPart where
  tag : ℕ
  data : PartData
deriving DecidableEq, Repr

/-- The closed `NpkPartID` enumeration values. -/
def validTags : List ℕ :=
  [0x01, 0x02, 0x03, 0x04, 0x07, 0x08, 0x09, 0x10, 0x11, 0x12, 0x13,
   0x14, 0x15, 0x16, 0x17, 0x18, 0x19]

/-- `NpkNameInfo.serialize`: `struct.pack('<16s4sI12s', ...)`. -/
def serializeInfo (r : NameInfoRec) : List ℕ :=
  r.name ++ r.version ++ le4 r.btime ++ r.unknow

/-- The bytes a part body serialises to (`part.data` or
`part.data.serialize()`). -/
def serializeData : PartData → List ℕ
  | .raw bs => bs
  | .info r => serializeInfo r

/-- `len(part.data)`: list length for bytes, `struct.calcsize` = 36 for a
NAME_INFO record (`NpkNameInfo.__len__`). -/
def lenData : PartData → ℕ
  | .raw bs => bs.length
  | .info _ => 36

/-- Python truthiness of `part.data`: empty bytes are falsy; an
`NpkNameInfo` object is always truthy (its `__len__` is constant 36). -/
def dataNonempty : PartData → Bool
  | .raw bs => !bs.isEmpty
  | .info _ => true

/-- Parse errors of `NovaPackage.__init__`: a buffer too short for the
6-byte part header (`struct.error`), the NAME_INFO length assertion of
`unserialize_from` (AssertionError), and an unknown tag
(`NpkPartID(part_id)` raising ValueError). -/
inductive PErr where
  | structError : PErr
  | assertError : PErr
  | valueError : PErr
deriving DecidableEq, Repr

/-- Decode a 36-byte NAME_INFO body (`NpkNameInfo.unserialize_from`). -/
def mkInfo (body : List ℕ) : NameInfoRec :=
  ⟨body.take 16, (body.drop 16).take 4, leToInt ((body.drop 20).take 4), body.drop 24⟩

/-- The parse loop of `NovaPackage.__init__`, fuel-based (each step
consumes at least six bytes, so `data.length` units always suffice; fuel
0 is only ever reached on the empty buffer).  A declared part size larger
than the remaining buffer is NOT detected: the slice simply yields the
remaining bytes. -/
def parseGo : ℕ → List ℕ → Except PErr (List NpkPart) :=
  Nat.rec (fun data => if data.isEmpty then .ok [] else .error .structError)
    (fun _ ih data =>
      if data.isEmpty then .ok []
      else if data.length < 6 then .error .structError
      else
        let tag := data.getD 0 0 + 256 * data.getD 1 0
        let size := leToInt ((data.drop 2).take 4)
        let body := (data.drop 6).take size
        let rest := data.drop (6 + size)
        if tag = 0x01 then
          if body.length = 36 then
            (ih rest).map (fun parts => ⟨tag, .info (mkInfo body)⟩ :: parts)
          else .error .assertError
        else if tag ∈ validTags then
          (ih rest).map (fun parts => ⟨tag, .raw body⟩ :: parts)
        else .error .valueError)

/-- `NovaPackage(data)`: parse the part stream. -/
def parseNpk (data : List ℕ) : Except PErr (List NpkPart) :=
  parseGo data.length data

/-- The byte stream `NovaPackage.get_digest` feeds to the hash object:
every part contributes its 6-byte tag+length header and its serialised
body, except that HEADER parts are skipped entirely, and the walk stops
right after the first SIGNATURE part's header (its body and every later
part contribute nothing). -/
def digestInput : List NpkPart → List ℕ
  | [] => []
  | pt :: rest =>
    if pt.tag = 0x19 then digestInput rest
    else
      (le2 pt.tag ++ le4 (lenData pt.data)) ++
        (if pt.tag = 0x09 then []
         else (if dataNonempty pt.data then serializeData pt.data else []) ++ digestInput rest)

/-- `get_digest(hash_fnc)` for a pure hash function: the digest of the fed
stream. -/
def getDigest (hash : List ℕ → List ℕ) (parts : List NpkPart) : List ℕ :=
  hash (digestInput parts)

/-- `self[SIGNATURE].data = b`: overwrite the data of the first SIGNATURE
part, or append a fresh SIGNATURE part when none exists (the
lookup-or-create `__getitem__` followed by the assignment). -/
def setSigData : List NpkPart → List ℕ → List NpkPart
  | [], b => [⟨0x09, .raw b⟩]
  | pt :: rest, b =>
    if pt.tag = 0x09 then ⟨pt.tag, .raw b⟩ :: rest else pt :: setSigData rest b

/-- First SIGNATURE part of a container, when any. -/
def findSig (parts : List NpkPart) : Option NpkPart :=
  parts.find? (fun pt => pt.tag == 0x09)

/-! ### The visible projection of a container

The portion of a container that the digest walk can see: the parts up to
and including the first SIGNATURE part, each reduced to its tag, its
declared length, and (except for SIGNATURE and the skipped HEADER parts)
its serialised body bytes. -/

/-- One visible entry: an ordinary part, or the terminal SIGNATURE
header. -/
inductive Vis where
  | part : ℕ → ℕ → List ℕ → Vis
  | sig : ℕ → Vis
deriving DecidableEq, Repr

/-- The visible projection. -/
def visible : List NpkPart → List Vis
  | [] => []
  | pt :: rest =>
    if pt.tag = 0x19 then visible rest
    else if pt.tag = 0x09 then [.sig (lenData pt.data)]
    else .part pt.tag (lenData pt.data)
        (if dataNonempty pt.data then serializeData pt.data else []) :: visible rest

/-- The byte stream determined by a visible projection. -/
def visStream : List Vis → List ℕ
  | [] => []
  | .part t l b :: rest => le2 t ++ le4 l ++ b ++ visStream rest
  | .sig l :: rest => le2 0x09 ++ le4 l ++ visStream rest

/-- Well-formedness of a container for digest purposes: every tag fits the
2-byte header field, every declared length fits the 4-byte field, and
every body serialises to exactly its declared length (true of all parts
the source constructs: byte parts declare their own length, NAME_INFO
records declare and serialise 36 bytes). -/
def WfParts (parts : List NpkPart) : Prop :=
  ∀ pt ∈ parts, pt.tag < 65536 ∧ lenData pt.data < 4294967296 ∧
    (serializeData pt.data).length = lenData pt.data

/-- Well-formedness of a visible projection (what `visible` produces from
a well-formed container): ordinary entries carry a non-SIGNATURE,
non-HEADER tag below `2 ^ 16`, a length below `2 ^ 32` equal to the body
length, and a SIGNATURE entry is terminal with a well-bounded length. -/
def WfVis : List Vis → Prop
  | [] => True
  | .sig l :: rest => l < 4294967296 ∧ rest = []
  | .part t l b :: rest =>
    t < 65536 ∧ t ≠ 0x09 ∧ t ≠ 0x19 ∧ l < 4294967296 ∧ b.length = l ∧ WfVis rest

/-! ## The version codec (npk.py `NpkNameInfo`)

Version strings are modelled as lists of character codes (`46` is the
dot).  `int(...)` succeeds on the plain decimal digit strings used here;
the embedding parses exactly those (the source would accept a few more
spellings, none of which the claims exercise). -/

/-- Split a code list at the dots (`str.split('.')`). -/
def splitDots : List ℕ → List (List ℕ)
  | [] => [[]]
  | c :: rest =>
    let r := splitDots rest
    if c = 46 then [] :: r
    else match r with
      | g :: gs => (c :: g) :: gs
      | [] => [[c]]

/-- Strict decimal parse (`int(s)` on the digit strings in scope). -/
def parseNat : List ℕ → Option ℕ
  | [] => none
  | l => l.foldl (fun acc c =>
      acc.bind (fun a => if 48 ≤ c ∧ c ≤ 57 then some (a * 10 + (c - 48)) else none))
      (some 0)

/-- Decimal rendering of a natural as character codes (`str(n)`),
fuel-based on the digit count. -/
def natToDigitsGo : ℕ → ℕ → List ℕ → List ℕ
  | 0, _, acc => acc
  | fuel + 1, n, acc =>
    if n = 0 then acc else natToDigitsGo fuel (n / 10) ((n % 10 + 48) :: acc)

/-- `str(n)` as character codes. -/
def natToDigits (n : ℕ) : List ℕ :=
  if n = 0 then [48] else natToDigitsGo 40 n []

/-- Character codes of the build-kind keywords. -/
def kindAlpha : List ℕ := [97, 108, 112, 104, 97]

/-- `"beta"`. -/
def kindBeta : List ℕ := [98, 101, 116, 97]

/-- `"rc"`. -/
def kindRc : List ℕ := [114, 99]

/-- `"final"`. -/
def kindFinal : List ℕ := [102, 105, 110, 97, 108]

/-- `"test"`. -/
def kindTest : List ℕ := [116, 101, 115, 116]

/-- `"unknown"`. -/
def kindUnknown : List ℕ := [117, 110, 107, 110, 111, 119, 110]

/-- `NpkNameInfo.encode_version`: split at dots, parse the three numeric
components, map the build kind to its byte (anything that is not alpha,
beta, rc or final is treated as test and sets the top bit of the stored
revision), and pack four bytes.  `none` models the exceptions: the
source's (buggy) guard raising ValueError only when the part count is not
4 AND the fourth component is a known keyword, the IndexError when fewer
than four components exist, the `int()` ValueError on non-numeric
components, and `struct.pack('4B')` range errors. -/
def encodeVersion (value : List ℕ) : Option (List ℕ) :=
  let s := splitDots value
  if s.length ≠ 4 then none
  else
    match parseNat (s.getD 0 []), parseNat (s.getD 1 []), parseNat (s.getD 2 []) with
    | some major, some minor, some revision =>
      let kind := s.getD 3 []
      let pair : ℕ × ℕ :=
        if kind = kindAlpha then (revision, 97)
        else if kind = kindBeta then (revision, 98)
        else if kind = kindRc then (revision, 99)
        else if kind = kindFinal then (revision &&& 0x7f, 102)
        else (revision ||| 0x80, 102)
      if pair.1 < 256 ∧ pair.2 < 256 ∧ minor < 256 ∧ major < 256 then
        some [pair.1, pair.2, minor, major]
      else none
    | _, _, _ => none

/-- `NpkNameInfo.decode_version` on a 4-byte packed version:
`f'{major}.{minor}.{revision}.{build}'` as character codes. -/
def decodeVersion (value : List ℕ) : Option (List ℕ) :=
  if value.length < 4 then none
  else
    let revision := value.getD 0 0
    let build := value.getD 1 0
    let p : ℕ × List ℕ :=
      if build = 97 then (revision, kindAlpha)
      else if build = 98 then (revision, kindBeta)
      else if build = 99 then (revision, kindRc)
      else if build = 102 then
        if revision &&& 0x80 ≠ 0 then (revision &&& 0x7f, kindTest)
        else (revision, kindFinal)
      else (revision, kindUnknown)
    some (natToDigits (value.getD 3 0) ++ [46] ++ natToDigits (value.getD 2 0) ++
      [46] ++ natToDigits p.1 ++ [46] ++ p.2)

/-! ## Role-level view of the block-transform round

Each round of the transform touches the four words through the rotating
index frame `(i+0)%4 .. (i+3)%4`.  `encStep`/`decStep` spell out one
round on the four words in frame order (`A = s[(i+0)%4]`, ...,
`D = s[(i+3)%4]`), which the round functions are then shown to equal for
each residue of `i` — this is only a reformulation device for the
round-inversion proof. -/

/-- One encode round in frame order; returns the new `(A, B, C, D)`. -/
def encStep (k0 k1 k2 k3 A B C D : ℕ) : Q4 :=
  let A1 := to32 (rotl D (k3 % 16) ^^^ to32 (A + M32 - D))
  let D1 := to32 (D + B + k3)
  let B1 := to32 (rotl C (k2 % 16) ^^^ to32 (B + M32 - C))
  let A2 := to32 (A1 + C + k2)
  let C1 := to32 (rotl B1 (k1 % 16) ^^^ to32 (C + M32 - B1))
  let B2 := to32 (B1 + D1 + k1)
  let D2 := to32 (rotl A2 (k0 % 16) ^^^ to32 (D1 + M32 - A2))
  let C2 := to32 (C1 + A2 + k0)
  ⟨A2, B2, C2, D2⟩

/-- One decode round in frame order. -/
def decStep (k0 k1 k2 k3 A B C D : ℕ) : Q4 :=
  let C1 := to32 (C + M32 + M32 - A - k0)
  let D1 := to32 ((rotl A (k0 % 16) ^^^ D) + A)
  let B1 := to32 (B + M32 + M32 - D1 - k1)
  let C0 := to32 ((rotl B1 (k1 % 16) ^^^ C1) + B1)
  let A1 := to32 (A + M32 + M32 - C0 - k2)
  let B0 := to32 ((rotl C0 (k2 % 16) ^^^ B1) + C0)
  let D0 := to32 (D1 + M32 + M32 - B0 - k3)
  let A0 := to32 ((rotl D0 (k3 % 16) ^^^ A1) + D0)
  ⟨A0, B0, C0, D0⟩

/-- All four words of a transform state are 32-bit. -/
def BddQ (q : Q4) : Prop :=
  q.w0 < M32 ∧ q.w1 < M32 ∧ q.w2 < M32 ∧ q.w3 < M32

/-! # Theorems -/

/-! ## Arithmetic helpers -/

theorem M32_eq : M32 = 2 ^ 32 := by norm_num [M32]

theorem to32_lt (v : ℕ) : to32 v < M32 := Nat.mod_lt _ (by norm_num [M32])

theorem rotl_lt (n d : ℕ) : rotl n d < M32 := by
  rw [rotl, M32_eq]
  have h1 : n <<< d % 2 ^ 32 < 2 ^ 32 := Nat.mod_lt _ (by positivity)
  have h2 : (n % 2 ^ 32) >>> (32 - d) < 2 ^ 32 := by
    rw [Nat.shiftRight_eq_div_pow]
    exact lt_of_le_of_lt (Nat.div_le_self _ _) (Nat.mod_lt _ (by positivity))
  exact Nat.or_lt_two_pow h1 h2

theorem mK_lt (i : ℕ) : mK i < M32 := by
  have hall : ∀ x ∈ MIKRO_SHA256_K, x < M32 := by decide
  rw [mK, List.getD_eq_getElem?_getD]
  cases h : MIKRO_SHA256_K[i]? with
  | none => simp [M32]
  | some x => simpa using hall x (List.getElem?_mem h)

theorem xor_lt_M32 {x y : ℕ} (hx : x < M32) (hy : y < M32) : x ^^^ y < M32 := by
  rw [M32_eq] at hx hy ⊢
  exact Nat.xor_lt_two_pow hx hy


theorem xor_xor_cancel (n m : ℕ) : n ^^^ (n ^^^ m) = m := by
  rw [← Nat.xor_assoc, Nat.xor_self, Nat.zero_xor]

/-- Undo `to32 (x + y + k)` by subtracting `y` and `k` modulo `2 ^ 32`. -/
theorem undo_add (x y k : ℕ) (hx : x < M32) (hy : y < M32) (hk : k < M32) :
    to32 (to32 (x + y + k) + M32 + M32 - y - k) = x := by
  simp only [to32, M32] at *
  omega

/-- Undo the rotate-XOR-difference of an encode sub-step. -/
theorem undo_xor (R x y : ℕ) (hR : R < M32) (hx : x < M32) (hy : y < M32) :
    to32 ((R ^^^ to32 (R ^^^ to32 (x + M32 - y))) + y) = x := by
  have h1 : to32 (x + M32 - y) < M32 := to32_lt _
  have h2 : to32 (R ^^^ to32 (x + M32 - y)) = R ^^^ to32 (x + M32 - y) :=
    Nat.mod_eq_of_lt (xor_lt_M32 hR h1)
  rw [h2, xor_xor_cancel]
  simp only [to32, M32] at *
  omega

/-- Redo the additive sub-step after its decode inverse. -/
theorem redo_add (x y k : ℕ) (hx : x < M32) (hy : y < M32) (hk : k < M32) :
    to32 (to32 (x + M32 + M32 - y - k) + y + k) = x := by
  simp only [to32, M32] at *
  omega

/-- Redo the rotate-XOR sub-step after its decode inverse. -/
theorem redo_xor (R x y : ℕ) (hR : R < M32) (hx : x < M32) (hy : y < M32) :
    to32 (R ^^^ to32 (to32 ((R ^^^ x) + y) + M32 - y)) = x := by
  have h3 : to32 (to32 ((R ^^^ x) + y) + M32 - y) = R ^^^ x := by
    have hx2 : R ^^^ x < M32 := xor_lt_M32 hR hx
    simp only [to32, M32] at *
    omega
  rw [h3, xor_xor_cancel]
  exact Nat.mod_eq_of_lt hx

/-! ## Round-inversion of the block transform -/

theorem encRound_eq0 (i : ℕ) (h : i % 4 = 0) (q : Q4) :
    encRound i q = encStep (mK (i * 4)) (mK (i * 4 + 1)) (mK (i * 4 + 2)) (mK (i * 4 + 3)) q.w0 q.w1 q.w2 q.w3 := by
  have h0 : (i + 0) % 4 = 0 := by omega
  have h1 : (i + 1) % 4 = 1 := by omega
  have h2 : (i + 2) % 4 = 2 := by omega
  have h3 : (i + 3) % 4 = 3 := by omega
  simp only [encRound, encStep, getQ, setQ, h, h0, h1, h2, h3, Nat.add_zero]

theorem encRound_eq1 (i : ℕ) (h : i % 4 = 1) (q : Q4) :
    encRound i q =
      (fun e => Q4.mk e.w3 e.w0 e.w1 e.w2)
        (encStep (mK (i * 4)) (mK (i * 4 + 1)) (mK (i * 4 + 2)) (mK (i * 4 + 3)) q.w1 q.w2 q.w3 q.w0) := by
  have h0 : (i + 0) % 4 = 1 := by omega
  have h1 : (i + 1) % 4 = 2 := by omega
  have h2 : (i + 2) % 4 = 3 := by omega
  have h3 : (i + 3) % 4 = 0 := by omega
  simp only [encRound, encStep, getQ, setQ, h, h0, h1, h2, h3, Nat.add_zero]

theorem encRound_eq2 (i : ℕ) (h : i % 4 = 2) (q : Q4) :
    encRound i q =
      (fun e => Q4.mk e.w2 e.w3 e.w0 e.w1)
        (encStep (mK (i * 4)) (mK (i * 4 + 1)) (mK (i * 4 + 2)) (mK (i * 4 + 3)) q.w2 q.w3 q.w0 q.w1) := by
  have h0 : (i + 0) % 4 = 2 := by omega
  have h1 : (i + 1) % 4 = 3 := by omega
  have h2 : (i + 2) % 4 = 0 := by omega
  have h3 : (i + 3) % 4 = 1 := by omega
  simp only [encRound, encStep, getQ, setQ, h, h0, h1, h2, h3, Nat.add_zero]

theorem encRound_eq3 (i : ℕ) (h : i % 4 = 3) (q : Q4) :
    encRound i q =
      (fun e => Q4.mk e.w1 e.w2 e.w3 e.w0)
        (encStep (mK (i * 4)) (mK (i * 4 + 1)) (mK (i * 4 + 2)) (mK (i * 4 + 3)) q.w3 q.w0 q.w1 q.w2) := by
  have h0 : (i + 0) % 4 = 3 := by omega
  have h1 : (i + 1) % 4 = 0 := by omega
  have h2 : (i + 2) % 4 = 1 := by omega
  have h3 : (i + 3) % 4 = 2 := by omega
  simp only [encRound, encStep, getQ, setQ, h, h0, h1, h2, h3, Nat.add_zero]

theorem decRound_eq0 (i : ℕ) (h : i % 4 = 0) (q : Q4) :
    decRound i q = decStep (mK (i * 4)) (mK (i * 4 + 1)) (mK (i * 4 + 2)) (mK (i * 4 + 3)) q.w0 q.w1 q.w2 q.w3 := by
  have h0 : (i + 0) % 4 = 0 := by omega
  have h1 : (i + 1) % 4 = 1 := by omega
  have h2 : (i + 2) % 4 = 2 := by omega
  have h3 : (i + 3) % 4 = 3 := by omega
  simp only [decRound, decStep, getQ, setQ, h, h0, h1, h2, h3, Nat.add_zero]

theorem decRound_eq1 (i : ℕ) (h : i % 4 = 1) (q : Q4) :
    decRound i q =
      (fun e => Q4.mk e.w3 e.w0 e.w1 e.w2)
        (decStep (mK (i * 4)) (mK (i * 4 + 1)) (mK (i * 4 + 2)) (mK (i * 4 + 3)) q.w1 q.w2 q.w3 q.w0) := by
  have h0 : (i + 0) % 4 = 1 := by omega
  have h1 : (i + 1) % 4 = 2 := by omega
  have h2 : (i + 2) % 4 = 3 := by omega
  have h3 : (i + 3) % 4 = 0 := by omega
  simp only [decRound, decStep, getQ, setQ, h, h0, h1, h2, h3, Nat.add_zero]

theorem decRound_eq2 (i : ℕ) (h : i % 4 = 2) (q : Q4) :
    decRound i q =
      (fun e => Q4.mk e.w2 e.w3 e.w0 e.w1)
        (decStep (mK (i * 4)) (mK (i * 4 + 1)) (mK (i * 4 + 2)) (mK (i * 4 + 3)) q.w2 q.w3 q.w0 q.w1) := by
  have h0 : (i + 0) % 4 = 2 := by omega
  have h1 : (i + 1) % 4 = 3 := by omega
  have h2 : (i + 2) % 4 = 0 := by omega
  have h3 : (i + 3) % 4 = 1 := by omega
  simp only [decRound, decStep, getQ, setQ, h, h0, h1, h2, h3, Nat.add_zero]

theorem decRound_eq3 (i : ℕ) (h : i % 4 = 3) (q : Q4) :
    decRound i q =
      (fun e => Q4.mk e.w1 e.w2 e.w3 e.w0)
        (decStep (mK (i * 4)) (mK (i * 4 + 1)) (mK (i * 4 + 2)) (mK (i * 4 + 3)) q.w3 q.w0 q.w1 q.w2) := by
  have h0 : (i + 0) % 4 = 3 := by omega
  have h1 : (i + 1) % 4 = 0 := by omega
  have h2 : (i + 2) % 4 = 1 := by omega
  have h3 : (i + 3) % 4 = 2 := by omega
  simp only [decRound, decStep, getQ, setQ, h, h0, h1, h2, h3, Nat.add_zero]

theorem decStep_encStep (k0 k1 k2 k3 a b c d : ℕ)
    (hk0 : k0 < M32) (hk1 : k1 < M32) (hk2 : k2 < M32) (hk3 : k3 < M32)
    (ha : a < M32) (hb : b < M32) (hc : c < M32) (hd : d < M32) :
    (fun e => decStep k0 k1 k2 k3 e.w0 e.w1 e.w2 e.w3) (encStep k0 k1 k2 k3 a b c d) =
      Q4.mk a b c d := by
  simp only [encStep, decStep]
  simp only [undo_add, undo_xor, to32_lt, rotl_lt, hk0, hk1, hk2, hk3, ha, hb, hc, hd]

theorem encStep_decStep (k0 k1 k2 k3 a b c d : ℕ)
    (hk0 : k0 < M32) (hk1 : k1 < M32) (hk2 : k2 < M32) (hk3 : k3 < M32)
    (ha : a < M32) (hb : b < M32) (hc : c < M32) (hd : d < M32) :
    (fun e => encStep k0 k1 k2 k3 e.w0 e.w1 e.w2 e.w3) (decStep k0 k1 k2 k3 a b c d) =
      Q4.mk a b c d := by
  simp only [decStep, encStep]
  simp only [redo_add, redo_xor, to32_lt, rotl_lt, hk0, hk1, hk2, hk3, ha, hb, hc, hd]

theorem BddQ_encStep (k0 k1 k2 k3 a b c d : ℕ) : BddQ (encStep k0 k1 k2 k3 a b c d) := by
  simp only [encStep, BddQ]
  exact ⟨to32_lt _, to32_lt _, to32_lt _, to32_lt _⟩

theorem BddQ_decStep (k0 k1 k2 k3 a b c d : ℕ) : BddQ (decStep k0 k1 k2 k3 a b c d) := by
  simp only [decStep, BddQ]
  exact ⟨to32_lt _, to32_lt _, to32_lt _, to32_lt _⟩

theorem imod4_cases (i : ℕ) : i % 4 = 0 ∨ i % 4 = 1 ∨ i % 4 = 2 ∨ i % 4 = 3 := by omega

theorem BddQ_encRound (i : ℕ) (q : Q4) : BddQ (encRound i q) := by
  rcases imod4_cases i with h | h | h | h
  · rw [encRound_eq0 i h]; exact BddQ_encStep _ _ _ _ _ _ _ _
  · rw [encRound_eq1 i h]
    obtain ⟨h0, h1, h2, h3⟩ := BddQ_encStep (mK (i * 4)) (mK (i * 4 + 1)) (mK (i * 4 + 2)) (mK (i * 4 + 3)) q.w1 q.w2 q.w3 q.w0
    exact ⟨h3, h0, h1, h2⟩
  · rw [encRound_eq2 i h]
    obtain ⟨h0, h1, h2, h3⟩ := BddQ_encStep (mK (i * 4)) (mK (i * 4 + 1)) (mK (i * 4 + 2)) (mK (i * 4 + 3)) q.w2 q.w3 q.w0 q.w1
    exact ⟨h2, h3, h0, h1⟩
  · rw [encRound_eq3 i h]
    obtain ⟨h0, h1, h2, h3⟩ := BddQ_encStep (mK (i * 4)) (mK (i * 4 + 1)) (mK (i * 4 + 2)) (mK (i * 4 + 3)) q.w3 q.w0 q.w1 q.w2
    exact ⟨h1, h2, h3, h0⟩

theorem BddQ_decRound (i : ℕ) (q : Q4) : BddQ (decRound i q) := by
  rcases imod4_cases i with h | h | h | h
  · rw [decRound_eq0 i h]; exact BddQ_decStep _ _ _ _ _ _ _ _
  · rw [decRound_eq1 i h]
    obtain ⟨h0, h1, h2, h3⟩ := BddQ_decStep (mK (i * 4)) (mK (i * 4 + 1)) (mK (i * 4 + 2)) (mK (i * 4 + 3)) q.w1 q.w2 q.w3 q.w0
    exact ⟨h3, h0, h1, h2⟩
  · rw [decRound_eq2 i h]
    obtain ⟨h0, h1, h2, h3⟩ := BddQ_decStep (mK (i * 4)) (mK (i * 4 + 1)) (mK (i * 4 + 2)) (mK (i * 4 + 3)) q.w2 q.w3 q.w0 q.w1
    exact ⟨h2, h3, h0, h1⟩
  · rw [decRound_eq3 i h]
    obtain ⟨h0, h1, h2, h3⟩ := BddQ_decStep (mK (i * 4)) (mK (i * 4 + 1)) (mK (i * 4 + 2)) (mK (i * 4 + 3)) q.w3 q.w0 q.w1 q.w2
    exact ⟨h1, h2, h3, h0⟩

/-- A decode round inverts the corresponding encode round on 32-bit
states. -/
theorem decRound_encRound (i : ℕ) (q : Q4) (hq : BddQ q) :
    decRound i (encRound i q) = q := by
  obtain ⟨h0, h1, h2, h3⟩ := hq
  have hks : ∀ j : ℕ, mK j < M32 := mK_lt
  rcases imod4_cases i with h | h | h | h
  · rw [encRound_eq0 i h, decRound_eq0 i h]
    exact decStep_encStep _ _ _ _ _ _ _ _ (hks _) (hks _) (hks _) (hks _) h0 h1 h2 h3
  · rw [encRound_eq1 i h, decRound_eq1 i h]
    have := decStep_encStep (mK (i * 4)) (mK (i * 4 + 1)) (mK (i * 4 + 2)) (mK (i * 4 + 3))
      q.w1 q.w2 q.w3 q.w0 (hks _) (hks _) (hks _) (hks _) h1 h2 h3 h0
    simp only at this ⊢
    rw [this]
  · rw [encRound_eq2 i h, decRound_eq2 i h]
    have := decStep_encStep (mK (i * 4)) (mK (i * 4 + 1)) (mK (i * 4 + 2)) (mK (i * 4 + 3))
      q.w2 q.w3 q.w0 q.w1 (hks _) (hks _) (hks _) (hks _) h2 h3 h0 h1
    simp only at this ⊢
    rw [this]
  · rw [encRound_eq3 i h, decRound_eq3 i h]
    have := decStep_encStep (mK (i * 4)) (mK (i * 4 + 1)) (mK (i * 4 + 2)) (mK (i * 4 + 3))
      q.w3 q.w0 q.w1 q.w2 (hks _) (hks _) (hks _) (hks _) h3 h0 h1 h2
    simp only at this ⊢
    rw [this]

/-- An encode round inverts the corresponding decode round on 32-bit
states. -/
theorem encRound_decRound (i : ℕ) (q : Q4) (hq : BddQ q) :
    encRound i (decRound i q) = q := by
  obtain ⟨h0, h1, h2, h3⟩ := hq
  have hks : ∀ j : ℕ, mK j < M32 := mK_lt
  rcases imod4_cases i with h | h | h | h
  · rw [decRound_eq0 i h, encRound_eq0 i h]
    exact encStep_decStep _ _ _ _ _ _ _ _ (hks _) (hks _) (hks _) (hks _) h0 h1 h2 h3
  · rw [decRound_eq1 i h, encRound_eq1 i h]
    have := encStep_decStep (mK (i * 4)) (mK (i * 4 + 1)) (mK (i * 4 + 2)) (mK (i * 4 + 3))
      q.w1 q.w2 q.w3 q.w0 (hks _) (hks _) (hks _) (hks _) h1 h2 h3 h0
    simp only at this ⊢
    rw [this]
  · rw [decRound_eq2 i h, encRound_eq2 i h]
    have := encStep_decStep (mK (i * 4)) (mK (i * 4 + 1)) (mK (i * 4 + 2)) (mK (i * 4 + 3))
      q.w2 q.w3 q.w0 q.w1 (hks _) (hks _) (hks _) (hks _) h2 h3 h0 h1
    simp only at this ⊢
    rw [this]
  · rw [decRound_eq3 i h, encRound_eq3 i h]
    have := encStep_decStep (mK (i * 4)) (mK (i * 4 + 1)) (mK (i * 4 + 2)) (mK (i * 4 + 3))
      q.w3 q.w0 q.w1 q.w2 (hks _) (hks _) (hks _) (hks _) h3 h0 h1 h2
    simp only at this ⊢
    rw [this]

theorem BddQ_foldl_enc (l : List ℕ) (q : Q4) (hq : BddQ q) :
    BddQ (l.foldl (fun s i => encRound i s) q) := by
  induction l generalizing q with
  | nil => exact hq
  | cons a t ih => exact ih (encRound a q) (BddQ_encRound a q)

theorem BddQ_foldl_dec (l : List ℕ) (q : Q4) (hq : BddQ q) :
    BddQ (l.foldl (fun s i => decRound i s) q) := by
  induction l generalizing q with
  | nil => exact hq
  | cons a t ih => exact ih (decRound a q) (BddQ_decRound a q)

theorem foldl_dec_enc (l : List ℕ) (q : Q4) (hq : BddQ q) :
    l.foldl (fun s i => decRound i s) (l.reverse.foldl (fun s i => encRound i s) q) = q := by
  induction l generalizing q with
  | nil => rfl
  | cons a t ih =>
    rw [List.reverse_cons, List.foldl_append]
    simp only [List.foldl_cons, List.foldl_nil]
    rw [decRound_encRound a _ (BddQ_foldl_enc t.reverse q hq)]
    exact ih q hq

theorem foldl_enc_dec (l : List ℕ) (q : Q4) (hq : BddQ q) :
    l.reverse.foldl (fun s i => encRound i s) (l.foldl (fun s i => decRound i s) q) = q := by
  induction l generalizing q with
  | nil => rfl
  | cons a t ih =>
    rw [List.reverse_cons, List.foldl_append]
    simp only [List.foldl_cons, List.foldl_nil]
    rw [ih (decRound a q) (BddQ_decRound a q)]
    exact encRound_decRound a q hq

/-- The sixteen decode rounds invert the sixteen encode rounds. -/
theorem decRounds_encRounds (q : Q4) (hq : BddQ q) : decRounds (encRounds q) = q :=
  foldl_dec_enc (List.range 16) q hq

/-- The sixteen encode rounds invert the sixteen decode rounds. -/
theorem encRounds_decRounds (q : Q4) (hq : BddQ q) : encRounds (decRounds q) = q :=
  foldl_enc_dec (List.range 16) q hq

theorem BddQ_encRounds (q : Q4) (hq : BddQ q) : BddQ (encRounds q) :=
  BddQ_foldl_enc _ q hq

theorem BddQ_decRounds (q : Q4) (hq : BddQ q) : BddQ (decRounds q) :=
  BddQ_foldl_dec _ q hq

theorem q4OfBytes_bytesOfQ4 (q : Q4) (hq : BddQ q) : q4OfBytes (bytesOfQ4 q) = q := by
  obtain ⟨w0, w1, w2, w3⟩ := q
  obtain ⟨h0, h1, h2, h3⟩ := hq
  simp only [M32] at h0 h1 h2 h3
  simp only [bytesOfQ4, be4, q4OfBytes, List.cons_append, List.nil_append, beWords]
  simp only [Q4.mk.injEq]
  omega

theorem list16_exists (b : List ℕ) (h : b.length = 16) :
    ∃ x0 x1 x2 x3 x4 x5 x6 x7 x8 x9 x10 x11 x12 x13 x14 x15 : ℕ,
      b = [x0, x1, x2, x3, x4, x5, x6, x7, x8, x9, x10, x11, x12, x13, x14, x15] := by
  rcases b with _ | ⟨x0, b⟩; · simp at h
  rcases b with _ | ⟨x1, b⟩; · simp at h
  rcases b with _ | ⟨x2, b⟩; · simp at h
  rcases b with _ | ⟨x3, b⟩; · simp at h
  rcases b with _ | ⟨x4, b⟩; · simp at h
  rcases b with _ | ⟨x5, b⟩; · simp at h
  rcases b with _ | ⟨x6, b⟩; · simp at h
  rcases b with _ | ⟨x7, b⟩; · simp at h
  rcases b with _ | ⟨x8, b⟩; · simp at h
  rcases b with _ | ⟨x9, b⟩; · simp at h
  rcases b with _ | ⟨x10, b⟩; · simp at h
  rcases b with _ | ⟨x11, b⟩; · simp at h
  rcases b with _ | ⟨x12, b⟩; · simp at h
  rcases b with _ | ⟨x13, b⟩; · simp at h
  rcases b with _ | ⟨x14, b⟩; · simp at h
  rcases b with _ | ⟨x15, b⟩; · simp at h
  rcases b with _ | ⟨x16, b⟩
  · exact ⟨x0, x1, x2, x3, x4, x5, x6, x7, x8, x9, x10, x11, x12, x13, x14, x15, rfl⟩
  · simp at h

/-- C3: the block transform's encode and decode are mutual inverses on
all 16-byte blocks. -/
theorem mikro_codec_roundtrip (b : List ℕ) (hlen : b.length = 16)
    (hbyte : ∀ x ∈ b, x < 256) :
    mikro_decode (mikro_encode b) = b ∧ mikro_encode (mikro_decode b) = b := by
  obtain ⟨x0, x1, x2, x3, x4, x5, x6, x7, x8, x9, x10, x11, x12, x13, x14, x15, rfl⟩ :=
    list16_exists b hlen
  have hx0 : x0 < 256 := hbyte _ (by simp)
  have hx1 : x1 < 256 := hbyte _ (by simp)
  have hx2 : x2 < 256 := hbyte _ (by simp)
  have hx3 : x3 < 256 := hbyte _ (by simp)
  have hx4 : x4 < 256 := hbyte _ (by simp)
  have hx5 : x5 < 256 := hbyte _ (by simp)
  have hx6 : x6 < 256 := hbyte _ (by simp)
  have hx7 : x7 < 256 := hbyte _ (by simp)
  have hx8 : x8 < 256 := hbyte _ (by simp)
  have hx9 : x9 < 256 := hbyte _ (by simp)
  have hx10 : x10 < 256 := hbyte _ (by simp)
  have hx11 : x11 < 256 := hbyte _ (by simp)
  have hx12 : x12 < 256 := hbyte _ (by simp)
  have hx13 : x13 < 256 := hbyte _ (by simp)
  have hx14 : x14 < 256 := hbyte _ (by simp)
  have hx15 : x15 < 256 := hbyte _ (by simp)
  have hQ : BddQ (q4OfBytes [x0, x1, x2, x3, x4, x5, x6, x7, x8, x9, x10, x11, x12, x13, x14, x15]) := by
    simp only [q4OfBytes, beWords, BddQ, M32]
    omega
  have hid : bytesOfQ4 (q4OfBytes [x0, x1, x2, x3, x4, x5, x6, x7, x8, x9, x10, x11, x12, x13, x14, x15]) =
      [x0, x1, x2, x3, x4, x5, x6, x7, x8, x9, x10, x11, x12, x13, x14, x15] := by
    simp only [q4OfBytes, beWords, bytesOfQ4, be4, List.cons_append, List.nil_append,
      List.cons.injEq, and_true]
    omega
  constructor
  · rw [mikro_encode, mikro_decode, q4OfBytes_bytesOfQ4 _ (BddQ_encRounds _ hQ),
      decRounds_encRounds _ hQ, hid]
  · rw [mikro_decode, mikro_encode, q4OfBytes_bytesOfQ4 _ (BddQ_decRounds _ hQ),
      encRounds_decRounds _ hQ, hid]

theorem mikro_codec_roundtrip_witness :
    (List.range 16).length = 16 ∧ (∀ x ∈ List.range 16, x < 256) ∧
      (mikro_decode (mikro_encode (List.range 16)) = List.range 16 ∧
        mikro_encode (mikro_decode (List.range 16)) = List.range 16) :=
  ⟨by decide, by decide, mikro_codec_roundtrip (List.range 16) (by decide) (by decide)⟩

/-! ## C4: final padding of the digest family -/

/-- C4 counterexample: a 56-byte tail pads to TWO blocks, not one.  The
claim says a tail of 56 bytes or less needs one block; the source splits
at 55 (`if len(message) <= 55`). -/
theorem pad_56_two_blocks :
    (padMessage (List.replicate 56 0) 448).length = 2 ∧ 56 ≤ 56 := by
  constructor
  · rfl
  · exact le_refl 56

/-- C4 (amended): the padding uses one extra block when the tail is 55
bytes or less and two otherwise, and appends `0x80`, zero bytes and the
64-bit big-endian bit length. -/
theorem pad_structure (tail : List ℕ) (L : ℕ) (h : tail.length < 64) :
    ((padMessage tail L).length = if tail.length ≤ 55 then 1 else 2) ∧
      (padMessage tail L).flatten =
        tail ++ 0x80 ::
          (List.replicate (if tail.length ≤ 55 then 55 - tail.length else 119 - tail.length) 0 ++
            (be4 ((L >>> 32) % M32) ++ be4 (L % M32))) := by
  by_cases hle : tail.length ≤ 55
  · refine ⟨by simp [padMessage, if_pos hle], ?_⟩
    simp [padMessage, if_pos hle]
  · have h119 : 119 - tail.length = (63 - tail.length) + 56 := by omega
    refine ⟨by simp [padMessage, if_neg hle], ?_⟩
    simp [padMessage, if_neg hle, h119, List.replicate_add]

theorem pad_structure_witness :
    (List.replicate 60 7).length < 64 ∧
      (((padMessage (List.replicate 60 7) 480).length = if (List.replicate 60 7).length ≤ 55 then 1 else 2) ∧
        (padMessage (List.replicate 60 7) 480).flatten =
          List.replicate 60 7 ++ 0x80 ::
            (List.replicate (if (List.replicate 60 7).length ≤ 55 then 55 - (List.replicate 60 7).length
              else 119 - (List.replicate 60 7).length) 0 ++
              (be4 ((480 >>> 32) % M32) ++ be4 (480 % M32)))) :=
  ⟨by decide, pad_structure (List.replicate 60 7) 480 (by decide)⟩

/-! ## C9: the version codec -/

/-- C9: `decode_version ∘ encode_version` is the identity on
`"7.15.1.final"` and `"1.2.3.test"` (strings as character-code lists),
and the test/final distinction is the top bit of the stored revision
byte: the test encoding stores `3 ||| 0x80 = 0x83`, the final encoding a
cleared top bit. -/
theorem version_codec_roundtrip :
    (encodeVersion [55, 46, 49, 53, 46, 49, 46, 102, 105, 110, 97, 108]).bind decodeVersion =
        some [55, 46, 49, 53, 46, 49, 46, 102, 105, 110, 97, 108] ∧
      (encodeVersion [49, 46, 50, 46, 51, 46, 116, 101, 115, 116]).bind decodeVersion =
        some [49, 46, 50, 46, 51, 46, 116, 101, 115, 116] ∧
      encodeVersion [55, 46, 49, 53, 46, 49, 46, 102, 105, 110, 97, 108] = some [1, 102, 15, 7] ∧
      encodeVersion [49, 46, 50, 46, 51, 46, 116, 101, 115, 116] = some [0x83, 102, 2, 1] ∧
      0x83 &&& 0x80 = 0x80 ∧ 1 &&& 0x80 = 0 := by
  refine ⟨by decide, by decide, by decide, by decide, by decide, by decide⟩

theorem parseGo_succ (f : ℕ) (data : List ℕ) :
    parseGo (f + 1) data =
      (if data.isEmpty then .ok []
       else if data.length < 6 then .error .structError
       else
         let tag := data.getD 0 0 + 256 * data.getD 1 0
         let size := leToInt ((data.drop 2).take 4)
         let body := (data.drop 6).take size
         let rest := data.drop (6 + size)
         if tag = 0x01 then
           if body.length = 36 then
             (parseGo f rest).map (fun parts => ⟨tag, .info (mkInfo body)⟩ :: parts)
           else .error .assertError
         else if tag ∈ validTags then
           (parseGo f rest).map (fun parts => ⟨tag, .raw body⟩ :: parts)
         else .error .valueError) := rfl

theorem parseGo_nil (f : ℕ) : parseGo f [] = .ok [] := by
  cases f <;> rfl

theorem parse_one_part (f : ℕ) (t l : ℕ) (tail : List ℕ)
    (ht : t ∈ validTags) (ht1 : t ≠ 1) (htb : t < 65536) (hl : l < 4294967296)
    (htl : tail.length < l) :
    parseGo (f + 1) (le2 t ++ le4 l ++ tail) = .ok [⟨t, .raw tail⟩] := by
  have hdata : le2 t ++ le4 l ++ tail =
      t % 256 :: t / 256 % 256 :: l % 256 :: l / 256 % 256 :: l / 65536 % 256 ::
        l / 16777216 % 256 :: tail := by
    simp [le2, le4]
  have htag : t % 256 + 256 * (t / 256 % 256) = t := by omega
  have hsize : l % 256 + 256 * (l / 256 % 256 + 256 * (l / 65536 % 256 + 256 * (l / 16777216 % 256 + 256 * 0))) = l := by
    omega
  rw [parseGo_succ, hdata]
  simp only [List.isEmpty_cons, List.length_cons, List.getD_cons_zero, List.getD_cons_succ,
    List.drop_succ_cons, List.drop_zero, List.take_succ_cons, List.take_zero, leToInt,
    Bool.false_eq_true, if_false, htag, hsize]
  rw [if_neg (by omega : ¬ tail.length + 1 + 1 + 1 + 1 + 1 + 1 < 6), if_neg ht1, if_pos ht]
  have hbody : tail.take l = tail := List.take_of_length_le (le_of_lt htl)
  have hrest : (t % 256 :: t / 256 % 256 :: l % 256 :: l / 256 % 256 :: l / 65536 % 256 ::
      l / 16777216 % 256 :: tail).drop (6 + l) = [] := by
    apply List.drop_of_length_le
    simp only [List.length_cons]
    omega
  rw [hbody, hrest, parseGo_nil]
  rfl

theorem parseGo_zero (data : List ℕ) :
    parseGo 0 data = if data.isEmpty then .ok [] else .error .structError := rfl

theorem parse_one_nameinfo (f l : ℕ) (tail : List ℕ)
    (hl : l < 4294967296) (htl : tail.length < l) (h36 : tail.length ≠ 36) :
    parseGo (f + 1) (le2 1 ++ le4 l ++ tail) = .error .assertError := by
  have hdata : le2 1 ++ le4 l ++ tail =
      1 :: 0 :: l % 256 :: l / 256 % 256 :: l / 65536 % 256 :: l / 16777216 % 256 :: tail := by
    simp [le2, le4]
  have hsize : l % 256 + 256 * (l / 256 % 256 + 256 * (l / 65536 % 256 + 256 * (l / 16777216 % 256 + 256 * 0))) = l := by
    omega
  rw [parseGo_succ, hdata]
  simp only [List.isEmpty_cons, List.length_cons, List.getD_cons_zero, List.getD_cons_succ,
    List.drop_succ_cons, List.drop_zero, List.take_succ_cons, List.take_zero, leToInt,
    Bool.false_eq_true, if_false, hsize]
  rw [if_neg (by omega : ¬ tail.length + 1 + 1 + 1 + 1 + 1 + 1 < 6)]
  simp only [if_true]
  rw [List.take_of_length_le (le_of_lt htl), if_neg h36]

theorem parse_bad_tag (f t l : ℕ) (rest : List ℕ) (htb : t < 65536) (ht : t ∉ validTags) :
    parseGo (f + 1) (le2 t ++ le4 l ++ rest) = .error .valueError := by
  have hdata : le2 t ++ le4 l ++ rest =
      t % 256 :: t / 256 % 256 :: l % 256 :: l / 256 % 256 :: l / 65536 % 256 ::
        l / 16777216 % 256 :: rest := by
    simp [le2, le4]
  have htag : t % 256 + 256 * (t / 256 % 256) = t := by omega
  have ht1 : t ≠ 1 := fun h => ht (h ▸ (by decide : (1 : ℕ) ∈ validTags))
  rw [parseGo_succ, hdata]
  simp only [List.isEmpty_cons, List.length_cons, List.getD_cons_zero, List.getD_cons_succ,
    Bool.false_eq_true, if_false, htag]
  rw [if_neg (by omega : ¬ rest.length + 1 + 1 + 1 + 1 + 1 + 1 < 6), if_neg ht1, if_neg ht]

theorem parseGo_tags (f : ℕ) :
    ∀ (data : List ℕ) (parts : List NpkPart), parseGo f data = .ok parts →
      ∀ pt ∈ parts, pt.tag ∈ validTags := by
  induction f with
  | zero =>
    intro data parts h pt hpt
    rw [parseGo_zero] at h
    split at h
    · cases h; simp at hpt
    · cases h
  | succ f ih =>
    intro data parts h pt hpt
    rw [parseGo_succ] at h
    simp only [] at h
    split at h
    · cases h; simp at hpt
    · split at h
      · cases h
      · split at h
        · split at h
          · cases hrec : parseGo f (data.drop (6 + leToInt ((data.drop 2).take 4))) with
            | error e => rw [hrec] at h; cases h
            | ok ps =>
              rw [hrec] at h
              simp only [Except.map, Except.ok.injEq] at h
              subst h
              rcases List.mem_cons.mp hpt with h1 | h1
              · subst h1
                rename_i htag hbody
                simp only [htag]
                exact (by decide : (1 : ℕ) ∈ validTags)
              · exact ih _ ps hrec pt h1
          · cases h
        · split at h
          · cases hrec : parseGo f (data.drop (6 + leToInt ((data.drop 2).take 4))) with
            | error e => rw [hrec] at h; cases h
            | ok ps =>
              rw [hrec] at h
              simp only [Except.map, Except.ok.injEq] at h
              subst h
              rcases List.mem_cons.mp hpt with h1 | h1
              · subst h1
                next hmem => exact hmem
              · exact ih _ ps hrec pt h1

          · cases h

/-! ## C7: truncated trailing part -/

/-- C7 counterexample: a buffer whose trailing part declares 5 body bytes
but provides none parses successfully — no fatal error, the container is
produced with the truncated (empty) body. -/
theorem parse_truncated_no_error :
    parseNpk [2, 0, 5, 0, 0, 0] = .ok [⟨2, .raw []⟩] := by rfl

/-- C7 (amended): a trailing part whose declared length exceeds the
remaining bytes is NOT a parse error: for any non-NAME_INFO tag of the
enumeration the part is kept with just the remaining bytes as its body;
only a truncated NAME_INFO part fails (its 36-byte length assertion). -/
theorem parse_truncated_trailing (t l : ℕ) (tail : List ℕ)
    (ht : t ∈ validTags) (ht1 : t ≠ 1) (htb : t < 65536) (hl : l < 4294967296)
    (htl : tail.length < l) :
    parseNpk (le2 t ++ le4 l ++ tail) = .ok [⟨t, .raw tail⟩] ∧
      (tail.length ≠ 36 → parseNpk (le2 1 ++ le4 l ++ tail) = .error .assertError) := by
  constructor
  · have hlen : (le2 t ++ le4 l ++ tail).length = tail.length + 5 + 1 := by
      simp [le2, le4]
    rw [parseNpk, hlen]
    exact parse_one_part _ t l tail ht ht1 htb hl htl
  · intro h36
    have hlen : (le2 1 ++ le4 l ++ tail).length = tail.length + 5 + 1 := by
      simp [le2, le4]
    rw [parseNpk, hlen]
    exact parse_one_nameinfo _ l tail hl htl h36

theorem parse_truncated_trailing_witness :
    ((2 : ℕ) ∈ validTags ∧ (2 : ℕ) ≠ 1 ∧ (2 : ℕ) < 65536 ∧ (9 : ℕ) < 4294967296 ∧
      ([7, 7] : List ℕ).length < 9 ∧ ([7, 7] : List ℕ).length ≠ 36) ∧
      (parseNpk (le2 2 ++ le4 9 ++ [7, 7]) = .ok [⟨2, .raw [7, 7]⟩] ∧
        parseNpk (le2 1 ++ le4 9 ++ [7, 7]) = .error .assertError) :=
  ⟨⟨by decide, by decide, by decide, by decide, by decide, by decide⟩,
    (parse_truncated_trailing 2 9 [7, 7] (by decide) (by decide) (by decide) (by decide) (by decide)).1,
    (parse_truncated_trailing 2 9 [7, 7] (by decide) (by decide) (by decide) (by decide) (by decide)).2
      (by decide)⟩

/-! ## C10: the tag enumeration is closed -/

/-- C10: parsing admits only the listed enumeration values: a
successfully parsed container contains only enumeration tags, and a
buffer whose next part carries any other 2-byte tag value raises
(ValueError) instead of keeping the part as opaque bytes. -/
theorem parse_tags_closed :
    (∀ (data : List ℕ) (parts : List NpkPart), parseNpk data = .ok parts →
        ∀ pt ∈ parts, pt.tag ∈ validTags) ∧
      (∀ (t l : ℕ) (rest : List ℕ), t < 65536 → t ∉ validTags →
        parseNpk (le2 t ++ le4 l ++ rest) = .error .valueError) := by
  constructor
  · intro data parts h
    exact parseGo_tags data.length data parts h
  · intro t l rest htb ht
    have hlen : (le2 t ++ le4 l ++ rest).length = rest.length + 5 + 1 := by
      simp [le2, le4]
    rw [parseNpk, hlen]
    exact parse_bad_tag _ t l rest htb ht

theorem parse_tags_closed_witness :
    (parseNpk [2, 0, 1, 0, 0, 0, 65] = .ok [⟨2, .raw [65]⟩] ∧
      (⟨2, .raw [65]⟩ : NpkPart).tag ∈ validTags) ∧
      ((5 : ℕ) < 65536 ∧ (5 : ℕ) ∉ validTags ∧
        parseNpk (le2 5 ++ le4 0 ++ []) = .error .valueError) :=
  ⟨⟨by rfl, parse_tags_closed.1 [2, 0, 1, 0, 0, 0, 65] [⟨2, .raw [65]⟩] (by rfl)
      ⟨2, .raw [65]⟩ (by decide)⟩,
    ⟨by decide, by decide, parse_tags_closed.2 5 0 [] (by decide) (by decide)⟩⟩

theorem digestInput_setSig (parts : List NpkPart) (b : List ℕ) (p0 : NpkPart)
    (h1 : findSig parts = some p0) (h2 : lenData p0.data = b.length) :
    digestInput (setSigData parts b) = digestInput parts := by
  induction parts with
  | nil => simp [findSig] at h1
  | cons pt rest ih =>
    by_cases h9 : pt.tag = 9
    · have hp0 : p0 = pt := by
        rw [findSig, List.find?_cons_of_pos] at h1
        · exact (Option.some.injEq _ _ ▸ h1.symm)
        · simp [h9]
      have hlen : b.length = lenData pt.data := by rw [← h2, hp0]
      simp only [setSigData, if_pos h9, digestInput, h9]
      simp [lenData, hlen]
    · have h1r : findSig rest = some p0 := by
        rw [findSig, List.find?_cons_of_neg] at h1
        · exact h1
        · simp [h9]
      simp only [setSigData, if_neg h9, digestInput]
      rw [ih h1r]

/-- C6: replacing the (first) SIGNATURE part's body by any body of the
same length leaves `get_digest` unchanged, for every hash function: the
digest covers the SIGNATURE part's 6-byte tag+length header but not its
body. -/
theorem digest_sig_replace (parts : List NpkPart) (b : List ℕ) (p0 : NpkPart)
    (h1 : findSig parts = some p0) (h2 : lenData p0.data = b.length)
    (hash : List ℕ → List ℕ) :
    getDigest hash (setSigData parts b) = getDigest hash parts := by
  rw [getDigest, getDigest, digestInput_setSig parts b p0 h1 h2]

theorem digest_sig_replace_witness :
    (findSig [⟨1, .info ⟨List.replicate 16 0, [1, 102, 15, 7], 1700000000, List.replicate 12 0⟩⟩,
        ⟨9, .raw (List.replicate 132 0)⟩, ⟨21, .raw [1, 2, 3]⟩] =
          some ⟨9, .raw (List.replicate 132 0)⟩ ∧
      lenData (PartData.raw (List.replicate 132 0)) = (List.replicate 132 7).length) ∧
      getDigest id (setSigData [⟨1, .info ⟨List.replicate 16 0, [1, 102, 15, 7], 1700000000, List.replicate 12 0⟩⟩,
          ⟨9, .raw (List.replicate 132 0)⟩, ⟨21, .raw [1, 2, 3]⟩] (List.replicate 132 7)) =
        getDigest id [⟨1, .info ⟨List.replicate 16 0, [1, 102, 15, 7], 1700000000, List.replicate 12 0⟩⟩,
          ⟨9, .raw (List.replicate 132 0)⟩, ⟨21, .raw [1, 2, 3]⟩] :=
  ⟨⟨by rfl, by decide⟩,
    digest_sig_replace _ (List.replicate 132 7) ⟨9, .raw (List.replicate 132 0)⟩ (by rfl) (by decide) id⟩

theorem digestInput_eq_visStream (ps : List NpkPart) :
    digestInput ps = visStream (visible ps) := by
  induction ps with
  | nil => rfl
  | cons pt rest ih =>
    by_cases h25 : pt.tag = 25
    · simp only [digestInput, visible, if_pos h25, ih]
    · by_cases h9 : pt.tag = 9
      · simp only [digestInput, visible, if_neg h25, if_pos h9, h9, visStream]
        simp
      · simp only [digestInput, visible, if_neg h25, if_neg h9, visStream, ih,
          List.append_assoc]

theorem visible_wf (ps : List NpkPart) (h : WfParts ps) : WfVis (visible ps) := by
  induction ps with
  | nil => trivial
  | cons pt rest ih =>
    obtain ⟨htag, hlen, hser⟩ := h pt (List.mem_cons_self pt rest)
    have hrest : WfParts rest := fun q hq => h q (List.mem_cons_of_mem _ hq)
    by_cases h25 : pt.tag = 25
    · simpa [visible, h25] using ih hrest
    · by_cases h9 : pt.tag = 9
      · simp only [visible, if_neg h25, if_pos h9]
        exact ⟨hlen, rfl⟩
      · simp only [visible, if_neg h25, if_neg h9]
        refine ⟨htag, h9, h25, hlen, ?_, ih hrest⟩
        cases hd : pt.data with
        | raw bs =>
          cases bs with
          | nil => simp [dataNonempty, lenData, hd]
          | cons x xs =>
            rw [hd] at hser
            simpa [dataNonempty, hd] using hser
        | info r =>
          rw [hd] at hser
          simpa [dataNonempty, hd] using hser

theorem visStream_inj (v1 : List Vis) : ∀ (v2 : List Vis), WfVis v1 → WfVis v2 →
    visStream v1 = visStream v2 → v1 = v2 := by
  induction v1 with
  | nil =>
    intro v2 _ h2 heq
    cases v2 with
    | nil => rfl
    | cons e2 r2 => exfalso; cases e2 <;> simp [visStream, le2, le4] at heq
  | cons e1 r1 ih =>
    intro v2 h1 h2 heq
    cases v2 with
    | nil => exfalso; cases e1 <;> simp [visStream, le2, le4] at heq
    | cons e2 r2 =>
      cases e1 with
      | part t1 l1 b1 =>
        cases e2 with
        | part t2 l2 b2 =>
          obtain ⟨ht1, hne1, hh1, hl1, hb1, hw1⟩ := h1
          obtain ⟨ht2, hne2, hh2, hl2, hb2, hw2⟩ := h2
          simp only [visStream, le2, le4, List.cons_append, List.nil_append,
            List.cons.injEq] at heq
          obtain ⟨q1, q2, q3, q4, q5, q6, qtail⟩ := heq
          have htt : t1 = t2 := by omega
          have hll : l1 = l2 := by omega
          obtain ⟨hb, hs⟩ := List.append_inj qtail (by rw [hb1, hb2, hll])
          simp [htt, hll, hb, ih r2 hw1 hw2 hs]
        | sig l2 =>
          exfalso
          obtain ⟨ht1, hne1, _⟩ := h1
          simp only [visStream, le2, le4, List.cons_append, List.nil_append,
            List.cons.injEq] at heq
          omega
      | sig l1 =>
        cases e2 with
        | part t2 l2 b2 =>
          exfalso
          obtain ⟨ht2, hne2, _⟩ := h2
          simp only [visStream, le2, le4, List.cons_append, List.nil_append,
            List.cons.injEq] at heq
          omega
        | sig l2 =>
          obtain ⟨hl1, hr1⟩ := h1
          obtain ⟨hl2, hr2⟩ := h2
          simp only [visStream, le2, le4, List.cons_append, List.nil_append,
            List.cons.injEq] at heq
          have : l1 = l2 := by omega
          simp [this, hr1, hr2]

/-- C5 counterexample: two containers that differ in the body of a
non-HEADER, non-SIGNATURE part (DESCRIPTION, placed after the SIGNATURE
part) feed the hash exactly the same bytes. -/
theorem digest_blind_after_sig :
    digestInput [⟨9, .raw (List.replicate 132 0)⟩, ⟨2, .raw [1]⟩] =
        digestInput [⟨9, .raw (List.replicate 132 0)⟩, ⟨2, .raw [2]⟩] ∧
      ([⟨9, .raw (List.replicate 132 0)⟩, ⟨2, .raw [1]⟩] : List NpkPart) ≠
        [⟨9, .raw (List.replicate 132 0)⟩, ⟨2, .raw [2]⟩] :=
  ⟨by rfl, by decide⟩

/-- C5 (amended): for well-formed containers the digest input stream
determines, and is sensitive to, exactly the visible projection: the
parts up to and including the first SIGNATURE part — every such part's
tag, declared length, body byte and relative order — with HEADER parts,
the SIGNATURE body and everything after the SIGNATURE part invisible. -/
theorem digest_input_visible_iff (ps1 ps2 : List NpkPart)
    (h1 : WfParts ps1) (h2 : WfParts ps2) :
    digestInput ps1 = digestInput ps2 ↔ visible ps1 = visible ps2 := by
  constructor
  · intro h
    exact visStream_inj _ _ (visible_wf ps1 h1) (visible_wf ps2 h2)
      (by rw [← digestInput_eq_visStream, ← digestInput_eq_visStream, h])
  · intro h
    rw [digestInput_eq_visStream, digestInput_eq_visStream, h]

theorem digest_input_visible_iff_witness :
    (WfParts [⟨2, .raw [5]⟩] ∧ WfParts [⟨25, .raw [9]⟩, ⟨2, .raw [5]⟩]) ∧
      (digestInput [⟨2, .raw [5]⟩] = digestInput [⟨25, .raw [9]⟩, ⟨2, .raw [5]⟩] ↔
        visible [⟨2, .raw [5]⟩] = visible [⟨25, .raw [9]⟩, ⟨2, .raw [5]⟩]) :=
  ⟨⟨by simp [WfParts, lenData, serializeData], by simp [WfParts, lenData, serializeData]⟩,
    digest_input_visible_iff _ _ (by simp [WfParts, lenData, serializeData])
      (by simp [WfParts, lenData, serializeData])⟩


theorem leToInt_append_zero (l : List ℕ) : leToInt (l ++ [0]) = leToInt l := by
  induction l with
  | nil => simp [leToInt]
  | cons b rest ih => simp [leToInt, ih]

/-- C8 counterexample: a public-key x at which the curve polynomial has
no square root makes `mikro_kcdsa_verify` crash (iterating over
`sqrt() = None` raises TypeError), instead of returning `false` — here
the all-zero key, with a structurally well-formed 48-byte signature. -/
theorem verify_qnr_crashes :
    verifyM [] (List.replicate 48 0) (List.replicate 32 0) = none := by decide!

/-- C8 (amended): verification performs no structural length validation:
appending a zero byte to any signature of at least 16 bytes leaves the
outcome unchanged (so a 49-byte signature verifies whenever the 48-byte
one does); and a public-key x whose curve polynomial fails the Euler
quadratic-residue test yields no candidate points and the verifier
crashes (`none`), rather than returning `false`. -/
theorem verify_no_length_check :
    (∀ (data sig pub : List ℕ), 16 ≤ sig.length →
        verifyM data (sig ++ [0]) pub = verifyM data sig pub) ∧
      (∀ (data sig pub : List ℕ),
        powMod (pubPoly pub) ((p25519 - 1) / 2) p25519 ≠ 1 →
        verifyM data sig pub = none) := by
  constructor
  · intro data sig pub h
    have h1 : (sig ++ [0]).take 16 = sig.take 16 := List.take_append_of_le_length h
    have h2 : leToInt ((sig ++ [0]).drop 16) = leToInt (sig.drop 16) := by
      rw [List.drop_append_of_le_length h, leToInt_append_zero]
    cases hsq : sqrtPair (pubPoly pub) with
    | none => unfold verifyM; rw [hsq]
    | some pair =>
      obtain ⟨y1, y2⟩ := pair
      unfold verifyM
      rw [hsq, h1, h2]
  · intro data sig pub h
    have hsq : sqrtPair (pubPoly pub) = none := by rw [sqrtPair, if_pos h]
    unfold verifyM
    rw [hsq]

theorem verify_no_length_check_witness :
    (16 ≤ (List.replicate 17 0 : List ℕ).length ∧
        verifyM [] (List.replicate 17 0 ++ [0]) (List.replicate 32 0) =
          verifyM [] (List.replicate 17 0) (List.replicate 32 0)) ∧
      (powMod (pubPoly (List.replicate 32 0)) ((p25519 - 1) / 2) p25519 ≠ 1 ∧
        verifyM [] (List.replicate 48 0) (List.replicate 32 0) = none) :=
  ⟨⟨by decide, verify_no_length_check.1 [] (List.replicate 17 0) (List.replicate 32 0) (by decide)⟩,
    ⟨by decide!, verify_no_length_check.2 [] (List.replicate 48 0) (List.replicate 32 0) (by decide!)⟩⟩

/-- C2 (amended): the signing iteration accepts exactly when the
x-coordinate of `s·Pub + e·G` equals the nonce WITHOUT reduction modulo
`n` (since the nonce is `x(k·G) mod n`, acceptance also forces
`x(s·Pub + e·G) < n`); and the verifier computes each candidate nonce as
the unreduced `x(s·Pub_i + e·G)` before re-hashing and comparing it to
the carried nonce hash. -/
theorem sign_verify_accept_unreduced :
    (∀ (data : List ℕ) (d k nonce : ℕ) (C : Pt),
        nonceOf k = some nonce → signCheck data d k = some C →
        ((signStep data d k).isSome ↔ xNat C = some nonce)) ∧
      (∀ (s e : ℕ) (P : Pt) (rest : List Pt) (nh : List ℕ) (x : ℕ),
        verifyCandX s e P = some x →
        verifyLoop (P :: rest) s e nh =
          if (mikroSha256 (leBytes 32 x)).take nh.length = nh then some true
          else verifyLoop rest s e nh) := by
  constructor
  · intro data d k nonce C hn hC
    cases hP : signParts data d k with
    | none => rw [signCheck, hP] at hC; cases hC
    | some quad =>
      obtain ⟨nonce2, nh2, e2, s2⟩ := quad
      have hnonce : nonce2 = nonce := by
        rw [signParts, hn] at hP
        cases hd : invMod d n25519 with
        | none => rw [hd] at hP; cases hP
        | some dinv =>
          rw [hd] at hP
          simp only [Option.some.injEq, Prod.mk.injEq] at hP
          exact hP.1.symm
      subst hnonce
      rw [signStep, hP, hC]
      cases hx : xNat C with
      | none => simp [hx]
      | some x =>
        by_cases hxn : x = nonce2
        · simp [hx, hxn]
        · simp [hx, hxn]
  · intro s e P rest nh x h
    rw [verifyLoop, h]


theorem smulGo_succ (f k : ℕ) (n r : Pt) :
    smulGo (f + 1) k n r =
      (if k = 0 then some r
       else
         match (if k % 2 = 1 then padd r n else some r) with
         | none => none
         | some result2 =>
           match padd n n with
           | none => none
           | some n2 => smulGo f (k / 2) n2 result2) := rfl

theorem smulGo_k0 (f : ℕ) (n r : Pt) : smulGo f 0 n r = some r := by
  cases f <;> rfl

theorem smul_ne (k : ℕ) (P : Pt) (h : ¬(k = 0)) : smul k P = smulGo 300 k P Pt.inf := by
  rw [smul, if_neg h]

theorem smulGo_stepL (f f2 k k2 : ℕ) (n r n2 r2 : Pt)
    (hf : f = f2 + 1) (hk : ¬(k = 0)) (hk2 : k / 2 = k2)
    (h1 : (if k % 2 = 1 then padd r n else some r) = some r2)
    (h2 : padd n n = some n2) :
    smulGo f k n r = smulGo f2 k2 n2 r2 := by
  subst hf hk2
  rw [smulGo_succ, if_neg hk, h1, h2]

theorem signCheck_eq (data : List ℕ) (d k nonce e s : ℕ) (nh : List ℕ) (pub P1 P2 : Pt)
    (h1 : signParts data d k = some (nonce, nh, e, s))
    (hpub : smul d G25519 = some pub)
    (hP1 : smul s pub = some P1) (hP2 : smul e G25519 = some P2) :
    signCheck data d k = padd P1 P2 := by
  simp only [signCheck, h1, hpub, hP1, hP2]

theorem signStep_eq (data : List ℕ) (d k nonce e s x : ℕ) (nh : List ℕ) (C : Pt)
    (h1 : signParts data d k = some (nonce, nh, e, s))
    (h2 : signCheck data d k = some C) (h3 : xNat C = some x) :
    signStep data d k = if x = nonce then some (nh.take 16 ++ leBytes 32 s) else none := by
  simp only [signStep, h1, h2, h3]

theorem signStepSpec_eq (data : List ℕ) (d k nonce e s x : ℕ) (nh : List ℕ) (C : Pt)
    (h1 : signParts data d k = some (nonce, nh, e, s))
    (h2 : signCheck data d k = some C) (h3 : xNat C = some x) :
    signStepSpec data d k =
      if x % n25519 = nonce then some (nh.take 16 ++ leBytes 32 s) else none := by
  simp only [signStepSpec, h1, h2, h3]

/-- The signing-iteration constants at `data = []`, `d = 1`, `k = 2`:
the nonce, its hash, the exponent `e` and the scalar `s`, evaluated. -/
theorem signParts_12 :
    signParts [] 1 2 =
      some (373265990970959056016999411471103152996752414065965876883239014026687850273,
        [61, 171, 234, 216, 194, 239, 175, 250, 148, 226, 81, 26, 176, 160, 5, 66, 26, 215, 219, 168, 224, 48, 253, 72, 26, 145, 103, 136, 238, 200, 77, 233],
        41531037008282976916172442357309632128607250080678331808209173051927585313624,
        1890996455710596367666677020948333316535448075601113827802532577785140192312) := by
  decide!

/-- Evaluation of `s·Pub` for the instance above (`Pub = G`), one
double-and-add step per link. -/
theorem smul_s12_chain :
    smul 1890996455710596367666677020948333316535448075601113827802532577785140192312 G25519 = some (Pt.aff 14230460879622459435911779204800955537840525050907288535874576759141620645132 16896811615854149225310527173281493920415754006836902566566823292928215269874) :=
  (smul_ne 1890996455710596367666677020948333316535448075601113827802532577785140192312 G25519 (by decide)).trans <|
  (smulGo_stepL 300 299 1890996455710596367666677020948333316535448075601113827802532577785140192312 945498227855298183833338510474166658267724037800556913901266288892570096156 G25519 Pt.inf (Pt.aff 14847277145635483483963372537557091634710985132825781088887140890597596352251 48981431527428949880507557032295310859754924433568441600873610210018059225738) Pt.inf (by decide) (by decide) (by decide) (by decide!) (by decide!)).trans <|
  (smulGo_stepL 299 298 945498227855298183833338510474166658267724037800556913901266288892570096156 472749113927649091916669255237083329133862018900278456950633144446285048078 (Pt.aff 14847277145635483483963372537557091634710985132825781088887140890597596352251 48981431527428949880507557032295310859754924433568441600873610210018059225738) Pt.inf (Pt.aff 55094879196667521951171181671895976763495004283458921215716618814842818532335 54569142357247972087436514192303000819046423163844230760178298996455322543037) Pt.inf (by decide) (by decide) (by decide) (by decide!) (by decide!)).trans <|
  (smulGo_stepL 298 297 472749113927649091916669255237083329133862018900278456950633144446285048078 236374556963824545958334627618541664566931009450139228475316572223142524039 (Pt.aff 55094879196667521951171181671895976763495004283458921215716618814842818532335 54569142357247972087436514192303000819046423163844230760178298996455322543037) Pt.inf (Pt.aff 17809203070174708532389388378138548413001352690456714369618601795787323709800 43658319779861883649625614158027928669364075039748811053911812303274265184024) Pt.inf (by decide) (by decide) (by decide) (by decide!) (by decide!)).trans <|
  (smulGo_stepL 297 296 236374556963824545958334627618541664566931009450139228475316572223142524039 118187278481912272979167313809270832283465504725069614237658286111571262019 (Pt.aff 17809203070174708532389388378138548413001352690456714369618601795787323709800 43658319779861883649625614158027928669364075039748811053911812303274265184024) Pt.inf (Pt.aff 22944042183821758196639555843847020275590080432146737615610504920265089949526 56444685192864803883208605530001556246075957811117071596575846594136720925814) (Pt.aff 17809203070174708532389388378138548413001352690456714369618601795787323709800 43658319779861883649625614158027928669364075039748811053911812303274265184024) (by decide) (by decide) (by decide) (by decide!) (by decide!)).trans <|
  (smulGo_stepL 296 295 118187278481912272979167313809270832283465504725069614237658286111571262019 59093639240956136489583656904635416141732752362534807118829143055785631009 (Pt.aff 22944042183821758196639555843847020275590080432146737615610504920265089949526 56444685192864803883208605530001556246075957811117071596575846594136720925814) (Pt.aff 17809203070174708532389388378138548413001352690456714369618601795787323709800 43658319779861883649625614158027928669364075039748811053911812303274265184024) (Pt.aff 15532369882961175629413809923992443230244967715281671432466728170287226640463 56335416821862827979933780787731392308070586752943408540232321265557702741921) (Pt.aff 46885383771022587199597475503533010686410913513820063963360091734274815768905 20878509908449179284436381335413367823550518663819728482739197967640055649533) (by decide) (by decide) (by decide) (by decide!) (by decide!)).trans <|
  (smulGo_stepL 295 294 59093639240956136489583656904635416141732752362534807118829143055785631009 29546819620478068244791828452317708070866376181267403559414571527892815504 (Pt.aff 15532369882961175629413809923992443230244967715281671432466728170287226640463 56335416821862827979933780787731392308070586752943408540232321265557702741921) (Pt.aff 46885383771022587199597475503533010686410913513820063963360091734274815768905 20878509908449179284436381335413367823550518663819728482739197967640055649533) (Pt.aff 25440431385991821865611011909160990584394986998010612046364390231021319695784 38709610840924146695268614059246299829642189788704647073423155807552706691289) (Pt.aff 40048554533574963055014205063417222560616264235965510066145920105386686080158 5049751441893443245381584341219356019623121004774868465605728767875953652640) (by decide) (by decide) (by decide) (by decide!) (by decide!)).trans <|
  (smulGo_stepL 294 293 29546819620478068244791828452317708070866376181267403559414571527892815504 14773409810239034122395914226158854035433188090633701779707285763946407752 (Pt.aff 25440431385991821865611011909160990584394986998010612046364390231021319695784 38709610840924146695268614059246299829642189788704647073423155807552706691289) (Pt.aff 40048554533574963055014205063417222560616264235965510066145920105386686080158 5049751441893443245381584341219356019623121004774868465605728767875953652640) (Pt.aff 17783257407960810680354837346945257015895624650626251706574692262663994862777 30619650508289420193254070779072771856858675864847244777245863495543665503366) (Pt.aff 40048554533574963055014205063417222560616264235965510066145920105386686080158 5049751441893443245381584341219356019623121004774868465605728767875953652640) (by decide) (by decide) (by decide) (by decide!) (by decide!)).trans <|
  (smulGo_stepL 293 292 14773409810239034122395914226158854035433188090633701779707285763946407752 7386704905119517061197957113079427017716594045316850889853642881973203876 (Pt.aff 17783257407960810680354837346945257015895624650626251706574692262663994862777 30619650508289420193254070779072771856858675864847244777245863495543665503366) (Pt.aff 40048554533574963055014205063417222560616264235965510066145920105386686080158 5049751441893443245381584341219356019623121004774868465605728767875953652640) (Pt.aff 30304970916888107480065935010511794724894433394899282143542344546902516537576 50257579539495389914239365525479529743527989466200612922054996750286823985628) (Pt.aff 40048554533574963055014205063417222560616264235965510066145920105386686080158 5049751441893443245381584341219356019623121004774868465605728767875953652640) (by decide) (by decide) (by decide) (by decide!) (by decide!)).trans <|
  (smulGo_stepL 292 291 7386704905119517061197957113079427017716594045316850889853642881973203876 3693352452559758530598978556539713508858297022658425444926821440986601938 (Pt.aff 30304970916888107480065935010511794724894433394899282143542344546902516537576 50257579539495389914239365525479529743527989466200612922054996750286823985628) (Pt.aff 40048554533574963055014205063417222560616264235965510066145920105386686080158 5049751441893443245381584341219356019623121004774868465605728767875953652640) (Pt.aff 54225282695108759077235248811696286066923379721715754914863558519160533462417 6112824117839321568928022750080954506111286942863855044842860852552263757029) (Pt.aff 40048554533574963055014205063417222560616264235965510066145920105386686080158 5049751441893443245381584341219356019623121004774868465605728767875953652640) (by decide) (by decide) (by decide) (by decide!) (by decide!)).trans <|
  (smulGo_stepL 291 290 3693352452559758530598978556539713508858297022658425444926821440986601938 1846676226279879265299489278269856754429148511329212722463410720493300969 (Pt.aff 54225282695108759077235248811696286066923379721715754914863558519160533462417 6112824117839321568928022750080954506111286942863855044842860852552263757029) (Pt.aff 40048554533574963055014205063417222560616264235965510066145920105386686080158 5049751441893443245381584341219356019623121004774868465605728767875953652640) (Pt.aff 49286912025455541700088448635209848599578391814508579411038051257803110859354 46566958257070394114696084007949457110704786076063428982784770510272576147995) (Pt.aff 40048554533574963055014205063417222560616264235965510066145920105386686080158 5049751441893443245381584341219356019623121004774868465605728767875953652640) (by decide) (by decide) (by decide) (by decide!) (by decide!)).trans <|
  (smulGo_stepL 290 289 1846676226279879265299489278269856754429148511329212722463410720493300969 923338113139939632649744639134928377214574255664606361231705360246650484 (Pt.aff 49286912025455541700088448635209848599578391814508579411038051257803110859354 46566958257070394114696084007949457110704786076063428982784770510272576147995) (Pt.aff 40048554533574963055014205063417222560616264235965510066145920105386686080158 5049751441893443245381584341219356019623121004774868465605728767875953652640) (Pt.aff 51071887403963500538024391941788759597482913754624556532001115928213611987086 14880845612203056986743133082782210637702893355497156705231405045884098582203) (Pt.aff 34387937354619859244693981796183338472812982234720650070308766882317880477370 23219354967044593588024390059674919096539754777053597828628476052596314502288) (by decide) (by decide) (by decide) (by decide!) (by decide!)).trans <|
  (smulGo_stepL 289 288 923338113139939632649744639134928377214574255664606361231705360246650484 461669056569969816324872319567464188607287127832303180615852680123325242 (Pt.aff 51071887403963500538024391941788759597482913754624556532001115928213611987086 14880845612203056986743133082782210637702893355497156705231405045884098582203) (Pt.aff 34387937354619859244693981796183338472812982234720650070308766882317880477370 23219354967044593588024390059674919096539754777053597828628476052596314502288) (Pt.aff 10086331325666623446405648758313676058142176852193288615844454034556455678276 42225006388801949230779190218735901113177485907184190306808096687327397952753) (Pt.aff 34387937354619859244693981796183338472812982234720650070308766882317880477370 23219354967044593588024390059674919096539754777053597828628476052596314502288) (by decide) (by decide) (by decide) (by decide!) (by decide!)).trans <|
  (smulGo_stepL 288 287 461669056569969816324872319567464188607287127832303180615852680123325242 230834528284984908162436159783732094303643563916151590307926340061662621 (Pt.aff 10086331325666623446405648758313676058142176852193288615844454034556455678276 42225006388801949230779190218735901113177485907184190306808096687327397952753) (Pt.aff 34387937354619859244693981796183338472812982234720650070308766882317880477370 23219354967044593588024390059674919096539754777053597828628476052596314502288) (Pt.aff 51223593371132357679729808846595870017825293736191628388123554247306298755632 22130592053057751209286202631088805771030407196436966136994547145633196723049) (Pt.aff 34387937354619859244693981796183338472812982234720650070308766882317880477370 23219354967044593588024390059674919096539754777053597828628476052596314502288) (by decide) (by decide) (by decide) (by decide!) (by decide!)).trans <|
  (smulGo_stepL 287 286 230834528284984908162436159783732094303643563916151590307926340061662621 115417264142492454081218079891866047151821781958075795153963170030831310 (Pt.aff 51223593371132357679729808846595870017825293736191628388123554247306298755632 22130592053057751209286202631088805771030407196436966136994547145633196723049) (Pt.aff 34387937354619859244693981796183338472812982234720650070308766882317880477370 23219354967044593588024390059674919096539754777053597828628476052596314502288) (Pt.aff 49540265377839243273196138123475699490700810640015286473949605942567488199889 54420553812815697523071987817412408413355733928899895244594414448542039630647) (Pt.aff 56543465252633563536596384416065609105273965993472931971577447637740992546755 16978736978726402677518759607803696130626827969698602232739389750181440108039) (by decide) (by decide) (by decide) (by decide!) (by decide!)).trans <|
  (smulGo_stepL 286 285 115417264142492454081218079891866047151821781958075795153963170030831310 57708632071246227040609039945933023575910890979037897576981585015415655 (Pt.aff 49540265377839243273196138123475699490700810640015286473949605942567488199889 54420553812815697523071987817412408413355733928899895244594414448542039630647) (Pt.aff 56543465252633563536596384416065609105273965993472931971577447637740992546755 16978736978726402677518759607803696130626827969698602232739389750181440108039) (Pt.aff 33015862919577705633689236357113166605140942121544946148363356549464518453928 36123260164744573229441859586045131408263150257622323729246704784115096450965) (Pt.aff 56543465252633563536596384416065609105273965993472931971577447637740992546755 16978736978726402677518759607803696130626827969698602232739389750181440108039) (by decide) (by decide) (by decide) (by decide!) (by decide!)).trans <|
  (smulGo_stepL 285 284 57708632071246227040609039945933023575910890979037897576981585015415655 28854316035623113520304519972966511787955445489518948788490792507707827 (Pt.aff 33015862919577705633689236357113166605140942121544946148363356549464518453928 36123260164744573229441859586045131408263150257622323729246704784115096450965) (Pt.aff 56543465252633563536596384416065609105273965993472931971577447637740992546755 16978736978726402677518759607803696130626827969698602232739389750181440108039) (Pt.aff 54654622877210561147034463920942461775878535605324084155450687866475965538235 43092191109663751123450588414178473631136638815584326664256148067398370456744) (Pt.aff 7263228096077738123530349256073149579809906375219739927321146781419135696563 4156459184346372341934575584606977305531320360478033150502589168191682238993) (by decide) (by decide) (by decide) (by decide!) (by decide!)).trans <|
  (smulGo_stepL 284 283 28854316035623113520304519972966511787955445489518948788490792507707827 14427158017811556760152259986483255893977722744759474394245396253853913 (Pt.aff 54654622877210561147034463920942461775878535605324084155450687866475965538235 43092191109663751123450588414178473631136638815584326664256148067398370456744) (Pt.aff 7263228096077738123530349256073149579809906375219739927321146781419135696563 4156459184346372341934575584606977305531320360478033150502589168191682238993) (Pt.aff 3234725970710577003908394143346912092253159967691409453263540959515562062822 26798726588134570203658645334513717995129751922044663579127240147351309723803) (Pt.aff 11879384904740591316908416580062481982176030207158672970536332217203914890678 55271420938979722545744039070280921917618958613094015387701454003817177517040) (by decide) (by decide) (by decide) (by decide!) (by decide!)).trans <|
  (smulGo_stepL 283 282 14427158017811556760152259986483255893977722744759474394245396253853913 7213579008905778380076129993241627946988861372379737197122698126926956 (Pt.aff 3234725970710577003908394143346912092253159967691409453263540959515562062822 26798726588134570203658645334513717995129751922044663579127240147351309723803) (Pt.aff 11879384904740591316908416580062481982176030207158672970536332217203914890678 55271420938979722545744039070280921917618958613094015387701454003817177517040) (Pt.aff 49666293210476143019494146349108050973945357446667680224166931982005865609754 50028047411840232102497693648205970383730258957745387608703200046830046461121) (Pt.aff 44239004283140052463584687742030410053161941733793766485777459776579385990952 5220024897067194200242162689313779458064294490320496604056289575571262316139) (by decide) (by decide) (by decide) (by decide!) (by decide!)).trans <|
  (smulGo_stepL 282 281 7213579008905778380076129993241627946988861372379737197122698126926956 3606789504452889190038064996620813973494430686189868598561349063463478 (Pt.aff 49666293210476143019494146349108050973945357446667680224166931982005865609754 50028047411840232102497693648205970383730258957745387608703200046830046461121) (Pt.aff 44239004283140052463584687742030410053161941733793766485777459776579385990952 5220024897067194200242162689313779458064294490320496604056289575571262316139) (Pt.aff 31159070951023339656860695534617404432516921170350095782313190547498538517918 45263189211364542490100189240528002114520774139765845524791945868230894534376) (Pt.aff 44239004283140052463584687742030410053161941733793766485777459776579385990952 5220024897067194200242162689313779458064294490320496604056289575571262316139) (by decide) (by decide) (by decide) (by decide!) (by decide!)).trans <|
  (smulGo_stepL 281 280 3606789504452889190038064996620813973494430686189868598561349063463478 1803394752226444595019032498310406986747215343094934299280674531731739 (Pt.aff 31159070951023339656860695534617404432516921170350095782313190547498538517918 45263189211364542490100189240528002114520774139765845524791945868230894534376) (Pt.aff 44239004283140052463584687742030410053161941733793766485777459776579385990952 5220024897067194200242162689313779458064294490320496604056289575571262316139) (Pt.aff 8846473550198149964544983005138690232396819242552778584609904765452364277575 3311367769620422195891386278193098367460147542183474778862496467473341155634) (Pt.aff 44239004283140052463584687742030410053161941733793766485777459776579385990952 5220024897067194200242162689313779458064294490320496604056289575571262316139) (by decide) (by decide) (by decide) (by decide!) (by decide!)).trans <|
  (smulGo_stepL 280 279 1803394752226444595019032498310406986747215343094934299280674531731739 901697376113222297509516249155203493373607671547467149640337265865869 (Pt.aff 8846473550198149964544983005138690232396819242552778584609904765452364277575 3311367769620422195891386278193098367460147542183474778862496467473341155634) (Pt.aff 44239004283140052463584687742030410053161941733793766485777459776579385990952 5220024897067194200242162689313779458064294490320496604056289575571262316139) (Pt.aff 27462913214056213812441054372115353669918629051082099575151370963709005769868 41636458383527807455786538473813836066610945753261352260582062861715437250119) (Pt.aff 49819146280449958706707355312995301407020371459147826764615767604229471151641 31691060053445064088512088675394653671355455752200828309613816909631142854177) (by decide) (by decide) (by decide) (by decide!) (by decide!)).trans <|
  (smulGo_stepL 279 278 901697376113222297509516249155203493373607671547467149640337265865869 450848688056611148754758124577601746686803835773733574820168632932934 (Pt.aff 27462913214056213812441054372115353669918629051082099575151370963709005769868 41636458383527807455786538473813836066610945753261352260582062861715437250119) (Pt.aff 49819146280449958706707355312995301407020371459147826764615767604229471151641 31691060053445064088512088675394653671355455752200828309613816909631142854177) (Pt.aff 44807495161888562629560256511674079784453069130357309435346161840861294711470 21838636198742245770707032221240317199746926637265372512933210009969526237888) (Pt.aff 14575189657409300799809160408864407113642207122992502284296787924178573590844 56135024810336191208589229354035919765430015808370926186947796016218124721391) (by decide) (by decide) (by decide) (by decide!) (by decide!)).trans <|
  (smulGo_stepL 278 277 450848688056611148754758124577601746686803835773733574820168632932934 225424344028305574377379062288800873343401917886866787410084316466467 (Pt.aff 44807495161888562629560256511674079784453069130357309435346161840861294711470 21838636198742245770707032221240317199746926637265372512933210009969526237888) (Pt.aff 14575189657409300799809160408864407113642207122992502284296787924178573590844 56135024810336191208589229354035919765430015808370926186947796016218124721391) (Pt.aff 4726507511034543257864004367440420604593792168712137866500249029073389764130 36185803276989568151063758891584835581600044204525146898019240193523702778586) (Pt.aff 14575189657409300799809160408864407113642207122992502284296787924178573590844 56135024810336191208589229354035919765430015808370926186947796016218124721391) (by decide) (by decide) (by decide) (by decide!) (by decide!)).trans <|
  (smulGo_stepL 277 276 225424344028305574377379062288800873343401917886866787410084316466467 112712172014152787188689531144400436671700958943433393705042158233233 (Pt.aff 4726507511034543257864004367440420604593792168712137866500249029073389764130 36185803276989568151063758891584835581600044204525146898019240193523702778586) (Pt.aff 14575189657409300799809160408864407113642207122992502284296787924178573590844 56135024810336191208589229354035919765430015808370926186947796016218124721391) (Pt.aff 23469489803965548658608156075054883641380369867948233955676267925176518471144 22682425362709751502511834414926755116987335645623170476004622556770458955282) (Pt.aff 55111569252734266807851687584035821328862082687396110251730277171244946247594 51866363539222470818382217532927990261366624104522574087211289410142291888065) (by decide) (by decide) (by decide) (by decide!) (by decide!)).trans <|
  (smulGo_stepL 276 275 112712172014152787188689531144400436671700958943433393705042158233233 56356086007076393594344765572200218335850479471716696852521079116616 (Pt.aff 23469489803965548658608156075054883641380369867948233955676267925176518471144 22682425362709751502511834414926755116987335645623170476004622556770458955282) (Pt.aff 55111569252734266807851687584035821328862082687396110251730277171244946247594 51866363539222470818382217532927990261366624104522574087211289410142291888065) (Pt.aff 9574624570587677515719971143614269076207347944189882917398808244029778872170 61086133495303318115020019229551192980631762721288870745072081647479969393) (Pt.aff 12413332063544284356559232987949892206284504186291693289173714891738118134624 22482994961289613263894784222428433203225752500726861376956935534758620463819) (by decide) (by decide) (by decide) (by decide!) (by decide!)).trans <|
  (smulGo_stepL 275 274 56356086007076393594344765572200218335850479471716696852521079116616 28178043003538196797172382786100109167925239735858348426260539558308 (Pt.aff 9574624570587677515719971143614269076207347944189882917398808244029778872170 61086133495303318115020019229551192980631762721288870745072081647479969393) (Pt.aff 12413332063544284356559232987949892206284504186291693289173714891738118134624 22482994961289613263894784222428433203225752500726861376956935534758620463819) (Pt.aff 42854986319647871714935870243473941153795915420292709728664989759094235501838 51900420892429577679564062319210952615578664393679667658503030460825791592782) (Pt.aff 12413332063544284356559232987949892206284504186291693289173714891738118134624 22482994961289613263894784222428433203225752500726861376956935534758620463819) (by decide) (by decide) (by decide) (by decide!) (by decide!)).trans <|
  (smulGo_stepL 274 273 28178043003538196797172382786100109167925239735858348426260539558308 14089021501769098398586191393050054583962619867929174213130269779154 (Pt.aff 42854986319647871714935870243473941153795915420292709728664989759094235501838 51900420892429577679564062319210952615578664393679667658503030460825791592782) (Pt.aff 12413332063544284356559232987949892206284504186291693289173714891738118134624 22482994961289613263894784222428433203225752500726861376956935534758620463819) (Pt.aff 34744218710466503632120132233063290681921367605614369799225819145368511887102 13929350152895532804579871582884737008626840552261797408659870255697745152802) (Pt.aff 12413332063544284356559232987949892206284504186291693289173714891738118134624 22482994961289613263894784222428433203225752500726861376956935534758620463819) (by decide) (by decide) (by decide) (by decide!) (by decide!)).trans <|
  (smulGo_stepL 273 272 14089021501769098398586191393050054583962619867929174213130269779154 7044510750884549199293095696525027291981309933964587106565134889577 (Pt.aff 34744218710466503632120132233063290681921367605614369799225819145368511887102 13929350152895532804579871582884737008626840552261797408659870255697745152802) (Pt.aff 12413332063544284356559232987949892206284504186291693289173714891738118134624 22482994961289613263894784222428433203225752500726861376956935534758620463819) (Pt.aff 47301690456959680532105487883364462051655952412433874941589449553308039487620 14512373956070641891089373153155220445589497610819117237332526949630531036157) (Pt.aff 12413332063544284356559232987949892206284504186291693289173714891738118134624 22482994961289613263894784222428433203225752500726861376956935534758620463819) (by decide) (by decide) (by decide) (by decide!) (by decide!)).trans <|
  (smulGo_stepL 272 271 7044510750884549199293095696525027291981309933964587106565134889577 3522255375442274599646547848262513645990654966982293553282567444788 (Pt.aff 47301690456959680532105487883364462051655952412433874941589449553308039487620 14512373956070641891089373153155220445589497610819117237332526949630531036157) (Pt.aff 12413332063544284356559232987949892206284504186291693289173714891738118134624 22482994961289613263894784222428433203225752500726861376956935534758620463819) (Pt.aff 32413625813690915262286191916236928367141666031560248985081203211036912987044 41769327591309142934229816716554923342133767366644596011743312443429644617508) (Pt.aff 35317197251140695295075938537574826198716313476401068855587431823538660506030 50288662824479994294290411275717117764450021724367180665853381302460208580513) (by decide) (by decide) (by decide) (by decide!) (by decide!)).trans <|
  (smulGo_stepL 271 270 3522255375442274599646547848262513645990654966982293553282567444788 1761127687721137299823273924131256822995327483491146776641283722394 (Pt.aff 32413625813690915262286191916236928367141666031560248985081203211036912987044 41769327591309142934229816716554923342133767366644596011743312443429644617508) (Pt.aff 35317197251140695295075938537574826198716313476401068855587431823538660506030 50288662824479994294290411275717117764450021724367180665853381302460208580513) (Pt.aff 41379293409239642869288704213036172382057721498728102386648218789786612534793 5456852910688836556005303363336473798826734177980979660665942191427531465847) (Pt.aff 35317197251140695295075938537574826198716313476401068855587431823538660506030 50288662824479994294290411275717117764450021724367180665853381302460208580513) (by decide) (by decide) (by decide) (by decide!) (by decide!)).trans <|
  (smulGo_stepL 270 269 1761127687721137299823273924131256822995327483491146776641283722394 880563843860568649911636962065628411497663741745573388320641861197 (Pt.aff 41379293409239642869288704213036172382057721498728102386648218789786612534793 5456852910688836556005303363336473798826734177980979660665942191427531465847) (Pt.aff 35317197251140695295075938537574826198716313476401068855587431823538660506030 50288662824479994294290411275717117764450021724367180665853381302460208580513) (Pt.aff 20619654899181169685335499739783805830899649285672538168518462766011616676946 22610812864492192707386873932100477435235322940962967109341952928908728757691) (Pt.aff 35317197251140695295075938537574826198716313476401068855587431823538660506030 50288662824479994294290411275717117764450021724367180665853381302460208580513) (by decide) (by decide) (by decide) (by decide!) (by decide!)).trans <|
  (smulGo_stepL 269 268 880563843860568649911636962065628411497663741745573388320641861197 440281921930284324955818481032814205748831870872786694160320930598 (Pt.aff 20619654899181169685335499739783805830899649285672538168518462766011616676946 22610812864492192707386873932100477435235322940962967109341952928908728757691) (Pt.aff 35317197251140695295075938537574826198716313476401068855587431823538660506030 50288662824479994294290411275717117764450021724367180665853381302460208580513) (Pt.aff 3012258556955631578457580005931013341495969264839989360425135032985050405936 49124357059636324485968169031819241570680675652949574057085093248979592666598) (Pt.aff 17699157945976836078910753007741835228042919519825125135524281825658945171471 2575334654603899290022852969547454708737047728292222960537737473156052414910) (by decide) (by decide) (by decide) (by decide!) (by decide!)).trans <|
  (smulGo_stepL 268 267 440281921930284324955818481032814205748831870872786694160320930598 220140960965142162477909240516407102874415935436393347080160465299 (Pt.aff 3012258556955631578457580005931013341495969264839989360425135032985050405936 49124357059636324485968169031819241570680675652949574057085093248979592666598) (Pt.aff 17699157945976836078910753007741835228042919519825125135524281825658945171471 2575334654603899290022852969547454708737047728292222960537737473156052414910) (Pt.aff 31086565973737135728559025642768592752025877129898042336019450621544269310044 56737697893295420632238187290955313864851801176232758040370053756070766685533) (Pt.aff 17699157945976836078910753007741835228042919519825125135524281825658945171471 2575334654603899290022852969547454708737047728292222960537737473156052414910) (by decide) (by decide) (by decide) (by decide!) (by decide!)).trans <|
  (smulGo_stepL 267 266 220140960965142162477909240516407102874415935436393347080160465299 110070480482571081238954620258203551437207967718196673540080232649 (Pt.aff 31086565973737135728559025642768592752025877129898042336019450621544269310044 56737697893295420632238187290955313864851801176232758040370053756070766685533) (Pt.aff 17699157945976836078910753007741835228042919519825125135524281825658945171471 2575334654603899290022852969547454708737047728292222960537737473156052414910) (Pt.aff 21840234278931228990776916980229800055033367067603940401040927646989835846530 26474716874228513952552215188820206483088821845524943389648565615407038054020) (Pt.aff 3133510695604300525424032039748692909277870628285366684853047458020781508624 43062614563743506953306281005200494602073024454880369543275895483709532317230) (by decide) (by decide) (by decide) (by decide!) (by decide!)).trans <|
  (smulGo_stepL 266 265 110070480482571081238954620258203551437207967718196673540080232649 55035240241285540619477310129101775718603983859098336770040116324 (Pt.aff 21840234278931228990776916980229800055033367067603940401040927646989835846530 26474716874228513952552215188820206483088821845524943389648565615407038054020) (Pt.aff 3133510695604300525424032039748692909277870628285366684853047458020781508624 43062614563743506953306281005200494602073024454880369543275895483709532317230) (Pt.aff 36319684321133595695520712145825588813570250041074464741405096164005222924345 2630066960001169096285681440095269334184522165375658400528107654536183794876) (Pt.aff 47555952634589931699932720356682095557341236215239332138962797386030236827293 26103350636769059570533372286493747238861125271337158232357138791861686758605) (by decide) (by decide) (by decide) (by decide!) (by decide!)).trans <|
  (smulGo_stepL 265 264 55035240241285540619477310129101775718603983859098336770040116324 27517620120642770309738655064550887859301991929549168385020058162 (Pt.aff 36319684321133595695520712145825588813570250041074464741405096164005222924345 2630066960001169096285681440095269334184522165375658400528107654536183794876) (Pt.aff 47555952634589931699932720356682095557341236215239332138962797386030236827293 26103350636769059570533372286493747238861125271337158232357138791861686758605) (Pt.aff 5553631609598778693145861309520735169378823192562005207465767352443889799044 33899636599313109563677741360821708680315399837274349340188753231212325707983) (Pt.aff 47555952634589931699932720356682095557341236215239332138962797386030236827293 26103350636769059570533372286493747238861125271337158232357138791861686758605) (by decide) (by decide) (by decide) (by decide!) (by decide!)).trans <|
  (smulGo_stepL 264 263 27517620120642770309738655064550887859301991929549168385020058162 13758810060321385154869327532275443929650995964774584192510029081 (Pt.aff 5553631609598778693145861309520735169378823192562005207465767352443889799044 33899636599313109563677741360821708680315399837274349340188753231212325707983) (Pt.aff 47555952634589931699932720356682095557341236215239332138962797386030236827293 26103350636769059570533372286493747238861125271337158232357138791861686758605) (Pt.aff 52122020112011596649974164329759728600986946418290016991424728838206641399395 49336213606188092795709315763796033133914165380606162074584854678890986729329) (Pt.aff 47555952634589931699932720356682095557341236215239332138962797386030236827293 26103350636769059570533372286493747238861125271337158232357138791861686758605) (by decide) (by decide) (by decide) (by decide!) (by decide!)).trans <|
  (smulGo_stepL 263 262 13758810060321385154869327532275443929650995964774584192510029081 6879405030160692577434663766137721964825497982387292096255014540 (Pt.aff 52122020112011596649974164329759728600986946418290016991424728838206641399395 49336213606188092795709315763796033133914165380606162074584854678890986729329) (Pt.aff 47555952634589931699932720356682095557341236215239332138962797386030236827293 26103350636769059570533372286493747238861125271337158232357138791861686758605) (Pt.aff 2960757427372074820499067142971426574828361497246775187412104181578971643024 19156549693004119089201585086672892521207894935161677027485479458508110385360) (Pt.aff 35872193626492532020233258673875762287566569290040438748331854669690086358208 21356040116052554411913792038383794199248553966753395457640880307421147276256) (by decide) (by decide) (by decide) (by decide!) (by decide!)).trans <|
  (smulGo_stepL 262 261 6879405030160692577434663766137721964825497982387292096255014540 3439702515080346288717331883068860982412748991193646048127507270 (Pt.aff 2960757427372074820499067142971426574828361497246775187412104181578971643024 19156549693004119089201585086672892521207894935161677027485479458508110385360) (Pt.aff 35872193626492532020233258673875762287566569290040438748331854669690086358208 21356040116052554411913792038383794199248553966753395457640880307421147276256) (Pt.aff 51711733302688817882221347564677719161774296818083238937313216460042677530824 48354164175766025127232627136868121750943614028443544932135746537749293621960) (Pt.aff 35872193626492532020233258673875762287566569290040438748331854669690086358208 21356040116052554411913792038383794199248553966753395457640880307421147276256) (by decide) (by decide) (by decide) (by decide!) (by decide!)).trans <|
  (smulGo_stepL 261 260 3439702515080346288717331883068860982412748991193646048127507270 1719851257540173144358665941534430491206374495596823024063753635 (Pt.aff 51711733302688817882221347564677719161774296818083238937313216460042677530824 48354164175766025127232627136868121750943614028443544932135746537749293621960) (Pt.aff 35872193626492532020233258673875762287566569290040438748331854669690086358208 21356040116052554411913792038383794199248553966753395457640880307421147276256) (Pt.aff 22357366280338694205089198490482991953559470275337559672464838956397462176677 50733085939192200044106177298574224054131780820840797844750102889182251928538) (Pt.aff 35872193626492532020233258673875762287566569290040438748331854669690086358208 21356040116052554411913792038383794199248553966753395457640880307421147276256) (by decide) (by decide) (by decide) (by decide!) (by decide!)).trans <|
  (smulGo_stepL 260 259 1719851257540173144358665941534430491206374495596823024063753635 859925628770086572179332970767215245603187247798411512031876817 (Pt.aff 22357366280338694205089198490482991953559470275337559672464838956397462176677 50733085939192200044106177298574224054131780820840797844750102889182251928538) (Pt.aff 35872193626492532020233258673875762287566569290040438748331854669690086358208 21356040116052554411913792038383794199248553966753395457640880307421147276256) (Pt.aff 47944007597318034296966575842017795430767131461902789014371942913198519598019 394640721174957261339788898098640188281846650188786934565517886890602503176) (Pt.aff 49630057226672847832943302968138330197806224350510668435715880398934767442247 33555773375922399271283482189037777979539830031769450297653141552166286805841) (by decide) (by decide) (by decide) (by decide!) (by decide!)).trans <|
  (smulGo_stepL 259 258 859925628770086572179332970767215245603187247798411512031876817 429962814385043286089666485383607622801593623899205756015938408 (Pt.aff 47944007597318034296966575842017795430767131461902789014371942913198519598019 394640721174957261339788898098640188281846650188786934565517886890602503176) (Pt.aff 49630057226672847832943302968138330197806224350510668435715880398934767442247 33555773375922399271283482189037777979539830031769450297653141552166286805841) (Pt.aff 13817892985222378120406686435123352862370566515701730478138063054548168896558 32236760785893963365206466455639815771921599506137836085450164562800542579717) (Pt.aff 48302319446048288043389968383114989574211568847949370147382362777166887595475 29900708639083820019894668310300141498878366752304440911192879193764812491806) (by decide) (by decide) (by decide) (by decide!) (by decide!)).trans <|
  (smulGo_stepL 258 257 429962814385043286089666485383607622801593623899205756015938408 214981407192521643044833242691803811400796811949602878007969204 (Pt.aff 13817892985222378120406686435123352862370566515701730478138063054548168896558 32236760785893963365206466455639815771921599506137836085450164562800542579717) (Pt.aff 48302319446048288043389968383114989574211568847949370147382362777166887595475 29900708639083820019894668310300141498878366752304440911192879193764812491806) (Pt.aff 51281465662162382354297421983005787770853701364662892780167550192643953811873 44559276459875551250127572106623892656593474048218976456074932187603169667096) (Pt.aff 48302319446048288043389968383114989574211568847949370147382362777166887595475 29900708639083820019894668310300141498878366752304440911192879193764812491806) (by decide) (by decide) (by decide) (by decide!) (by decide!)).trans <|
  (smulGo_stepL 257 256 214981407192521643044833242691803811400796811949602878007969204 107490703596260821522416621345901905700398405974801439003984602 (Pt.aff 51281465662162382354297421983005787770853701364662892780167550192643953811873 44559276459875551250127572106623892656593474048218976456074932187603169667096) (Pt.aff 48302319446048288043389968383114989574211568847949370147382362777166887595475 29900708639083820019894668310300141498878366752304440911192879193764812491806) (Pt.aff 11745477374687293966114393221391031534724832331988698562303719900421697174735 40909199581885855894308694967574562622420911310752313108013712847229809977491) (Pt.aff 48302319446048288043389968383114989574211568847949370147382362777166887595475 29900708639083820019894668310300141498878366752304440911192879193764812491806) (by decide) (by decide) (by decide) (by decide!) (by decide!)).trans <|
  (smulGo_stepL 256 255 107490703596260821522416621345901905700398405974801439003984602 53745351798130410761208310672950952850199202987400719501992301 (Pt.aff 11745477374687293966114393221391031534724832331988698562303719900421697174735 40909199581885855894308694967574562622420911310752313108013712847229809977491) (Pt.aff 48302319446048288043389968383114989574211568847949370147382362777166887595475 29900708639083820019894668310300141498878366752304440911192879193764812491806) (Pt.aff 3556343133604098013895123590552896376616479165049438465723005214579538789287 23893209115163143558178736751982838782668091494468616615437588293176783768954) (Pt.aff 48302319446048288043389968383114989574211568847949370147382362777166887595475 29900708639083820019894668310300141498878366752304440911192879193764812491806) (by decide) (by decide) (by decide) (by decide!) (by decide!)).trans <|
  (smulGo_stepL 255 254 53745351798130410761208310672950952850199202987400719501992301 26872675899065205380604155336475476425099601493700359750996150 (Pt.aff 3556343133604098013895123590552896376616479165049438465723005214579538789287 23893209115163143558178736751982838782668091494468616615437588293176783768954) (Pt.aff 48302319446048288043389968383114989574211568847949370147382362777166887595475 29900708639083820019894668310300141498878366752304440911192879193764812491806) (Pt.aff 1500964433367442872665566755298063186336340552611417222355614210745468267943 25610909261767449433886611716173434407122424608524497756230877051304551846861) (Pt.aff 20268829912623706574069857498299690555906568930614029776696383565106966337285 50530591915614181558599236440706182355846628587013169184578116200527881746362) (by decide) (by decide) (by decide) (by decide!) (by decide!)).trans <|
  (smulGo_stepL 254 253 26872675899065205380604155336475476425099601493700359750996150 13436337949532602690302077668237738212549800746850179875498075 (Pt.aff 1500964433367442872665566755298063186336340552611417222355614210745468267943 25610909261767449433886611716173434407122424608524497756230877051304551846861) (Pt.aff 20268829912623706574069857498299690555906568930614029776696383565106966337285 50530591915614181558599236440706182355846628587013169184578116200527881746362) (Pt.aff 26634241160922778201072600078181966601689681827465862826536251027780569687394 44061699927032207511268673444738622791601360319214937502276887470176050440786) (Pt.aff 20268829912623706574069857498299690555906568930614029776696383565106966337285 50530591915614181558599236440706182355846628587013169184578116200527881746362) (by decide) (by decide) (by decide) (by decide!) (by decide!)).trans <|
  (smulGo_stepL 253 252 13436337949532602690302077668237738212549800746850179875498075 6718168974766301345151038834118869106274900373425089937749037 (Pt.aff 26634241160922778201072600078181966601689681827465862826536251027780569687394 44061699927032207511268673444738622791601360319214937502276887470176050440786) (Pt.aff 20268829912623706574069857498299690555906568930614029776696383565106966337285 50530591915614181558599236440706182355846628587013169184578116200527881746362) (Pt.aff 49608484152075346433970349841276541023795324742449036691887928995116939916302 48078924253909089797701188119048931877742562180946453184469063845861556140781) (Pt.aff 16422512440600485367928661350036619612298818685199669839850401943435019926970 45930276753748125259256825944022933252187242414209205120717925226829809083001) (by decide) (by decide) (by decide) (by decide!) (by decide!)).trans <|
  (smulGo_stepL 252 251 6718168974766301345151038834118869106274900373425089937749037 3359084487383150672575519417059434553137450186712544968874518 (Pt.aff 49608484152075346433970349841276541023795324742449036691887928995116939916302 48078924253909089797701188119048931877742562180946453184469063845861556140781) (Pt.aff 16422512440600485367928661350036619612298818685199669839850401943435019926970 45930276753748125259256825944022933252187242414209205120717925226829809083001) (Pt.aff 24627470887543915455436239980508202642460496531639877874245429231767115272968 39442015171362139457918823414147548469637084879634144196435130949340614913062) (Pt.aff 50456469628049221118254799107230083585477094960372595102706248136077810743632 26878600348923847027009770828214316635228742633470297350974051175054612932941) (by decide) (by decide) (by decide) (by decide!) (by decide!)).trans <|
  (smulGo_stepL 251 250 3359084487383150672575519417059434553137450186712544968874518 1679542243691575336287759708529717276568725093356272484437259 (Pt.aff 24627470887543915455436239980508202642460496531639877874245429231767115272968 39442015171362139457918823414147548469637084879634144196435130949340614913062) (Pt.aff 50456469628049221118254799107230083585477094960372595102706248136077810743632 26878600348923847027009770828214316635228742633470297350974051175054612932941) (Pt.aff 36028237122897441891324617926313772010920225440182581888847497208087912132051 14374776358928873026633671861502812834607238705395378732000892984935554096504) (Pt.aff 50456469628049221118254799107230083585477094960372595102706248136077810743632 26878600348923847027009770828214316635228742633470297350974051175054612932941) (by decide) (by decide) (by decide) (by decide!) (by decide!)).trans <|
  (smulGo_stepL 250 249 1679542243691575336287759708529717276568725093356272484437259 839771121845787668143879854264858638284362546678136242218629 (Pt.aff 36028237122897441891324617926313772010920225440182581888847497208087912132051 14374776358928873026633671861502812834607238705395378732000892984935554096504) (Pt.aff 50456469628049221118254799107230083585477094960372595102706248136077810743632 26878600348923847027009770828214316635228742633470297350974051175054612932941) (Pt.aff 17641564544983007888417516359225437134301625964820615448400458020321388511035 14661681860908324981818047238793091947934673935887635280176075232236562141580) (Pt.aff 5912569682306615226820633843902912589414411558988942094178423138010296614883 10139666099091356221064726603422429652684605441383582546077839061110925517718) (by decide) (by decide) (by decide) (by decide!) (by decide!)).trans <|
  (smulGo_stepL 249 248 839771121845787668143879854264858638284362546678136242218629 419885560922893834071939927132429319142181273339068121109314 (Pt.aff 17641564544983007888417516359225437134301625964820615448400458020321388511035 14661681860908324981818047238793091947934673935887635280176075232236562141580) (Pt.aff 5912569682306615226820633843902912589414411558988942094178423138010296614883 10139666099091356221064726603422429652684605441383582546077839061110925517718) (Pt.aff 45837368707478601690368523293910752016811513514848904108394313324597990976914 54710479538276307290104928954884296818133838313407183553207529007900313790622) (Pt.aff 53213213628983073243546571622129507271300823886453441796645254007018230145421 13967380913939513846100766320672849186840429541424296971569187174039526164933) (by decide) (by decide) (by decide) (by decide!) (by decide!)).trans <|
  (smulGo_stepL 248 247 419885560922893834071939927132429319142181273339068121109314 209942780461446917035969963566214659571090636669534060554657 (Pt.aff 45837368707478601690368523293910752016811513514848904108394313324597990976914 54710479538276307290104928954884296818133838313407183553207529007900313790622) (Pt.aff 53213213628983073243546571622129507271300823886453441796645254007018230145421 13967380913939513846100766320672849186840429541424296971569187174039526164933) (Pt.aff 9312850218704896929090375578122629957155212562285188378140507634107363376952 2663493914604843710677424362853285028793778356225750768623210357019197630212) (Pt.aff 53213213628983073243546571622129507271300823886453441796645254007018230145421 13967380913939513846100766320672849186840429541424296971569187174039526164933) (by decide) (by decide) (by decide) (by decide!) (by decide!)).trans <|
  (smulGo_stepL 247 246 209942780461446917035969963566214659571090636669534060554657 104971390230723458517984981783107329785545318334767030277328 (Pt.aff 9312850218704896929090375578122629957155212562285188378140507634107363376952 2663493914604843710677424362853285028793778356225750768623210357019197630212) (Pt.aff 53213213628983073243546571622129507271300823886453441796645254007018230145421 13967380913939513846100766320672849186840429541424296971569187174039526164933) (Pt.aff 32216761451535245744076539051522707896289548950862317664242070577279370546584 38045896385517828976991134771247589890767719790788266165725459668238485335730) (Pt.aff 24218294270191029685329593133231862498491817213963541611688934406634171043167 2413179025492163599444913246923286498177608792741789733083747646763108889079) (by decide) (by decide) (by decide) (by decide!) (by decide!)).trans <|
  (smulGo_stepL 246 245 104971390230723458517984981783107329785545318334767030277328 52485695115361729258992490891553664892772659167383515138664 (Pt.aff 32216761451535245744076539051522707896289548950862317664242070577279370546584 38045896385517828976991134771247589890767719790788266165725459668238485335730) (Pt.aff 24218294270191029685329593133231862498491817213963541611688934406634171043167 2413179025492163599444913246923286498177608792741789733083747646763108889079) (Pt.aff 18397729389765787153700829822948123310076932707706935516043814354551494625387 41084857998051111800196981154630288916716845716608365082880066781843528842143) (Pt.aff 24218294270191029685329593133231862498491817213963541611688934406634171043167 2413179025492163599444913246923286498177608792741789733083747646763108889079) (by decide) (by decide) (by decide) (by decide!) (by decide!)).trans <|
  (smulGo_stepL 245 244 52485695115361729258992490891553664892772659167383515138664 26242847557680864629496245445776832446386329583691757569332 (Pt.aff 18397729389765787153700829822948123310076932707706935516043814354551494625387 41084857998051111800196981154630288916716845716608365082880066781843528842143) (Pt.aff 24218294270191029685329593133231862498491817213963541611688934406634171043167 2413179025492163599444913246923286498177608792741789733083747646763108889079) (Pt.aff 52913306519295223158792938797492408202723234293538209581581646641783226591517 2743922264737181947000462925974522475784785770503586741424116186324255518648) (Pt.aff 24218294270191029685329593133231862498491817213963541611688934406634171043167 2413179025492163599444913246923286498177608792741789733083747646763108889079) (by decide) (by decide) (by decide) (by decide!) (by decide!)).trans <|
  (smulGo_stepL 244 243 26242847557680864629496245445776832446386329583691757569332 13121423778840432314748122722888416223193164791845878784666 (Pt.aff 52913306519295223158792938797492408202723234293538209581581646641783226591517 2743922264737181947000462925974522475784785770503586741424116186324255518648) (Pt.aff 24218294270191029685329593133231862498491817213963541611688934406634171043167 2413179025492163599444913246923286498177608792741789733083747646763108889079) (Pt.aff 41901082592269946570890008812813236170719501169397031866593894597687153351641 44069140373556050688260184871664277584105032572624767609350401131741185712320) (Pt.aff 24218294270191029685329593133231862498491817213963541611688934406634171043167 2413179025492163599444913246923286498177608792741789733083747646763108889079) (by decide) (by decide) (by decide) (by decide!) (by decide!)).trans <|
  (smulGo_stepL 243 242 13121423778840432314748122722888416223193164791845878784666 6560711889420216157374061361444208111596582395922939392333 (Pt.aff 41901082592269946570890008812813236170719501169397031866593894597687153351641 44069140373556050688260184871664277584105032572624767609350401131741185712320) (Pt.aff 24218294270191029685329593133231862498491817213963541611688934406634171043167 2413179025492163599444913246923286498177608792741789733083747646763108889079) (Pt.aff 22877733545593778601758135743016459764893893130719496784635081976609834870324 11341546557147495445750642796457178830252316136729438353165474014017335969717) (Pt.aff 24218294270191029685329593133231862498491817213963541611688934406634171043167 2413179025492163599444913246923286498177608792741789733083747646763108889079) (by decide) (by decide) (by decide) (by decide!) (by decide!)).trans <|
  (smulGo_stepL 242 241 6560711889420216157374061361444208111596582395922939392333 3280355944710108078687030680722104055798291197961469696166 (Pt.aff 22877733545593778601758135743016459764893893130719496784635081976609834870324 11341546557147495445750642796457178830252316136729438353165474014017335969717) (Pt.aff 24218294270191029685329593133231862498491817213963541611688934406634171043167 2413179025492163599444913246923286498177608792741789733083747646763108889079) (Pt.aff 9815445433880333604142539908090055316229363695770933949107751199812760453597 18259455373979837516586044924847631833673552836160516585383524192706715457095) (Pt.aff 23040239779616113977545363737939705064245953265842055273774855304609702814152 20685363145482208925100804262713398827902445977103786779328045937058488484320) (by decide) (by decide) (by decide) (by decide!) (by decide!)).trans <|
  (smulGo_stepL 241 240 3280355944710108078687030680722104055798291197961469696166 1640177972355054039343515340361052027899145598980734848083 (Pt.aff 9815445433880333604142539908090055316229363695770933949107751199812760453597 18259455373979837516586044924847631833673552836160516585383524192706715457095) (Pt.aff 23040239779616113977545363737939705064245953265842055273774855304609702814152 20685363145482208925100804262713398827902445977103786779328045937058488484320) (Pt.aff 52106644143289927008327846258559402373628468065591252320898139047820438647664 26408446648067317468224638914582346179928733836800817554196097262435368619362) (Pt.aff 23040239779616113977545363737939705064245953265842055273774855304609702814152 20685363145482208925100804262713398827902445977103786779328045937058488484320) (by decide) (by decide) (by decide) (by decide!) (by decide!)).trans <|
  (smulGo_stepL 240 239 1640177972355054039343515340361052027899145598980734848083 820088986177527019671757670180526013949572799490367424041 (Pt.aff 52106644143289927008327846258559402373628468065591252320898139047820438647664 26408446648067317468224638914582346179928733836800817554196097262435368619362) (Pt.aff 23040239779616113977545363737939705064245953265842055273774855304609702814152 20685363145482208925100804262713398827902445977103786779328045937058488484320) (Pt.aff 47456829640210950057235962617391056987695343311082463891845160849662562426713 50130724898078113516660167745014657232894421873114895439469562448509172071791) (Pt.aff 29960147027294958981541116361415892308195039482722824956816015748441285417706 55461775764921067468288940634206871771016091209391301204015800740981490930202) (by decide) (by decide) (by decide) (by decide!) (by decide!)).trans <|
  (smulGo_stepL 239 238 820088986177527019671757670180526013949572799490367424041 410044493088763509835878835090263006974786399745183712020 (Pt.aff 47456829640210950057235962617391056987695343311082463891845160849662562426713 50130724898078113516660167745014657232894421873114895439469562448509172071791) (Pt.aff 29960147027294958981541116361415892308195039482722824956816015748441285417706 55461775764921067468288940634206871771016091209391301204015800740981490930202) (Pt.aff 35541423382519783182816861498884594017876710216401540671612323323762030452795 57051091939724944048123282267756991565962517442199587006220236809276749175767) (Pt.aff 41407713179247209240513317375669429995147060251728949725827045636357972476360 32688910461650207719722688688143902229622987577811037280690078176473134351980) (by decide) (by decide) (by decide) (by decide!) (by decide!)).trans <|
  (smulGo_stepL 238 237 410044493088763509835878835090263006974786399745183712020 205022246544381754917939417545131503487393199872591856010 (Pt.aff 35541423382519783182816861498884594017876710216401540671612323323762030452795 57051091939724944048123282267756991565962517442199587006220236809276749175767) (Pt.aff 41407713179247209240513317375669429995147060251728949725827045636357972476360 32688910461650207719722688688143902229622987577811037280690078176473134351980) (Pt.aff 19284377112810909355491870907612611027307172269575272965935692564885023285220 53247588339770461266580284413057685203356360045803699283642907267954283684548) (Pt.aff 41407713179247209240513317375669429995147060251728949725827045636357972476360 32688910461650207719722688688143902229622987577811037280690078176473134351980) (by decide) (by decide) (by decide) (by decide!) (by decide!)).trans <|
  (smulGo_stepL 237 236 205022246544381754917939417545131503487393199872591856010 102511123272190877458969708772565751743696599936295928005 (Pt.aff 19284377112810909355491870907612611027307172269575272965935692564885023285220 53247588339770461266580284413057685203356360045803699283642907267954283684548) (Pt.aff 41407713179247209240513317375669429995147060251728949725827045636357972476360 32688910461650207719722688688143902229622987577811037280690078176473134351980) (Pt.aff 3191625165755930464182909223892472310451385341188076628529538720991096113180 13724945306283250624780113352483006455160439975266987502676206329776622902003) (Pt.aff 41407713179247209240513317375669429995147060251728949725827045636357972476360 32688910461650207719722688688143902229622987577811037280690078176473134351980) (by decide) (by decide) (by decide) (by decide!) (by decide!)).trans <|
  (smulGo_stepL 236 235 102511123272190877458969708772565751743696599936295928005 51255561636095438729484854386282875871848299968147964002 (Pt.aff 3191625165755930464182909223892472310451385341188076628529538720991096113180 13724945306283250624780113352483006455160439975266987502676206329776622902003) (Pt.aff 41407713179247209240513317375669429995147060251728949725827045636357972476360 32688910461650207719722688688143902229622987577811037280690078176473134351980) (Pt.aff 3729820240842677686448073229828953124767191440983259881094457814848782635677 43557611848790553199590702015292659206867545181371475314772429777101238420811) (Pt.aff 20952357283538331906210286920773014108352946566984245735393782757502116124072 40693207254658059962880722653229848527797157699071884666547714443977902471315) (by decide) (by decide) (by decide) (by decide!) (by decide!)).trans <|
  (smulGo_stepL 235 234 51255561636095438729484854386282875871848299968147964002 25627780818047719364742427193141437935924149984073982001 (Pt.aff 3729820240842677686448073229828953124767191440983259881094457814848782635677 43557611848790553199590702015292659206867545181371475314772429777101238420811) (Pt.aff 20952357283538331906210286920773014108352946566984245735393782757502116124072 40693207254658059962880722653229848527797157699071884666547714443977902471315) (Pt.aff 32039991985984413527556396494115428442682822967109136478010853427543450593757 30038781145054477436489134740002521669637443722678039334021451183628222737714) (Pt.aff 20952357283538331906210286920773014108352946566984245735393782757502116124072 40693207254658059962880722653229848527797157699071884666547714443977902471315) (by decide) (by decide) (by decide) (by decide!) (by decide!)).trans <|
  (smulGo_stepL 234 233 25627780818047719364742427193141437935924149984073982001 12813890409023859682371213596570718967962074992036991000 (Pt.aff 32039991985984413527556396494115428442682822967109136478010853427543450593757 30038781145054477436489134740002521669637443722678039334021451183628222737714) (Pt.aff 20952357283538331906210286920773014108352946566984245735393782757502116124072 40693207254658059962880722653229848527797157699071884666547714443977902471315) (Pt.aff 38254370544255650342340011950249695379646094514219389322786385157029369107057 20053191455120188190999515743924254104305971272312622225691985564182839244173) (Pt.aff 30236312099151670202209516864827983945170908207976434064741729646860143727299 36327959772963486298477764011974666590398958519999855728105920758609622692207) (by decide) (by decide) (by decide) (by decide!) (by decide!)).trans <|
  (smulGo_stepL 233 232 12813890409023859682371213596570718967962074992036991000 6406945204511929841185606798285359483981037496018495500 (Pt.aff 38254370544255650342340011950249695379646094514219389322786385157029369107057 20053191455120188190999515743924254104305971272312622225691985564182839244173) (Pt.aff 30236312099151670202209516864827983945170908207976434064741729646860143727299 36327959772963486298477764011974666590398958519999855728105920758609622692207) (Pt.aff 31106729329146900754325557201135458704894923759851591603025641423258879490448 1800837797615777645326260008404118369612749583037032923479509831326155383294) (Pt.aff 30236312099151670202209516864827983945170908207976434064741729646860143727299 36327959772963486298477764011974666590398958519999855728105920758609622692207) (by decide) (by decide) (by decide) (by decide!) (by decide!)).trans <|
  (smulGo_stepL 232 231 6406945204511929841185606798285359483981037496018495500 3203472602255964920592803399142679741990518748009247750 (Pt.aff 31106729329146900754325557201135458704894923759851591603025641423258879490448 1800837797615777645326260008404118369612749583037032923479509831326155383294) (Pt.aff 30236312099151670202209516864827983945170908207976434064741729646860143727299 36327959772963486298477764011974666590398958519999855728105920758609622692207) (Pt.aff 49890871727870403289853978150789069737918627471276675008119798891074192532960 16195547128008517841288063645575102093025845634937665452455872400926718663000) (Pt.aff 30236312099151670202209516864827983945170908207976434064741729646860143727299 36327959772963486298477764011974666590398958519999855728105920758609622692207) (by decide) (by decide) (by decide) (by decide!) (by decide!)).trans <|
  (smulGo_stepL 231 230 3203472602255964920592803399142679741990518748009247750 1601736301127982460296401699571339870995259374004623875 (Pt.aff 49890871727870403289853978150789069737918627471276675008119798891074192532960 16195547128008517841288063645575102093025845634937665452455872400926718663000) (Pt.aff 30236312099151670202209516864827983945170908207976434064741729646860143727299 36327959772963486298477764011974666590398958519999855728105920758609622692207) (Pt.aff 40243417528168639218005556003167569644191346466549754991055803717772489775725 17964323378132070301702895514125969017794601115980253385109907377036821758299) (Pt.aff 30236312099151670202209516864827983945170908207976434064741729646860143727299 36327959772963486298477764011974666590398958519999855728105920758609622692207) (by decide) (by decide) (by decide) (by decide!) (by decide!)).trans <|
  (smulGo_stepL 230 229 1601736301127982460296401699571339870995259374004623875 800868150563991230148200849785669935497629687002311937 (Pt.aff 40243417528168639218005556003167569644191346466549754991055803717772489775725 17964323378132070301702895514125969017794601115980253385109907377036821758299) (Pt.aff 30236312099151670202209516864827983945170908207976434064741729646860143727299 36327959772963486298477764011974666590398958519999855728105920758609622692207) (Pt.aff 39406746120886970334778439258078378695084541967995439914760421144151302118217 24956316826026824205136025164831864182286482377925476795062808205889145257816) (Pt.aff 45986850492041253633008114390637230041772065380873407904908594030573991719808 56803786060559852248526271289551792665123364737767307992969969262589869423749) (by decide) (by decide) (by decide) (by decide!) (by decide!)).trans <|
  (smulGo_stepL 229 228 800868150563991230148200849785669935497629687002311937 400434075281995615074100424892834967748814843501155968 (Pt.aff 39406746120886970334778439258078378695084541967995439914760421144151302118217 24956316826026824205136025164831864182286482377925476795062808205889145257816) (Pt.aff 45986850492041253633008114390637230041772065380873407904908594030573991719808 56803786060559852248526271289551792665123364737767307992969969262589869423749) (Pt.aff 47926468857275288222692434987390251687595450147794235684835753372249519819325 19741816518757326958192970811016449358371476896346594089281930776930955215272) (Pt.aff 21727445364229488477376169847441349298919509914333367107076760978375725693983 42419031387135951104987079785006609006238209149053963232904904927728155946389) (by decide) (by decide) (by decide) (by decide!) (by decide!)).trans <|
  (smulGo_stepL 228 227 400434075281995615074100424892834967748814843501155968 200217037640997807537050212446417483874407421750577984 (Pt.aff 47926468857275288222692434987390251687595450147794235684835753372249519819325 19741816518757326958192970811016449358371476896346594089281930776930955215272) (Pt.aff 21727445364229488477376169847441349298919509914333367107076760978375725693983 42419031387135951104987079785006609006238209149053963232904904927728155946389) (Pt.aff 43191078160368099611064230334867004635616570050592338474940770158331278239082 57627518091160753262966834709103030769357087802164939686162619659759671440796) (Pt.aff 21727445364229488477376169847441349298919509914333367107076760978375725693983 42419031387135951104987079785006609006238209149053963232904904927728155946389) (by decide) (by decide) (by decide) (by decide!) (by decide!)).trans <|
  (smulGo_stepL 227 226 200217037640997807537050212446417483874407421750577984 100108518820498903768525106223208741937203710875288992 (Pt.aff 43191078160368099611064230334867004635616570050592338474940770158331278239082 57627518091160753262966834709103030769357087802164939686162619659759671440796) (Pt.aff 21727445364229488477376169847441349298919509914333367107076760978375725693983 42419031387135951104987079785006609006238209149053963232904904927728155946389) (Pt.aff 3703961806409580935655264565091254644416122670082468573667052474896073796253 49502885336164865790968764915784444866980408224936007131117624721182161920910) (Pt.aff 21727445364229488477376169847441349298919509914333367107076760978375725693983 42419031387135951104987079785006609006238209149053963232904904927728155946389) (by decide) (by decide) (by decide) (by decide!) (by decide!)).trans <|
  (smulGo_stepL 226 225 100108518820498903768525106223208741937203710875288992 50054259410249451884262553111604370968601855437644496 (Pt.aff 3703961806409580935655264565091254644416122670082468573667052474896073796253 49502885336164865790968764915784444866980408224936007131117624721182161920910) (Pt.aff 21727445364229488477376169847441349298919509914333367107076760978375725693983 42419031387135951104987079785006609006238209149053963232904904927728155946389) (Pt.aff 55957885498842206166664003888396874831174313762252874978243148371288078634603 48468111516038095563543716556283432261273701387797946813023336308123150249663) (Pt.aff 21727445364229488477376169847441349298919509914333367107076760978375725693983 42419031387135951104987079785006609006238209149053963232904904927728155946389) (by decide) (by decide) (by decide) (by decide!) (by decide!)).trans <|
  (smulGo_stepL 225 224 50054259410249451884262553111604370968601855437644496 25027129705124725942131276555802185484300927718822248 (Pt.aff 55957885498842206166664003888396874831174313762252874978243148371288078634603 48468111516038095563543716556283432261273701387797946813023336308123150249663) (Pt.aff 21727445364229488477376169847441349298919509914333367107076760978375725693983 42419031387135951104987079785006609006238209149053963232904904927728155946389) (Pt.aff 27688374004940384406285483928064513561600687677368574123881566070905559151929 31942815433991333243367624442398942615572316671658004713382494718355211173996) (Pt.aff 21727445364229488477376169847441349298919509914333367107076760978375725693983 42419031387135951104987079785006609006238209149053963232904904927728155946389) (by decide) (by decide) (by decide) (by decide!) (by decide!)).trans <|
  (smulGo_stepL 224 223 25027129705124725942131276555802185484300927718822248 12513564852562362971065638277901092742150463859411124 (Pt.aff 27688374004940384406285483928064513561600687677368574123881566070905559151929 31942815433991333243367624442398942615572316671658004713382494718355211173996) (Pt.aff 21727445364229488477376169847441349298919509914333367107076760978375725693983 42419031387135951104987079785006609006238209149053963232904904927728155946389) (Pt.aff 23649918041277243854598963157594583929421605660298452099099417519147151307138 23942802447305195607673557135695059800899481128945516150072739965193974125698) (Pt.aff 21727445364229488477376169847441349298919509914333367107076760978375725693983 42419031387135951104987079785006609006238209149053963232904904927728155946389) (by decide) (by decide) (by decide) (by decide!) (by decide!)).trans <|
  (smulGo_stepL 223 222 12513564852562362971065638277901092742150463859411124 6256782426281181485532819138950546371075231929705562 (Pt.aff 23649918041277243854598963157594583929421605660298452099099417519147151307138 23942802447305195607673557135695059800899481128945516150072739965193974125698) (Pt.aff 21727445364229488477376169847441349298919509914333367107076760978375725693983 42419031387135951104987079785006609006238209149053963232904904927728155946389) (Pt.aff 55521426766305436856252497711719660783462876984477233142654195860372171207286 41418759616652539176036164551772833697155620470314083807581091983710031984601) (Pt.aff 21727445364229488477376169847441349298919509914333367107076760978375725693983 42419031387135951104987079785006609006238209149053963232904904927728155946389) (by decide) (by decide) (by decide) (by decide!) (by decide!)).trans <|
  (smulGo_stepL 222 221 6256782426281181485532819138950546371075231929705562 3128391213140590742766409569475273185537615964852781 (Pt.aff 55521426766305436856252497711719660783462876984477233142654195860372171207286 41418759616652539176036164551772833697155620470314083807581091983710031984601) (Pt.aff 21727445364229488477376169847441349298919509914333367107076760978375725693983 42419031387135951104987079785006609006238209149053963232904904927728155946389) (Pt.aff 44632892948278288664147389324973200113416399066831227043751657528024472727818 6357146162299962355640200950864718992008326132106741700416449542544961697144) (Pt.aff 21727445364229488477376169847441349298919509914333367107076760978375725693983 42419031387135951104987079785006609006238209149053963232904904927728155946389) (by decide) (by decide) (by decide) (by decide!) (by decide!)).trans <|
  (smulGo_stepL 221 220 3128391213140590742766409569475273185537615964852781 1564195606570295371383204784737636592768807982426390 (Pt.aff 44632892948278288664147389324973200113416399066831227043751657528024472727818 6357146162299962355640200950864718992008326132106741700416449542544961697144) (Pt.aff 21727445364229488477376169847441349298919509914333367107076760978375725693983 42419031387135951104987079785006609006238209149053963232904904927728155946389) (Pt.aff 1186136024833429719243535547715630339443527529614517705052505984127944554427 5185220799979005368615861207767067450712833731846870955884897676061428567954) (Pt.aff 295601332199921599984472809383901237748646777291735256436044122593434931876 47438528393345860547125760362053604928432558103095880687310119046369028781305) (by decide) (by decide) (by decide) (by decide!) (by decide!)).trans <|
  (smulGo_stepL 220 219 1564195606570295371383204784737636592768807982426390 782097803285147685691602392368818296384403991213195 (Pt.aff 1186136024833429719243535547715630339443527529614517705052505984127944554427 5185220799979005368615861207767067450712833731846870955884897676061428567954) (Pt.aff 295601332199921599984472809383901237748646777291735256436044122593434931876 47438528393345860547125760362053604928432558103095880687310119046369028781305) (Pt.aff 686515789003883169192358826573898790539488233400909871281288280160518965615 51649738112631807614070835691611816453835666823700171747839056570463040087275) (Pt.aff 295601332199921599984472809383901237748646777291735256436044122593434931876 47438528393345860547125760362053604928432558103095880687310119046369028781305) (by decide) (by decide) (by decide) (by decide!) (by decide!)).trans <|
  (smulGo_stepL 219 218 782097803285147685691602392368818296384403991213195 391048901642573842845801196184409148192201995606597 (Pt.aff 686515789003883169192358826573898790539488233400909871281288280160518965615 51649738112631807614070835691611816453835666823700171747839056570463040087275) (Pt.aff 295601332199921599984472809383901237748646777291735256436044122593434931876 47438528393345860547125760362053604928432558103095880687310119046369028781305) (Pt.aff 43831317971141769062513682849520404344297871577683801913464180952286285012385 42250261309183845526216190225515355256618130778005597804586318949983132737362) (Pt.aff 26912026448442978539438507703401876839205387900347391438345296671690468527086 26687379597981328949469580157653824016882524088934130656605431805649908388002) (by decide) (by decide) (by decide) (by decide!) (by decide!)).trans <|
  (smulGo_stepL 218 217 391048901642573842845801196184409148192201995606597 195524450821286921422900598092204574096100997803298 (Pt.aff 43831317971141769062513682849520404344297871577683801913464180952286285012385 42250261309183845526216190225515355256618130778005597804586318949983132737362) (Pt.aff 26912026448442978539438507703401876839205387900347391438345296671690468527086 26687379597981328949469580157653824016882524088934130656605431805649908388002) (Pt.aff 11470781302868239212092371939814416009326987527460387752798846256365146477515 29834494210665081782690532186664021161798361491592937546385583844984662951916) (Pt.aff 46962108762700755122523338235510228314551812915812554406420807126851300298903 28244288748361814421561015798542469172473536816643852323063043436233347571180) (by decide) (by decide) (by decide) (by decide!) (by decide!)).trans <|
  (smulGo_stepL 217 216 195524450821286921422900598092204574096100997803298 97762225410643460711450299046102287048050498901649 (Pt.aff 11470781302868239212092371939814416009326987527460387752798846256365146477515 29834494210665081782690532186664021161798361491592937546385583844984662951916) (Pt.aff 46962108762700755122523338235510228314551812915812554406420807126851300298903 28244288748361814421561015798542469172473536816643852323063043436233347571180) (Pt.aff 3218937797977478243913253367814033689259334142847799165297808008817091367006 27181584071795435376084516571798644361609673449587860250082000333675017398858) (Pt.aff 46962108762700755122523338235510228314551812915812554406420807126851300298903 28244288748361814421561015798542469172473536816643852323063043436233347571180) (by decide) (by decide) (by decide) (by decide!) (by decide!)).trans <|
  (smulGo_stepL 216 215 97762225410643460711450299046102287048050498901649 48881112705321730355725149523051143524025249450824 (Pt.aff 3218937797977478243913253367814033689259334142847799165297808008817091367006 27181584071795435376084516571798644361609673449587860250082000333675017398858) (Pt.aff 46962108762700755122523338235510228314551812915812554406420807126851300298903 28244288748361814421561015798542469172473536816643852323063043436233347571180) (Pt.aff 15003830245445515559341661829608939559544620825134874360668250153853885982510 50782685700594866776175094861631606980208794345849261147895201393467218460284) (Pt.aff 41552040716091433294907559046383708700465779108671955907460618907005326474690 26021926162539517845151885951345544509990458451443406385935118697685885635020) (by decide) (by decide) (by decide) (by decide!) (by decide!)).trans <|
  (smulGo_stepL 215 214 48881112705321730355725149523051143524025249450824 24440556352660865177862574761525571762012624725412 (Pt.aff 15003830245445515559341661829608939559544620825134874360668250153853885982510 50782685700594866776175094861631606980208794345849261147895201393467218460284) (Pt.aff 41552040716091433294907559046383708700465779108671955907460618907005326474690 26021926162539517845151885951345544509990458451443406385935118697685885635020) (Pt.aff 17138899588191081262340907668696136068631958074857633950871463313600789915291 39234664814812399693152678421709491526858252214749072574908678770377758134598) (Pt.aff 41552040716091433294907559046383708700465779108671955907460618907005326474690 26021926162539517845151885951345544509990458451443406385935118697685885635020) (by decide) (by decide) (by decide) (by decide!) (by decide!)).trans <|
  (smulGo_stepL 214 213 24440556352660865177862574761525571762012624725412 12220278176330432588931287380762785881006312362706 (Pt.aff 17138899588191081262340907668696136068631958074857633950871463313600789915291 39234664814812399693152678421709491526858252214749072574908678770377758134598) (Pt.aff 41552040716091433294907559046383708700465779108671955907460618907005326474690 26021926162539517845151885951345544509990458451443406385935118697685885635020) (Pt.aff 18499649748165828331325855639101795854698056467635508373047481787595769191522 33063028429616839274375293776848913017318471831111600694203455363518353229702) (Pt.aff 41552040716091433294907559046383708700465779108671955907460618907005326474690 26021926162539517845151885951345544509990458451443406385935118697685885635020) (by decide) (by decide) (by decide) (by decide!) (by decide!)).trans <|
  (smulGo_stepL 213 212 12220278176330432588931287380762785881006312362706 6110139088165216294465643690381392940503156181353 (Pt.aff 18499649748165828331325855639101795854698056467635508373047481787595769191522 33063028429616839274375293776848913017318471831111600694203455363518353229702) (Pt.aff 41552040716091433294907559046383708700465779108671955907460618907005326474690 26021926162539517845151885951345544509990458451443406385935118697685885635020) (Pt.aff 53308586312217209591777485780892437967834358087724257079224510583493893440673 51169604710204115989119530824536806874873147321730608941590496235905861270354) (Pt.aff 41552040716091433294907559046383708700465779108671955907460618907005326474690 26021926162539517845151885951345544509990458451443406385935118697685885635020) (by decide) (by decide) (by decide) (by decide!) (by decide!)).trans <|
  (smulGo_stepL 212 211 6110139088165216294465643690381392940503156181353 3055069544082608147232821845190696470251578090676 (Pt.aff 53308586312217209591777485780892437967834358087724257079224510583493893440673 51169604710204115989119530824536806874873147321730608941590496235905861270354) (Pt.aff 41552040716091433294907559046383708700465779108671955907460618907005326474690 26021926162539517845151885951345544509990458451443406385935118697685885635020) (Pt.aff 13575287049939915862143012298299347480284655331551089672722888828848947678243 47423488580730974817015063833732741075182705859987698781160934185944887288350) (Pt.aff 13227782380936748706182345380299759147398855373280377196547933241898076025157 21181489554724041082800706256168143958910334503762789494919947238556583870336) (by decide) (by decide) (by decide) (by decide!) (by decide!)).trans <|
  (smulGo_stepL 211 210 3055069544082608147232821845190696470251578090676 1527534772041304073616410922595348235125789045338 (Pt.aff 13575287049939915862143012298299347480284655331551089672722888828848947678243 47423488580730974817015063833732741075182705859987698781160934185944887288350) (Pt.aff 13227782380936748706182345380299759147398855373280377196547933241898076025157 21181489554724041082800706256168143958910334503762789494919947238556583870336) (Pt.aff 30331711542033760265475128179081247358563269045887826839878817709226096134360 42583819525385004030118814422826538987970125088414458169088103912683724311773) (Pt.aff 13227782380936748706182345380299759147398855373280377196547933241898076025157 21181489554724041082800706256168143958910334503762789494919947238556583870336) (by decide) (by decide) (by decide) (by decide!) (by decide!)).trans <|
  (smulGo_stepL 210 209 1527534772041304073616410922595348235125789045338 763767386020652036808205461297674117562894522669 (Pt.aff 30331711542033760265475128179081247358563269045887826839878817709226096134360 42583819525385004030118814422826538987970125088414458169088103912683724311773) (Pt.aff 13227782380936748706182345380299759147398855373280377196547933241898076025157 21181489554724041082800706256168143958910334503762789494919947238556583870336) (Pt.aff 22492001808893871089884122207452088064255688852413998693756639850125375541879 55388290902001959921022311613636900175253187048326134397071082431463725795607) (Pt.aff 13227782380936748706182345380299759147398855373280377196547933241898076025157 21181489554724041082800706256168143958910334503762789494919947238556583870336) (by decide) (by decide) (by decide) (by decide!) (by decide!)).trans <|
  (smulGo_stepL 209 208 763767386020652036808205461297674117562894522669 381883693010326018404102730648837058781447261334 (Pt.aff 22492001808893871089884122207452088064255688852413998693756639850125375541879 55388290902001959921022311613636900175253187048326134397071082431463725795607) (Pt.aff 13227782380936748706182345380299759147398855373280377196547933241898076025157 21181489554724041082800706256168143958910334503762789494919947238556583870336) (Pt.aff 36625083203983319266251146665541880399981081658131549753568986928352329761897 26407293202005363941030744701258173251931328830313805416747293611341279444498) (Pt.aff 9363505250270740094741149396608007147522365117392299399020557497538764480475 16189750724113904635737703203360156475877716165683906121655511969524474218521) (by decide) (by decide) (by decide) (by decide!) (by decide!)).trans <|
  (smulGo_stepL 208 207 381883693010326018404102730648837058781447261334 190941846505163009202051365324418529390723630667 (Pt.aff 36625083203983319266251146665541880399981081658131549753568986928352329761897 26407293202005363941030744701258173251931328830313805416747293611341279444498) (Pt.aff 9363505250270740094741149396608007147522365117392299399020557497538764480475 16189750724113904635737703203360156475877716165683906121655511969524474218521) (Pt.aff 12460460974698928761929268352444352059293252024947510462558479041474003631646 30498917806774079102482664478608698648799779149683988240232246882140266646057) (Pt.aff 9363505250270740094741149396608007147522365117392299399020557497538764480475 16189750724113904635737703203360156475877716165683906121655511969524474218521) (by decide) (by decide) (by decide) (by decide!) (by decide!)).trans <|
  (smulGo_stepL 207 206 190941846505163009202051365324418529390723630667 95470923252581504601025682662209264695361815333 (Pt.aff 12460460974698928761929268352444352059293252024947510462558479041474003631646 30498917806774079102482664478608698648799779149683988240232246882140266646057) (Pt.aff 9363505250270740094741149396608007147522365117392299399020557497538764480475 16189750724113904635737703203360156475877716165683906121655511969524474218521) (Pt.aff 6877285142058726330285882313128317537794911168486954661382182928793274089396 8590118613741400748814171887944259564726809879722671092089684813367577727206) (Pt.aff 5666647762625215964480196087112881183383048496522120582272826206505319420522 30675949014625476194194196230026362884934350435263854233178094032318706798052) (by decide) (by decide) (by decide) (by decide!) (by decide!)).trans <|
  (smulGo_stepL 206 205 95470923252581504601025682662209264695361815333 47735461626290752300512841331104632347680907666 (Pt.aff 6877285142058726330285882313128317537794911168486954661382182928793274089396 8590118613741400748814171887944259564726809879722671092089684813367577727206) (Pt.aff 5666647762625215964480196087112881183383048496522120582272826206505319420522 30675949014625476194194196230026362884934350435263854233178094032318706798052) (Pt.aff 9974544660377860722422189983356591603299153367459656814459134901761758400194 38481702306191223074208120680388670321573403769841310808502541220619428699507) (Pt.aff 57252907956054099781009343461991080389009830872035601029269599069399658050885 18205466022416795803908749302635905522691615377386637371464980650847944872087) (by decide) (by decide) (by decide) (by decide!) (by decide!)).trans <|
  (smulGo_stepL 205 204 47735461626290752300512841331104632347680907666 23867730813145376150256420665552316173840453833 (Pt.aff 9974544660377860722422189983356591603299153367459656814459134901761758400194 38481702306191223074208120680388670321573403769841310808502541220619428699507) (Pt.aff 57252907956054099781009343461991080389009830872035601029269599069399658050885 18205466022416795803908749302635905522691615377386637371464980650847944872087) (Pt.aff 8921134114919890333100343913897299961342592642751946404469990250546458109348 12100896304138187262958988163742260587724473515283525735476428871805200664174) (Pt.aff 57252907956054099781009343461991080389009830872035601029269599069399658050885 18205466022416795803908749302635905522691615377386637371464980650847944872087) (by decide) (by decide) (by decide) (by decide!) (by decide!)).trans <|
  (smulGo_stepL 204 203 23867730813145376150256420665552316173840453833 11933865406572688075128210332776158086920226916 (Pt.aff 8921134114919890333100343913897299961342592642751946404469990250546458109348 12100896304138187262958988163742260587724473515283525735476428871805200664174) (Pt.aff 57252907956054099781009343461991080389009830872035601029269599069399658050885 18205466022416795803908749302635905522691615377386637371464980650847944872087) (Pt.aff 48460687424507438818047373050977870948024946445612732119159299734746212179417 6222043565816527360930444165355524511729393508383301715708221935186751010597) (Pt.aff 30902996797995191730775469087612970819113763666579990885591608179405766817129 33185818093203971089957852204492791196486296222845658997137821137112015830792) (by decide) (by decide) (by decide) (by decide!) (by decide!)).trans <|
  (smulGo_stepL 203 202 11933865406572688075128210332776158086920226916 5966932703286344037564105166388079043460113458 (Pt.aff 48460687424507438818047373050977870948024946445612732119159299734746212179417 6222043565816527360930444165355524511729393508383301715708221935186751010597) (Pt.aff 30902996797995191730775469087612970819113763666579990885591608179405766817129 33185818093203971089957852204492791196486296222845658997137821137112015830792) (Pt.aff 3573381666945711520207045076543769644909023500933819137545726885864772413349 50488793641268719849028768178582883024001228230744876723968317928812202366636) (Pt.aff 30902996797995191730775469087612970819113763666579990885591608179405766817129 33185818093203971089957852204492791196486296222845658997137821137112015830792) (by decide) (by decide) (by decide) (by decide!) (by decide!)).trans <|
  (smulGo_stepL 202 201 5966932703286344037564105166388079043460113458 2983466351643172018782052583194039521730056729 (Pt.aff 3573381666945711520207045076543769644909023500933819137545726885864772413349 50488793641268719849028768178582883024001228230744876723968317928812202366636) (Pt.aff 30902996797995191730775469087612970819113763666579990885591608179405766817129 33185818093203971089957852204492791196486296222845658997137821137112015830792) (Pt.aff 46217106376265440452604301586058585594610319956963358481331793366888404240650 14006216835766576357711521230690059541893843816490361963746697248082279316662) (Pt.aff 30902996797995191730775469087612970819113763666579990885591608179405766817129 33185818093203971089957852204492791196486296222845658997137821137112015830792) (by decide) (by decide) (by decide) (by decide!) (by decide!)).trans <|
  (smulGo_stepL 201 200 2983466351643172018782052583194039521730056729 1491733175821586009391026291597019760865028364 (Pt.aff 46217106376265440452604301586058585594610319956963358481331793366888404240650 14006216835766576357711521230690059541893843816490361963746697248082279316662) (Pt.aff 30902996797995191730775469087612970819113763666579990885591608179405766817129 33185818093203971089957852204492791196486296222845658997137821137112015830792) (Pt.aff 41071883973016478070003627124297618213325859879730422956826678254379142570595 26967034454076716613125467067675945182381832663094935682019797040101392119647) (Pt.aff 26838260787746609488285345171729983587383238452792655873775857528332016014054 38992597199184848801227661941613352663242214399289110389765682386447120719792) (by decide) (by decide) (by decide) (by decide!) (by decide!)).trans <|
  (smulGo_stepL 200 199 1491733175821586009391026291597019760865028364 745866587910793004695513145798509880432514182 (Pt.aff 41071883973016478070003627124297618213325859879730422956826678254379142570595 26967034454076716613125467067675945182381832663094935682019797040101392119647) (Pt.aff 26838260787746609488285345171729983587383238452792655873775857528332016014054 38992597199184848801227661941613352663242214399289110389765682386447120719792) (Pt.aff 5036684907619716240454782597619876987802258487997223544747482418412742143819 3789331794608132633389085036934067194153330454845346193451482027623700242317) (Pt.aff 26838260787746609488285345171729983587383238452792655873775857528332016014054 38992597199184848801227661941613352663242214399289110389765682386447120719792) (by decide) (by decide) (by decide) (by decide!) (by decide!)).trans <|
  (smulGo_stepL 199 198 745866587910793004695513145798509880432514182 372933293955396502347756572899254940216257091 (Pt.aff 5036684907619716240454782597619876987802258487997223544747482418412742143819 3789331794608132633389085036934067194153330454845346193451482027623700242317) (Pt.aff 26838260787746609488285345171729983587383238452792655873775857528332016014054 38992597199184848801227661941613352663242214399289110389765682386447120719792) (Pt.aff 45350450073929997688037392707806439043247401003144455815118322402943528289833 40397038669992033504364195292313700706877762453299781669426004266577439056698) (Pt.aff 26838260787746609488285345171729983587383238452792655873775857528332016014054 38992597199184848801227661941613352663242214399289110389765682386447120719792) (by decide) (by decide) (by decide) (by decide!) (by decide!)).trans <|
  (smulGo_stepL 198 197 372933293955396502347756572899254940216257091 186466646977698251173878286449627470108128545 (Pt.aff 45350450073929997688037392707806439043247401003144455815118322402943528289833 40397038669992033504364195292313700706877762453299781669426004266577439056698) (Pt.aff 26838260787746609488285345171729983587383238452792655873775857528332016014054 38992597199184848801227661941613352663242214399289110389765682386447120719792) (Pt.aff 34373322754627120836448240884917371620314097109053579691762760272308660833890 15525592690662351640420699123763626965438120273480276603431127629851194600061) (Pt.aff 53969617622197109117017500024727233285792548306895371854737912374543947997697 8707947969465079497760881292747053627980272411819392861934067406348303590073) (by decide) (by decide) (by decide) (by decide!) (by decide!)).trans <|
  (smulGo_stepL 197 196 186466646977698251173878286449627470108128545 93233323488849125586939143224813735054064272 (Pt.aff 34373322754627120836448240884917371620314097109053579691762760272308660833890 15525592690662351640420699123763626965438120273480276603431127629851194600061) (Pt.aff 53969617622197109117017500024727233285792548306895371854737912374543947997697 8707947969465079497760881292747053627980272411819392861934067406348303590073) (Pt.aff 57664247309687117028715510267929298868820058005841224597767625399395848371060 46761460976169155360972477554832090243964952739869887047439676967433208604708) (Pt.aff 48373891221248311053810258332195355180098631463340794421219799692314949872880 16369008732730625834315449807632984684537138527317747582416175910234019573827) (by decide) (by decide) (by decide) (by decide!) (by decide!)).trans <|
  (smulGo_stepL 196 195 93233323488849125586939143224813735054064272 46616661744424562793469571612406867527032136 (Pt.aff 57664247309687117028715510267929298868820058005841224597767625399395848371060 46761460976169155360972477554832090243964952739869887047439676967433208604708) (Pt.aff 48373891221248311053810258332195355180098631463340794421219799692314949872880 16369008732730625834315449807632984684537138527317747582416175910234019573827) (Pt.aff 48079128948183220334101118674776878810635626124126762690121413954349518908326 3395534291157893169014676377213800598335391793447523965830206462991826665501) (Pt.aff 48373891221248311053810258332195355180098631463340794421219799692314949872880 16369008732730625834315449807632984684537138527317747582416175910234019573827) (by decide) (by decide) (by decide) (by decide!) (by decide!)).trans <|
  (smulGo_stepL 195 194 46616661744424562793469571612406867527032136 23308330872212281396734785806203433763516068 (Pt.aff 48079128948183220334101118674776878810635626124126762690121413954349518908326 3395534291157893169014676377213800598335391793447523965830206462991826665501) (Pt.aff 48373891221248311053810258332195355180098631463340794421219799692314949872880 16369008732730625834315449807632984684537138527317747582416175910234019573827) (Pt.aff 45939421598239920448878561824136903057320392819510863508074401984972151592558 23688795564682524877045587478629931021629875100107460773714308396323913847032) (Pt.aff 48373891221248311053810258332195355180098631463340794421219799692314949872880 16369008732730625834315449807632984684537138527317747582416175910234019573827) (by decide) (by decide) (by decide) (by decide!) (by decide!)).trans <|
  (smulGo_stepL 194 193 23308330872212281396734785806203433763516068 11654165436106140698367392903101716881758034 (Pt.aff 45939421598239920448878561824136903057320392819510863508074401984972151592558 23688795564682524877045587478629931021629875100107460773714308396323913847032) (Pt.aff 48373891221248311053810258332195355180098631463340794421219799692314949872880 16369008732730625834315449807632984684537138527317747582416175910234019573827) (Pt.aff 44436363396127849201928187762513565606805605276753108397595187034879679519693 54752680424453021963516866057106812682183443827596749902295931138255247309213) (Pt.aff 48373891221248311053810258332195355180098631463340794421219799692314949872880 16369008732730625834315449807632984684537138527317747582416175910234019573827) (by decide) (by decide) (by decide) (by decide!) (by decide!)).trans <|
  (smulGo_stepL 193 192 11654165436106140698367392903101716881758034 5827082718053070349183696451550858440879017 (Pt.aff 44436363396127849201928187762513565606805605276753108397595187034879679519693 54752680424453021963516866057106812682183443827596749902295931138255247309213) (Pt.aff 48373891221248311053810258332195355180098631463340794421219799692314949872880 16369008732730625834315449807632984684537138527317747582416175910234019573827) (Pt.aff 1251703812709321596589261092883948691522519329723794892245954483218366523863 19346773683347495079555002017887038700447756123289168354002474958347134786739) (Pt.aff 48373891221248311053810258332195355180098631463340794421219799692314949872880 16369008732730625834315449807632984684537138527317747582416175910234019573827) (by decide) (by decide) (by decide) (by decide!) (by decide!)).trans <|
  (smulGo_stepL 192 191 5827082718053070349183696451550858440879017 2913541359026535174591848225775429220439508 (Pt.aff 1251703812709321596589261092883948691522519329723794892245954483218366523863 19346773683347495079555002017887038700447756123289168354002474958347134786739) (Pt.aff 48373891221248311053810258332195355180098631463340794421219799692314949872880 16369008732730625834315449807632984684537138527317747582416175910234019573827) (Pt.aff 38138617162390059882946181506827061827074225758218574230887924297982553532570 19427983417698067764028864775101743711977010977736892761180421196088785795788) (Pt.aff 27861994496049767984174872547694106061850746600312183248470914138892535128455 19813555896406523615118234633678377645767387245665101724155277712045613913320) (by decide) (by decide) (by decide) (by decide!) (by decide!)).trans <|
  (smulGo_stepL 191 190 2913541359026535174591848225775429220439508 1456770679513267587295924112887714610219754 (Pt.aff 38138617162390059882946181506827061827074225758218574230887924297982553532570 19427983417698067764028864775101743711977010977736892761180421196088785795788) (Pt.aff 27861994496049767984174872547694106061850746600312183248470914138892535128455 19813555896406523615118234633678377645767387245665101724155277712045613913320) (Pt.aff 12372012162378666871465046217670873349637084794975595777766330917285835568865 42154245364830779747355208780814877173311000534008875209716561532127055340192) (Pt.aff 27861994496049767984174872547694106061850746600312183248470914138892535128455 19813555896406523615118234633678377645767387245665101724155277712045613913320) (by decide) (by decide) (by decide) (by decide!) (by decide!)).trans <|
  (smulGo_stepL 190 189 1456770679513267587295924112887714610219754 728385339756633793647962056443857305109877 (Pt.aff 12372012162378666871465046217670873349637084794975595777766330917285835568865 42154245364830779747355208780814877173311000534008875209716561532127055340192) (Pt.aff 27861994496049767984174872547694106061850746600312183248470914138892535128455 19813555896406523615118234633678377645767387245665101724155277712045613913320) (Pt.aff 44737165559680147509653309469127497278713358626022899399487451034444193726005 41570360282188449751419556911019777376495241830327300006892479902809541160377) (Pt.aff 27861994496049767984174872547694106061850746600312183248470914138892535128455 19813555896406523615118234633678377645767387245665101724155277712045613913320) (by decide) (by decide) (by decide) (by decide!) (by decide!)).trans <|
  (smulGo_stepL 189 188 728385339756633793647962056443857305109877 364192669878316896823981028221928652554938 (Pt.aff 44737165559680147509653309469127497278713358626022899399487451034444193726005 41570360282188449751419556911019777376495241830327300006892479902809541160377) (Pt.aff 27861994496049767984174872547694106061850746600312183248470914138892535128455 19813555896406523615118234633678377645767387245665101724155277712045613913320) (Pt.aff 21145370973671664800374006060831660050912717978980513765248865991046895953269 9787438376591790158845239967348605221276735881647072314184180496105229260949) (Pt.aff 22917536310294877495339933764399372135258366621280328433534329358991664955486 48674335558521870895193779547484618223961311641462877606823459300874645405380) (by decide) (by decide) (by decide) (by decide!) (by decide!)).trans <|
  (smulGo_stepL 188 187 364192669878316896823981028221928652554938 182096334939158448411990514110964326277469 (Pt.aff 21145370973671664800374006060831660050912717978980513765248865991046895953269 9787438376591790158845239967348605221276735881647072314184180496105229260949) (Pt.aff 22917536310294877495339933764399372135258366621280328433534329358991664955486 48674335558521870895193779547484618223961311641462877606823459300874645405380) (Pt.aff 33552211084534633581246570951811089342935997023022071243930310003304075421966 9518423399837455895424760811830189740827876746241267745941406503695970239210) (Pt.aff 22917536310294877495339933764399372135258366621280328433534329358991664955486 48674335558521870895193779547484618223961311641462877606823459300874645405380) (by decide) (by decide) (by decide) (by decide!) (by decide!)).trans <|
  (smulGo_stepL 187 186 182096334939158448411990514110964326277469 91048167469579224205995257055482163138734 (Pt.aff 33552211084534633581246570951811089342935997023022071243930310003304075421966 9518423399837455895424760811830189740827876746241267745941406503695970239210) (Pt.aff 22917536310294877495339933764399372135258366621280328433534329358991664955486 48674335558521870895193779547484618223961311641462877606823459300874645405380) (Pt.aff 17938844368232423211042946412603956814419578091326783996031856012207714953952 5064421085905719710340764455569043587073585936002530302060720022299304187420) (Pt.aff 20567041096861691495269306783799441528209008239754160168995366492828456591686 33685746260596512701977068026658020033757701333468194240167274693230028303851) (by decide) (by decide) (by decide) (by decide!) (by decide!)).trans <|
  (smulGo_stepL 186 185 91048167469579224205995257055482163138734 45524083734789612102997628527741081569367 (Pt.aff 17938844368232423211042946412603956814419578091326783996031856012207714953952 5064421085905719710340764455569043587073585936002530302060720022299304187420) (Pt.aff 20567041096861691495269306783799441528209008239754160168995366492828456591686 33685746260596512701977068026658020033757701333468194240167274693230028303851) (Pt.aff 5723244060846929092438588658090508925299565749271596250905468830623696298944 35585638687492619484509237071015656708074789039609316412699337924328996154896) (Pt.aff 20567041096861691495269306783799441528209008239754160168995366492828456591686 33685746260596512701977068026658020033757701333468194240167274693230028303851) (by decide) (by decide) (by decide) (by decide!) (by decide!)).trans <|
  (smulGo_stepL 185 184 45524083734789612102997628527741081569367 22762041867394806051498814263870540784683 (Pt.aff 5723244060846929092438588658090508925299565749271596250905468830623696298944 35585638687492619484509237071015656708074789039609316412699337924328996154896) (Pt.aff 20567041096861691495269306783799441528209008239754160168995366492828456591686 33685746260596512701977068026658020033757701333468194240167274693230028303851) (Pt.aff 31552733000612679425850516275552464667120183601742279601920512947231230072257 51540580305882720355367771198595747169967134021698340320798442955200824044777) (Pt.aff 37865516090987931029001676314441840715724257716725800853216613331350203114408 50886165698009199071291798382784651424238127377361880679469999090325101194832) (by decide) (by decide) (by decide) (by decide!) (by decide!)).trans <|
  (smulGo_stepL 184 183 22762041867394806051498814263870540784683 11381020933697403025749407131935270392341 (Pt.aff 31552733000612679425850516275552464667120183601742279601920512947231230072257 51540580305882720355367771198595747169967134021698340320798442955200824044777) (Pt.aff 37865516090987931029001676314441840715724257716725800853216613331350203114408 50886165698009199071291798382784651424238127377361880679469999090325101194832) (Pt.aff 19038502329126716027660700719018831022391834539840317004726730644248685319909 36056068991827030678258277817526806049192847608844498373965731801869111886159) (Pt.aff 22726784580547490322699710701718647745168234406328261066191343227713430212007 39031555142707839101993184804718572530308600927821753452461391715699496958649) (by decide) (by decide) (by decide) (by decide!) (by decide!)).trans <|
  (smulGo_stepL 183 182 11381020933697403025749407131935270392341 5690510466848701512874703565967635196170 (Pt.aff 19038502329126716027660700719018831022391834539840317004726730644248685319909 36056068991827030678258277817526806049192847608844498373965731801869111886159) (Pt.aff 22726784580547490322699710701718647745168234406328261066191343227713430212007 39031555142707839101993184804718572530308600927821753452461391715699496958649) (Pt.aff 40506707216552381239702440872040655285139231191225145659429656328166395524625 47692353913991662614333204546127922020994276850545850003718673044945315007856) (Pt.aff 8187171270020945024944516772751070930922925000950104759695645028268194960663 43944670985919017882702033955720569912417795480880863165956061542682471893760) (by decide) (by decide) (by decide) (by decide!) (by decide!)).trans <|
  (smulGo_stepL 182 181 5690510466848701512874703565967635196170 2845255233424350756437351782983817598085 (Pt.aff 40506707216552381239702440872040655285139231191225145659429656328166395524625 47692353913991662614333204546127922020994276850545850003718673044945315007856) (Pt.aff 8187171270020945024944516772751070930922925000950104759695645028268194960663 43944670985919017882702033955720569912417795480880863165956061542682471893760) (Pt.aff 12087599349203146356572484625395395738647579772840745189675655439715623853164 34635064276366100382101548414620604887476351661460177531027924926568348092848) (Pt.aff 8187171270020945024944516772751070930922925000950104759695645028268194960663 43944670985919017882702033955720569912417795480880863165956061542682471893760) (by decide) (by decide) (by decide) (by decide!) (by decide!)).trans <|
  (smulGo_stepL 181 180 2845255233424350756437351782983817598085 1422627616712175378218675891491908799042 (Pt.aff 12087599349203146356572484625395395738647579772840745189675655439715623853164 34635064276366100382101548414620604887476351661460177531027924926568348092848) (Pt.aff 8187171270020945024944516772751070930922925000950104759695645028268194960663 43944670985919017882702033955720569912417795480880863165956061542682471893760) (Pt.aff 24948618818518804382757914659608843640758531400894467526076056223658006126863 997932449671510043040311328903908210279993179946646091837916587180094466793) (Pt.aff 38041431461426550517246167138483055174699787298217310870638480463814350030090 38525553024057687147802594944342799894528866496053470728384215952683508252814) (by decide) (by decide) (by decide) (by decide!) (by decide!)).trans <|
  (smulGo_stepL 180 179 1422627616712175378218675891491908799042 711313808356087689109337945745954399521 (Pt.aff 24948618818518804382757914659608843640758531400894467526076056223658006126863 997932449671510043040311328903908210279993179946646091837916587180094466793) (Pt.aff 38041431461426550517246167138483055174699787298217310870638480463814350030090 38525553024057687147802594944342799894528866496053470728384215952683508252814) (Pt.aff 35822797764477975406264043115128999431636215179100480798813491039041472023915 7942024896399607986912603913984195497297495865567071651363128790997037930868) (Pt.aff 38041431461426550517246167138483055174699787298217310870638480463814350030090 38525553024057687147802594944342799894528866496053470728384215952683508252814) (by decide) (by decide) (by decide) (by decide!) (by decide!)).trans <|
  (smulGo_stepL 179 178 711313808356087689109337945745954399521 355656904178043844554668972872977199760 (Pt.aff 35822797764477975406264043115128999431636215179100480798813491039041472023915 7942024896399607986912603913984195497297495865567071651363128790997037930868) (Pt.aff 38041431461426550517246167138483055174699787298217310870638480463814350030090 38525553024057687147802594944342799894528866496053470728384215952683508252814) (Pt.aff 20055331825639371036446307540400927025669088203960567326384659492906040108430 47815088259924068857589170206680454268431632141497598170631122852042956133974) (Pt.aff 44491131267634210737662617011013225996876988576779204097502992379450727470597 30583709768158545294212597174297644109397769443175851935333027797854537181985) (by decide) (by decide) (by decide) (by decide!) (by decide!)).trans <|
  (smulGo_stepL 178 177 355656904178043844554668972872977199760 177828452089021922277334486436488599880 (Pt.aff 20055331825639371036446307540400927025669088203960567326384659492906040108430 47815088259924068857589170206680454268431632141497598170631122852042956133974) (Pt.aff 44491131267634210737662617011013225996876988576779204097502992379450727470597 30583709768158545294212597174297644109397769443175851935333027797854537181985) (Pt.aff 33069134491086384770506263991203268665734429977131166112518312862690198885379 5659530317591299983558780094747699065458898285311260247586149810295316138392) (Pt.aff 44491131267634210737662617011013225996876988576779204097502992379450727470597 30583709768158545294212597174297644109397769443175851935333027797854537181985) (by decide) (by decide) (by decide) (by decide!) (by decide!)).trans <|
  (smulGo_stepL 177 176 177828452089021922277334486436488599880 88914226044510961138667243218244299940 (Pt.aff 33069134491086384770506263991203268665734429977131166112518312862690198885379 5659530317591299983558780094747699065458898285311260247586149810295316138392) (Pt.aff 44491131267634210737662617011013225996876988576779204097502992379450727470597 30583709768158545294212597174297644109397769443175851935333027797854537181985) (Pt.aff 27531652014572057645232961377123193785832368043174710725498359746723495763923 40418974005295231430931841441421035700164063529175036800447823950901171286285) (Pt.aff 44491131267634210737662617011013225996876988576779204097502992379450727470597 30583709768158545294212597174297644109397769443175851935333027797854537181985) (by decide) (by decide) (by decide) (by decide!) (by decide!)).trans <|
  (smulGo_stepL 176 175 88914226044510961138667243218244299940 44457113022255480569333621609122149970 (Pt.aff 27531652014572057645232961377123193785832368043174710725498359746723495763923 40418974005295231430931841441421035700164063529175036800447823950901171286285) (Pt.aff 44491131267634210737662617011013225996876988576779204097502992379450727470597 30583709768158545294212597174297644109397769443175851935333027797854537181985) (Pt.aff 42672327669468302085153675987180084891609630042130536239884511454730014518248 56585854536230913813313518611210212500145952493237151479700667324247856282554) (Pt.aff 44491131267634210737662617011013225996876988576779204097502992379450727470597 30583709768158545294212597174297644109397769443175851935333027797854537181985) (by decide) (by decide) (by decide) (by decide!) (by decide!)).trans <|
  (smulGo_stepL 175 174 44457113022255480569333621609122149970 22228556511127740284666810804561074985 (Pt.aff 42672327669468302085153675987180084891609630042130536239884511454730014518248 56585854536230913813313518611210212500145952493237151479700667324247856282554) (Pt.aff 44491131267634210737662617011013225996876988576779204097502992379450727470597 30583709768158545294212597174297644109397769443175851935333027797854537181985) (Pt.aff 39626096279607034041910242045575710184594099550003943289602611930535959845219 3206974981033439249146447640780802202371627087258701204664291441529485277246) (Pt.aff 44491131267634210737662617011013225996876988576779204097502992379450727470597 30583709768158545294212597174297644109397769443175851935333027797854537181985) (by decide) (by decide) (by decide) (by decide!) (by decide!)).trans <|
  (smulGo_stepL 174 173 22228556511127740284666810804561074985 11114278255563870142333405402280537492 (Pt.aff 39626096279607034041910242045575710184594099550003943289602611930535959845219 3206974981033439249146447640780802202371627087258701204664291441529485277246) (Pt.aff 44491131267634210737662617011013225996876988576779204097502992379450727470597 30583709768158545294212597174297644109397769443175851935333027797854537181985) (Pt.aff 40895148854680960383286752618229085439649933193429435047275409974555281844256 51123433859880273600567591893494774534557905844421384079248047756493229023894) (Pt.aff 47411700454515157977491390975992265615975486919334203263216729605062729556640 20967900397828137168085378782206975644619054002593171349514308163955314172018) (by decide) (by decide) (by decide) (by decide!) (by decide!)).trans <|
  (smulGo_stepL 173 172 11114278255563870142333405402280537492 5557139127781935071166702701140268746 (Pt.aff 40895148854680960383286752618229085439649933193429435047275409974555281844256 51123433859880273600567591893494774534557905844421384079248047756493229023894) (Pt.aff 47411700454515157977491390975992265615975486919334203263216729605062729556640 20967900397828137168085378782206975644619054002593171349514308163955314172018) (Pt.aff 51106253774389618415956616375025100369306682409741318809555035054755131044651 19096191529214578339310607586494939516205198020637386689918208065018328909940) (Pt.aff 47411700454515157977491390975992265615975486919334203263216729605062729556640 20967900397828137168085378782206975644619054002593171349514308163955314172018) (by decide) (by decide) (by decide) (by decide!) (by decide!)).trans <|
  (smulGo_stepL 172 171 5557139127781935071166702701140268746 2778569563890967535583351350570134373 (Pt.aff 51106253774389618415956616375025100369306682409741318809555035054755131044651 19096191529214578339310607586494939516205198020637386689918208065018328909940) (Pt.aff 47411700454515157977491390975992265615975486919334203263216729605062729556640 20967900397828137168085378782206975644619054002593171349514308163955314172018) (Pt.aff 37249325454072554820905558493123970357913396884786027148704846589908972600585 54451406554808006259291003815936370756423842836501522620219171087745927642403) (Pt.aff 47411700454515157977491390975992265615975486919334203263216729605062729556640 20967900397828137168085378782206975644619054002593171349514308163955314172018) (by decide) (by decide) (by decide) (by decide!) (by decide!)).trans <|
  (smulGo_stepL 171 170 2778569563890967535583351350570134373 1389284781945483767791675675285067186 (Pt.aff 37249325454072554820905558493123970357913396884786027148704846589908972600585 54451406554808006259291003815936370756423842836501522620219171087745927642403) (Pt.aff 47411700454515157977491390975992265615975486919334203263216729605062729556640 20967900397828137168085378782206975644619054002593171349514308163955314172018) (Pt.aff 47343128284067437111992381711171348120561726445982839072110333685034979379789 47926433211008044516643533643638320669522900521641124382385305598229083317419) (Pt.aff 1615596400582654674699263764144848543122575305035766258586766639618933907354 52692377717049957816939422673165795473876556020913268805736115212972420954108) (by decide) (by decide) (by decide) (by decide!) (by decide!)).trans <|
  (smulGo_stepL 170 169 1389284781945483767791675675285067186 694642390972741883895837837642533593 (Pt.aff 47343128284067437111992381711171348120561726445982839072110333685034979379789 47926433211008044516643533643638320669522900521641124382385305598229083317419) (Pt.aff 1615596400582654674699263764144848543122575305035766258586766639618933907354 52692377717049957816939422673165795473876556020913268805736115212972420954108) (Pt.aff 26975038273498187835569652149818531610965387451687868664900370382344079744150 40805189622115460190137243927894128480509010259539566539350321647440782575815) (Pt.aff 1615596400582654674699263764144848543122575305035766258586766639618933907354 52692377717049957816939422673165795473876556020913268805736115212972420954108) (by decide) (by decide) (by decide) (by decide!) (by decide!)).trans <|
  (smulGo_stepL 169 168 694642390972741883895837837642533593 347321195486370941947918918821266796 (Pt.aff 26975038273498187835569652149818531610965387451687868664900370382344079744150 40805189622115460190137243927894128480509010259539566539350321647440782575815) (Pt.aff 1615596400582654674699263764144848543122575305035766258586766639618933907354 52692377717049957816939422673165795473876556020913268805736115212972420954108) (Pt.aff 19750528111864391779701758219164583791146352179995986504636460157648802552460 12124638869446122253987739696991735175378583958372661170589060908047983255979) (Pt.aff 54265963728514462183152341235763649608308242649281061598851239304868243297247 28163640654967612642329092466430381898790751567938904572935848459163212116572) (by decide) (by decide) (by decide) (by decide!) (by decide!)).trans <|
  (smulGo_stepL 168 167 347321195486370941947918918821266796 173660597743185470973959459410633398 (Pt.aff 19750528111864391779701758219164583791146352179995986504636460157648802552460 12124638869446122253987739696991735175378583958372661170589060908047983255979) (Pt.aff 54265963728514462183152341235763649608308242649281061598851239304868243297247 28163640654967612642329092466430381898790751567938904572935848459163212116572) (Pt.aff 34884762300316629162940267867034531074200649939251591359889958888410484400460 51845853560455327320603380311294689118922208377549125666633357797517424430) (Pt.aff 54265963728514462183152341235763649608308242649281061598851239304868243297247 28163640654967612642329092466430381898790751567938904572935848459163212116572) (by decide) (by decide) (by decide) (by decide!) (by decide!)).trans <|
  (smulGo_stepL 167 166 173660597743185470973959459410633398 86830298871592735486979729705316699 (Pt.aff 34884762300316629162940267867034531074200649939251591359889958888410484400460 51845853560455327320603380311294689118922208377549125666633357797517424430) (Pt.aff 54265963728514462183152341235763649608308242649281061598851239304868243297247 28163640654967612642329092466430381898790751567938904572935848459163212116572) (Pt.aff 24961150231451894253445733659943821564068246459702806322918570398217553839105 47186404297984983646703078031780700304108500652584309171242339128277156617819) (Pt.aff 54265963728514462183152341235763649608308242649281061598851239304868243297247 28163640654967612642329092466430381898790751567938904572935848459163212116572) (by decide) (by decide) (by decide) (by decide!) (by decide!)).trans <|
  (smulGo_stepL 166 165 86830298871592735486979729705316699 43415149435796367743489864852658349 (Pt.aff 24961150231451894253445733659943821564068246459702806322918570398217553839105 47186404297984983646703078031780700304108500652584309171242339128277156617819) (Pt.aff 54265963728514462183152341235763649608308242649281061598851239304868243297247 28163640654967612642329092466430381898790751567938904572935848459163212116572) (Pt.aff 57634273488998545910191003323955225589129079631753081181454946623039699130184 11372281771016344666744087798720149988711436979803117833874384668718784111318) (Pt.aff 4116122994042333300357742583488433249912259906180857058491953091881386776221 23802212466857624768591764344986354348446766530298191242791687953065610710836) (by decide) (by decide) (by decide) (by decide!) (by decide!)).trans <|
  (smulGo_stepL 165 164 43415149435796367743489864852658349 21707574717898183871744932426329174 (Pt.aff 57634273488998545910191003323955225589129079631753081181454946623039699130184 11372281771016344666744087798720149988711436979803117833874384668718784111318) (Pt.aff 4116122994042333300357742583488433249912259906180857058491953091881386776221 23802212466857624768591764344986354348446766530298191242791687953065610710836) (Pt.aff 24517091094122205067521312039901611149070171627177862651107085342356266508863 21809667071050572940063360495069172585037009251833647398781805434136075462411) (Pt.aff 52595005987561683359088478536853863867543170926421159896538956453307546705363 46541560187501235474399373164481779673611855815028297038336846120831071659466) (by decide) (by decide) (by decide) (by decide!) (by decide!)).trans <|
  (smulGo_stepL 164 163 21707574717898183871744932426329174 10853787358949091935872466213164587 (Pt.aff 24517091094122205067521312039901611149070171627177862651107085342356266508863 21809667071050572940063360495069172585037009251833647398781805434136075462411) (Pt.aff 52595005987561683359088478536853863867543170926421159896538956453307546705363 46541560187501235474399373164481779673611855815028297038336846120831071659466) (Pt.aff 51278713614069143649335848838305255325021813596727614319990818962570588009287 28474827252662811639945765752871938550681495468581930657793074798171377156876) (Pt.aff 52595005987561683359088478536853863867543170926421159896538956453307546705363 46541560187501235474399373164481779673611855815028297038336846120831071659466) (by decide) (by decide) (by decide) (by decide!) (by decide!)).trans <|
  (smulGo_stepL 163 162 10853787358949091935872466213164587 5426893679474545967936233106582293 (Pt.aff 51278713614069143649335848838305255325021813596727614319990818962570588009287 28474827252662811639945765752871938550681495468581930657793074798171377156876) (Pt.aff 52595005987561683359088478536853863867543170926421159896538956453307546705363 46541560187501235474399373164481779673611855815028297038336846120831071659466) (Pt.aff 25912911592999005761218805611090716495203983933093946475659693037761423229959 31748776944337231482203280743999334701983424920729814131296910238388881348275) (Pt.aff 27379739669513659771769261539738036525691310566771455629888101030144972905790 36990742023348594878561885946599398592209418253755374357766919172213473317963) (by decide) (by decide) (by decide) (by decide!) (by decide!)).trans <|
  (smulGo_stepL 162 161 5426893679474545967936233106582293 2713446839737272983968116553291146 (Pt.aff 25912911592999005761218805611090716495203983933093946475659693037761423229959 31748776944337231482203280743999334701983424920729814131296910238388881348275) (Pt.aff 27379739669513659771769261539738036525691310566771455629888101030144972905790 36990742023348594878561885946599398592209418253755374357766919172213473317963) (Pt.aff 15421008745080731355728858844673991288988676575237372452246458865704176375061 27438832338363545155659953756454337956083452571194210280789863294222866978265) (Pt.aff 9460855838158597301894461210087136594550107914743252349552831394725334085928 44055178679548680633720038685661298713709033160639836452151189805649943656823) (by decide) (by decide) (by decide) (by decide!) (by decide!)).trans <|
  (smulGo_stepL 161 160 2713446839737272983968116553291146 1356723419868636491984058276645573 (Pt.aff 15421008745080731355728858844673991288988676575237372452246458865704176375061 27438832338363545155659953756454337956083452571194210280789863294222866978265) (Pt.aff 9460855838158597301894461210087136594550107914743252349552831394725334085928 44055178679548680633720038685661298713709033160639836452151189805649943656823) (Pt.aff 39226106534217107385059910319420225548266924003524636600608899604865441436196 27723335598701804018316085362439829726402504829328399221224342160346510714084) (Pt.aff 9460855838158597301894461210087136594550107914743252349552831394725334085928 44055178679548680633720038685661298713709033160639836452151189805649943656823) (by decide) (by decide) (by decide) (by decide!) (by decide!)).trans <|
  (smulGo_stepL 160 159 1356723419868636491984058276645573 678361709934318245992029138322786 (Pt.aff 39226106534217107385059910319420225548266924003524636600608899604865441436196 27723335598701804018316085362439829726402504829328399221224342160346510714084) (Pt.aff 9460855838158597301894461210087136594550107914743252349552831394725334085928 44055178679548680633720038685661298713709033160639836452151189805649943656823) (Pt.aff 41772880267831537096943496505525081766328953111881113812554004886225427693060 598864040325758241237685812818323508556254848459962698064036702984387508157) (Pt.aff 19940449546869542430764159797941586885394189275387665835008441507262289870472 56048011982110960193690543392203187525955471652292445558054491795932941272483) (by decide) (by decide) (by decide) (by decide!) (by decide!)).trans <|
  (smulGo_stepL 159 158 678361709934318245992029138322786 339180854967159122996014569161393 (Pt.aff 41772880267831537096943496505525081766328953111881113812554004886225427693060 598864040325758241237685812818323508556254848459962698064036702984387508157) (Pt.aff 19940449546869542430764159797941586885394189275387665835008441507262289870472 56048011982110960193690543392203187525955471652292445558054491795932941272483) (Pt.aff 33364659280189689214517671189670736537930647796308827699608414591496592405219 14634819748603455339108338897436733271653712392070570204368786453772757431785) (Pt.aff 19940449546869542430764159797941586885394189275387665835008441507262289870472 56048011982110960193690543392203187525955471652292445558054491795932941272483) (by decide) (by decide) (by decide) (by decide!) (by decide!)).trans <|
  (smulGo_stepL 158 157 339180854967159122996014569161393 169590427483579561498007284580696 (Pt.aff 33364659280189689214517671189670736537930647796308827699608414591496592405219 14634819748603455339108338897436733271653712392070570204368786453772757431785) (Pt.aff 19940449546869542430764159797941586885394189275387665835008441507262289870472 56048011982110960193690543392203187525955471652292445558054491795932941272483) (Pt.aff 48430655108391856938625718600538473958034223366523607483713089563345123900113 52130398500992333389587715845449433336022247357609569801666525113342848152191) (Pt.aff 47171719663824848065829649207865739537848029588854141580868987724824020051048 12441836577430644759707683132974539411445274735899449456128773778749023489973) (by decide) (by decide) (by decide) (by decide!) (by decide!)).trans <|
  (smulGo_stepL 157 156 169590427483579561498007284580696 84795213741789780749003642290348 (Pt.aff 48430655108391856938625718600538473958034223366523607483713089563345123900113 52130398500992333389587715845449433336022247357609569801666525113342848152191) (Pt.aff 47171719663824848065829649207865739537848029588854141580868987724824020051048 12441836577430644759707683132974539411445274735899449456128773778749023489973) (Pt.aff 9122349653463993535126960803741624737289936014194571807712717391360441677759 39998703038092392253333606712273074513179182259721141614370761659686613275376) (Pt.aff 47171719663824848065829649207865739537848029588854141580868987724824020051048 12441836577430644759707683132974539411445274735899449456128773778749023489973) (by decide) (by decide) (by decide) (by decide!) (by decide!)).trans <|
  (smulGo_stepL 156 155 84795213741789780749003642290348 42397606870894890374501821145174 (Pt.aff 9122349653463993535126960803741624737289936014194571807712717391360441677759 39998703038092392253333606712273074513179182259721141614370761659686613275376) (Pt.aff 47171719663824848065829649207865739537848029588854141580868987724824020051048 12441836577430644759707683132974539411445274735899449456128773778749023489973) (Pt.aff 41528326362025496197059353846502210168389221709168488368141391596959198585800 46433757814062078691764480863395569061038470283572774769549017202929155404018) (Pt.aff 47171719663824848065829649207865739537848029588854141580868987724824020051048 12441836577430644759707683132974539411445274735899449456128773778749023489973) (by decide) (by decide) (by decide) (by decide!) (by decide!)).trans <|
  (smulGo_stepL 155 154 42397606870894890374501821145174 21198803435447445187250910572587 (Pt.aff 41528326362025496197059353846502210168389221709168488368141391596959198585800 46433757814062078691764480863395569061038470283572774769549017202929155404018) (Pt.aff 47171719663824848065829649207865739537848029588854141580868987724824020051048 12441836577430644759707683132974539411445274735899449456128773778749023489973) (Pt.aff 9393117927659476229684703455801643277591077459452097462493917962733059041838 10721171573695292674830142356545014902336336816408855645997175357841702483781) (Pt.aff 47171719663824848065829649207865739537848029588854141580868987724824020051048 12441836577430644759707683132974539411445274735899449456128773778749023489973) (by decide) (by decide) (by decide) (by decide!) (by decide!)).trans <|
  (smulGo_stepL 154 153 21198803435447445187250910572587 10599401717723722593625455286293 (Pt.aff 9393117927659476229684703455801643277591077459452097462493917962733059041838 10721171573695292674830142356545014902336336816408855645997175357841702483781) (Pt.aff 47171719663824848065829649207865739537848029588854141580868987724824020051048 12441836577430644759707683132974539411445274735899449456128773778749023489973) (Pt.aff 35657432084947952360989559282354771096986890165666542581132807166580910703934 41319760588260404176311464178546836900821969678092339494486021992256654155776) (Pt.aff 26270047964541727217522365281296864194714629604904943229991126655094529818421 40802382124076313825634485875313204853876025947417224962783869267886597524297) (by decide) (by decide) (by decide) (by decide!) (by decide!)).trans <|
  (smulGo_stepL 153 152 10599401717723722593625455286293 5299700858861861296812727643146 (Pt.aff 35657432084947952360989559282354771096986890165666542581132807166580910703934 41319760588260404176311464178546836900821969678092339494486021992256654155776) (Pt.aff 26270047964541727217522365281296864194714629604904943229991126655094529818421 40802382124076313825634485875313204853876025947417224962783869267886597524297) (Pt.aff 19861284629611120660868129542217982407358049865019699712041978611867487270682 44942103327311971005667925155046452398470505883144616628546454957149190404335) (Pt.aff 50649705115564566112567279737193820332714506049019739500356182708417077675178 36320450651176531110869144295677519833975202629375907062673123298537770520223) (by decide) (by decide) (by decide) (by decide!) (by decide!)).trans <|
  (smulGo_stepL 152 151 5299700858861861296812727643146 2649850429430930648406363821573 (Pt.aff 19861284629611120660868129542217982407358049865019699712041978611867487270682 44942103327311971005667925155046452398470505883144616628546454957149190404335) (Pt.aff 50649705115564566112567279737193820332714506049019739500356182708417077675178 36320450651176531110869144295677519833975202629375907062673123298537770520223) (Pt.aff 24759915601072095121820555768672037076053005973891682972978173405813861379995 53631740437088658464648671869189515305008406226929539036614789861259716394882) (Pt.aff 50649705115564566112567279737193820332714506049019739500356182708417077675178 36320450651176531110869144295677519833975202629375907062673123298537770520223) (by decide) (by decide) (by decide) (by decide!) (by decide!)).trans <|
  (smulGo_stepL 151 150 2649850429430930648406363821573 1324925214715465324203181910786 (Pt.aff 24759915601072095121820555768672037076053005973891682972978173405813861379995 53631740437088658464648671869189515305008406226929539036614789861259716394882) (Pt.aff 50649705115564566112567279737193820332714506049019739500356182708417077675178 36320450651176531110869144295677519833975202629375907062673123298537770520223) (Pt.aff 28396142433451826294954644829014630923599114698436665471955499882851147248732 5326554295552296210615436618851550637687492920606655547029826592019118867610) (Pt.aff 23745706351922154862465590237060850943510382242925857940071228893143590339569 44504724354643569849303002658602762988173419779160492241296560362503487314590) (by decide) (by decide) (by decide) (by decide!) (by decide!)).trans <|
  (smulGo_stepL 150 149 1324925214715465324203181910786 662462607357732662101590955393 (Pt.aff 28396142433451826294954644829014630923599114698436665471955499882851147248732 5326554295552296210615436618851550637687492920606655547029826592019118867610) (Pt.aff 23745706351922154862465590237060850943510382242925857940071228893143590339569 44504724354643569849303002658602762988173419779160492241296560362503487314590) (Pt.aff 45460734848347431752658135941410377932487430307206727634296559598651717676659 43033357772843981794367771599733143580754543056237796882300249780454336991877) (Pt.aff 23745706351922154862465590237060850943510382242925857940071228893143590339569 44504724354643569849303002658602762988173419779160492241296560362503487314590) (by decide) (by decide) (by decide) (by decide!) (by decide!)).trans <|
  (smulGo_stepL 149 148 662462607357732662101590955393 331231303678866331050795477696 (Pt.aff 45460734848347431752658135941410377932487430307206727634296559598651717676659 43033357772843981794367771599733143580754543056237796882300249780454336991877) (Pt.aff 23745706351922154862465590237060850943510382242925857940071228893143590339569 44504724354643569849303002658602762988173419779160492241296560362503487314590) (Pt.aff 54910465250427854834700328938613784384695415080976672326124468928164753777972 24424108581798261392417175494018970223228467898911373987442012143802925545835) (Pt.aff 12476984127057627812471278013301112737462089083595941522967692774373585944815 14714346143811967736468113054190058017449247112724150018601441009409401925621) (by decide) (by decide) (by decide) (by decide!) (by decide!)).trans <|
  (smulGo_stepL 148 147 331231303678866331050795477696 165615651839433165525397738848 (Pt.aff 54910465250427854834700328938613784384695415080976672326124468928164753777972 24424108581798261392417175494018970223228467898911373987442012143802925545835) (Pt.aff 12476984127057627812471278013301112737462089083595941522967692774373585944815 14714346143811967736468113054190058017449247112724150018601441009409401925621) (Pt.aff 46057421719162200467903848867938719465721573639090650329505018328592617484695 8431783327734802623215380001015872374107041743019580950157619148289260765967) (Pt.aff 12476984127057627812471278013301112737462089083595941522967692774373585944815 14714346143811967736468113054190058017449247112724150018601441009409401925621) (by decide) (by decide) (by decide) (by decide!) (by decide!)).trans <|
  (smulGo_stepL 147 146 165615651839433165525397738848 82807825919716582762698869424 (Pt.aff 46057421719162200467903848867938719465721573639090650329505018328592617484695 8431783327734802623215380001015872374107041743019580950157619148289260765967) (Pt.aff 12476984127057627812471278013301112737462089083595941522967692774373585944815 14714346143811967736468113054190058017449247112724150018601441009409401925621) (Pt.aff 43979562853676656806755242055861577306341014755832166826751630691129329342279 34690753430310264542328463187450296371108811597100990530323041857772948256409) (Pt.aff 12476984127057627812471278013301112737462089083595941522967692774373585944815 14714346143811967736468113054190058017449247112724150018601441009409401925621) (by decide) (by decide) (by decide) (by decide!) (by decide!)).trans <|
  (smulGo_stepL 146 145 82807825919716582762698869424 41403912959858291381349434712 (Pt.aff 43979562853676656806755242055861577306341014755832166826751630691129329342279 34690753430310264542328463187450296371108811597100990530323041857772948256409) (Pt.aff 12476984127057627812471278013301112737462089083595941522967692774373585944815 14714346143811967736468113054190058017449247112724150018601441009409401925621) (Pt.aff 1539967568000531359733649311851541695430757342874991320552872559312323810973 14818275811414001518017756987606824360546512945484493770911249751240677876887) (Pt.aff 12476984127057627812471278013301112737462089083595941522967692774373585944815 14714346143811967736468113054190058017449247112724150018601441009409401925621) (by decide) (by decide) (by decide) (by decide!) (by decide!)).trans <|
  (smulGo_stepL 145 144 41403912959858291381349434712 20701956479929145690674717356 (Pt.aff 1539967568000531359733649311851541695430757342874991320552872559312323810973 14818275811414001518017756987606824360546512945484493770911249751240677876887) (Pt.aff 12476984127057627812471278013301112737462089083595941522967692774373585944815 14714346143811967736468113054190058017449247112724150018601441009409401925621) (Pt.aff 53243557870778711699741334250001434820129547103108846561284002868017503956128 55547744588329508588379989948584304410660020200802663432092234900604155072261) (Pt.aff 12476984127057627812471278013301112737462089083595941522967692774373585944815 14714346143811967736468113054190058017449247112724150018601441009409401925621) (by decide) (by decide) (by decide) (by decide!) (by decide!)).trans <|
  (smulGo_stepL 144 143 20701956479929145690674717356 10350978239964572845337358678 (Pt.aff 53243557870778711699741334250001434820129547103108846561284002868017503956128 55547744588329508588379989948584304410660020200802663432092234900604155072261) (Pt.aff 12476984127057627812471278013301112737462089083595941522967692774373585944815 14714346143811967736468113054190058017449247112724150018601441009409401925621) (Pt.aff 3222032275229861329381079977929060908021771626867059108917881117718127660076 17273707422963374614469221997742630352915923055297063939113124095904261402297) (Pt.aff 12476984127057627812471278013301112737462089083595941522967692774373585944815 14714346143811967736468113054190058017449247112724150018601441009409401925621) (by decide) (by decide) (by decide) (by decide!) (by decide!)).trans <|
  (smulGo_stepL 143 142 10350978239964572845337358678 5175489119982286422668679339 (Pt.aff 3222032275229861329381079977929060908021771626867059108917881117718127660076 17273707422963374614469221997742630352915923055297063939113124095904261402297) (Pt.aff 12476984127057627812471278013301112737462089083595941522967692774373585944815 14714346143811967736468113054190058017449247112724150018601441009409401925621) (Pt.aff 48812029557641735332882487767268558429165739096215331646199424424661520489718 2377421210696161580753964436935827022988553019417380351851384851549570480151) (Pt.aff 12476984127057627812471278013301112737462089083595941522967692774373585944815 14714346143811967736468113054190058017449247112724150018601441009409401925621) (by decide) (by decide) (by decide) (by decide!) (by decide!)).trans <|
  (smulGo_stepL 142 141 5175489119982286422668679339 2587744559991143211334339669 (Pt.aff 48812029557641735332882487767268558429165739096215331646199424424661520489718 2377421210696161580753964436935827022988553019417380351851384851549570480151) (Pt.aff 12476984127057627812471278013301112737462089083595941522967692774373585944815 14714346143811967736468113054190058017449247112724150018601441009409401925621) (Pt.aff 50762328630258624799405502795055798982700488416718304941754078676284383312113 37237719480703426113226504698767392496415361413367431031386470749115712656455) (Pt.aff 43028207042602526607266092083841516638555566062556266879418859568904402918391 1522419769112860128993117019833659285887046658192613147016305079184398489891) (by decide) (by decide) (by decide) (by decide!) (by decide!)).trans <|
  (smulGo_stepL 141 140 2587744559991143211334339669 1293872279995571605667169834 (Pt.aff 50762328630258624799405502795055798982700488416718304941754078676284383312113 37237719480703426113226504698767392496415361413367431031386470749115712656455) (Pt.aff 43028207042602526607266092083841516638555566062556266879418859568904402918391 1522419769112860128993117019833659285887046658192613147016305079184398489891) (Pt.aff 24344380932132789428540601088096478561753979054378548508842556696935922439340 25129006685093182722441565784174411680559778103730325159859822374440870692196) (Pt.aff 13650038448642511772943563787463747050414878523435785168165796178942955210691 39803723408195529771475588231554694656355969230766226057894575646688339018829) (by decide) (by decide) (by decide) (by decide!) (by decide!)).trans <|
  (smulGo_stepL 140 139 1293872279995571605667169834 646936139997785802833584917 (Pt.aff 24344380932132789428540601088096478561753979054378548508842556696935922439340 25129006685093182722441565784174411680559778103730325159859822374440870692196) (Pt.aff 13650038448642511772943563787463747050414878523435785168165796178942955210691 39803723408195529771475588231554694656355969230766226057894575646688339018829) (Pt.aff 24045027069032399888457823616118262416157897879040452163270997272600871163616 26642633156672951490938155219736546869917422173425684502241074211707502876366) (Pt.aff 13650038448642511772943563787463747050414878523435785168165796178942955210691 39803723408195529771475588231554694656355969230766226057894575646688339018829) (by decide) (by decide) (by decide) (by decide!) (by decide!)).trans <|
  (smulGo_stepL 139 138 646936139997785802833584917 323468069998892901416792458 (Pt.aff 24045027069032399888457823616118262416157897879040452163270997272600871163616 26642633156672951490938155219736546869917422173425684502241074211707502876366) (Pt.aff 13650038448642511772943563787463747050414878523435785168165796178942955210691 39803723408195529771475588231554694656355969230766226057894575646688339018829) (Pt.aff 2313745328117244969339927281361294790412898046843791555213392796125360740946 24911096657789658361424775189975677447690894086486804680706811678130503655718) (Pt.aff 25433196522009048882122372497434038712398915207378256040068118150513274165574 51348610543913850052356196877646023244027713944208613140629389815978837430987) (by decide) (by decide) (by decide) (by decide!) (by decide!)).trans <|
  (smulGo_stepL 138 137 323468069998892901416792458 161734034999446450708396229 (Pt.aff 2313745328117244969339927281361294790412898046843791555213392796125360740946 24911096657789658361424775189975677447690894086486804680706811678130503655718) (Pt.aff 25433196522009048882122372497434038712398915207378256040068118150513274165574 51348610543913850052356196877646023244027713944208613140629389815978837430987) (Pt.aff 36351821170547327215245376764894674502904493824531011836969538164990926113772 3193209284649495026811779238515702080632444013868255445224494818981602089133) (Pt.aff 25433196522009048882122372497434038712398915207378256040068118150513274165574 51348610543913850052356196877646023244027713944208613140629389815978837430987) (by decide) (by decide) (by decide) (by decide!) (by decide!)).trans <|
  (smulGo_stepL 137 136 161734034999446450708396229 80867017499723225354198114 (Pt.aff 36351821170547327215245376764894674502904493824531011836969538164990926113772 3193209284649495026811779238515702080632444013868255445224494818981602089133) (Pt.aff 25433196522009048882122372497434038712398915207378256040068118150513274165574 51348610543913850052356196877646023244027713944208613140629389815978837430987) (Pt.aff 30981983617492345602031361885890357007557805616416599670109930587125182862672 49004980343672184655477303873181112651498381302051573545352924729216386838171) (Pt.aff 3630441767283113067510217693281858918449188010772623656935910638328778899955 51159068502436116834778140457555392410905821636609818334917050690677097414624) (by decide) (by decide) (by decide) (by decide!) (by decide!)).trans <|
  (smulGo_stepL 136 135 80867017499723225354198114 40433508749861612677099057 (Pt.aff 30981983617492345602031361885890357007557805616416599670109930587125182862672 49004980343672184655477303873181112651498381302051573545352924729216386838171) (Pt.aff 3630441767283113067510217693281858918449188010772623656935910638328778899955 51159068502436116834778140457555392410905821636609818334917050690677097414624) (Pt.aff 16899596368879680123965963420055208984157981774014523445634049358451570312979 48429394620938854516818540950323806486875343319240410772342868352692052713260) (Pt.aff 3630441767283113067510217693281858918449188010772623656935910638328778899955 51159068502436116834778140457555392410905821636609818334917050690677097414624) (by decide) (by decide) (by decide) (by decide!) (by decide!)).trans <|
  (smulGo_stepL 135 134 40433508749861612677099057 20216754374930806338549528 (Pt.aff 16899596368879680123965963420055208984157981774014523445634049358451570312979 48429394620938854516818540950323806486875343319240410772342868352692052713260) (Pt.aff 3630441767283113067510217693281858918449188010772623656935910638328778899955 51159068502436116834778140457555392410905821636609818334917050690677097414624) (Pt.aff 20559902657658264845835440517896937969018520929899839001423724441181539163507 23984336443851935407284254794576899957305141866281062086106975177966549291946) (Pt.aff 52388800595568612412279396829849699790284629701817748424219161443067057767292 27667961946298430589853845379740609673353842187079701174841692621259879013810) (by decide) (by decide) (by decide) (by decide!) (by decide!)).trans <|
  (smulGo_stepL 134 133 20216754374930806338549528 10108377187465403169274764 (Pt.aff 20559902657658264845835440517896937969018520929899839001423724441181539163507 23984336443851935407284254794576899957305141866281062086106975177966549291946) (Pt.aff 52388800595568612412279396829849699790284629701817748424219161443067057767292 27667961946298430589853845379740609673353842187079701174841692621259879013810) (Pt.aff 55743580191126147312763099237659575164216364687310551850107259002886913801297 34959292588917248710175802260137440075124491503385223155535685854355467193951) (Pt.aff 52388800595568612412279396829849699790284629701817748424219161443067057767292 27667961946298430589853845379740609673353842187079701174841692621259879013810) (by decide) (by decide) (by decide) (by decide!) (by decide!)).trans <|
  (smulGo_stepL 133 132 10108377187465403169274764 5054188593732701584637382 (Pt.aff 55743580191126147312763099237659575164216364687310551850107259002886913801297 34959292588917248710175802260137440075124491503385223155535685854355467193951) (Pt.aff 52388800595568612412279396829849699790284629701817748424219161443067057767292 27667961946298430589853845379740609673353842187079701174841692621259879013810) (Pt.aff 50503157447872306860121854771474354472985867193944435022516497616798894661477 17987708762395960206457695754945561324158984131657444905197532770916043011864) (Pt.aff 52388800595568612412279396829849699790284629701817748424219161443067057767292 27667961946298430589853845379740609673353842187079701174841692621259879013810) (by decide) (by decide) (by decide) (by decide!) (by decide!)).trans <|
  (smulGo_stepL 132 131 5054188593732701584637382 2527094296866350792318691 (Pt.aff 50503157447872306860121854771474354472985867193944435022516497616798894661477 17987708762395960206457695754945561324158984131657444905197532770916043011864) (Pt.aff 52388800595568612412279396829849699790284629701817748424219161443067057767292 27667961946298430589853845379740609673353842187079701174841692621259879013810) (Pt.aff 424187640350582461084201228179060212528216841812442511570737924388285075367 1134687490361257658603636975640792956109460031834647862265428197041474845711) (Pt.aff 52388800595568612412279396829849699790284629701817748424219161443067057767292 27667961946298430589853845379740609673353842187079701174841692621259879013810) (by decide) (by decide) (by decide) (by decide!) (by decide!)).trans <|
  (smulGo_stepL 131 130 2527094296866350792318691 1263547148433175396159345 (Pt.aff 424187640350582461084201228179060212528216841812442511570737924388285075367 1134687490361257658603636975640792956109460031834647862265428197041474845711) (Pt.aff 52388800595568612412279396829849699790284629701817748424219161443067057767292 27667961946298430589853845379740609673353842187079701174841692621259879013810) (Pt.aff 49752145758360688878009967897798844690436498003318065813508532192890131912533 57476474109548544933420995119083237967505493781269891412470852797643290512153) (Pt.aff 9171154489753262591881701801112256155445864147638718045024450845437617174079 14458621415253045818690658832390737208569401720790576282038326885032578233932) (by decide) (by decide) (by decide) (by decide!) (by decide!)).trans <|
  (smulGo_stepL 130 129 1263547148433175396159345 631773574216587698079672 (Pt.aff 49752145758360688878009967897798844690436498003318065813508532192890131912533 57476474109548544933420995119083237967505493781269891412470852797643290512153) (Pt.aff 9171154489753262591881701801112256155445864147638718045024450845437617174079 14458621415253045818690658832390737208569401720790576282038326885032578233932) (Pt.aff 49662153886756638572394002398927458369557710739795845045009255684957381257283 23682783164938577713868454631018191534619886405647931759800512971869559249302) (Pt.aff 3124839349454541194767123160243193390808522835900192265288219182774353360908 31786978659592584311679027696631520463447514020689610861018356029463077478) (by decide) (by decide) (by decide) (by decide!) (by decide!)).trans <|
  (smulGo_stepL 129 128 631773574216587698079672 315886787108293849039836 (Pt.aff 49662153886756638572394002398927458369557710739795845045009255684957381257283 23682783164938577713868454631018191534619886405647931759800512971869559249302) (Pt.aff 3124839349454541194767123160243193390808522835900192265288219182774353360908 31786978659592584311679027696631520463447514020689610861018356029463077478) (Pt.aff 42339183044252115267599805832360595186498147027304792700821074643980663324303 30609644534193986429274859035755741551265321017136185557808394239972894150649) (Pt.aff 3124839349454541194767123160243193390808522835900192265288219182774353360908 31786978659592584311679027696631520463447514020689610861018356029463077478) (by decide) (by decide) (by decide) (by decide!) (by decide!)).trans <|
  (smulGo_stepL 128 127 315886787108293849039836 157943393554146924519918 (Pt.aff 42339183044252115267599805832360595186498147027304792700821074643980663324303 30609644534193986429274859035755741551265321017136185557808394239972894150649) (Pt.aff 3124839349454541194767123160243193390808522835900192265288219182774353360908 31786978659592584311679027696631520463447514020689610861018356029463077478) (Pt.aff 20720588799146556195836046741238682837675582917096428992979908189633179869676 33113607708891431080742945765359261516969551558484600749836385478945300665246) (Pt.aff 3124839349454541194767123160243193390808522835900192265288219182774353360908 31786978659592584311679027696631520463447514020689610861018356029463077478) (by decide) (by decide) (by decide) (by decide!) (by decide!)).trans <|
  (smulGo_stepL 127 126 157943393554146924519918 78971696777073462259959 (Pt.aff 20720588799146556195836046741238682837675582917096428992979908189633179869676 33113607708891431080742945765359261516969551558484600749836385478945300665246) (Pt.aff 3124839349454541194767123160243193390808522835900192265288219182774353360908 31786978659592584311679027696631520463447514020689610861018356029463077478) (Pt.aff 40238206376537694927618561617251037762870131718944700046799071452331417470787 29655159796648738679363703804061989765613564137804403309972402306767467960662) (Pt.aff 3124839349454541194767123160243193390808522835900192265288219182774353360908 31786978659592584311679027696631520463447514020689610861018356029463077478) (by decide) (by decide) (by decide) (by decide!) (by decide!)).trans <|
  (smulGo_stepL 126 125 78971696777073462259959 39485848388536731129979 (Pt.aff 40238206376537694927618561617251037762870131718944700046799071452331417470787 29655159796648738679363703804061989765613564137804403309972402306767467960662) (Pt.aff 3124839349454541194767123160243193390808522835900192265288219182774353360908 31786978659592584311679027696631520463447514020689610861018356029463077478) (Pt.aff 3686655154843753323244998839289609317141464465801939597704828934206912157518 20699336171121076620185865007534286629844786957761722649198061127572156509705) (Pt.aff 32664471680762409573877110709482714328037012301544186941683117172819460426296 32620914088752753714422743057032270768684298681704837421307740222226226828394) (by decide) (by decide) (by decide) (by decide!) (by decide!)).trans <|
  (smulGo_stepL 125 124 39485848388536731129979 19742924194268365564989 (Pt.aff 3686655154843753323244998839289609317141464465801939597704828934206912157518 20699336171121076620185865007534286629844786957761722649198061127572156509705) (Pt.aff 32664471680762409573877110709482714328037012301544186941683117172819460426296 32620914088752753714422743057032270768684298681704837421307740222226226828394) (Pt.aff 21218782649790796121683111978638947015382021695499513896787235384935236806738 5251339713297935888611781471814804101266382413235976709666448746058821813326) (Pt.aff 51456285218738191715105346187856029909947502427796200968824251555910333956635 27026086612296575606832455659423212766535505012843234965155356269877825454030) (by decide) (by decide) (by decide) (by decide!) (by decide!)).trans <|
  (smulGo_stepL 124 123 19742924194268365564989 9871462097134182782494 (Pt.aff 21218782649790796121683111978638947015382021695499513896787235384935236806738 5251339713297935888611781471814804101266382413235976709666448746058821813326) (Pt.aff 51456285218738191715105346187856029909947502427796200968824251555910333956635 27026086612296575606832455659423212766535505012843234965155356269877825454030) (Pt.aff 19433494491250166620415646264670972579650846863149533420415768212755844457325 17935619574539825802990426100413443043626814942827307048053326039043181448700) (Pt.aff 9349616033753553123900686936649144515985316173758891957227114796073119194921 44945465681256499170954934377850589173994500593717586331891409589585608979300) (by decide) (by decide) (by decide) (by decide!) (by decide!)).trans <|
  (smulGo_stepL 123 122 9871462097134182782494 4935731048567091391247 (Pt.aff 19433494491250166620415646264670972579650846863149533420415768212755844457325 17935619574539825802990426100413443043626814942827307048053326039043181448700) (Pt.aff 9349616033753553123900686936649144515985316173758891957227114796073119194921 44945465681256499170954934377850589173994500593717586331891409589585608979300) (Pt.aff 6776226553791749000094018129974146952136853547768149601484116265132954380535 10894788404705979979690654160711841050488616646701394518443145403258729153119) (Pt.aff 9349616033753553123900686936649144515985316173758891957227114796073119194921 44945465681256499170954934377850589173994500593717586331891409589585608979300) (by decide) (by decide) (by decide) (by decide!) (by decide!)).trans <|
  (smulGo_stepL 122 121 4935731048567091391247 2467865524283545695623 (Pt.aff 6776226553791749000094018129974146952136853547768149601484116265132954380535 10894788404705979979690654160711841050488616646701394518443145403258729153119) (Pt.aff 9349616033753553123900686936649144515985316173758891957227114796073119194921 44945465681256499170954934377850589173994500593717586331891409589585608979300) (Pt.aff 22031766120891111546374264664021335102114185868089660441441731092819573014676 49462508842168179677790119856820864120123339100740006798655003375574139700543) (Pt.aff 39715247174864016085040493514377073848332889412264078096405086775523038657176 55242439323012923717608010930320232327126424062535032857410052319565974390488) (by decide) (by decide) (by decide) (by decide!) (by decide!)).trans <|
  (smulGo_stepL 121 120 2467865524283545695623 1233932762141772847811 (Pt.aff 22031766120891111546374264664021335102114185868089660441441731092819573014676 49462508842168179677790119856820864120123339100740006798655003375574139700543) (Pt.aff 39715247174864016085040493514377073848332889412264078096405086775523038657176 55242439323012923717608010930320232327126424062535032857410052319565974390488) (Pt.aff 15718596222684217462188584101014974558729272594911345573338216947525011970592 27375121368781414690702579808446488959973595543446562790218314796409637295377) (Pt.aff 29561007108647590077125756920767666687546953609699715273233581157227690818691 2420979989337564358363176124563688010564613531921050587392216843676458487207) (by decide) (by decide) (by decide) (by decide!) (by decide!)).trans <|
  (smulGo_stepL 120 119 1233932762141772847811 616966381070886423905 (Pt.aff 15718596222684217462188584101014974558729272594911345573338216947525011970592 27375121368781414690702579808446488959973595543446562790218314796409637295377) (Pt.aff 29561007108647590077125756920767666687546953609699715273233581157227690818691 2420979989337564358363176124563688010564613531921050587392216843676458487207) (Pt.aff 19511338993283906796142349526838574788995468726103174739786659994109593682132 17863153988435199438299167286036745926516852658642921941734392230020320363726) (Pt.aff 49668054117803775362561213166842263031435389174749792726618516194702660691687 36163186828937007091316388642878095714834579117104810016464158365506532659204) (by decide) (by decide) (by decide) (by decide!) (by decide!)).trans <|
  (smulGo_stepL 119 118 616966381070886423905 308483190535443211952 (Pt.aff 19511338993283906796142349526838574788995468726103174739786659994109593682132 17863153988435199438299167286036745926516852658642921941734392230020320363726) (Pt.aff 49668054117803775362561213166842263031435389174749792726618516194702660691687 36163186828937007091316388642878095714834579117104810016464158365506532659204) (Pt.aff 21031624119834641885457831362742066062200302293179165064774449871747891021755 50089089038409846331824575843558618479331771973118246875662467472385353333974) (Pt.aff 21558383944105268679604464149644696998820775672540974537616649531982304765150 35873994018125158298600194743745316465318412271213578510998419229392679645847) (by decide) (by decide) (by decide) (by decide!) (by decide!)).trans <|
  (smulGo_stepL 118 117 308483190535443211952 154241595267721605976 (Pt.aff 21031624119834641885457831362742066062200302293179165064774449871747891021755 50089089038409846331824575843558618479331771973118246875662467472385353333974) (Pt.aff 21558383944105268679604464149644696998820775672540974537616649531982304765150 35873994018125158298600194743745316465318412271213578510998419229392679645847) (Pt.aff 28716964644433546746477433797456403543924743022636111592837742072547041548779 50594259579487349471509321579773050267582322488922625093420044974360726200556) (Pt.aff 21558383944105268679604464149644696998820775672540974537616649531982304765150 35873994018125158298600194743745316465318412271213578510998419229392679645847) (by decide) (by decide) (by decide) (by decide!) (by decide!)).trans <|
  (smulGo_stepL 117 116 154241595267721605976 77120797633860802988 (Pt.aff 28716964644433546746477433797456403543924743022636111592837742072547041548779 50594259579487349471509321579773050267582322488922625093420044974360726200556) (Pt.aff 21558383944105268679604464149644696998820775672540974537616649531982304765150 35873994018125158298600194743745316465318412271213578510998419229392679645847) (Pt.aff 7600374441948049869260908612524245777198490243791129007724079817953790481052 30095305366479906486216021869780208950314269424634236718653721109495871850313) (Pt.aff 21558383944105268679604464149644696998820775672540974537616649531982304765150 35873994018125158298600194743745316465318412271213578510998419229392679645847) (by decide) (by decide) (by decide) (by decide!) (by decide!)).trans <|
  (smulGo_stepL 116 115 77120797633860802988 38560398816930401494 (Pt.aff 7600374441948049869260908612524245777198490243791129007724079817953790481052 30095305366479906486216021869780208950314269424634236718653721109495871850313) (Pt.aff 21558383944105268679604464149644696998820775672540974537616649531982304765150 35873994018125158298600194743745316465318412271213578510998419229392679645847) (Pt.aff 33200461899420398384711116039836899506603256929759307583180079862157804297810 32915421560465575792699607061361759098971891831959998590205749235736930567159) (Pt.aff 21558383944105268679604464149644696998820775672540974537616649531982304765150 35873994018125158298600194743745316465318412271213578510998419229392679645847) (by decide) (by decide) (by decide) (by decide!) (by decide!)).trans <|
  (smulGo_stepL 115 114 38560398816930401494 19280199408465200747 (Pt.aff 33200461899420398384711116039836899506603256929759307583180079862157804297810 32915421560465575792699607061361759098971891831959998590205749235736930567159) (Pt.aff 21558383944105268679604464149644696998820775672540974537616649531982304765150 35873994018125158298600194743745316465318412271213578510998419229392679645847) (Pt.aff 43456351758387241576291200743848405973975098854370215454408999037760747499072 47527572489733290608827782190169467800675665020231757218846655367113085472578) (Pt.aff 21558383944105268679604464149644696998820775672540974537616649531982304765150 35873994018125158298600194743745316465318412271213578510998419229392679645847) (by decide) (by decide) (by decide) (by decide!) (by decide!)).trans <|
  (smulGo_stepL 114 113 19280199408465200747 9640099704232600373 (Pt.aff 43456351758387241576291200743848405973975098854370215454408999037760747499072 47527572489733290608827782190169467800675665020231757218846655367113085472578) (Pt.aff 21558383944105268679604464149644696998820775672540974537616649531982304765150 35873994018125158298600194743745316465318412271213578510998419229392679645847) (Pt.aff 30257855721470090253790104436023743261497486484036890111478720091423140589734 37226153015441846908774820915253633397705632012652109427869978437313760265587) (Pt.aff 10147200907661014656197585403949499088421684943748565512197071073273995730327 24027639382510669289290014060935829189248638854263195109025394655520980013838) (by decide) (by decide) (by decide) (by decide!) (by decide!)).trans <|
  (smulGo_stepL 113 112 9640099704232600373 4820049852116300186 (Pt.aff 30257855721470090253790104436023743261497486484036890111478720091423140589734 37226153015441846908774820915253633397705632012652109427869978437313760265587) (Pt.aff 10147200907661014656197585403949499088421684943748565512197071073273995730327 24027639382510669289290014060935829189248638854263195109025394655520980013838) (Pt.aff 1884633742043290355015801158003924465476955748703025091804807057949378131424 739795149740479399993433668405630412164425051205645875812854550981356638060) (Pt.aff 45290443107593565850380432030094161110180615421547475165875079144067915016414 588751507705320527545892593722050829948506147909632853924626214062206641543) (by decide) (by decide) (by decide) (by decide!) (by decide!)).trans <|
  (smulGo_stepL 112 111 4820049852116300186 2410024926058150093 (Pt.aff 1884633742043290355015801158003924465476955748703025091804807057949378131424 739795149740479399993433668405630412164425051205645875812854550981356638060) (Pt.aff 45290443107593565850380432030094161110180615421547475165875079144067915016414 588751507705320527545892593722050829948506147909632853924626214062206641543) (Pt.aff 52714225609014013170102520644350902718022612951986382868519920320645442782934 15070030939530977987436509673125964703497953483955937699445749791017263644004) (Pt.aff 45290443107593565850380432030094161110180615421547475165875079144067915016414 588751507705320527545892593722050829948506147909632853924626214062206641543) (by decide) (by decide) (by decide) (by decide!) (by decide!)).trans <|
  (smulGo_stepL 111 110 2410024926058150093 1205012463029075046 (Pt.aff 52714225609014013170102520644350902718022612951986382868519920320645442782934 15070030939530977987436509673125964703497953483955937699445749791017263644004) (Pt.aff 45290443107593565850380432030094161110180615421547475165875079144067915016414 588751507705320527545892593722050829948506147909632853924626214062206641543) (Pt.aff 5563324464590213982892284971330278504848404770274352388496377793405533866515 18679568719260298261303432379577521167759731832224262450056188029518851286971) (Pt.aff 5548359164166398819290185849056803726726941463920501467867969141333919106776 38970741810181730335174266069528591881258291939477726734281842170184944594222) (by decide) (by decide) (by decide) (by decide!) (by decide!)).trans <|
  (smulGo_stepL 110 109 1205012463029075046 602506231514537523 (Pt.aff 5563324464590213982892284971330278504848404770274352388496377793405533866515 18679568719260298261303432379577521167759731832224262450056188029518851286971) (Pt.aff 5548359164166398819290185849056803726726941463920501467867969141333919106776 38970741810181730335174266069528591881258291939477726734281842170184944594222) (Pt.aff 54530365299073576771781453190953364439544507998965943237389064605611203229242 41509110801881606160436106225941561043857025683098582659779133570081806895738) (Pt.aff 5548359164166398819290185849056803726726941463920501467867969141333919106776 38970741810181730335174266069528591881258291939477726734281842170184944594222) (by decide) (by decide) (by decide) (by decide!) (by decide!)).trans <|
  (smulGo_stepL 109 108 602506231514537523 301253115757268761 (Pt.aff 54530365299073576771781453190953364439544507998965943237389064605611203229242 41509110801881606160436106225941561043857025683098582659779133570081806895738) (Pt.aff 5548359164166398819290185849056803726726941463920501467867969141333919106776 38970741810181730335174266069528591881258291939477726734281842170184944594222) (Pt.aff 49710234752370436334897836076963075146091938597759963199963590915076404138614 224397574513697068853358195851326446950536202710575293731067314131818458928) (Pt.aff 42334933651302936210264125799021896632602122898374533356902920211350405841042 30001907732853093441345593750374518405310652955663372327094155169836643761236) (by decide) (by decide) (by decide) (by decide!) (by decide!)).trans <|
  (smulGo_stepL 108 107 301253115757268761 150626557878634380 (Pt.aff 49710234752370436334897836076963075146091938597759963199963590915076404138614 224397574513697068853358195851326446950536202710575293731067314131818458928) (Pt.aff 42334933651302936210264125799021896632602122898374533356902920211350405841042 30001907732853093441345593750374518405310652955663372327094155169836643761236) (Pt.aff 9530002884719071852649473494673930006441447262992253487876430401777359674763 2848844036269455508822714120356102665438502196005908510882339511085746962217) (Pt.aff 20200333481364613561300745262805426295677099786010382808455693528490788587841 5525966720933567659886080794556153674935036078887289074558019650218793554337) (by decide) (by decide) (by decide) (by decide!) (by decide!)).trans <|
  (smulGo_stepL 107 106 150626557878634380 75313278939317190 (Pt.aff 9530002884719071852649473494673930006441447262992253487876430401777359674763 2848844036269455508822714120356102665438502196005908510882339511085746962217) (Pt.aff 20200333481364613561300745262805426295677099786010382808455693528490788587841 5525966720933567659886080794556153674935036078887289074558019650218793554337) (Pt.aff 8650071519986671940575116063238259790500506321284634402101606934372308254350 5599842098795028598242980728754259636200153020041579593844807547098161339191) (Pt.aff 20200333481364613561300745262805426295677099786010382808455693528490788587841 5525966720933567659886080794556153674935036078887289074558019650218793554337) (by decide) (by decide) (by decide) (by decide!) (by decide!)).trans <|
  (smulGo_stepL 106 105 75313278939317190 37656639469658595 (Pt.aff 8650071519986671940575116063238259790500506321284634402101606934372308254350 5599842098795028598242980728754259636200153020041579593844807547098161339191) (Pt.aff 20200333481364613561300745262805426295677099786010382808455693528490788587841 5525966720933567659886080794556153674935036078887289074558019650218793554337) (Pt.aff 12313065585683776702863460693223962572977225769898716690376889464745818289603 23447287436920309390403345330040410604114627861861722601990788440324159855877) (Pt.aff 20200333481364613561300745262805426295677099786010382808455693528490788587841 5525966720933567659886080794556153674935036078887289074558019650218793554337) (by decide) (by decide) (by decide) (by decide!) (by decide!)).trans <|
  (smulGo_stepL 105 104 37656639469658595 18828319734829297 (Pt.aff 12313065585683776702863460693223962572977225769898716690376889464745818289603 23447287436920309390403345330040410604114627861861722601990788440324159855877) (Pt.aff 20200333481364613561300745262805426295677099786010382808455693528490788587841 5525966720933567659886080794556153674935036078887289074558019650218793554337) (Pt.aff 17762526127047922948210598230390284554856809835033430893516865602618814840990 45096385700595170829219362506480112964593925142290299728362260806952966143309) (Pt.aff 8589796139482952338970593202096487324703967649164710470090054487081092169723 13344889736761962202774925587408998116733432496882234663753006523146124623461) (by decide) (by decide) (by decide) (by decide!) (by decide!)).trans <|
  (smulGo_stepL 104 103 18828319734829297 9414159867414648 (Pt.aff 17762526127047922948210598230390284554856809835033430893516865602618814840990 45096385700595170829219362506480112964593925142290299728362260806952966143309) (Pt.aff 8589796139482952338970593202096487324703967649164710470090054487081092169723 13344889736761962202774925587408998116733432496882234663753006523146124623461) (Pt.aff 12145851161496122653465839747869291415225143778174860772273512914858615096757 14250927170202726490255646202850193253876748162642900827383293612405088438831) (Pt.aff 4685045485453339718466628316570832381254827402055581897445403844666689569059 20663854625225567164446512588229809370119169375687285929131624654538845348929) (by decide) (by decide) (by decide) (by decide!) (by decide!)).trans <|
  (smulGo_stepL 103 102 9414159867414648 4707079933707324 (Pt.aff 12145851161496122653465839747869291415225143778174860772273512914858615096757 14250927170202726490255646202850193253876748162642900827383293612405088438831) (Pt.aff 4685045485453339718466628316570832381254827402055581897445403844666689569059 20663854625225567164446512588229809370119169375687285929131624654538845348929) (Pt.aff 49826271289858131154844531725363682255683598624785599866005477194222778632585 49060579473963996654679881937193624483405597004511989167959361813835456555677) (Pt.aff 4685045485453339718466628316570832381254827402055581897445403844666689569059 20663854625225567164446512588229809370119169375687285929131624654538845348929) (by decide) (by decide) (by decide) (by decide!) (by decide!)).trans <|
  (smulGo_stepL 102 101 4707079933707324 2353539966853662 (Pt.aff 49826271289858131154844531725363682255683598624785599866005477194222778632585 49060579473963996654679881937193624483405597004511989167959361813835456555677) (Pt.aff 4685045485453339718466628316570832381254827402055581897445403844666689569059 20663854625225567164446512588229809370119169375687285929131624654538845348929) (Pt.aff 51499328197824262933617110300600991280260790693232209826318804808274504281285 48097255321721461303362179109395650111484493406876961345400305537366964950427) (Pt.aff 4685045485453339718466628316570832381254827402055581897445403844666689569059 20663854625225567164446512588229809370119169375687285929131624654538845348929) (by decide) (by decide) (by decide) (by decide!) (by decide!)).trans <|
  (smulGo_stepL 101 100 2353539966853662 1176769983426831 (Pt.aff 51499328197824262933617110300600991280260790693232209826318804808274504281285 48097255321721461303362179109395650111484493406876961345400305537366964950427) (Pt.aff 4685045485453339718466628316570832381254827402055581897445403844666689569059 20663854625225567164446512588229809370119169375687285929131624654538845348929) (Pt.aff 55911677825325970740349949626124384643970736138745580027492771520908710791619 48815525641248028513767881565994016522155880218291941481887027595646283751201) (Pt.aff 4685045485453339718466628316570832381254827402055581897445403844666689569059 20663854625225567164446512588229809370119169375687285929131624654538845348929) (by decide) (by decide) (by decide) (by decide!) (by decide!)).trans <|
  (smulGo_stepL 100 99 1176769983426831 588384991713415 (Pt.aff 55911677825325970740349949626124384643970736138745580027492771520908710791619 48815525641248028513767881565994016522155880218291941481887027595646283751201) (Pt.aff 4685045485453339718466628316570832381254827402055581897445403844666689569059 20663854625225567164446512588229809370119169375687285929131624654538845348929) (Pt.aff 6005865556250980007830613650456744812920805617405104881969441411749103783485 23529827538719955073117841485273365483067832726330542672684902353998980877873) (Pt.aff 30366659798512042492602785269589120565769959802401218422085651161990689277156 4172599781133333088413700566990344464493571879024754429603172830850582044015) (by decide) (by decide) (by decide) (by decide!) (by decide!)).trans <|
  (smulGo_stepL 99 98 588384991713415 294192495856707 (Pt.aff 6005865556250980007830613650456744812920805617405104881969441411749103783485 23529827538719955073117841485273365483067832726330542672684902353998980877873) (Pt.aff 30366659798512042492602785269589120565769959802401218422085651161990689277156 4172599781133333088413700566990344464493571879024754429603172830850582044015) (Pt.aff 5618829323857532964480376886457496833125171358754399328301944909905908172716 17531105758379479400168888988935049650445024077054762697809668293692399081561) (Pt.aff 21337410484867538415157505719591332489206623262155782319259620928322065730393 31596647390064092424090160293815241075946117622281543494336108060446472671993) (by decide) (by decide) (by decide) (by decide!) (by decide!)).trans <|
  (smulGo_stepL 98 97 294192495856707 147096247928353 (Pt.aff 5618829323857532964480376886457496833125171358754399328301944909905908172716 17531105758379479400168888988935049650445024077054762697809668293692399081561) (Pt.aff 21337410484867538415157505719591332489206623262155782319259620928322065730393 31596647390064092424090160293815241075946117622281543494336108060446472671993) (Pt.aff 52253523157045282704616744595003813448468696114074356565577936973128164184856 50021120562723992177023379100306641852314991366219901107573928581174907968677) (Pt.aff 313340171850199912792048614337922643621255581888264697526173237941783638401 35128605450328963875031537284110862013878301897476802554678390081864545018664) (by decide) (by decide) (by decide) (by decide!) (by decide!)).trans <|
  (smulGo_stepL 97 96 147096247928353 73548123964176 (Pt.aff 52253523157045282704616744595003813448468696114074356565577936973128164184856 50021120562723992177023379100306641852314991366219901107573928581174907968677) (Pt.aff 313340171850199912792048614337922643621255581888264697526173237941783638401 35128605450328963875031537284110862013878301897476802554678390081864545018664) (Pt.aff 52595042030602741645060447185705808377080612287944914913416056700034931280146 49066573730363267977621953588950522801891514428027531137903107219202678490269) (Pt.aff 32953856371637335153511002157780010158205423734978909465399441249364068624336 38368445249340941315765475700076998763496527479887308860890707174401172964451) (by decide) (by decide) (by decide) (by decide!) (by decide!)).trans <|
  (smulGo_stepL 96 95 73548123964176 36774061982088 (Pt.aff 52595042030602741645060447185705808377080612287944914913416056700034931280146 49066573730363267977621953588950522801891514428027531137903107219202678490269) (Pt.aff 32953856371637335153511002157780010158205423734978909465399441249364068624336 38368445249340941315765475700076998763496527479887308860890707174401172964451) (Pt.aff 277928629873536386392392061078778390723960272311681848840124861414962183280 264860194831862384803798528751225330261133142193908367842553555631566502710) (Pt.aff 32953856371637335153511002157780010158205423734978909465399441249364068624336 38368445249340941315765475700076998763496527479887308860890707174401172964451) (by decide) (by decide) (by decide) (by decide!) (by decide!)).trans <|
  (smulGo_stepL 95 94 36774061982088 18387030991044 (Pt.aff 277928629873536386392392061078778390723960272311681848840124861414962183280 264860194831862384803798528751225330261133142193908367842553555631566502710) (Pt.aff 32953856371637335153511002157780010158205423734978909465399441249364068624336 38368445249340941315765475700076998763496527479887308860890707174401172964451) (Pt.aff 16718129508298487035482343828801082577661017262478884874815031842243513884367 41163604022281778475766040027310349041219072006221079383760184182268186041852) (Pt.aff 32953856371637335153511002157780010158205423734978909465399441249364068624336 38368445249340941315765475700076998763496527479887308860890707174401172964451) (by decide) (by decide) (by decide) (by decide!) (by decide!)).trans <|
  (smulGo_stepL 94 93 18387030991044 9193515495522 (Pt.aff 16718129508298487035482343828801082577661017262478884874815031842243513884367 41163604022281778475766040027310349041219072006221079383760184182268186041852) (Pt.aff 32953856371637335153511002157780010158205423734978909465399441249364068624336 38368445249340941315765475700076998763496527479887308860890707174401172964451) (Pt.aff 26431031043689999827333226781527176662545517848896404410792551950138833344633 32238039852201232352067560572497171856759102445057168604106535277337158034550) (Pt.aff 32953856371637335153511002157780010158205423734978909465399441249364068624336 38368445249340941315765475700076998763496527479887308860890707174401172964451) (by decide) (by decide) (by decide) (by decide!) (by decide!)).trans <|
  (smulGo_stepL 93 92 9193515495522 4596757747761 (Pt.aff 26431031043689999827333226781527176662545517848896404410792551950138833344633 32238039852201232352067560572497171856759102445057168604106535277337158034550) (Pt.aff 32953856371637335153511002157780010158205423734978909465399441249364068624336 38368445249340941315765475700076998763496527479887308860890707174401172964451) (Pt.aff 40403859189862311878754134171586993856406277429962208058672888329872157244951 46711916815035751789182623596345608366233315991622021405077165508419662676847) (Pt.aff 32953856371637335153511002157780010158205423734978909465399441249364068624336 38368445249340941315765475700076998763496527479887308860890707174401172964451) (by decide) (by decide) (by decide) (by decide!) (by decide!)).trans <|
  (smulGo_stepL 92 91 4596757747761 2298378873880 (Pt.aff 40403859189862311878754134171586993856406277429962208058672888329872157244951 46711916815035751789182623596345608366233315991622021405077165508419662676847) (Pt.aff 32953856371637335153511002157780010158205423734978909465399441249364068624336 38368445249340941315765475700076998763496527479887308860890707174401172964451) (Pt.aff 20134091241325019181333451032857106490575159013653646602660631637979752007494 52072312801314204238565763293639984580183708824643155721236578109602620578631) (Pt.aff 18363761054702106778096282621982201216224944345437677150287006946270393153333 16662173226467348016426484436556363781790284371314826338104054217942812899545) (by decide) (by decide) (by decide) (by decide!) (by decide!)).trans <|
  (smulGo_stepL 91 90 2298378873880 1149189436940 (Pt.aff 20134091241325019181333451032857106490575159013653646602660631637979752007494 52072312801314204238565763293639984580183708824643155721236578109602620578631) (Pt.aff 18363761054702106778096282621982201216224944345437677150287006946270393153333 16662173226467348016426484436556363781790284371314826338104054217942812899545) (Pt.aff 22393467730958418297661341399783793322314587598351841031802480563247118890524 44573149429498928176006182960543619816613619440136655296142979650630078554103) (Pt.aff 18363761054702106778096282621982201216224944345437677150287006946270393153333 16662173226467348016426484436556363781790284371314826338104054217942812899545) (by decide) (by decide) (by decide) (by decide!) (by decide!)).trans <|
  (smulGo_stepL 90 89 1149189436940 574594718470 (Pt.aff 22393467730958418297661341399783793322314587598351841031802480563247118890524 44573149429498928176006182960543619816613619440136655296142979650630078554103) (Pt.aff 18363761054702106778096282621982201216224944345437677150287006946270393153333 16662173226467348016426484436556363781790284371314826338104054217942812899545) (Pt.aff 34203606180381053948251115661895254185292304103288250969628014484232068525118 20062267738438533274969189329366695909001861780540260496641111860709806962648) (Pt.aff 18363761054702106778096282621982201216224944345437677150287006946270393153333 16662173226467348016426484436556363781790284371314826338104054217942812899545) (by decide) (by decide) (by decide) (by decide!) (by decide!)).trans <|
  (smulGo_stepL 89 88 574594718470 287297359235 (Pt.aff 34203606180381053948251115661895254185292304103288250969628014484232068525118 20062267738438533274969189329366695909001861780540260496641111860709806962648) (Pt.aff 18363761054702106778096282621982201216224944345437677150287006946270393153333 16662173226467348016426484436556363781790284371314826338104054217942812899545) (Pt.aff 34288323716371321815419445860520384455222129189351387709425451778700655841674 2598217498253537617948459065005211662446204994654500613741593227766921948066) (Pt.aff 18363761054702106778096282621982201216224944345437677150287006946270393153333 16662173226467348016426484436556363781790284371314826338104054217942812899545) (by decide) (by decide) (by decide) (by decide!) (by decide!)).trans <|
  (smulGo_stepL 88 87 287297359235 143648679617 (Pt.aff 34288323716371321815419445860520384455222129189351387709425451778700655841674 2598217498253537617948459065005211662446204994654500613741593227766921948066) (Pt.aff 18363761054702106778096282621982201216224944345437677150287006946270393153333 16662173226467348016426484436556363781790284371314826338104054217942812899545) (Pt.aff 53542369979759159547286825263146458552753650575837268829766086400394195319994 37777449659008643494448179207164410967392024988218227786172690504689448946024) (Pt.aff 49246350135095003380764679309804255967346972243477451072675771465885902766597 3595940849628880764132786085313432063819792562488243809413309317293606320288) (by decide) (by decide) (by decide) (by decide!) (by decide!)).trans <|
  (smulGo_stepL 87 86 143648679617 71824339808 (Pt.aff 53542369979759159547286825263146458552753650575837268829766086400394195319994 37777449659008643494448179207164410967392024988218227786172690504689448946024) (Pt.aff 49246350135095003380764679309804255967346972243477451072675771465885902766597 3595940849628880764132786085313432063819792562488243809413309317293606320288) (Pt.aff 19487154846547447365286714295773117980747822827118195591587895140774390492564 40068599016667694978913627324906360243752185507301290844447749234569153435636) (Pt.aff 35488213154786546506830834504391816058060998981989840545569784594450712189525 44078998663809708172497536598647594580038023362033327461783526907583071033777) (by decide) (by decide) (by decide) (by decide!) (by decide!)).trans <|
  (smulGo_stepL 86 85 71824339808 35912169904 (Pt.aff 19487154846547447365286714295773117980747822827118195591587895140774390492564 40068599016667694978913627324906360243752185507301290844447749234569153435636) (Pt.aff 35488213154786546506830834504391816058060998981989840545569784594450712189525 44078998663809708172497536598647594580038023362033327461783526907583071033777) (Pt.aff 24815375183439766757726150392205123926225191625186759333006086354876909871631 54123571419873274291914255104865437960578090318110053946943262105271667627750) (Pt.aff 35488213154786546506830834504391816058060998981989840545569784594450712189525 44078998663809708172497536598647594580038023362033327461783526907583071033777) (by decide) (by decide) (by decide) (by decide!) (by decide!)).trans <|
  (smulGo_stepL 85 84 35912169904 17956084952 (Pt.aff 24815375183439766757726150392205123926225191625186759333006086354876909871631 54123571419873274291914255104865437960578090318110053946943262105271667627750) (Pt.aff 35488213154786546506830834504391816058060998981989840545569784594450712189525 44078998663809708172497536598647594580038023362033327461783526907583071033777) (Pt.aff 16113964099325477350500826740245990753680981361425474249044363977292521848336 23989803794858955639494118311733445117087395293550382560363571735764250812977) (Pt.aff 35488213154786546506830834504391816058060998981989840545569784594450712189525 44078998663809708172497536598647594580038023362033327461783526907583071033777) (by decide) (by decide) (by decide) (by decide!) (by decide!)).trans <|
  (smulGo_stepL 84 83 17956084952 8978042476 (Pt.aff 16113964099325477350500826740245990753680981361425474249044363977292521848336 23989803794858955639494118311733445117087395293550382560363571735764250812977) (Pt.aff 35488213154786546506830834504391816058060998981989840545569784594450712189525 44078998663809708172497536598647594580038023362033327461783526907583071033777) (Pt.aff 2267871269907126422703049099044197977308631785969779037787650030177295045576 34159876304385809963120606904889690462019956046478152581632898733367752186377) (Pt.aff 35488213154786546506830834504391816058060998981989840545569784594450712189525 44078998663809708172497536598647594580038023362033327461783526907583071033777) (by decide) (by decide) (by decide) (by decide!) (by decide!)).trans <|
  (smulGo_stepL 83 82 8978042476 4489021238 (Pt.aff 2267871269907126422703049099044197977308631785969779037787650030177295045576 34159876304385809963120606904889690462019956046478152581632898733367752186377) (Pt.aff 35488213154786546506830834504391816058060998981989840545569784594450712189525 44078998663809708172497536598647594580038023362033327461783526907583071033777) (Pt.aff 29577358982248780684727414548221463900177103943241727939908243601618252951298 24811750313534092844090648127271592042305164161237425134969498556826664041178) (Pt.aff 35488213154786546506830834504391816058060998981989840545569784594450712189525 44078998663809708172497536598647594580038023362033327461783526907583071033777) (by decide) (by decide) (by decide) (by decide!) (by decide!)).trans <|
  (smulGo_stepL 82 81 4489021238 2244510619 (Pt.aff 29577358982248780684727414548221463900177103943241727939908243601618252951298 24811750313534092844090648127271592042305164161237425134969498556826664041178) (Pt.aff 35488213154786546506830834504391816058060998981989840545569784594450712189525 44078998663809708172497536598647594580038023362033327461783526907583071033777) (Pt.aff 11778724527785979321971963418861543677838396834578984065132167994565736122260 17582751111060412437932123585351170575202099895765681475006681528258112470754) (Pt.aff 35488213154786546506830834504391816058060998981989840545569784594450712189525 44078998663809708172497536598647594580038023362033327461783526907583071033777) (by decide) (by decide) (by decide) (by decide!) (by decide!)).trans <|
  (smulGo_stepL 81 80 2244510619 1122255309 (Pt.aff 11778724527785979321971963418861543677838396834578984065132167994565736122260 17582751111060412437932123585351170575202099895765681475006681528258112470754) (Pt.aff 35488213154786546506830834504391816058060998981989840545569784594450712189525 44078998663809708172497536598647594580038023362033327461783526907583071033777) (Pt.aff 2286229406166277028326589916971433766448242706232988247209889828134938511844 36423719273769198645902583391120209761321030557393529396136816418211945925652) (Pt.aff 21959854046641590831381434692092099449934352553313250870310770887935582064935 51908528393051083792307139257379366654524017843979698042072434599312937939731) (by decide) (by decide) (by decide) (by decide!) (by decide!)).trans <|
  (smulGo_stepL 80 79 1122255309 561127654 (Pt.aff 2286229406166277028326589916971433766448242706232988247209889828134938511844 36423719273769198645902583391120209761321030557393529396136816418211945925652) (Pt.aff 21959854046641590831381434692092099449934352553313250870310770887935582064935 51908528393051083792307139257379366654524017843979698042072434599312937939731) (Pt.aff 30741716023273644359865106036754471798521577122699170386380845235757730004605 28331609782584372315035085475202740327683940841787840076333133240985202302013) (Pt.aff 52642343248097370280038385631199261701706258263732324665918643619500447233471 16789196784085142838954410695389333421961569951358642390832392913829070291532) (by decide) (by decide) (by decide) (by decide!) (by decide!)).trans <|
  (smulGo_stepL 79 78 561127654 280563827 (Pt.aff 30741716023273644359865106036754471798521577122699170386380845235757730004605 28331609782584372315035085475202740327683940841787840076333133240985202302013) (Pt.aff 52642343248097370280038385631199261701706258263732324665918643619500447233471 16789196784085142838954410695389333421961569951358642390832392913829070291532) (Pt.aff 40550594185838973711115500867342596275981245995165741030975209851603101841813 35338248972930425623420160223713661962673763549940488724932127640656211449283) (Pt.aff 52642343248097370280038385631199261701706258263732324665918643619500447233471 16789196784085142838954410695389333421961569951358642390832392913829070291532) (by decide) (by decide) (by decide) (by decide!) (by decide!)).trans <|
  (smulGo_stepL 78 77 280563827 140281913 (Pt.aff 40550594185838973711115500867342596275981245995165741030975209851603101841813 35338248972930425623420160223713661962673763549940488724932127640656211449283) (Pt.aff 52642343248097370280038385631199261701706258263732324665918643619500447233471 16789196784085142838954410695389333421961569951358642390832392913829070291532) (Pt.aff 52216722472265677269554289780233669656069363782928943068123263541978778810981 32428242248630651177053152596363168926791509334370533054733463350236822957532) (Pt.aff 11095503243456500058323104692507835396230184393629489641522492166285963659089 12558616691640578020836241401578460573791555715416176385655594618199761130213) (by decide) (by decide) (by decide) (by decide!) (by decide!)).trans <|
  (smulGo_stepL 77 76 140281913 70140956 (Pt.aff 52216722472265677269554289780233669656069363782928943068123263541978778810981 32428242248630651177053152596363168926791509334370533054733463350236822957532) (Pt.aff 11095503243456500058323104692507835396230184393629489641522492166285963659089 12558616691640578020836241401578460573791555715416176385655594618199761130213) (Pt.aff 42599608831131459828824212508644480638645610794157451186611372235413435548094 57070995840452842733963058393648587514225656296935347260991474801438967646092) (Pt.aff 30360014086829027066345503738495663654009569657352533852183727591316884452622 16889445902962342919360235560465487726268061855147504001160155148369124824502) (by decide) (by decide) (by decide) (by decide!) (by decide!)).trans <|
  (smulGo_stepL 76 75 70140956 35070478 (Pt.aff 42599608831131459828824212508644480638645610794157451186611372235413435548094 57070995840452842733963058393648587514225656296935347260991474801438967646092) (Pt.aff 30360014086829027066345503738495663654009569657352533852183727591316884452622 16889445902962342919360235560465487726268061855147504001160155148369124824502) (Pt.aff 12030886157283027923313733877976889086343432643277709248608426393625939359883 49693283103033812656628319751875120595262821654945941618898219719651806832765) (Pt.aff 30360014086829027066345503738495663654009569657352533852183727591316884452622 16889445902962342919360235560465487726268061855147504001160155148369124824502) (by decide) (by decide) (by decide) (by decide!) (by decide!)).trans <|
  (smulGo_stepL 75 74 35070478 17535239 (Pt.aff 12030886157283027923313733877976889086343432643277709248608426393625939359883 49693283103033812656628319751875120595262821654945941618898219719651806832765) (Pt.aff 30360014086829027066345503738495663654009569657352533852183727591316884452622 16889445902962342919360235560465487726268061855147504001160155148369124824502) (Pt.aff 31870839105371554317091064136992270536540346252976406001142898243796329090394 19932623082793751257591365029013371455396529105521088828752062004729776855784) (Pt.aff 30360014086829027066345503738495663654009569657352533852183727591316884452622 16889445902962342919360235560465487726268061855147504001160155148369124824502) (by decide) (by decide) (by decide) (by decide!) (by decide!)).trans <|
  (smulGo_stepL 74 73 17535239 8767619 (Pt.aff 31870839105371554317091064136992270536540346252976406001142898243796329090394 19932623082793751257591365029013371455396529105521088828752062004729776855784) (Pt.aff 30360014086829027066345503738495663654009569657352533852183727591316884452622 16889445902962342919360235560465487726268061855147504001160155148369124824502) (Pt.aff 16793749618256068809214681529668117068684790859256568197164918665412781924499 22460081972798560573901561755178998573667120653440367060337931148054642019730) (Pt.aff 2029065338087729131006074701520695522650567888728160300284763846635544850079 16837818937402391981686290252886439350638091197650089582325035397496971197937) (by decide) (by decide) (by decide) (by decide!) (by decide!)).trans <|
  (smulGo_stepL 73 72 8767619 4383809 (Pt.aff 16793749618256068809214681529668117068684790859256568197164918665412781924499 22460081972798560573901561755178998573667120653440367060337931148054642019730) (Pt.aff 2029065338087729131006074701520695522650567888728160300284763846635544850079 16837818937402391981686290252886439350638091197650089582325035397496971197937) (Pt.aff 56885137514448559366550274097840784191519718070485367195164589923971004010883 3272116914058397925603837489835461382371020479734386910370201131716194671122) (Pt.aff 31197285907618550827012796113954297346516702787456420011826110891884335028095 34490054094695909755586803678104659666008301967030983818894655244064906837144) (by decide) (by decide) (by decide) (by decide!) (by decide!)).trans <|
  (smulGo_stepL 72 71 4383809 2191904 (Pt.aff 56885137514448559366550274097840784191519718070485367195164589923971004010883 3272116914058397925603837489835461382371020479734386910370201131716194671122) (Pt.aff 31197285907618550827012796113954297346516702787456420011826110891884335028095 34490054094695909755586803678104659666008301967030983818894655244064906837144) (Pt.aff 27754090144132660068740310713092055995315981720343247107776778747308783424757 14516267598685264367302534528589422092120150375465698752087064347712544559347) (Pt.aff 22697820494933227784217579595265936078652966096259221990237995593349616431539 16343651864270862435121076698904548921253225208513541686506243637972346809015) (by decide) (by decide) (by decide) (by decide!) (by decide!)).trans <|
  (smulGo_stepL 71 70 2191904 1095952 (Pt.aff 27754090144132660068740310713092055995315981720343247107776778747308783424757 14516267598685264367302534528589422092120150375465698752087064347712544559347) (Pt.aff 22697820494933227784217579595265936078652966096259221990237995593349616431539 16343651864270862435121076698904548921253225208513541686506243637972346809015) (Pt.aff 29092645043936645466937599105873319572065569439386794812993363378742537372086 16520984829754782117706826591697855291534413145351835106384257934738685852747) (Pt.aff 22697820494933227784217579595265936078652966096259221990237995593349616431539 16343651864270862435121076698904548921253225208513541686506243637972346809015) (by decide) (by decide) (by decide) (by decide!) (by decide!)).trans <|
  (smulGo_stepL 70 69 1095952 547976 (Pt.aff 29092645043936645466937599105873319572065569439386794812993363378742537372086 16520984829754782117706826591697855291534413145351835106384257934738685852747) (Pt.aff 22697820494933227784217579595265936078652966096259221990237995593349616431539 16343651864270862435121076698904548921253225208513541686506243637972346809015) (Pt.aff 25753276451006530772609035119441511539702853951382939760237255287114279660974 2422583589014838157010093206618175316789735714365045471285397698769318037435) (Pt.aff 22697820494933227784217579595265936078652966096259221990237995593349616431539 16343651864270862435121076698904548921253225208513541686506243637972346809015) (by decide) (by decide) (by decide) (by decide!) (by decide!)).trans <|
  (smulGo_stepL 69 68 547976 273988 (Pt.aff 25753276451006530772609035119441511539702853951382939760237255287114279660974 2422583589014838157010093206618175316789735714365045471285397698769318037435) (Pt.aff 22697820494933227784217579595265936078652966096259221990237995593349616431539 16343651864270862435121076698904548921253225208513541686506243637972346809015) (Pt.aff 54970646928973620784629266883495887180241564268193613809715800770904854645121 57600418866697885528822998253983846938971609117909302135642057529119375427085) (Pt.aff 22697820494933227784217579595265936078652966096259221990237995593349616431539 16343651864270862435121076698904548921253225208513541686506243637972346809015) (by decide) (by decide) (by decide) (by decide!) (by decide!)).trans <|
  (smulGo_stepL 68 67 273988 136994 (Pt.aff 54970646928973620784629266883495887180241564268193613809715800770904854645121 57600418866697885528822998253983846938971609117909302135642057529119375427085) (Pt.aff 22697820494933227784217579595265936078652966096259221990237995593349616431539 16343651864270862435121076698904548921253225208513541686506243637972346809015) (Pt.aff 24600527939411616929972357856529187693203062829037218102551517795474024838428 39950847266375512850398282574487082564996332476831368282595204907110665969845) (Pt.aff 22697820494933227784217579595265936078652966096259221990237995593349616431539 16343651864270862435121076698904548921253225208513541686506243637972346809015) (by decide) (by decide) (by decide) (by decide!) (by decide!)).trans <|
  (smulGo_stepL 67 66 136994 68497 (Pt.aff 24600527939411616929972357856529187693203062829037218102551517795474024838428 39950847266375512850398282574487082564996332476831368282595204907110665969845) (Pt.aff 22697820494933227784217579595265936078652966096259221990237995593349616431539 16343651864270862435121076698904548921253225208513541686506243637972346809015) (Pt.aff 41153666554158629844666450890543502658858463740351008734841650979603142641157 6045189964225543350931417914561038843068372387714644717969044063453323279739) (Pt.aff 22697820494933227784217579595265936078652966096259221990237995593349616431539 16343651864270862435121076698904548921253225208513541686506243637972346809015) (by decide) (by decide) (by decide) (by decide!) (by decide!)).trans <|
  (smulGo_stepL 66 65 68497 34248 (Pt.aff 41153666554158629844666450890543502658858463740351008734841650979603142641157 6045189964225543350931417914561038843068372387714644717969044063453323279739) (Pt.aff 22697820494933227784217579595265936078652966096259221990237995593349616431539 16343651864270862435121076698904548921253225208513541686506243637972346809015) (Pt.aff 40554475328978695480053290981576865551929406631466060531581427497356255019718 22365189061656610999012220463359964626212328975667565418646794652699013156003) (Pt.aff 650036541673455790628465441242115966800566529771869763579299988855086840576 30562588790399105326734925334465478115251335203088137275804421007893488466437) (by decide) (by decide) (by decide) (by decide!) (by decide!)).trans <|
  (smulGo_stepL 65 64 34248 17124 (Pt.aff 40554475328978695480053290981576865551929406631466060531581427497356255019718 22365189061656610999012220463359964626212328975667565418646794652699013156003) (Pt.aff 650036541673455790628465441242115966800566529771869763579299988855086840576 30562588790399105326734925334465478115251335203088137275804421007893488466437) (Pt.aff 25135219177597812203115522137300859915624139181538999621812577463093923432792 24119518112027476013436929574666843170013318789168202385700054416638634255606) (Pt.aff 650036541673455790628465441242115966800566529771869763579299988855086840576 30562588790399105326734925334465478115251335203088137275804421007893488466437) (by decide) (by decide) (by decide) (by decide!) (by decide!)).trans <|
  (smulGo_stepL 64 63 17124 8562 (Pt.aff 25135219177597812203115522137300859915624139181538999621812577463093923432792 24119518112027476013436929574666843170013318789168202385700054416638634255606) (Pt.aff 650036541673455790628465441242115966800566529771869763579299988855086840576 30562588790399105326734925334465478115251335203088137275804421007893488466437) (Pt.aff 4476017461945404380411622060432539106102276521225782155779146836683746387945 55693567054790469662158674681938665595879705377760760378865035392718707059144) (Pt.aff 650036541673455790628465441242115966800566529771869763579299988855086840576 30562588790399105326734925334465478115251335203088137275804421007893488466437) (by decide) (by decide) (by decide) (by decide!) (by decide!)).trans <|
  (smulGo_stepL 63 62 8562 4281 (Pt.aff 4476017461945404380411622060432539106102276521225782155779146836683746387945 55693567054790469662158674681938665595879705377760760378865035392718707059144) (Pt.aff 650036541673455790628465441242115966800566529771869763579299988855086840576 30562588790399105326734925334465478115251335203088137275804421007893488466437) (Pt.aff 35640477246090386174219768601987882822252165362228645160894532242182399001457 12042697659287720063819795980400196914726756068258492577414505546467326543394) (Pt.aff 650036541673455790628465441242115966800566529771869763579299988855086840576 30562588790399105326734925334465478115251335203088137275804421007893488466437) (by decide) (by decide) (by decide) (by decide!) (by decide!)).trans <|
  (smulGo_stepL 62 61 4281 2140 (Pt.aff 35640477246090386174219768601987882822252165362228645160894532242182399001457 12042697659287720063819795980400196914726756068258492577414505546467326543394) (Pt.aff 650036541673455790628465441242115966800566529771869763579299988855086840576 30562588790399105326734925334465478115251335203088137275804421007893488466437) (Pt.aff 55928765183448916094640582389269847895109765685488036927274751833610269968978 41533338212406703162298904101980177670822585343375269775984154635091881162466) (Pt.aff 9829243360957877960922174167575689051470558024380968716375531417488873623875 51891631571913734409038190814750172041266062909300471833931890758332741971137) (by decide) (by decide) (by decide) (by decide!) (by decide!)).trans <|
  (smulGo_stepL 61 60 2140 1070 (Pt.aff 55928765183448916094640582389269847895109765685488036927274751833610269968978 41533338212406703162298904101980177670822585343375269775984154635091881162466) (Pt.aff 9829243360957877960922174167575689051470558024380968716375531417488873623875 51891631571913734409038190814750172041266062909300471833931890758332741971137) (Pt.aff 44301063648916882390012851136806530915862230388304215235977481840670825351999 24102011861499833237425845116089679820786453557374923626569685061129524491353) (Pt.aff 9829243360957877960922174167575689051470558024380968716375531417488873623875 51891631571913734409038190814750172041266062909300471833931890758332741971137) (by decide) (by decide) (by decide) (by decide!) (by decide!)).trans <|
  (smulGo_stepL 60 59 1070 535 (Pt.aff 44301063648916882390012851136806530915862230388304215235977481840670825351999 24102011861499833237425845116089679820786453557374923626569685061129524491353) (Pt.aff 9829243360957877960922174167575689051470558024380968716375531417488873623875 51891631571913734409038190814750172041266062909300471833931890758332741971137) (Pt.aff 45862396917147862744962271191511078520311373121103753283244868129153696554757 8418874672218803370375214920181847116315977025603427318073525127125880258024) (Pt.aff 9829243360957877960922174167575689051470558024380968716375531417488873623875 51891631571913734409038190814750172041266062909300471833931890758332741971137) (by decide) (by decide) (by decide) (by decide!) (by decide!)).trans <|
  (smulGo_stepL 59 58 535 267 (Pt.aff 45862396917147862744962271191511078520311373121103753283244868129153696554757 8418874672218803370375214920181847116315977025603427318073525127125880258024) (Pt.aff 9829243360957877960922174167575689051470558024380968716375531417488873623875 51891631571913734409038190814750172041266062909300471833931890758332741971137) (Pt.aff 46815536656749901164091122262700088011998700419347850330830909581192919015617 48037267419429700404918109144025517048317607153863607548405769534461669818845) (Pt.aff 38436780269463171199224378062111367386024572210445939413411256242506507215184 53008369765012528114117173897942411676732415149570381669109238944914994653154) (by decide) (by decide) (by decide) (by decide!) (by decide!)).trans <|
  (smulGo_stepL 58 57 267 133 (Pt.aff 46815536656749901164091122262700088011998700419347850330830909581192919015617 48037267419429700404918109144025517048317607153863607548405769534461669818845) (Pt.aff 38436780269463171199224378062111367386024572210445939413411256242506507215184 53008369765012528114117173897942411676732415149570381669109238944914994653154) (Pt.aff 37755874736301841421110386137559524744787242627565588828573271088866460441724 37840206871133959940803892255550180359465267363950533449484784255511151085764) (Pt.aff 37237486221751228545297083693892427802677104729934006393160479562295287486967 32463566086363763525417189440331698214485759402456301767836486100999247967325) (by decide) (by decide) (by decide) (by decide!) (by decide!)).trans <|
  (smulGo_stepL 57 56 133 66 (Pt.aff 37755874736301841421110386137559524744787242627565588828573271088866460441724 37840206871133959940803892255550180359465267363950533449484784255511151085764) (Pt.aff 37237486221751228545297083693892427802677104729934006393160479562295287486967 32463566086363763525417189440331698214485759402456301767836486100999247967325) (Pt.aff 37182313581857688339791657134331342886408872477168934944888422419061784603420 45834634315034957272339276899188927478519693766850174092439310925040638715497) (Pt.aff 39376916193000059188463233657630506791836530109016855122683694471105850386714 53948165423569368354438314557491080779142076307567930655585245222781581440964) (by decide) (by decide) (by decide) (by decide!) (by decide!)).trans <|
  (smulGo_stepL 56 55 66 33 (Pt.aff 37182313581857688339791657134331342886408872477168934944888422419061784603420 45834634315034957272339276899188927478519693766850174092439310925040638715497) (Pt.aff 39376916193000059188463233657630506791836530109016855122683694471105850386714 53948165423569368354438314557491080779142076307567930655585245222781581440964) (Pt.aff 52844398534930202445628652606338752956880066907224009053635401248659956439133 391056080683014126516716764107386822337247742148211572529960400655265480673) (Pt.aff 39376916193000059188463233657630506791836530109016855122683694471105850386714 53948165423569368354438314557491080779142076307567930655585245222781581440964) (by decide) (by decide) (by decide) (by decide!) (by decide!)).trans <|
  (smulGo_stepL 55 54 33 16 (Pt.aff 52844398534930202445628652606338752956880066907224009053635401248659956439133 391056080683014126516716764107386822337247742148211572529960400655265480673) (Pt.aff 39376916193000059188463233657630506791836530109016855122683694471105850386714 53948165423569368354438314557491080779142076307567930655585245222781581440964) (Pt.aff 56093060104464572327244345787577659624918574504025226607398547784324428464966 14760036174939520229232730972569366193682072369227612593087980804614582908601) (Pt.aff 27318974732473607350585625891783934304538871512157495915280449310965450683314 26356621277708497945359460521536501164637110808804655409001064578550509397770) (by decide) (by decide) (by decide) (by decide!) (by decide!)).trans <|
  (smulGo_stepL 54 53 16 8 (Pt.aff 56093060104464572327244345787577659624918574504025226607398547784324428464966 14760036174939520229232730972569366193682072369227612593087980804614582908601) (Pt.aff 27318974732473607350585625891783934304538871512157495915280449310965450683314 26356621277708497945359460521536501164637110808804655409001064578550509397770) (Pt.aff 20703973288373728840463923986974294316610660057259237433344774386221981713244 29548334786263328021474125661558020973894901481333954174139858877493960574750) (Pt.aff 27318974732473607350585625891783934304538871512157495915280449310965450683314 26356621277708497945359460521536501164637110808804655409001064578550509397770) (by decide) (by decide) (by decide) (by decide!) (by decide!)).trans <|
  (smulGo_stepL 53 52 8 4 (Pt.aff 20703973288373728840463923986974294316610660057259237433344774386221981713244 29548334786263328021474125661558020973894901481333954174139858877493960574750) (Pt.aff 27318974732473607350585625891783934304538871512157495915280449310965450683314 26356621277708497945359460521536501164637110808804655409001064578550509397770) (Pt.aff 22941500391098203569940870486570917324471315846822289740109720791788523053576 44883350509589093200304545917951111248253455719507612740721727957151702957076) (Pt.aff 27318974732473607350585625891783934304538871512157495915280449310965450683314 26356621277708497945359460521536501164637110808804655409001064578550509397770) (by decide) (by decide) (by decide) (by decide!) (by decide!)).trans <|
  (smulGo_stepL 52 51 4 2 (Pt.aff 22941500391098203569940870486570917324471315846822289740109720791788523053576 44883350509589093200304545917951111248253455719507612740721727957151702957076) (Pt.aff 27318974732473607350585625891783934304538871512157495915280449310965450683314 26356621277708497945359460521536501164637110808804655409001064578550509397770) (Pt.aff 57098760385375207210480689506363973704397539640642936548828730480864798337734 9453962174848218863278663021642718676957944663019492989843844850350872570940) (Pt.aff 27318974732473607350585625891783934304538871512157495915280449310965450683314 26356621277708497945359460521536501164637110808804655409001064578550509397770) (by decide) (by decide) (by decide) (by decide!) (by decide!)).trans <|
  (smulGo_stepL 51 50 2 1 (Pt.aff 57098760385375207210480689506363973704397539640642936548828730480864798337734 9453962174848218863278663021642718676957944663019492989843844850350872570940) (Pt.aff 27318974732473607350585625891783934304538871512157495915280449310965450683314 26356621277708497945359460521536501164637110808804655409001064578550509397770) (Pt.aff 56019213217711291706995908607568457780976430274319656869778294628717108784713 32625279804219111533544168270362533072615158124927288546818742186069874526) (Pt.aff 27318974732473607350585625891783934304538871512157495915280449310965450683314 26356621277708497945359460521536501164637110808804655409001064578550509397770) (by decide) (by decide) (by decide) (by decide!) (by decide!)).trans <|
  (smulGo_stepL 50 49 1 0 (Pt.aff 56019213217711291706995908607568457780976430274319656869778294628717108784713 32625279804219111533544168270362533072615158124927288546818742186069874526) (Pt.aff 27318974732473607350585625891783934304538871512157495915280449310965450683314 26356621277708497945359460521536501164637110808804655409001064578550509397770) (Pt.aff 2153713071886143703270368385428634338439102761060087002816332486803728634869 22351859404740869116986377371713771431668042707688424964858696105622781492153) (Pt.aff 14230460879622459435911779204800955537840525050907288535874576759141620645132 16896811615854149225310527173281493920415754006836902566566823292928215269874) (by decide) (by decide) (by decide) (by decide!) (by decide!)).trans <|
  smulGo_k0 49 (Pt.aff 2153713071886143703270368385428634338439102761060087002816332486803728634869 22351859404740869116986377371713771431668042707688424964858696105622781492153) (Pt.aff 14230460879622459435911779204800955537840525050907288535874576759141620645132 16896811615854149225310527173281493920415754006836902566566823292928215269874)


/-- Evaluation of `e·G` for the instance above. -/
theorem smul_e12_chain :
    smul 41531037008282976916172442357309632128607250080678331808209173051927585313624 G25519 = some (Pt.aff 12684577714678343884694524943516399583222203110438026454326903105395096669352 3345269853934786668046993437196630450756041231044741834715409013521034031419) :=
  (smul_ne 41531037008282976916172442357309632128607250080678331808209173051927585313624 G25519 (by decide)).trans <|
  (smulGo_stepL 300 299 41531037008282976916172442357309632128607250080678331808209173051927585313624 20765518504141488458086221178654816064303625040339165904104586525963792656812 G25519 Pt.inf (Pt.aff 14847277145635483483963372537557091634710985132825781088887140890597596352251 48981431527428949880507557032295310859754924433568441600873610210018059225738) Pt.inf (by decide) (by decide) (by decide) (by decide!) (by decide!)).trans <|
  (smulGo_stepL 299 298 20765518504141488458086221178654816064303625040339165904104586525963792656812 10382759252070744229043110589327408032151812520169582952052293262981896328406 (Pt.aff 14847277145635483483963372537557091634710985132825781088887140890597596352251 48981431527428949880507557032295310859754924433568441600873610210018059225738) Pt.inf (Pt.aff 55094879196667521951171181671895976763495004283458921215716618814842818532335 54569142357247972087436514192303000819046423163844230760178298996455322543037) Pt.inf (by decide) (by decide) (by decide) (by decide!) (by decide!)).trans <|
  (smulGo_stepL 298 297 10382759252070744229043110589327408032151812520169582952052293262981896328406 5191379626035372114521555294663704016075906260084791476026146631490948164203 (Pt.aff 55094879196667521951171181671895976763495004283458921215716618814842818532335 54569142357247972087436514192303000819046423163844230760178298996455322543037) Pt.inf (Pt.aff 17809203070174708532389388378138548413001352690456714369618601795787323709800 43658319779861883649625614158027928669364075039748811053911812303274265184024) Pt.inf (by decide) (by decide) (by decide) (by decide!) (by decide!)).trans <|
  (smulGo_stepL 297 296 5191379626035372114521555294663704016075906260084791476026146631490948164203 2595689813017686057260777647331852008037953130042395738013073315745474082101 (Pt.aff 17809203070174708532389388378138548413001352690456714369618601795787323709800 43658319779861883649625614158027928669364075039748811053911812303274265184024) Pt.inf (Pt.aff 22944042183821758196639555843847020275590080432146737615610504920265089949526 56444685192864803883208605530001556246075957811117071596575846594136720925814) (Pt.aff 17809203070174708532389388378138548413001352690456714369618601795787323709800 43658319779861883649625614158027928669364075039748811053911812303274265184024) (by decide) (by decide) (by decide) (by decide!) (by decide!)).trans <|
  (smulGo_stepL 296 295 2595689813017686057260777647331852008037953130042395738013073315745474082101 1297844906508843028630388823665926004018976565021197869006536657872737041050 (Pt.aff 22944042183821758196639555843847020275590080432146737615610504920265089949526 56444685192864803883208605530001556246075957811117071596575846594136720925814) (Pt.aff 17809203070174708532389388378138548413001352690456714369618601795787323709800 43658319779861883649625614158027928669364075039748811053911812303274265184024) (Pt.aff 15532369882961175629413809923992443230244967715281671432466728170287226640463 56335416821862827979933780787731392308070586752943408540232321265557702741921) (Pt.aff 46885383771022587199597475503533010686410913513820063963360091734274815768905 20878509908449179284436381335413367823550518663819728482739197967640055649533) (by decide) (by decide) (by decide) (by decide!) (by decide!)).trans <|
  (smulGo_stepL 295 294 1297844906508843028630388823665926004018976565021197869006536657872737041050 648922453254421514315194411832963002009488282510598934503268328936368520525 (Pt.aff 15532369882961175629413809923992443230244967715281671432466728170287226640463 56335416821862827979933780787731392308070586752943408540232321265557702741921) (Pt.aff 46885383771022587199597475503533010686410913513820063963360091734274815768905 20878509908449179284436381335413367823550518663819728482739197967640055649533) (Pt.aff 25440431385991821865611011909160990584394986998010612046364390231021319695784 38709610840924146695268614059246299829642189788704647073423155807552706691289) (Pt.aff 46885383771022587199597475503533010686410913513820063963360091734274815768905 20878509908449179284436381335413367823550518663819728482739197967640055649533) (by decide) (by decide) (by decide) (by decide!) (by decide!)).trans <|
  (smulGo_stepL 294 293 648922453254421514315194411832963002009488282510598934503268328936368520525 324461226627210757157597205916481501004744141255299467251634164468184260262 (Pt.aff 25440431385991821865611011909160990584394986998010612046364390231021319695784 38709610840924146695268614059246299829642189788704647073423155807552706691289) (Pt.aff 46885383771022587199597475503533010686410913513820063963360091734274815768905 20878509908449179284436381335413367823550518663819728482739197967640055649533) (Pt.aff 17783257407960810680354837346945257015895624650626251706574692262663994862777 30619650508289420193254070779072771856858675864847244777245863495543665503366) (Pt.aff 42095177834706328605462765619525459125190119685575956097854124151052223377579 53213812016435625265528179711420961008191022789548868508570074657751916980754) (by decide) (by decide) (by decide) (by decide!) (by decide!)).trans <|
  (smulGo_stepL 293 292 324461226627210757157597205916481501004744141255299467251634164468184260262 162230613313605378578798602958240750502372070627649733625817082234092130131 (Pt.aff 17783257407960810680354837346945257015895624650626251706574692262663994862777 30619650508289420193254070779072771856858675864847244777245863495543665503366) (Pt.aff 42095177834706328605462765619525459125190119685575956097854124151052223377579 53213812016435625265528179711420961008191022789548868508570074657751916980754) (Pt.aff 30304970916888107480065935010511794724894433394899282143542344546902516537576 50257579539495389914239365525479529743527989466200612922054996750286823985628) (Pt.aff 42095177834706328605462765619525459125190119685575956097854124151052223377579 53213812016435625265528179711420961008191022789548868508570074657751916980754) (by decide) (by decide) (by decide) (by decide!) (by decide!)).trans <|
  (smulGo_stepL 292 291 162230613313605378578798602958240750502372070627649733625817082234092130131 81115306656802689289399301479120375251186035313824866812908541117046065065 (Pt.aff 30304970916888107480065935010511794724894433394899282143542344546902516537576 50257579539495389914239365525479529743527989466200612922054996750286823985628) (Pt.aff 42095177834706328605462765619525459125190119685575956097854124151052223377579 53213812016435625265528179711420961008191022789548868508570074657751916980754) (Pt.aff 54225282695108759077235248811696286066923379721715754914863558519160533462417 6112824117839321568928022750080954506111286942863855044842860852552263757029) (Pt.aff 56662700584768927103192273670345692647360215165870235244335759793438939708675 39948648792821397810334022672738886915756891879763750643124771206686684059442) (by decide) (by decide) (by decide) (by decide!) (by decide!)).trans <|
  (smulGo_stepL 291 290 81115306656802689289399301479120375251186035313824866812908541117046065065 40557653328401344644699650739560187625593017656912433406454270558523032532 (Pt.aff 54225282695108759077235248811696286066923379721715754914863558519160533462417 6112824117839321568928022750080954506111286942863855044842860852552263757029) (Pt.aff 56662700584768927103192273670345692647360215165870235244335759793438939708675 39948648792821397810334022672738886915756891879763750643124771206686684059442) (Pt.aff 49286912025455541700088448635209848599578391814508579411038051257803110859354 46566958257070394114696084007949457110704786076063428982784770510272576147995) (Pt.aff 19113844941298660726155921505848942503204196237679946917447464079659171640833 40367438791765563924501163801942178196856814553335310655045533836493836108300) (by decide) (by decide) (by decide) (by decide!) (by decide!)).trans <|
  (smulGo_stepL 290 289 40557653328401344644699650739560187625593017656912433406454270558523032532 20278826664200672322349825369780093812796508828456216703227135279261516266 (Pt.aff 49286912025455541700088448635209848599578391814508579411038051257803110859354 46566958257070394114696084007949457110704786076063428982784770510272576147995) (Pt.aff 19113844941298660726155921505848942503204196237679946917447464079659171640833 40367438791765563924501163801942178196856814553335310655045533836493836108300) (Pt.aff 51071887403963500538024391941788759597482913754624556532001115928213611987086 14880845612203056986743133082782210637702893355497156705231405045884098582203) (Pt.aff 19113844941298660726155921505848942503204196237679946917447464079659171640833 40367438791765563924501163801942178196856814553335310655045533836493836108300) (by decide) (by decide) (by decide) (by decide!) (by decide!)).trans <|
  (smulGo_stepL 289 288 20278826664200672322349825369780093812796508828456216703227135279261516266 10139413332100336161174912684890046906398254414228108351613567639630758133 (Pt.aff 51071887403963500538024391941788759597482913754624556532001115928213611987086 14880845612203056986743133082782210637702893355497156705231405045884098582203) (Pt.aff 19113844941298660726155921505848942503204196237679946917447464079659171640833 40367438791765563924501163801942178196856814553335310655045533836493836108300) (Pt.aff 10086331325666623446405648758313676058142176852193288615844454034556455678276 42225006388801949230779190218735901113177485907184190306808096687327397952753) (Pt.aff 19113844941298660726155921505848942503204196237679946917447464079659171640833 40367438791765563924501163801942178196856814553335310655045533836493836108300) (by decide) (by decide) (by decide) (by decide!) (by decide!)).trans <|
  (smulGo_stepL 288 287 10139413332100336161174912684890046906398254414228108351613567639630758133 5069706666050168080587456342445023453199127207114054175806783819815379066 (Pt.aff 10086331325666623446405648758313676058142176852193288615844454034556455678276 42225006388801949230779190218735901113177485907184190306808096687327397952753) (Pt.aff 19113844941298660726155921505848942503204196237679946917447464079659171640833 40367438791765563924501163801942178196856814553335310655045533836493836108300) (Pt.aff 51223593371132357679729808846595870017825293736191628388123554247306298755632 22130592053057751209286202631088805771030407196436966136994547145633196723049) (Pt.aff 57469445691873295446719513301793607996188820681072308154669213960911797735514 34694179905492206115385274184157069825069779099208230556627034533619373512784) (by decide) (by decide) (by decide) (by decide!) (by decide!)).trans <|
  (smulGo_stepL 287 286 5069706666050168080587456342445023453199127207114054175806783819815379066 2534853333025084040293728171222511726599563603557027087903391909907689533 (Pt.aff 51223593371132357679729808846595870017825293736191628388123554247306298755632 22130592053057751209286202631088805771030407196436966136994547145633196723049) (Pt.aff 57469445691873295446719513301793607996188820681072308154669213960911797735514 34694179905492206115385274184157069825069779099208230556627034533619373512784) (Pt.aff 49540265377839243273196138123475699490700810640015286473949605942567488199889 54420553812815697523071987817412408413355733928899895244594414448542039630647) (Pt.aff 57469445691873295446719513301793607996188820681072308154669213960911797735514 34694179905492206115385274184157069825069779099208230556627034533619373512784) (by decide) (by decide) (by decide) (by decide!) (by decide!)).trans <|
  (smulGo_stepL 286 285 2534853333025084040293728171222511726599563603557027087903391909907689533 1267426666512542020146864085611255863299781801778513543951695954953844766 (Pt.aff 49540265377839243273196138123475699490700810640015286473949605942567488199889 54420553812815697523071987817412408413355733928899895244594414448542039630647) (Pt.aff 57469445691873295446719513301793607996188820681072308154669213960911797735514 34694179905492206115385274184157069825069779099208230556627034533619373512784) (Pt.aff 33015862919577705633689236357113166605140942121544946148363356549464518453928 36123260164744573229441859586045131408263150257622323729246704784115096450965) (Pt.aff 27483974407644523040431966488197152488529148863359079140120073694292276901171 37451286011792823713768950589420103578035888249479928369714024716857657756221) (by decide) (by decide) (by decide) (by decide!) (by decide!)).trans <|
  (smulGo_stepL 285 284 1267426666512542020146864085611255863299781801778513543951695954953844766 633713333256271010073432042805627931649890900889256771975847977476922383 (Pt.aff 33015862919577705633689236357113166605140942121544946148363356549464518453928 36123260164744573229441859586045131408263150257622323729246704784115096450965) (Pt.aff 27483974407644523040431966488197152488529148863359079140120073694292276901171 37451286011792823713768950589420103578035888249479928369714024716857657756221) (Pt.aff 54654622877210561147034463920942461775878535605324084155450687866475965538235 43092191109663751123450588414178473631136638815584326664256148067398370456744) (Pt.aff 27483974407644523040431966488197152488529148863359079140120073694292276901171 37451286011792823713768950589420103578035888249479928369714024716857657756221) (by decide) (by decide) (by decide) (by decide!) (by decide!)).trans <|
  (smulGo_stepL 284 283 633713333256271010073432042805627931649890900889256771975847977476922383 316856666628135505036716021402813965824945450444628385987923988738461191 (Pt.aff 54654622877210561147034463920942461775878535605324084155450687866475965538235 43092191109663751123450588414178473631136638815584326664256148067398370456744) (Pt.aff 27483974407644523040431966488197152488529148863359079140120073694292276901171 37451286011792823713768950589420103578035888249479928369714024716857657756221) (Pt.aff 3234725970710577003908394143346912092253159967691409453263540959515562062822 26798726588134570203658645334513717995129751922044663579127240147351309723803) (Pt.aff 48932801430950397633733203734196823950575145908164946397368363955011853929110 50922542348754139885244154306609743682572525295644534858303081599871066193119) (by decide) (by decide) (by decide) (by decide!) (by decide!)).trans <|
  (smulGo_stepL 283 282 316856666628135505036716021402813965824945450444628385987923988738461191 158428333314067752518358010701406982912472725222314192993961994369230595 (Pt.aff 3234725970710577003908394143346912092253159967691409453263540959515562062822 26798726588134570203658645334513717995129751922044663579127240147351309723803) (Pt.aff 48932801430950397633733203734196823950575145908164946397368363955011853929110 50922542348754139885244154306609743682572525295644534858303081599871066193119) (Pt.aff 49666293210476143019494146349108050973945357446667680224166931982005865609754 50028047411840232102497693648205970383730258957745387608703200046830046461121) (Pt.aff 42927763217345283357022317701334629484366380764637781236969909757016725061610 7603257596325356994455642657272633181104295091037588776638032962852278743552) (by decide) (by decide) (by decide) (by decide!) (by decide!)).trans <|
  (smulGo_stepL 282 281 158428333314067752518358010701406982912472725222314192993961994369230595 79214166657033876259179005350703491456236362611157096496980997184615297 (Pt.aff 49666293210476143019494146349108050973945357446667680224166931982005865609754 50028047411840232102497693648205970383730258957745387608703200046830046461121) (Pt.aff 42927763217345283357022317701334629484366380764637781236969909757016725061610 7603257596325356994455642657272633181104295091037588776638032962852278743552) (Pt.aff 31159070951023339656860695534617404432516921170350095782313190547498538517918 45263189211364542490100189240528002114520774139765845524791945868230894534376) (Pt.aff 9526030415569928212886358610311824419944156633810072891945285011823784451186 11170606535935509161919690722800388586831570546936669410144239380505303646517) (by decide) (by decide) (by decide) (by decide!) (by decide!)).trans <|
  (smulGo_stepL 281 280 79214166657033876259179005350703491456236362611157096496980997184615297 39607083328516938129589502675351745728118181305578548248490498592307648 (Pt.aff 31159070951023339656860695534617404432516921170350095782313190547498538517918 45263189211364542490100189240528002114520774139765845524791945868230894534376) (Pt.aff 9526030415569928212886358610311824419944156633810072891945285011823784451186 11170606535935509161919690722800388586831570546936669410144239380505303646517) (Pt.aff 8846473550198149964544983005138690232396819242552778584609904765452364277575 3311367769620422195891386278193098367460147542183474778862496467473341155634) (Pt.aff 33180720130036290636672827906024793482517144148428223057837897425256922570575 37210408420656794994329190886090609333398732631903456572913822370580714389475) (by decide) (by decide) (by decide) (by decide!) (by decide!)).trans <|
  (smulGo_stepL 280 279 39607083328516938129589502675351745728118181305578548248490498592307648 19803541664258469064794751337675872864059090652789274124245249296153824 (Pt.aff 8846473550198149964544983005138690232396819242552778584609904765452364277575 3311367769620422195891386278193098367460147542183474778862496467473341155634) (Pt.aff 33180720130036290636672827906024793482517144148428223057837897425256922570575 37210408420656794994329190886090609333398732631903456572913822370580714389475) (Pt.aff 27462913214056213812441054372115353669918629051082099575151370963709005769868 41636458383527807455786538473813836066610945753261352260582062861715437250119) (Pt.aff 33180720130036290636672827906024793482517144148428223057837897425256922570575 37210408420656794994329190886090609333398732631903456572913822370580714389475) (by decide) (by decide) (by decide) (by decide!) (by decide!)).trans <|
  (smulGo_stepL 279 278 19803541664258469064794751337675872864059090652789274124245249296153824 9901770832129234532397375668837936432029545326394637062122624648076912 (Pt.aff 27462913214056213812441054372115353669918629051082099575151370963709005769868 41636458383527807455786538473813836066610945753261352260582062861715437250119) (Pt.aff 33180720130036290636672827906024793482517144148428223057837897425256922570575 37210408420656794994329190886090609333398732631903456572913822370580714389475) (Pt.aff 44807495161888562629560256511674079784453069130357309435346161840861294711470 21838636198742245770707032221240317199746926637265372512933210009969526237888) (Pt.aff 33180720130036290636672827906024793482517144148428223057837897425256922570575 37210408420656794994329190886090609333398732631903456572913822370580714389475) (by decide) (by decide) (by decide) (by decide!) (by decide!)).trans <|
  (smulGo_stepL 278 277 9901770832129234532397375668837936432029545326394637062122624648076912 4950885416064617266198687834418968216014772663197318531061312324038456 (Pt.aff 44807495161888562629560256511674079784453069130357309435346161840861294711470 21838636198742245770707032221240317199746926637265372512933210009969526237888) (Pt.aff 33180720130036290636672827906024793482517144148428223057837897425256922570575 37210408420656794994329190886090609333398732631903456572913822370580714389475) (Pt.aff 4726507511034543257864004367440420604593792168712137866500249029073389764130 36185803276989568151063758891584835581600044204525146898019240193523702778586) (Pt.aff 33180720130036290636672827906024793482517144148428223057837897425256922570575 37210408420656794994329190886090609333398732631903456572913822370580714389475) (by decide) (by decide) (by decide) (by decide!) (by decide!)).trans <|
  (smulGo_stepL 277 276 4950885416064617266198687834418968216014772663197318531061312324038456 2475442708032308633099343917209484108007386331598659265530656162019228 (Pt.aff 4726507511034543257864004367440420604593792168712137866500249029073389764130 36185803276989568151063758891584835581600044204525146898019240193523702778586) (Pt.aff 33180720130036290636672827906024793482517144148428223057837897425256922570575 37210408420656794994329190886090609333398732631903456572913822370580714389475) (Pt.aff 23469489803965548658608156075054883641380369867948233955676267925176518471144 22682425362709751502511834414926755116987335645623170476004622556770458955282) (Pt.aff 33180720130036290636672827906024793482517144148428223057837897425256922570575 37210408420656794994329190886090609333398732631903456572913822370580714389475) (by decide) (by decide) (by decide) (by decide!) (by decide!)).trans <|
  (smulGo_stepL 276 275 2475442708032308633099343917209484108007386331598659265530656162019228 1237721354016154316549671958604742054003693165799329632765328081009614 (Pt.aff 23469489803965548658608156075054883641380369867948233955676267925176518471144 22682425362709751502511834414926755116987335645623170476004622556770458955282) (Pt.aff 33180720130036290636672827906024793482517144148428223057837897425256922570575 37210408420656794994329190886090609333398732631903456572913822370580714389475) (Pt.aff 9574624570587677515719971143614269076207347944189882917398808244029778872170 61086133495303318115020019229551192980631762721288870745072081647479969393) (Pt.aff 33180720130036290636672827906024793482517144148428223057837897425256922570575 37210408420656794994329190886090609333398732631903456572913822370580714389475) (by decide) (by decide) (by decide) (by decide!) (by decide!)).trans <|
  (smulGo_stepL 275 274 1237721354016154316549671958604742054003693165799329632765328081009614 618860677008077158274835979302371027001846582899664816382664040504807 (Pt.aff 9574624570587677515719971143614269076207347944189882917398808244029778872170 61086133495303318115020019229551192980631762721288870745072081647479969393) (Pt.aff 33180720130036290636672827906024793482517144148428223057837897425256922570575 37210408420656794994329190886090609333398732631903456572913822370580714389475) (Pt.aff 42854986319647871714935870243473941153795915420292709728664989759094235501838 51900420892429577679564062319210952615578664393679667658503030460825791592782) (Pt.aff 33180720130036290636672827906024793482517144148428223057837897425256922570575 37210408420656794994329190886090609333398732631903456572913822370580714389475) (by decide) (by decide) (by decide) (by decide!) (by decide!)).trans <|
  (smulGo_stepL 274 273 618860677008077158274835979302371027001846582899664816382664040504807 309430338504038579137417989651185513500923291449832408191332020252403 (Pt.aff 42854986319647871714935870243473941153795915420292709728664989759094235501838 51900420892429577679564062319210952615578664393679667658503030460825791592782) (Pt.aff 33180720130036290636672827906024793482517144148428223057837897425256922570575 37210408420656794994329190886090609333398732631903456572913822370580714389475) (Pt.aff 34744218710466503632120132233063290681921367605614369799225819145368511887102 13929350152895532804579871582884737008626840552261797408659870255697745152802) (Pt.aff 53714217991898163601574265366462900825891413146151740403893880604948197851790 32716448337725635792569184374886613475031951938121916699313511664814911058796) (by decide) (by decide) (by decide) (by decide!) (by decide!)).trans <|
  (smulGo_stepL 273 272 309430338504038579137417989651185513500923291449832408191332020252403 154715169252019289568708994825592756750461645724916204095666010126201 (Pt.aff 34744218710466503632120132233063290681921367605614369799225819145368511887102 13929350152895532804579871582884737008626840552261797408659870255697745152802) (Pt.aff 53714217991898163601574265366462900825891413146151740403893880604948197851790 32716448337725635792569184374886613475031951938121916699313511664814911058796) (Pt.aff 47301690456959680532105487883364462051655952412433874941589449553308039487620 14512373956070641891089373153155220445589497610819117237332526949630531036157) (Pt.aff 20398286922952064453208838013072070533338424877162867312540630087700195725073 5749025326035771028043620683676034932822543291107709882283838410284414003254) (by decide) (by decide) (by decide) (by decide!) (by decide!)).trans <|
  (smulGo_stepL 272 271 154715169252019289568708994825592756750461645724916204095666010126201 77357584626009644784354497412796378375230822862458102047833005063100 (Pt.aff 47301690456959680532105487883364462051655952412433874941589449553308039487620 14512373956070641891089373153155220445589497610819117237332526949630531036157) (Pt.aff 20398286922952064453208838013072070533338424877162867312540630087700195725073 5749025326035771028043620683676034932822543291107709882283838410284414003254) (Pt.aff 32413625813690915262286191916236928367141666031560248985081203211036912987044 41769327591309142934229816716554923342133767366644596011743312443429644617508) (Pt.aff 9362793864901146095254363149956332669168933546598130297263355335577169138029 28395331931324445143667350960994427095855999601638649411711708464033054054852) (by decide) (by decide) (by decide) (by decide!) (by decide!)).trans <|
  (smulGo_stepL 271 270 77357584626009644784354497412796378375230822862458102047833005063100 38678792313004822392177248706398189187615411431229051023916502531550 (Pt.aff 32413625813690915262286191916236928367141666031560248985081203211036912987044 41769327591309142934229816716554923342133767366644596011743312443429644617508) (Pt.aff 9362793864901146095254363149956332669168933546598130297263355335577169138029 28395331931324445143667350960994427095855999601638649411711708464033054054852) (Pt.aff 41379293409239642869288704213036172382057721498728102386648218789786612534793 5456852910688836556005303363336473798826734177980979660665942191427531465847) (Pt.aff 9362793864901146095254363149956332669168933546598130297263355335577169138029 28395331931324445143667350960994427095855999601638649411711708464033054054852) (by decide) (by decide) (by decide) (by decide!) (by decide!)).trans <|
  (smulGo_stepL 270 269 38678792313004822392177248706398189187615411431229051023916502531550 19339396156502411196088624353199094593807705715614525511958251265775 (Pt.aff 41379293409239642869288704213036172382057721498728102386648218789786612534793 5456852910688836556005303363336473798826734177980979660665942191427531465847) (Pt.aff 9362793864901146095254363149956332669168933546598130297263355335577169138029 28395331931324445143667350960994427095855999601638649411711708464033054054852) (Pt.aff 20619654899181169685335499739783805830899649285672538168518462766011616676946 22610812864492192707386873932100477435235322940962967109341952928908728757691) (Pt.aff 9362793864901146095254363149956332669168933546598130297263355335577169138029 28395331931324445143667350960994427095855999601638649411711708464033054054852) (by decide) (by decide) (by decide) (by decide!) (by decide!)).trans <|
  (smulGo_stepL 269 268 19339396156502411196088624353199094593807705715614525511958251265775 9669698078251205598044312176599547296903852857807262755979125632887 (Pt.aff 20619654899181169685335499739783805830899649285672538168518462766011616676946 22610812864492192707386873932100477435235322940962967109341952928908728757691) (Pt.aff 9362793864901146095254363149956332669168933546598130297263355335577169138029 28395331931324445143667350960994427095855999601638649411711708464033054054852) (Pt.aff 3012258556955631578457580005931013341495969264839989360425135032985050405936 49124357059636324485968169031819241570680675652949574057085093248979592666598) (Pt.aff 5002275021734849158062091301620294259818471562387916639501228814876799980107 11845403129439650739044137807388169894118456945189103897900953603070464031687) (by decide) (by decide) (by decide) (by decide!) (by decide!)).trans <|
  (smulGo_stepL 268 267 9669698078251205598044312176599547296903852857807262755979125632887 4834849039125602799022156088299773648451926428903631377989562816443 (Pt.aff 3012258556955631578457580005931013341495969264839989360425135032985050405936 49124357059636324485968169031819241570680675652949574057085093248979592666598) (Pt.aff 5002275021734849158062091301620294259818471562387916639501228814876799980107 11845403129439650739044137807388169894118456945189103897900953603070464031687) (Pt.aff 31086565973737135728559025642768592752025877129898042336019450621544269310044 56737697893295420632238187290955313864851801176232758040370053756070766685533) (Pt.aff 25652169086624231822018352078259228737806118093627925277954463485199943628192 27779366514514180692627088546500512639078013791238933009261853205537817980916) (by decide) (by decide) (by decide) (by decide!) (by decide!)).trans <|
  (smulGo_stepL 267 266 4834849039125602799022156088299773648451926428903631377989562816443 2417424519562801399511078044149886824225963214451815688994781408221 (Pt.aff 31086565973737135728559025642768592752025877129898042336019450621544269310044 56737697893295420632238187290955313864851801176232758040370053756070766685533) (Pt.aff 25652169086624231822018352078259228737806118093627925277954463485199943628192 27779366514514180692627088546500512639078013791238933009261853205537817980916) (Pt.aff 21840234278931228990776916980229800055033367067603940401040927646989835846530 26474716874228513952552215188820206483088821845524943389648565615407038054020) (Pt.aff 33356095870646277533343634639428654818108208610754465161706368143561972672515 19269960590581594079058771400998930948441797681871114625523373472750384889585) (by decide) (by decide) (by decide) (by decide!) (by decide!)).trans <|
  (smulGo_stepL 266 265 2417424519562801399511078044149886824225963214451815688994781408221 1208712259781400699755539022074943412112981607225907844497390704110 (Pt.aff 21840234278931228990776916980229800055033367067603940401040927646989835846530 26474716874228513952552215188820206483088821845524943389648565615407038054020) (Pt.aff 33356095870646277533343634639428654818108208610754465161706368143561972672515 19269960590581594079058771400998930948441797681871114625523373472750384889585) (Pt.aff 36319684321133595695520712145825588813570250041074464741405096164005222924345 2630066960001169096285681440095269334184522165375658400528107654536183794876) (Pt.aff 36924096894576811715642545950528767629784595332428162836331315509696637689679 46970316082523033505498879095363459430892023851751745753221208994044783181034) (by decide) (by decide) (by decide) (by decide!) (by decide!)).trans <|
  (smulGo_stepL 265 264 1208712259781400699755539022074943412112981607225907844497390704110 604356129890700349877769511037471706056490803612953922248695352055 (Pt.aff 36319684321133595695520712145825588813570250041074464741405096164005222924345 2630066960001169096285681440095269334184522165375658400528107654536183794876) (Pt.aff 36924096894576811715642545950528767629784595332428162836331315509696637689679 46970316082523033505498879095363459430892023851751745753221208994044783181034) (Pt.aff 5553631609598778693145861309520735169378823192562005207465767352443889799044 33899636599313109563677741360821708680315399837274349340188753231212325707983) (Pt.aff 36924096894576811715642545950528767629784595332428162836331315509696637689679 46970316082523033505498879095363459430892023851751745753221208994044783181034) (by decide) (by decide) (by decide) (by decide!) (by decide!)).trans <|
  (smulGo_stepL 264 263 604356129890700349877769511037471706056490803612953922248695352055 302178064945350174938884755518735853028245401806476961124347676027 (Pt.aff 5553631609598778693145861309520735169378823192562005207465767352443889799044 33899636599313109563677741360821708680315399837274349340188753231212325707983) (Pt.aff 36924096894576811715642545950528767629784595332428162836331315509696637689679 46970316082523033505498879095363459430892023851751745753221208994044783181034) (Pt.aff 52122020112011596649974164329759728600986946418290016991424728838206641399395 49336213606188092795709315763796033133914165380606162074584854678890986729329) (Pt.aff 21197402766928186270467292602564862799860508942461628895264431390082079941027 52343125669724701114747659046745495304264660063777570133410909580887669050373) (by decide) (by decide) (by decide) (by decide!) (by decide!)).trans <|
  (smulGo_stepL 263 262 302178064945350174938884755518735853028245401806476961124347676027 151089032472675087469442377759367926514122700903238480562173838013 (Pt.aff 52122020112011596649974164329759728600986946418290016991424728838206641399395 49336213606188092795709315763796033133914165380606162074584854678890986729329) (Pt.aff 21197402766928186270467292602564862799860508942461628895264431390082079941027 52343125669724701114747659046745495304264660063777570133410909580887669050373) (Pt.aff 2960757427372074820499067142971426574828361497246775187412104181578971643024 19156549693004119089201585086672892521207894935161677027485479458508110385360) (Pt.aff 27416100719847822754440287672316081150709410283535249745285001292488278468756 52606353834288518506607110883142256322258834484105122943736228686653228299069) (by decide) (by decide) (by decide) (by decide!) (by decide!)).trans <|
  (smulGo_stepL 262 261 151089032472675087469442377759367926514122700903238480562173838013 75544516236337543734721188879683963257061350451619240281086919006 (Pt.aff 2960757427372074820499067142971426574828361497246775187412104181578971643024 19156549693004119089201585086672892521207894935161677027485479458508110385360) (Pt.aff 27416100719847822754440287672316081150709410283535249745285001292488278468756 52606353834288518506607110883142256322258834484105122943736228686653228299069) (Pt.aff 51711733302688817882221347564677719161774296818083238937313216460042677530824 48354164175766025127232627136868121750943614028443544932135746537749293621960) (Pt.aff 37060645310912539092818402649346798968204519680523478442424723156021204299258 47532004710773816432464061998850008145272722985883558742292303609620984375596) (by decide) (by decide) (by decide) (by decide!) (by decide!)).trans <|
  (smulGo_stepL 261 260 75544516236337543734721188879683963257061350451619240281086919006 37772258118168771867360594439841981628530675225809620140543459503 (Pt.aff 51711733302688817882221347564677719161774296818083238937313216460042677530824 48354164175766025127232627136868121750943614028443544932135746537749293621960) (Pt.aff 37060645310912539092818402649346798968204519680523478442424723156021204299258 47532004710773816432464061998850008145272722985883558742292303609620984375596) (Pt.aff 22357366280338694205089198490482991953559470275337559672464838956397462176677 50733085939192200044106177298574224054131780820840797844750102889182251928538) (Pt.aff 37060645310912539092818402649346798968204519680523478442424723156021204299258 47532004710773816432464061998850008145272722985883558742292303609620984375596) (by decide) (by decide) (by decide) (by decide!) (by decide!)).trans <|
  (smulGo_stepL 260 259 37772258118168771867360594439841981628530675225809620140543459503 18886129059084385933680297219920990814265337612904810070271729751 (Pt.aff 22357366280338694205089198490482991953559470275337559672464838956397462176677 50733085939192200044106177298574224054131780820840797844750102889182251928538) (Pt.aff 37060645310912539092818402649346798968204519680523478442424723156021204299258 47532004710773816432464061998850008145272722985883558742292303609620984375596) (Pt.aff 47944007597318034296966575842017795430767131461902789014371942913198519598019 394640721174957261339788898098640188281846650188786934565517886890602503176) (Pt.aff 14015075508828008073659312646054344039690782270419276817863961232079207345536 54389658331074000900130667867537231489340487029295055902090433078858242133013) (by decide) (by decide) (by decide) (by decide!) (by decide!)).trans <|
  (smulGo_stepL 259 258 18886129059084385933680297219920990814265337612904810070271729751 9443064529542192966840148609960495407132668806452405035135864875 (Pt.aff 47944007597318034296966575842017795430767131461902789014371942913198519598019 394640721174957261339788898098640188281846650188786934565517886890602503176) (Pt.aff 14015075508828008073659312646054344039690782270419276817863961232079207345536 54389658331074000900130667867537231489340487029295055902090433078858242133013) (Pt.aff 13817892985222378120406686435123352862370566515701730478138063054548168896558 32236760785893963365206466455639815771921599506137836085450164562800542579717) (Pt.aff 15254913720751910624164451556546543589624024596955977243266501482621715267266 6248162723195534907905385731825184661709495013822251690184584989039464221569) (by decide) (by decide) (by decide) (by decide!) (by decide!)).trans <|
  (smulGo_stepL 258 257 9443064529542192966840148609960495407132668806452405035135864875 4721532264771096483420074304980247703566334403226202517567932437 (Pt.aff 13817892985222378120406686435123352862370566515701730478138063054548168896558 32236760785893963365206466455639815771921599506137836085450164562800542579717) (Pt.aff 15254913720751910624164451556546543589624024596955977243266501482621715267266 6248162723195534907905385731825184661709495013822251690184584989039464221569) (Pt.aff 51281465662162382354297421983005787770853701364662892780167550192643953811873 44559276459875551250127572106623892656593474048218976456074932187603169667096) (Pt.aff 13057184584773392209992638369617368911902300681024258028237451921776339814496 16313576232277219329290718310218362684437445470257720268022780844330509917514) (by decide) (by decide) (by decide) (by decide!) (by decide!)).trans <|
  (smulGo_stepL 257 256 4721532264771096483420074304980247703566334403226202517567932437 2360766132385548241710037152490123851783167201613101258783966218 (Pt.aff 51281465662162382354297421983005787770853701364662892780167550192643953811873 44559276459875551250127572106623892656593474048218976456074932187603169667096) (Pt.aff 13057184584773392209992638369617368911902300681024258028237451921776339814496 16313576232277219329290718310218362684437445470257720268022780844330509917514) (Pt.aff 11745477374687293966114393221391031534724832331988698562303719900421697174735 40909199581885855894308694967574562622420911310752313108013712847229809977491) (Pt.aff 22561817797797189554615426811502993855038771019965874480703316148108949318175 23054549046875240848891879693950202892731232852012306195216974159487399574479) (by decide) (by decide) (by decide) (by decide!) (by decide!)).trans <|
  (smulGo_stepL 256 255 2360766132385548241710037152490123851783167201613101258783966218 1180383066192774120855018576245061925891583600806550629391983109 (Pt.aff 11745477374687293966114393221391031534724832331988698562303719900421697174735 40909199581885855894308694967574562622420911310752313108013712847229809977491) (Pt.aff 22561817797797189554615426811502993855038771019965874480703316148108949318175 23054549046875240848891879693950202892731232852012306195216974159487399574479) (Pt.aff 3556343133604098013895123590552896376616479165049438465723005214579538789287 23893209115163143558178736751982838782668091494468616615437588293176783768954) (Pt.aff 22561817797797189554615426811502993855038771019965874480703316148108949318175 23054549046875240848891879693950202892731232852012306195216974159487399574479) (by decide) (by decide) (by decide) (by decide!) (by decide!)).trans <|
  (smulGo_stepL 255 254 1180383066192774120855018576245061925891583600806550629391983109 590191533096387060427509288122530962945791800403275314695991554 (Pt.aff 3556343133604098013895123590552896376616479165049438465723005214579538789287 23893209115163143558178736751982838782668091494468616615437588293176783768954) (Pt.aff 22561817797797189554615426811502993855038771019965874480703316148108949318175 23054549046875240848891879693950202892731232852012306195216974159487399574479) (Pt.aff 1500964433367442872665566755298063186336340552611417222355614210745468267943 25610909261767449433886611716173434407122424608524497756230877051304551846861) (Pt.aff 3623435587942436151037147936935250766379867839476588170142286520430924493888 44200840810859260096628953824836493593578211225259763868906663688705863626623) (by decide) (by decide) (by decide) (by decide!) (by decide!)).trans <|
  (smulGo_stepL 254 253 590191533096387060427509288122530962945791800403275314695991554 295095766548193530213754644061265481472895900201637657347995777 (Pt.aff 1500964433367442872665566755298063186336340552611417222355614210745468267943 25610909261767449433886611716173434407122424608524497756230877051304551846861) (Pt.aff 3623435587942436151037147936935250766379867839476588170142286520430924493888 44200840810859260096628953824836493593578211225259763868906663688705863626623) (Pt.aff 26634241160922778201072600078181966601689681827465862826536251027780569687394 44061699927032207511268673444738622791601360319214937502276887470176050440786) (Pt.aff 3623435587942436151037147936935250766379867839476588170142286520430924493888 44200840810859260096628953824836493593578211225259763868906663688705863626623) (by decide) (by decide) (by decide) (by decide!) (by decide!)).trans <|
  (smulGo_stepL 253 252 295095766548193530213754644061265481472895900201637657347995777 147547883274096765106877322030632740736447950100818828673997888 (Pt.aff 26634241160922778201072600078181966601689681827465862826536251027780569687394 44061699927032207511268673444738622791601360319214937502276887470176050440786) (Pt.aff 3623435587942436151037147936935250766379867839476588170142286520430924493888 44200840810859260096628953824836493593578211225259763868906663688705863626623) (Pt.aff 49608484152075346433970349841276541023795324742449036691887928995116939916302 48078924253909089797701188119048931877742562180946453184469063845861556140781) (Pt.aff 21879089256362208106738430378194736573745875756448155766881191113019331448352 694774108007346613230841987231812016702259475200276855354968640877001028195) (by decide) (by decide) (by decide) (by decide!) (by decide!)).trans <|
  (smulGo_stepL 252 251 147547883274096765106877322030632740736447950100818828673997888 73773941637048382553438661015316370368223975050409414336998944 (Pt.aff 49608484152075346433970349841276541023795324742449036691887928995116939916302 48078924253909089797701188119048931877742562180946453184469063845861556140781) (Pt.aff 21879089256362208106738430378194736573745875756448155766881191113019331448352 694774108007346613230841987231812016702259475200276855354968640877001028195) (Pt.aff 24627470887543915455436239980508202642460496531639877874245429231767115272968 39442015171362139457918823414147548469637084879634144196435130949340614913062) (Pt.aff 21879089256362208106738430378194736573745875756448155766881191113019331448352 694774108007346613230841987231812016702259475200276855354968640877001028195) (by decide) (by decide) (by decide) (by decide!) (by decide!)).trans <|
  (smulGo_stepL 251 250 73773941637048382553438661015316370368223975050409414336998944 36886970818524191276719330507658185184111987525204707168499472 (Pt.aff 24627470887543915455436239980508202642460496531639877874245429231767115272968 39442015171362139457918823414147548469637084879634144196435130949340614913062) (Pt.aff 21879089256362208106738430378194736573745875756448155766881191113019331448352 694774108007346613230841987231812016702259475200276855354968640877001028195) (Pt.aff 36028237122897441891324617926313772010920225440182581888847497208087912132051 14374776358928873026633671861502812834607238705395378732000892984935554096504) (Pt.aff 21879089256362208106738430378194736573745875756448155766881191113019331448352 694774108007346613230841987231812016702259475200276855354968640877001028195) (by decide) (by decide) (by decide) (by decide!) (by decide!)).trans <|
  (smulGo_stepL 250 249 36886970818524191276719330507658185184111987525204707168499472 18443485409262095638359665253829092592055993762602353584249736 (Pt.aff 36028237122897441891324617926313772010920225440182581888847497208087912132051 14374776358928873026633671861502812834607238705395378732000892984935554096504) (Pt.aff 21879089256362208106738430378194736573745875756448155766881191113019331448352 694774108007346613230841987231812016702259475200276855354968640877001028195) (Pt.aff 17641564544983007888417516359225437134301625964820615448400458020321388511035 14661681860908324981818047238793091947934673935887635280176075232236562141580) (Pt.aff 21879089256362208106738430378194736573745875756448155766881191113019331448352 694774108007346613230841987231812016702259475200276855354968640877001028195) (by decide) (by decide) (by decide) (by decide!) (by decide!)).trans <|
  (smulGo_stepL 249 248 18443485409262095638359665253829092592055993762602353584249736 9221742704631047819179832626914546296027996881301176792124868 (Pt.aff 17641564544983007888417516359225437134301625964820615448400458020321388511035 14661681860908324981818047238793091947934673935887635280176075232236562141580) (Pt.aff 21879089256362208106738430378194736573745875756448155766881191113019331448352 694774108007346613230841987231812016702259475200276855354968640877001028195) (Pt.aff 45837368707478601690368523293910752016811513514848904108394313324597990976914 54710479538276307290104928954884296818133838313407183553207529007900313790622) (Pt.aff 21879089256362208106738430378194736573745875756448155766881191113019331448352 694774108007346613230841987231812016702259475200276855354968640877001028195) (by decide) (by decide) (by decide) (by decide!) (by decide!)).trans <|
  (smulGo_stepL 248 247 9221742704631047819179832626914546296027996881301176792124868 4610871352315523909589916313457273148013998440650588396062434 (Pt.aff 45837368707478601690368523293910752016811513514848904108394313324597990976914 54710479538276307290104928954884296818133838313407183553207529007900313790622) (Pt.aff 21879089256362208106738430378194736573745875756448155766881191113019331448352 694774108007346613230841987231812016702259475200276855354968640877001028195) (Pt.aff 9312850218704896929090375578122629957155212562285188378140507634107363376952 2663493914604843710677424362853285028793778356225750768623210357019197630212) (Pt.aff 21879089256362208106738430378194736573745875756448155766881191113019331448352 694774108007346613230841987231812016702259475200276855354968640877001028195) (by decide) (by decide) (by decide) (by decide!) (by decide!)).trans <|
  (smulGo_stepL 247 246 4610871352315523909589916313457273148013998440650588396062434 2305435676157761954794958156728636574006999220325294198031217 (Pt.aff 9312850218704896929090375578122629957155212562285188378140507634107363376952 2663493914604843710677424362853285028793778356225750768623210357019197630212) (Pt.aff 21879089256362208106738430378194736573745875756448155766881191113019331448352 694774108007346613230841987231812016702259475200276855354968640877001028195) (Pt.aff 32216761451535245744076539051522707896289548950862317664242070577279370546584 38045896385517828976991134771247589890767719790788266165725459668238485335730) (Pt.aff 21879089256362208106738430378194736573745875756448155766881191113019331448352 694774108007346613230841987231812016702259475200276855354968640877001028195) (by decide) (by decide) (by decide) (by decide!) (by decide!)).trans <|
  (smulGo_stepL 246 245 2305435676157761954794958156728636574006999220325294198031217 1152717838078880977397479078364318287003499610162647099015608 (Pt.aff 32216761451535245744076539051522707896289548950862317664242070577279370546584 38045896385517828976991134771247589890767719790788266165725459668238485335730) (Pt.aff 21879089256362208106738430378194736573745875756448155766881191113019331448352 694774108007346613230841987231812016702259475200276855354968640877001028195) (Pt.aff 18397729389765787153700829822948123310076932707706935516043814354551494625387 41084857998051111800196981154630288916716845716608365082880066781843528842143) (Pt.aff 1921409182703195841289781625815543903881339891853074030368761620765295590862 7443194904824495885854403576320390791266595650584147419866028738740381037237) (by decide) (by decide) (by decide) (by decide!) (by decide!)).trans <|
  (smulGo_stepL 245 244 1152717838078880977397479078364318287003499610162647099015608 576358919039440488698739539182159143501749805081323549507804 (Pt.aff 18397729389765787153700829822948123310076932707706935516043814354551494625387 41084857998051111800196981154630288916716845716608365082880066781843528842143) (Pt.aff 1921409182703195841289781625815543903881339891853074030368761620765295590862 7443194904824495885854403576320390791266595650584147419866028738740381037237) (Pt.aff 52913306519295223158792938797492408202723234293538209581581646641783226591517 2743922264737181947000462925974522475784785770503586741424116186324255518648) (Pt.aff 1921409182703195841289781625815543903881339891853074030368761620765295590862 7443194904824495885854403576320390791266595650584147419866028738740381037237) (by decide) (by decide) (by decide) (by decide!) (by decide!)).trans <|
  (smulGo_stepL 244 243 576358919039440488698739539182159143501749805081323549507804 288179459519720244349369769591079571750874902540661774753902 (Pt.aff 52913306519295223158792938797492408202723234293538209581581646641783226591517 2743922264737181947000462925974522475784785770503586741424116186324255518648) (Pt.aff 1921409182703195841289781625815543903881339891853074030368761620765295590862 7443194904824495885854403576320390791266595650584147419866028738740381037237) (Pt.aff 41901082592269946570890008812813236170719501169397031866593894597687153351641 44069140373556050688260184871664277584105032572624767609350401131741185712320) (Pt.aff 1921409182703195841289781625815543903881339891853074030368761620765295590862 7443194904824495885854403576320390791266595650584147419866028738740381037237) (by decide) (by decide) (by decide) (by decide!) (by decide!)).trans <|
  (smulGo_stepL 243 242 288179459519720244349369769591079571750874902540661774753902 144089729759860122174684884795539785875437451270330887376951 (Pt.aff 41901082592269946570890008812813236170719501169397031866593894597687153351641 44069140373556050688260184871664277584105032572624767609350401131741185712320) (Pt.aff 1921409182703195841289781625815543903881339891853074030368761620765295590862 7443194904824495885854403576320390791266595650584147419866028738740381037237) (Pt.aff 22877733545593778601758135743016459764893893130719496784635081976609834870324 11341546557147495445750642796457178830252316136729438353165474014017335969717) (Pt.aff 1921409182703195841289781625815543903881339891853074030368761620765295590862 7443194904824495885854403576320390791266595650584147419866028738740381037237) (by decide) (by decide) (by decide) (by decide!) (by decide!)).trans <|
  (smulGo_stepL 242 241 144089729759860122174684884795539785875437451270330887376951 72044864879930061087342442397769892937718725635165443688475 (Pt.aff 22877733545593778601758135743016459764893893130719496784635081976609834870324 11341546557147495445750642796457178830252316136729438353165474014017335969717) (Pt.aff 1921409182703195841289781625815543903881339891853074030368761620765295590862 7443194904824495885854403576320390791266595650584147419866028738740381037237) (Pt.aff 9815445433880333604142539908090055316229363695770933949107751199812760453597 18259455373979837516586044924847631833673552836160516585383524192706715457095) (Pt.aff 15906268940550886635878707097791235152455808635582179309360760171289686625758 8346505858826114396936732328563402486284400789616216344879950943513243250725) (by decide) (by decide) (by decide) (by decide!) (by decide!)).trans <|
  (smulGo_stepL 241 240 72044864879930061087342442397769892937718725635165443688475 36022432439965030543671221198884946468859362817582721844237 (Pt.aff 9815445433880333604142539908090055316229363695770933949107751199812760453597 18259455373979837516586044924847631833673552836160516585383524192706715457095) (Pt.aff 15906268940550886635878707097791235152455808635582179309360760171289686625758 8346505858826114396936732328563402486284400789616216344879950943513243250725) (Pt.aff 52106644143289927008327846258559402373628468065591252320898139047820438647664 26408446648067317468224638914582346179928733836800817554196097262435368619362) (Pt.aff 3175553521046827416238784432496289126087534595393573035514019210075096851987 15672229425940238605691807684117911529315700535453586710155555192942194696583) (by decide) (by decide) (by decide) (by decide!) (by decide!)).trans <|
  (smulGo_stepL 240 239 36022432439965030543671221198884946468859362817582721844237 18011216219982515271835610599442473234429681408791360922118 (Pt.aff 52106644143289927008327846258559402373628468065591252320898139047820438647664 26408446648067317468224638914582346179928733836800817554196097262435368619362) (Pt.aff 3175553521046827416238784432496289126087534595393573035514019210075096851987 15672229425940238605691807684117911529315700535453586710155555192942194696583) (Pt.aff 47456829640210950057235962617391056987695343311082463891845160849662562426713 50130724898078113516660167745014657232894421873114895439469562448509172071791) (Pt.aff 55563922866860774692221632825439161871124717774416745224539398816551849080911 36544534074400515963267198773088490655158313209731082491413098320597640095373) (by decide) (by decide) (by decide) (by decide!) (by decide!)).trans <|
  (smulGo_stepL 239 238 18011216219982515271835610599442473234429681408791360922118 9005608109991257635917805299721236617214840704395680461059 (Pt.aff 47456829640210950057235962617391056987695343311082463891845160849662562426713 50130724898078113516660167745014657232894421873114895439469562448509172071791) (Pt.aff 55563922866860774692221632825439161871124717774416745224539398816551849080911 36544534074400515963267198773088490655158313209731082491413098320597640095373) (Pt.aff 35541423382519783182816861498884594017876710216401540671612323323762030452795 57051091939724944048123282267756991565962517442199587006220236809276749175767) (Pt.aff 55563922866860774692221632825439161871124717774416745224539398816551849080911 36544534074400515963267198773088490655158313209731082491413098320597640095373) (by decide) (by decide) (by decide) (by decide!) (by decide!)).trans <|
  (smulGo_stepL 238 237 9005608109991257635917805299721236617214840704395680461059 4502804054995628817958902649860618308607420352197840230529 (Pt.aff 35541423382519783182816861498884594017876710216401540671612323323762030452795 57051091939724944048123282267756991565962517442199587006220236809276749175767) (Pt.aff 55563922866860774692221632825439161871124717774416745224539398816551849080911 36544534074400515963267198773088490655158313209731082491413098320597640095373) (Pt.aff 19284377112810909355491870907612611027307172269575272965935692564885023285220 53247588339770461266580284413057685203356360045803699283642907267954283684548) (Pt.aff 20349701816714064136616079647304348456538963266724850179446052021117064087540 39378971229579048429787658547166696573444678833209977616408190954407814408178) (by decide) (by decide) (by decide) (by decide!) (by decide!)).trans <|
  (smulGo_stepL 237 236 4502804054995628817958902649860618308607420352197840230529 2251402027497814408979451324930309154303710176098920115264 (Pt.aff 19284377112810909355491870907612611027307172269575272965935692564885023285220 53247588339770461266580284413057685203356360045803699283642907267954283684548) (Pt.aff 20349701816714064136616079647304348456538963266724850179446052021117064087540 39378971229579048429787658547166696573444678833209977616408190954407814408178) (Pt.aff 3191625165755930464182909223892472310451385341188076628529538720991096113180 13724945306283250624780113352483006455160439975266987502676206329776622902003) (Pt.aff 20049245687452594813176170718278595767883622027496453832873568145390268861977 54680743757582770766640344448770657972288566014526337849601024523816930530981) (by decide) (by decide) (by decide) (by decide!) (by decide!)).trans <|
  (smulGo_stepL 236 235 2251402027497814408979451324930309154303710176098920115264 1125701013748907204489725662465154577151855088049460057632 (Pt.aff 3191625165755930464182909223892472310451385341188076628529538720991096113180 13724945306283250624780113352483006455160439975266987502676206329776622902003) (Pt.aff 20049245687452594813176170718278595767883622027496453832873568145390268861977 54680743757582770766640344448770657972288566014526337849601024523816930530981) (Pt.aff 3729820240842677686448073229828953124767191440983259881094457814848782635677 43557611848790553199590702015292659206867545181371475314772429777101238420811) (Pt.aff 20049245687452594813176170718278595767883622027496453832873568145390268861977 54680743757582770766640344448770657972288566014526337849601024523816930530981) (by decide) (by decide) (by decide) (by decide!) (by decide!)).trans <|
  (smulGo_stepL 235 234 1125701013748907204489725662465154577151855088049460057632 562850506874453602244862831232577288575927544024730028816 (Pt.aff 3729820240842677686448073229828953124767191440983259881094457814848782635677 43557611848790553199590702015292659206867545181371475314772429777101238420811) (Pt.aff 20049245687452594813176170718278595767883622027496453832873568145390268861977 54680743757582770766640344448770657972288566014526337849601024523816930530981) (Pt.aff 32039991985984413527556396494115428442682822967109136478010853427543450593757 30038781145054477436489134740002521669637443722678039334021451183628222737714) (Pt.aff 20049245687452594813176170718278595767883622027496453832873568145390268861977 54680743757582770766640344448770657972288566014526337849601024523816930530981) (by decide) (by decide) (by decide) (by decide!) (by decide!)).trans <|
  (smulGo_stepL 234 233 562850506874453602244862831232577288575927544024730028816 281425253437226801122431415616288644287963772012365014408 (Pt.aff 32039991985984413527556396494115428442682822967109136478010853427543450593757 30038781145054477436489134740002521669637443722678039334021451183628222737714) (Pt.aff 20049245687452594813176170718278595767883622027496453832873568145390268861977 54680743757582770766640344448770657972288566014526337849601024523816930530981) (Pt.aff 38254370544255650342340011950249695379646094514219389322786385157029369107057 20053191455120188190999515743924254104305971272312622225691985564182839244173) (Pt.aff 20049245687452594813176170718278595767883622027496453832873568145390268861977 54680743757582770766640344448770657972288566014526337849601024523816930530981) (by decide) (by decide) (by decide) (by decide!) (by decide!)).trans <|
  (smulGo_stepL 233 232 281425253437226801122431415616288644287963772012365014408 140712626718613400561215707808144322143981886006182507204 (Pt.aff 38254370544255650342340011950249695379646094514219389322786385157029369107057 20053191455120188190999515743924254104305971272312622225691985564182839244173) (Pt.aff 20049245687452594813176170718278595767883622027496453832873568145390268861977 54680743757582770766640344448770657972288566014526337849601024523816930530981) (Pt.aff 31106729329146900754325557201135458704894923759851591603025641423258879490448 1800837797615777645326260008404118369612749583037032923479509831326155383294) (Pt.aff 20049245687452594813176170718278595767883622027496453832873568145390268861977 54680743757582770766640344448770657972288566014526337849601024523816930530981) (by decide) (by decide) (by decide) (by decide!) (by decide!)).trans <|
  (smulGo_stepL 232 231 140712626718613400561215707808144322143981886006182507204 70356313359306700280607853904072161071990943003091253602 (Pt.aff 31106729329146900754325557201135458704894923759851591603025641423258879490448 1800837797615777645326260008404118369612749583037032923479509831326155383294) (Pt.aff 20049245687452594813176170718278595767883622027496453832873568145390268861977 54680743757582770766640344448770657972288566014526337849601024523816930530981) (Pt.aff 49890871727870403289853978150789069737918627471276675008119798891074192532960 16195547128008517841288063645575102093025845634937665452455872400926718663000) (Pt.aff 20049245687452594813176170718278595767883622027496453832873568145390268861977 54680743757582770766640344448770657972288566014526337849601024523816930530981) (by decide) (by decide) (by decide) (by decide!) (by decide!)).trans <|
  (smulGo_stepL 231 230 70356313359306700280607853904072161071990943003091253602 35178156679653350140303926952036080535995471501545626801 (Pt.aff 49890871727870403289853978150789069737918627471276675008119798891074192532960 16195547128008517841288063645575102093025845634937665452455872400926718663000) (Pt.aff 20049245687452594813176170718278595767883622027496453832873568145390268861977 54680743757582770766640344448770657972288566014526337849601024523816930530981) (Pt.aff 40243417528168639218005556003167569644191346466549754991055803717772489775725 17964323378132070301702895514125969017794601115980253385109907377036821758299) (Pt.aff 20049245687452594813176170718278595767883622027496453832873568145390268861977 54680743757582770766640344448770657972288566014526337849601024523816930530981) (by decide) (by decide) (by decide) (by decide!) (by decide!)).trans <|
  (smulGo_stepL 230 229 35178156679653350140303926952036080535995471501545626801 17589078339826675070151963476018040267997735750772813400 (Pt.aff 40243417528168639218005556003167569644191346466549754991055803717772489775725 17964323378132070301702895514125969017794601115980253385109907377036821758299) (Pt.aff 20049245687452594813176170718278595767883622027496453832873568145390268861977 54680743757582770766640344448770657972288566014526337849601024523816930530981) (Pt.aff 39406746120886970334778439258078378695084541967995439914760421144151302118217 24956316826026824205136025164831864182286482377925476795062808205889145257816) (Pt.aff 39211431063636356438741041035591311015539132028363286154741986637345493589539 32381696389957616206689117131295603084861306254508363182306792235766210131076) (by decide) (by decide) (by decide) (by decide!) (by decide!)).trans <|
  (smulGo_stepL 229 228 17589078339826675070151963476018040267997735750772813400 8794539169913337535075981738009020133998867875386406700 (Pt.aff 39406746120886970334778439258078378695084541967995439914760421144151302118217 24956316826026824205136025164831864182286482377925476795062808205889145257816) (Pt.aff 39211431063636356438741041035591311015539132028363286154741986637345493589539 32381696389957616206689117131295603084861306254508363182306792235766210131076) (Pt.aff 47926468857275288222692434987390251687595450147794235684835753372249519819325 19741816518757326958192970811016449358371476896346594089281930776930955215272) (Pt.aff 39211431063636356438741041035591311015539132028363286154741986637345493589539 32381696389957616206689117131295603084861306254508363182306792235766210131076) (by decide) (by decide) (by decide) (by decide!) (by decide!)).trans <|
  (smulGo_stepL 228 227 8794539169913337535075981738009020133998867875386406700 4397269584956668767537990869004510066999433937693203350 (Pt.aff 47926468857275288222692434987390251687595450147794235684835753372249519819325 19741816518757326958192970811016449358371476896346594089281930776930955215272) (Pt.aff 39211431063636356438741041035591311015539132028363286154741986637345493589539 32381696389957616206689117131295603084861306254508363182306792235766210131076) (Pt.aff 43191078160368099611064230334867004635616570050592338474940770158331278239082 57627518091160753262966834709103030769357087802164939686162619659759671440796) (Pt.aff 39211431063636356438741041035591311015539132028363286154741986637345493589539 32381696389957616206689117131295603084861306254508363182306792235766210131076) (by decide) (by decide) (by decide) (by decide!) (by decide!)).trans <|
  (smulGo_stepL 227 226 4397269584956668767537990869004510066999433937693203350 2198634792478334383768995434502255033499716968846601675 (Pt.aff 43191078160368099611064230334867004635616570050592338474940770158331278239082 57627518091160753262966834709103030769357087802164939686162619659759671440796) (Pt.aff 39211431063636356438741041035591311015539132028363286154741986637345493589539 32381696389957616206689117131295603084861306254508363182306792235766210131076) (Pt.aff 3703961806409580935655264565091254644416122670082468573667052474896073796253 49502885336164865790968764915784444866980408224936007131117624721182161920910) (Pt.aff 39211431063636356438741041035591311015539132028363286154741986637345493589539 32381696389957616206689117131295603084861306254508363182306792235766210131076) (by decide) (by decide) (by decide) (by decide!) (by decide!)).trans <|
  (smulGo_stepL 226 225 2198634792478334383768995434502255033499716968846601675 1099317396239167191884497717251127516749858484423300837 (Pt.aff 3703961806409580935655264565091254644416122670082468573667052474896073796253 49502885336164865790968764915784444866980408224936007131117624721182161920910) (Pt.aff 39211431063636356438741041035591311015539132028363286154741986637345493589539 32381696389957616206689117131295603084861306254508363182306792235766210131076) (Pt.aff 55957885498842206166664003888396874831174313762252874978243148371288078634603 48468111516038095563543716556283432261273701387797946813023336308123150249663) (Pt.aff 35361243701752985892135427654615651917383756686018872353282624429998621619240 51946380583474005598763756611579879537830384132059885509558306015067512806433) (by decide) (by decide) (by decide) (by decide!) (by decide!)).trans <|
  (smulGo_stepL 225 224 1099317396239167191884497717251127516749858484423300837 549658698119583595942248858625563758374929242211650418 (Pt.aff 55957885498842206166664003888396874831174313762252874978243148371288078634603 48468111516038095563543716556283432261273701387797946813023336308123150249663) (Pt.aff 35361243701752985892135427654615651917383756686018872353282624429998621619240 51946380583474005598763756611579879537830384132059885509558306015067512806433) (Pt.aff 27688374004940384406285483928064513561600687677368574123881566070905559151929 31942815433991333243367624442398942615572316671658004713382494718355211173996) (Pt.aff 13115577009738819995020606836008321952679715335576326525969645296673969017812 13470207796122840739305124908490458622848165966121904012224254183420918435372) (by decide) (by decide) (by decide) (by decide!) (by decide!)).trans <|
  (smulGo_stepL 224 223 549658698119583595942248858625563758374929242211650418 274829349059791797971124429312781879187464621105825209 (Pt.aff 27688374004940384406285483928064513561600687677368574123881566070905559151929 31942815433991333243367624442398942615572316671658004713382494718355211173996) (Pt.aff 13115577009738819995020606836008321952679715335576326525969645296673969017812 13470207796122840739305124908490458622848165966121904012224254183420918435372) (Pt.aff 23649918041277243854598963157594583929421605660298452099099417519147151307138 23942802447305195607673557135695059800899481128945516150072739965193974125698) (Pt.aff 13115577009738819995020606836008321952679715335576326525969645296673969017812 13470207796122840739305124908490458622848165966121904012224254183420918435372) (by decide) (by decide) (by decide) (by decide!) (by decide!)).trans <|
  (smulGo_stepL 223 222 274829349059791797971124429312781879187464621105825209 137414674529895898985562214656390939593732310552912604 (Pt.aff 23649918041277243854598963157594583929421605660298452099099417519147151307138 23942802447305195607673557135695059800899481128945516150072739965193974125698) (Pt.aff 13115577009738819995020606836008321952679715335576326525969645296673969017812 13470207796122840739305124908490458622848165966121904012224254183420918435372) (Pt.aff 55521426766305436856252497711719660783462876984477233142654195860372171207286 41418759616652539176036164551772833697155620470314083807581091983710031984601) (Pt.aff 37779516106615744719035641825963077547023553274353967021366060083736389255973 29666495415318158426653451457725235652406615471390654389668457322145477862569) (by decide) (by decide) (by decide) (by decide!) (by decide!)).trans <|
  (smulGo_stepL 222 221 137414674529895898985562214656390939593732310552912604 68707337264947949492781107328195469796866155276456302 (Pt.aff 55521426766305436856252497711719660783462876984477233142654195860372171207286 41418759616652539176036164551772833697155620470314083807581091983710031984601) (Pt.aff 37779516106615744719035641825963077547023553274353967021366060083736389255973 29666495415318158426653451457725235652406615471390654389668457322145477862569) (Pt.aff 44632892948278288664147389324973200113416399066831227043751657528024472727818 6357146162299962355640200950864718992008326132106741700416449542544961697144) (Pt.aff 37779516106615744719035641825963077547023553274353967021366060083736389255973 29666495415318158426653451457725235652406615471390654389668457322145477862569) (by decide) (by decide) (by decide) (by decide!) (by decide!)).trans <|
  (smulGo_stepL 221 220 68707337264947949492781107328195469796866155276456302 34353668632473974746390553664097734898433077638228151 (Pt.aff 44632892948278288664147389324973200113416399066831227043751657528024472727818 6357146162299962355640200950864718992008326132106741700416449542544961697144) (Pt.aff 37779516106615744719035641825963077547023553274353967021366060083736389255973 29666495415318158426653451457725235652406615471390654389668457322145477862569) (Pt.aff 1186136024833429719243535547715630339443527529614517705052505984127944554427 5185220799979005368615861207767067450712833731846870955884897676061428567954) (Pt.aff 37779516106615744719035641825963077547023553274353967021366060083736389255973 29666495415318158426653451457725235652406615471390654389668457322145477862569) (by decide) (by decide) (by decide) (by decide!) (by decide!)).trans <|
  (smulGo_stepL 220 219 34353668632473974746390553664097734898433077638228151 17176834316236987373195276832048867449216538819114075 (Pt.aff 1186136024833429719243535547715630339443527529614517705052505984127944554427 5185220799979005368615861207767067450712833731846870955884897676061428567954) (Pt.aff 37779516106615744719035641825963077547023553274353967021366060083736389255973 29666495415318158426653451457725235652406615471390654389668457322145477862569) (Pt.aff 686515789003883169192358826573898790539488233400909871281288280160518965615 51649738112631807614070835691611816453835666823700171747839056570463040087275) (Pt.aff 3065037665630424832537526453699790185344360386123389983487037125821359063695 36678754214058614764222945961002024546726440715797977150411925778671685779216) (by decide) (by decide) (by decide) (by decide!) (by decide!)).trans <|
  (smulGo_stepL 219 218 17176834316236987373195276832048867449216538819114075 8588417158118493686597638416024433724608269409557037 (Pt.aff 686515789003883169192358826573898790539488233400909871281288280160518965615 51649738112631807614070835691611816453835666823700171747839056570463040087275) (Pt.aff 3065037665630424832537526453699790185344360386123389983487037125821359063695 36678754214058614764222945961002024546726440715797977150411925778671685779216) (Pt.aff 43831317971141769062513682849520404344297871577683801913464180952286285012385 42250261309183845526216190225515355256618130778005597804586318949983132737362) (Pt.aff 5790692281862371077236141627818217816257002771800605504744680296841322510882 21180062269126376632611692519474644448057743567963825033170457082606862451312) (by decide) (by decide) (by decide) (by decide!) (by decide!)).trans <|
  (smulGo_stepL 218 217 8588417158118493686597638416024433724608269409557037 4294208579059246843298819208012216862304134704778518 (Pt.aff 43831317971141769062513682849520404344297871577683801913464180952286285012385 42250261309183845526216190225515355256618130778005597804586318949983132737362) (Pt.aff 5790692281862371077236141627818217816257002771800605504744680296841322510882 21180062269126376632611692519474644448057743567963825033170457082606862451312) (Pt.aff 11470781302868239212092371939814416009326987527460387752798846256365146477515 29834494210665081782690532186664021161798361491592937546385583844984662951916) (Pt.aff 8050853864470071233132216510987187041002350345242788356014282257112890828300 11360518417711357677975059332569319640450251922321001347441149734505821250380) (by decide) (by decide) (by decide) (by decide!) (by decide!)).trans <|
  (smulGo_stepL 217 216 4294208579059246843298819208012216862304134704778518 2147104289529623421649409604006108431152067352389259 (Pt.aff 11470781302868239212092371939814416009326987527460387752798846256365146477515 29834494210665081782690532186664021161798361491592937546385583844984662951916) (Pt.aff 8050853864470071233132216510987187041002350345242788356014282257112890828300 11360518417711357677975059332569319640450251922321001347441149734505821250380) (Pt.aff 3218937797977478243913253367814033689259334142847799165297808008817091367006 27181584071795435376084516571798644361609673449587860250082000333675017398858) (Pt.aff 8050853864470071233132216510987187041002350345242788356014282257112890828300 11360518417711357677975059332569319640450251922321001347441149734505821250380) (by decide) (by decide) (by decide) (by decide!) (by decide!)).trans <|
  (smulGo_stepL 216 215 2147104289529623421649409604006108431152067352389259 1073552144764811710824704802003054215576033676194629 (Pt.aff 3218937797977478243913253367814033689259334142847799165297808008817091367006 27181584071795435376084516571798644361609673449587860250082000333675017398858) (Pt.aff 8050853864470071233132216510987187041002350345242788356014282257112890828300 11360518417711357677975059332569319640450251922321001347441149734505821250380) (Pt.aff 15003830245445515559341661829608939559544620825134874360668250153853885982510 50782685700594866776175094861631606980208794345849261147895201393467218460284) (Pt.aff 30734017043462345319635378323832194811945611255748726610399745292625357349005 38506776990503505845858944054246579761844273875456975200892795598079077080614) (by decide) (by decide) (by decide) (by decide!) (by decide!)).trans <|
  (smulGo_stepL 215 214 1073552144764811710824704802003054215576033676194629 536776072382405855412352401001527107788016838097314 (Pt.aff 15003830245445515559341661829608939559544620825134874360668250153853885982510 50782685700594866776175094861631606980208794345849261147895201393467218460284) (Pt.aff 30734017043462345319635378323832194811945611255748726610399745292625357349005 38506776990503505845858944054246579761844273875456975200892795598079077080614) (Pt.aff 17138899588191081262340907668696136068631958074857633950871463313600789915291 39234664814812399693152678421709491526858252214749072574908678770377758134598) (Pt.aff 29919407099737378708065255940733960799761637049053697261029101057076862436615 9258485353954074336125888087774292340379033878556935091435118863258270569278) (by decide) (by decide) (by decide) (by decide!) (by decide!)).trans <|
  (smulGo_stepL 214 213 536776072382405855412352401001527107788016838097314 268388036191202927706176200500763553894008419048657 (Pt.aff 17138899588191081262340907668696136068631958074857633950871463313600789915291 39234664814812399693152678421709491526858252214749072574908678770377758134598) (Pt.aff 29919407099737378708065255940733960799761637049053697261029101057076862436615 9258485353954074336125888087774292340379033878556935091435118863258270569278) (Pt.aff 18499649748165828331325855639101795854698056467635508373047481787595769191522 33063028429616839274375293776848913017318471831111600694203455363518353229702) (Pt.aff 29919407099737378708065255940733960799761637049053697261029101057076862436615 9258485353954074336125888087774292340379033878556935091435118863258270569278) (by decide) (by decide) (by decide) (by decide!) (by decide!)).trans <|
  (smulGo_stepL 213 212 268388036191202927706176200500763553894008419048657 134194018095601463853088100250381776947004209524328 (Pt.aff 18499649748165828331325855639101795854698056467635508373047481787595769191522 33063028429616839274375293776848913017318471831111600694203455363518353229702) (Pt.aff 29919407099737378708065255940733960799761637049053697261029101057076862436615 9258485353954074336125888087774292340379033878556935091435118863258270569278) (Pt.aff 53308586312217209591777485780892437967834358087724257079224510583493893440673 51169604710204115989119530824536806874873147321730608941590496235905861270354) (Pt.aff 43128655144263007628116991200702588920511983453987730480441666639136236342345 37753343255357054948651029755313579541720889359466770729359381272455606921080) (by decide) (by decide) (by decide) (by decide!) (by decide!)).trans <|
  (smulGo_stepL 212 211 134194018095601463853088100250381776947004209524328 67097009047800731926544050125190888473502104762164 (Pt.aff 53308586312217209591777485780892437967834358087724257079224510583493893440673 51169604710204115989119530824536806874873147321730608941590496235905861270354) (Pt.aff 43128655144263007628116991200702588920511983453987730480441666639136236342345 37753343255357054948651029755313579541720889359466770729359381272455606921080) (Pt.aff 13575287049939915862143012298299347480284655331551089672722888828848947678243 47423488580730974817015063833732741075182705859987698781160934185944887288350) (Pt.aff 43128655144263007628116991200702588920511983453987730480441666639136236342345 37753343255357054948651029755313579541720889359466770729359381272455606921080) (by decide) (by decide) (by decide) (by decide!) (by decide!)).trans <|
  (smulGo_stepL 211 210 67097009047800731926544050125190888473502104762164 33548504523900365963272025062595444236751052381082 (Pt.aff 13575287049939915862143012298299347480284655331551089672722888828848947678243 47423488580730974817015063833732741075182705859987698781160934185944887288350) (Pt.aff 43128655144263007628116991200702588920511983453987730480441666639136236342345 37753343255357054948651029755313579541720889359466770729359381272455606921080) (Pt.aff 30331711542033760265475128179081247358563269045887826839878817709226096134360 42583819525385004030118814422826538987970125088414458169088103912683724311773) (Pt.aff 43128655144263007628116991200702588920511983453987730480441666639136236342345 37753343255357054948651029755313579541720889359466770729359381272455606921080) (by decide) (by decide) (by decide) (by decide!) (by decide!)).trans <|
  (smulGo_stepL 210 209 33548504523900365963272025062595444236751052381082 16774252261950182981636012531297722118375526190541 (Pt.aff 30331711542033760265475128179081247358563269045887826839878817709226096134360 42583819525385004030118814422826538987970125088414458169088103912683724311773) (Pt.aff 43128655144263007628116991200702588920511983453987730480441666639136236342345 37753343255357054948651029755313579541720889359466770729359381272455606921080) (Pt.aff 22492001808893871089884122207452088064255688852413998693756639850125375541879 55388290902001959921022311613636900175253187048326134397071082431463725795607) (Pt.aff 43128655144263007628116991200702588920511983453987730480441666639136236342345 37753343255357054948651029755313579541720889359466770729359381272455606921080) (by decide) (by decide) (by decide) (by decide!) (by decide!)).trans <|
  (smulGo_stepL 209 208 16774252261950182981636012531297722118375526190541 8387126130975091490818006265648861059187763095270 (Pt.aff 22492001808893871089884122207452088064255688852413998693756639850125375541879 55388290902001959921022311613636900175253187048326134397071082431463725795607) (Pt.aff 43128655144263007628116991200702588920511983453987730480441666639136236342345 37753343255357054948651029755313579541720889359466770729359381272455606921080) (Pt.aff 36625083203983319266251146665541880399981081658131549753568986928352329761897 26407293202005363941030744701258173251931328830313805416747293611341279444498) (Pt.aff 42552552927961067006922200047184466594745373772993604396092005510940637103247 17079302013893047258283654129503243665646756633514469461329590771403518761393) (by decide) (by decide) (by decide) (by decide!) (by decide!)).trans <|
  (smulGo_stepL 208 207 8387126130975091490818006265648861059187763095270 4193563065487545745409003132824430529593881547635 (Pt.aff 36625083203983319266251146665541880399981081658131549753568986928352329761897 26407293202005363941030744701258173251931328830313805416747293611341279444498) (Pt.aff 42552552927961067006922200047184466594745373772993604396092005510940637103247 17079302013893047258283654129503243665646756633514469461329590771403518761393) (Pt.aff 12460460974698928761929268352444352059293252024947510462558479041474003631646 30498917806774079102482664478608698648799779149683988240232246882140266646057) (Pt.aff 42552552927961067006922200047184466594745373772993604396092005510940637103247 17079302013893047258283654129503243665646756633514469461329590771403518761393) (by decide) (by decide) (by decide) (by decide!) (by decide!)).trans <|
  (smulGo_stepL 207 206 4193563065487545745409003132824430529593881547635 2096781532743772872704501566412215264796940773817 (Pt.aff 12460460974698928761929268352444352059293252024947510462558479041474003631646 30498917806774079102482664478608698648799779149683988240232246882140266646057) (Pt.aff 42552552927961067006922200047184466594745373772993604396092005510940637103247 17079302013893047258283654129503243665646756633514469461329590771403518761393) (Pt.aff 6877285142058726330285882313128317537794911168486954661382182928793274089396 8590118613741400748814171887944259564726809879722671092089684813367577727206) (Pt.aff 4784947544574050493799123666320439141586516833848805545588227860763012217430 44046272869428812053997408784637313298534207275712667679820850301008734694868) (by decide) (by decide) (by decide) (by decide!) (by decide!)).trans <|
  (smulGo_stepL 206 205 2096781532743772872704501566412215264796940773817 1048390766371886436352250783206107632398470386908 (Pt.aff 6877285142058726330285882313128317537794911168486954661382182928793274089396 8590118613741400748814171887944259564726809879722671092089684813367577727206) (Pt.aff 4784947544574050493799123666320439141586516833848805545588227860763012217430 44046272869428812053997408784637313298534207275712667679820850301008734694868) (Pt.aff 9974544660377860722422189983356591603299153367459656814459134901761758400194 38481702306191223074208120680388670321573403769841310808502541220619428699507) (Pt.aff 22090094883261262053614465523459783503412942695247239395720803874934889311286 5020963504204721325141986240046900019130231894795920507383401896645038573797) (by decide) (by decide) (by decide) (by decide!) (by decide!)).trans <|
  (smulGo_stepL 205 204 1048390766371886436352250783206107632398470386908 524195383185943218176125391603053816199235193454 (Pt.aff 9974544660377860722422189983356591603299153367459656814459134901761758400194 38481702306191223074208120680388670321573403769841310808502541220619428699507) (Pt.aff 22090094883261262053614465523459783503412942695247239395720803874934889311286 5020963504204721325141986240046900019130231894795920507383401896645038573797) (Pt.aff 8921134114919890333100343913897299961342592642751946404469990250546458109348 12100896304138187262958988163742260587724473515283525735476428871805200664174) (Pt.aff 22090094883261262053614465523459783503412942695247239395720803874934889311286 5020963504204721325141986240046900019130231894795920507383401896645038573797) (by decide) (by decide) (by decide) (by decide!) (by decide!)).trans <|
  (smulGo_stepL 204 203 524195383185943218176125391603053816199235193454 262097691592971609088062695801526908099617596727 (Pt.aff 8921134114919890333100343913897299961342592642751946404469990250546458109348 12100896304138187262958988163742260587724473515283525735476428871805200664174) (Pt.aff 22090094883261262053614465523459783503412942695247239395720803874934889311286 5020963504204721325141986240046900019130231894795920507383401896645038573797) (Pt.aff 48460687424507438818047373050977870948024946445612732119159299734746212179417 6222043565816527360930444165355524511729393508383301715708221935186751010597) (Pt.aff 22090094883261262053614465523459783503412942695247239395720803874934889311286 5020963504204721325141986240046900019130231894795920507383401896645038573797) (by decide) (by decide) (by decide) (by decide!) (by decide!)).trans <|
  (smulGo_stepL 203 202 262097691592971609088062695801526908099617596727 131048845796485804544031347900763454049808798363 (Pt.aff 48460687424507438818047373050977870948024946445612732119159299734746212179417 6222043565816527360930444165355524511729393508383301715708221935186751010597) (Pt.aff 22090094883261262053614465523459783503412942695247239395720803874934889311286 5020963504204721325141986240046900019130231894795920507383401896645038573797) (Pt.aff 3573381666945711520207045076543769644909023500933819137545726885864772413349 50488793641268719849028768178582883024001228230744876723968317928812202366636) (Pt.aff 27549654722870390661904670246289921048552894870312866905577552690702797884627 42150934065136574088065545189459590865632812616330169442830738643455207685143) (by decide) (by decide) (by decide) (by decide!) (by decide!)).trans <|
  (smulGo_stepL 202 201 131048845796485804544031347900763454049808798363 65524422898242902272015673950381727024904399181 (Pt.aff 3573381666945711520207045076543769644909023500933819137545726885864772413349 50488793641268719849028768178582883024001228230744876723968317928812202366636) (Pt.aff 27549654722870390661904670246289921048552894870312866905577552690702797884627 42150934065136574088065545189459590865632812616330169442830738643455207685143) (Pt.aff 46217106376265440452604301586058585594610319956963358481331793366888404240650 14006216835766576357711521230690059541893843816490361963746697248082279316662) (Pt.aff 19528959990941962623174579792946187891241883458891770725152847989037338609741 52810681729976965008239227217734284287498972098100349138362194549957893561336) (by decide) (by decide) (by decide) (by decide!) (by decide!)).trans <|
  (smulGo_stepL 201 200 65524422898242902272015673950381727024904399181 32762211449121451136007836975190863512452199590 (Pt.aff 46217106376265440452604301586058585594610319956963358481331793366888404240650 14006216835766576357711521230690059541893843816490361963746697248082279316662) (Pt.aff 19528959990941962623174579792946187891241883458891770725152847989037338609741 52810681729976965008239227217734284287498972098100349138362194549957893561336) (Pt.aff 41071883973016478070003627124297618213325859879730422956826678254379142570595 26967034454076716613125467067675945182381832663094935682019797040101392119647) (Pt.aff 8994219236783603004407301496971559545106886385217985599832956326911584005938 18366029663046315508348774523361556430502348076850794685798592825749119234091) (by decide) (by decide) (by decide) (by decide!) (by decide!)).trans <|
  (smulGo_stepL 200 199 32762211449121451136007836975190863512452199590 16381105724560725568003918487595431756226099795 (Pt.aff 41071883973016478070003627124297618213325859879730422956826678254379142570595 26967034454076716613125467067675945182381832663094935682019797040101392119647) (Pt.aff 8994219236783603004407301496971559545106886385217985599832956326911584005938 18366029663046315508348774523361556430502348076850794685798592825749119234091) (Pt.aff 5036684907619716240454782597619876987802258487997223544747482418412742143819 3789331794608132633389085036934067194153330454845346193451482027623700242317) (Pt.aff 8994219236783603004407301496971559545106886385217985599832956326911584005938 18366029663046315508348774523361556430502348076850794685798592825749119234091) (by decide) (by decide) (by decide) (by decide!) (by decide!)).trans <|
  (smulGo_stepL 199 198 16381105724560725568003918487595431756226099795 8190552862280362784001959243797715878113049897 (Pt.aff 5036684907619716240454782597619876987802258487997223544747482418412742143819 3789331794608132633389085036934067194153330454845346193451482027623700242317) (Pt.aff 8994219236783603004407301496971559545106886385217985599832956326911584005938 18366029663046315508348774523361556430502348076850794685798592825749119234091) (Pt.aff 45350450073929997688037392707806439043247401003144455815118322402943528289833 40397038669992033504364195292313700706877762453299781669426004266577439056698) (Pt.aff 9286289044112755799605616543982101746731900899823746859381210076623446738628 46608419411451192924308099027603160963547473558093836952146245056291292037721) (by decide) (by decide) (by decide) (by decide!) (by decide!)).trans <|
  (smulGo_stepL 198 197 8190552862280362784001959243797715878113049897 4095276431140181392000979621898857939056524948 (Pt.aff 45350450073929997688037392707806439043247401003144455815118322402943528289833 40397038669992033504364195292313700706877762453299781669426004266577439056698) (Pt.aff 9286289044112755799605616543982101746731900899823746859381210076623446738628 46608419411451192924308099027603160963547473558093836952146245056291292037721) (Pt.aff 34373322754627120836448240884917371620314097109053579691762760272308660833890 15525592690662351640420699123763626965438120273480276603431127629851194600061) (Pt.aff 48965151393142582622805322480638366776618281233813297615535176687173285067823 50790137402537242586386564155416888562146224196408619608327210446303052821544) (by decide) (by decide) (by decide) (by decide!) (by decide!)).trans <|
  (smulGo_stepL 197 196 4095276431140181392000979621898857939056524948 2047638215570090696000489810949428969528262474 (Pt.aff 34373322754627120836448240884917371620314097109053579691762760272308660833890 15525592690662351640420699123763626965438120273480276603431127629851194600061) (Pt.aff 48965151393142582622805322480638366776618281233813297615535176687173285067823 50790137402537242586386564155416888562146224196408619608327210446303052821544) (Pt.aff 57664247309687117028715510267929298868820058005841224597767625399395848371060 46761460976169155360972477554832090243964952739869887047439676967433208604708) (Pt.aff 48965151393142582622805322480638366776618281233813297615535176687173285067823 50790137402537242586386564155416888562146224196408619608327210446303052821544) (by decide) (by decide) (by decide) (by decide!) (by decide!)).trans <|
  (smulGo_stepL 196 195 2047638215570090696000489810949428969528262474 1023819107785045348000244905474714484764131237 (Pt.aff 57664247309687117028715510267929298868820058005841224597767625399395848371060 46761460976169155360972477554832090243964952739869887047439676967433208604708) (Pt.aff 48965151393142582622805322480638366776618281233813297615535176687173285067823 50790137402537242586386564155416888562146224196408619608327210446303052821544) (Pt.aff 48079128948183220334101118674776878810635626124126762690121413954349518908326 3395534291157893169014676377213800598335391793447523965830206462991826665501) (Pt.aff 48965151393142582622805322480638366776618281233813297615535176687173285067823 50790137402537242586386564155416888562146224196408619608327210446303052821544) (by decide) (by decide) (by decide) (by decide!) (by decide!)).trans <|
  (smulGo_stepL 195 194 1023819107785045348000244905474714484764131237 511909553892522674000122452737357242382065618 (Pt.aff 48079128948183220334101118674776878810635626124126762690121413954349518908326 3395534291157893169014676377213800598335391793447523965830206462991826665501) (Pt.aff 48965151393142582622805322480638366776618281233813297615535176687173285067823 50790137402537242586386564155416888562146224196408619608327210446303052821544) (Pt.aff 45939421598239920448878561824136903057320392819510863508074401984972151592558 23688795564682524877045587478629931021629875100107460773714308396323913847032) (Pt.aff 34310624063379712171943548829841470460743371675506351909530675472245516228128 22475249903261180142006558067808523525821955899499107943625098316359590392791) (by decide) (by decide) (by decide) (by decide!) (by decide!)).trans <|
  (smulGo_stepL 194 193 511909553892522674000122452737357242382065618 255954776946261337000061226368678621191032809 (Pt.aff 45939421598239920448878561824136903057320392819510863508074401984972151592558 23688795564682524877045587478629931021629875100107460773714308396323913847032) (Pt.aff 34310624063379712171943548829841470460743371675506351909530675472245516228128 22475249903261180142006558067808523525821955899499107943625098316359590392791) (Pt.aff 44436363396127849201928187762513565606805605276753108397595187034879679519693 54752680424453021963516866057106812682183443827596749902295931138255247309213) (Pt.aff 34310624063379712171943548829841470460743371675506351909530675472245516228128 22475249903261180142006558067808523525821955899499107943625098316359590392791) (by decide) (by decide) (by decide) (by decide!) (by decide!)).trans <|
  (smulGo_stepL 193 192 255954776946261337000061226368678621191032809 127977388473130668500030613184339310595516404 (Pt.aff 44436363396127849201928187762513565606805605276753108397595187034879679519693 54752680424453021963516866057106812682183443827596749902295931138255247309213) (Pt.aff 34310624063379712171943548829841470460743371675506351909530675472245516228128 22475249903261180142006558067808523525821955899499107943625098316359590392791) (Pt.aff 1251703812709321596589261092883948691522519329723794892245954483218366523863 19346773683347495079555002017887038700447756123289168354002474958347134786739) (Pt.aff 53312240118546689685949842792831264943429018488796280028471168808662664577371 34718769852636972205902194935974151681251558322234122455802346539030955288503) (by decide) (by decide) (by decide) (by decide!) (by decide!)).trans <|
  (smulGo_stepL 192 191 127977388473130668500030613184339310595516404 63988694236565334250015306592169655297758202 (Pt.aff 1251703812709321596589261092883948691522519329723794892245954483218366523863 19346773683347495079555002017887038700447756123289168354002474958347134786739) (Pt.aff 53312240118546689685949842792831264943429018488796280028471168808662664577371 34718769852636972205902194935974151681251558322234122455802346539030955288503) (Pt.aff 38138617162390059882946181506827061827074225758218574230887924297982553532570 19427983417698067764028864775101743711977010977736892761180421196088785795788) (Pt.aff 53312240118546689685949842792831264943429018488796280028471168808662664577371 34718769852636972205902194935974151681251558322234122455802346539030955288503) (by decide) (by decide) (by decide) (by decide!) (by decide!)).trans <|
  (smulGo_stepL 191 190 63988694236565334250015306592169655297758202 31994347118282667125007653296084827648879101 (Pt.aff 38138617162390059882946181506827061827074225758218574230887924297982553532570 19427983417698067764028864775101743711977010977736892761180421196088785795788) (Pt.aff 53312240118546689685949842792831264943429018488796280028471168808662664577371 34718769852636972205902194935974151681251558322234122455802346539030955288503) (Pt.aff 12372012162378666871465046217670873349637084794975595777766330917285835568865 42154245364830779747355208780814877173311000534008875209716561532127055340192) (Pt.aff 53312240118546689685949842792831264943429018488796280028471168808662664577371 34718769852636972205902194935974151681251558322234122455802346539030955288503) (by decide) (by decide) (by decide) (by decide!) (by decide!)).trans <|
  (smulGo_stepL 190 189 31994347118282667125007653296084827648879101 15997173559141333562503826648042413824439550 (Pt.aff 12372012162378666871465046217670873349637084794975595777766330917285835568865 42154245364830779747355208780814877173311000534008875209716561532127055340192) (Pt.aff 53312240118546689685949842792831264943429018488796280028471168808662664577371 34718769852636972205902194935974151681251558322234122455802346539030955288503) (Pt.aff 44737165559680147509653309469127497278713358626022899399487451034444193726005 41570360282188449751419556911019777376495241830327300006892479902809541160377) (Pt.aff 11625751230605142499236286927000682262228960003736975366369873410218418717153 11182855694075413740480490107181243136756051854793229274091890170777715379955) (by decide) (by decide) (by decide) (by decide!) (by decide!)).trans <|
  (smulGo_stepL 189 188 15997173559141333562503826648042413824439550 7998586779570666781251913324021206912219775 (Pt.aff 44737165559680147509653309469127497278713358626022899399487451034444193726005 41570360282188449751419556911019777376495241830327300006892479902809541160377) (Pt.aff 11625751230605142499236286927000682262228960003736975366369873410218418717153 11182855694075413740480490107181243136756051854793229274091890170777715379955) (Pt.aff 21145370973671664800374006060831660050912717978980513765248865991046895953269 9787438376591790158845239967348605221276735881647072314184180496105229260949) (Pt.aff 11625751230605142499236286927000682262228960003736975366369873410218418717153 11182855694075413740480490107181243136756051854793229274091890170777715379955) (by decide) (by decide) (by decide) (by decide!) (by decide!)).trans <|
  (smulGo_stepL 188 187 7998586779570666781251913324021206912219775 3999293389785333390625956662010603456109887 (Pt.aff 21145370973671664800374006060831660050912717978980513765248865991046895953269 9787438376591790158845239967348605221276735881647072314184180496105229260949) (Pt.aff 11625751230605142499236286927000682262228960003736975366369873410218418717153 11182855694075413740480490107181243136756051854793229274091890170777715379955) (Pt.aff 33552211084534633581246570951811089342935997023022071243930310003304075421966 9518423399837455895424760811830189740827876746241267745941406503695970239210) (Pt.aff 49037468771583166902936330676297739701828474772687794217365108313859054559563 50745999626568297366157510028145238587081724840609199652367085793503481002198) (by decide) (by decide) (by decide) (by decide!) (by decide!)).trans <|
  (smulGo_stepL 187 186 3999293389785333390625956662010603456109887 1999646694892666695312978331005301728054943 (Pt.aff 33552211084534633581246570951811089342935997023022071243930310003304075421966 9518423399837455895424760811830189740827876746241267745941406503695970239210) (Pt.aff 49037468771583166902936330676297739701828474772687794217365108313859054559563 50745999626568297366157510028145238587081724840609199652367085793503481002198) (Pt.aff 17938844368232423211042946412603956814419578091326783996031856012207714953952 5064421085905719710340764455569043587073585936002530302060720022299304187420) (Pt.aff 53075629506447440449329094245422456981040980931816580830796614508443538200640 56069422359803648464526878403626514009726666968946256629109678865051413367084) (by decide) (by decide) (by decide) (by decide!) (by decide!)).trans <|
  (smulGo_stepL 186 185 1999646694892666695312978331005301728054943 999823347446333347656489165502650864027471 (Pt.aff 17938844368232423211042946412603956814419578091326783996031856012207714953952 5064421085905719710340764455569043587073585936002530302060720022299304187420) (Pt.aff 53075629506447440449329094245422456981040980931816580830796614508443538200640 56069422359803648464526878403626514009726666968946256629109678865051413367084) (Pt.aff 5723244060846929092438588658090508925299565749271596250905468830623696298944 35585638687492619484509237071015656708074789039609316412699337924328996154896) (Pt.aff 7780295979939874328166271856818879044045924920857867387835622924842724489446 41699286757392437519848622582921887383987951493390009382556630413032814644765) (by decide) (by decide) (by decide) (by decide!) (by decide!)).trans <|
  (smulGo_stepL 185 184 999823347446333347656489165502650864027471 499911673723166673828244582751325432013735 (Pt.aff 5723244060846929092438588658090508925299565749271596250905468830623696298944 35585638687492619484509237071015656708074789039609316412699337924328996154896) (Pt.aff 7780295979939874328166271856818879044045924920857867387835622924842724489446 41699286757392437519848622582921887383987951493390009382556630413032814644765) (Pt.aff 31552733000612679425850516275552464667120183601742279601920512947231230072257 51540580305882720355367771198595747169967134021698340320798442955200824044777) (Pt.aff 26874226215368351045627701233487809746280489798022920053088106342981753326669 45633953318342683598422616340797280590071660562808635825168379594815108117414) (by decide) (by decide) (by decide) (by decide!) (by decide!)).trans <|
  (smulGo_stepL 184 183 499911673723166673828244582751325432013735 249955836861583336914122291375662716006867 (Pt.aff 31552733000612679425850516275552464667120183601742279601920512947231230072257 51540580305882720355367771198595747169967134021698340320798442955200824044777) (Pt.aff 26874226215368351045627701233487809746280489798022920053088106342981753326669 45633953318342683598422616340797280590071660562808635825168379594815108117414) (Pt.aff 19038502329126716027660700719018831022391834539840317004726730644248685319909 36056068991827030678258277817526806049192847608844498373965731801869111886159) (Pt.aff 47362221511963058596996734187664556998298902600370466902692987018298824744891 12443503669915339111680947231128938213380813159311193793997676051931658047620) (by decide) (by decide) (by decide) (by decide!) (by decide!)).trans <|
  (smulGo_stepL 183 182 249955836861583336914122291375662716006867 124977918430791668457061145687831358003433 (Pt.aff 19038502329126716027660700719018831022391834539840317004726730644248685319909 36056068991827030678258277817526806049192847608844498373965731801869111886159) (Pt.aff 47362221511963058596996734187664556998298902600370466902692987018298824744891 12443503669915339111680947231128938213380813159311193793997676051931658047620) (Pt.aff 40506707216552381239702440872040655285139231191225145659429656328166395524625 47692353913991662614333204546127922020994276850545850003718673044945315007856) (Pt.aff 52567785082203269508953927926051161857574828368156255173830872314444100066868 20955986321948831548945805879132381216062047920395562645379008774052507681364) (by decide) (by decide) (by decide) (by decide!) (by decide!)).trans <|
  (smulGo_stepL 182 181 124977918430791668457061145687831358003433 62488959215395834228530572843915679001716 (Pt.aff 40506707216552381239702440872040655285139231191225145659429656328166395524625 47692353913991662614333204546127922020994276850545850003718673044945315007856) (Pt.aff 52567785082203269508953927926051161857574828368156255173830872314444100066868 20955986321948831548945805879132381216062047920395562645379008774052507681364) (Pt.aff 12087599349203146356572484625395395738647579772840745189675655439715623853164 34635064276366100382101548414620604887476351661460177531027924926568348092848) (Pt.aff 40606296413109111953926073829780710868110151438293776243829941789214380003044 11318856849106966464116392210093241492413761441447021027130310615402760066819) (by decide) (by decide) (by decide) (by decide!) (by decide!)).trans <|
  (smulGo_stepL 181 180 62488959215395834228530572843915679001716 31244479607697917114265286421957839500858 (Pt.aff 12087599349203146356572484625395395738647579772840745189675655439715623853164 34635064276366100382101548414620604887476351661460177531027924926568348092848) (Pt.aff 40606296413109111953926073829780710868110151438293776243829941789214380003044 11318856849106966464116392210093241492413761441447021027130310615402760066819) (Pt.aff 24948618818518804382757914659608843640758531400894467526076056223658006126863 997932449671510043040311328903908210279993179946646091837916587180094466793) (Pt.aff 40606296413109111953926073829780710868110151438293776243829941789214380003044 11318856849106966464116392210093241492413761441447021027130310615402760066819) (by decide) (by decide) (by decide) (by decide!) (by decide!)).trans <|
  (smulGo_stepL 180 179 31244479607697917114265286421957839500858 15622239803848958557132643210978919750429 (Pt.aff 24948618818518804382757914659608843640758531400894467526076056223658006126863 997932449671510043040311328903908210279993179946646091837916587180094466793) (Pt.aff 40606296413109111953926073829780710868110151438293776243829941789214380003044 11318856849106966464116392210093241492413761441447021027130310615402760066819) (Pt.aff 35822797764477975406264043115128999431636215179100480798813491039041472023915 7942024896399607986912603913984195497297495865567071651363128790997037930868) (Pt.aff 40606296413109111953926073829780710868110151438293776243829941789214380003044 11318856849106966464116392210093241492413761441447021027130310615402760066819) (by decide) (by decide) (by decide) (by decide!) (by decide!)).trans <|
  (smulGo_stepL 179 178 15622239803848958557132643210978919750429 7811119901924479278566321605489459875214 (Pt.aff 35822797764477975406264043115128999431636215179100480798813491039041472023915 7942024896399607986912603913984195497297495865567071651363128790997037930868) (Pt.aff 40606296413109111953926073829780710868110151438293776243829941789214380003044 11318856849106966464116392210093241492413761441447021027130310615402760066819) (Pt.aff 20055331825639371036446307540400927025669088203960567326384659492906040108430 47815088259924068857589170206680454268431632141497598170631122852042956133974) (Pt.aff 37131274313804863735098035451949367138291786330371792254270090346655439764771 52224009366349648435767060741469355308364411745406068872687444384924211740062) (by decide) (by decide) (by decide) (by decide!) (by decide!)).trans <|
  (smulGo_stepL 178 177 7811119901924479278566321605489459875214 3905559950962239639283160802744729937607 (Pt.aff 20055331825639371036446307540400927025669088203960567326384659492906040108430 47815088259924068857589170206680454268431632141497598170631122852042956133974) (Pt.aff 37131274313804863735098035451949367138291786330371792254270090346655439764771 52224009366349648435767060741469355308364411745406068872687444384924211740062) (Pt.aff 33069134491086384770506263991203268665734429977131166112518312862690198885379 5659530317591299983558780094747699065458898285311260247586149810295316138392) (Pt.aff 37131274313804863735098035451949367138291786330371792254270090346655439764771 52224009366349648435767060741469355308364411745406068872687444384924211740062) (by decide) (by decide) (by decide) (by decide!) (by decide!)).trans <|
  (smulGo_stepL 177 176 3905559950962239639283160802744729937607 1952779975481119819641580401372364968803 (Pt.aff 33069134491086384770506263991203268665734429977131166112518312862690198885379 5659530317591299983558780094747699065458898285311260247586149810295316138392) (Pt.aff 37131274313804863735098035451949367138291786330371792254270090346655439764771 52224009366349648435767060741469355308364411745406068872687444384924211740062) (Pt.aff 27531652014572057645232961377123193785832368043174710725498359746723495763923 40418974005295231430931841441421035700164063529175036800447823950901171286285) (Pt.aff 48373722536646545524951120522620491782487507296263976836430599439851983967019 45614265044590949214590382662044848964022841618679784210685365830740258614624) (by decide) (by decide) (by decide) (by decide!) (by decide!)).trans <|
  (smulGo_stepL 176 175 1952779975481119819641580401372364968803 976389987740559909820790200686182484401 (Pt.aff 27531652014572057645232961377123193785832368043174710725498359746723495763923 40418974005295231430931841441421035700164063529175036800447823950901171286285) (Pt.aff 48373722536646545524951120522620491782487507296263976836430599439851983967019 45614265044590949214590382662044848964022841618679784210685365830740258614624) (Pt.aff 42672327669468302085153675987180084891609630042130536239884511454730014518248 56585854536230913813313518611210212500145952493237151479700667324247856282554) (Pt.aff 8492098847908558550092141936801399270018637718159056475390733072040734041113 37470387718970095743497023135855750997861798414247763941607207293295379976238) (by decide) (by decide) (by decide) (by decide!) (by decide!)).trans <|
  (smulGo_stepL 175 174 976389987740559909820790200686182484401 488194993870279954910395100343091242200 (Pt.aff 42672327669468302085153675987180084891609630042130536239884511454730014518248 56585854536230913813313518611210212500145952493237151479700667324247856282554) (Pt.aff 8492098847908558550092141936801399270018637718159056475390733072040734041113 37470387718970095743497023135855750997861798414247763941607207293295379976238) (Pt.aff 39626096279607034041910242045575710184594099550003943289602611930535959845219 3206974981033439249146447640780802202371627087258701204664291441529485277246) (Pt.aff 30631757234044589761610596472663825852645206250174772693469449398963380412853 34161695295857843253895535935609565112289278446988321881120552893708679753939) (by decide) (by decide) (by decide) (by decide!) (by decide!)).trans <|
  (smulGo_stepL 174 173 488194993870279954910395100343091242200 244097496935139977455197550171545621100 (Pt.aff 39626096279607034041910242045575710184594099550003943289602611930535959845219 3206974981033439249146447640780802202371627087258701204664291441529485277246) (Pt.aff 30631757234044589761610596472663825852645206250174772693469449398963380412853 34161695295857843253895535935609565112289278446988321881120552893708679753939) (Pt.aff 40895148854680960383286752618229085439649933193429435047275409974555281844256 51123433859880273600567591893494774534557905844421384079248047756493229023894) (Pt.aff 30631757234044589761610596472663825852645206250174772693469449398963380412853 34161695295857843253895535935609565112289278446988321881120552893708679753939) (by decide) (by decide) (by decide) (by decide!) (by decide!)).trans <|
  (smulGo_stepL 173 172 244097496935139977455197550171545621100 122048748467569988727598775085772810550 (Pt.aff 40895148854680960383286752618229085439649933193429435047275409974555281844256 51123433859880273600567591893494774534557905844421384079248047756493229023894) (Pt.aff 30631757234044589761610596472663825852645206250174772693469449398963380412853 34161695295857843253895535935609565112289278446988321881120552893708679753939) (Pt.aff 51106253774389618415956616375025100369306682409741318809555035054755131044651 19096191529214578339310607586494939516205198020637386689918208065018328909940) (Pt.aff 30631757234044589761610596472663825852645206250174772693469449398963380412853 34161695295857843253895535935609565112289278446988321881120552893708679753939) (by decide) (by decide) (by decide) (by decide!) (by decide!)).trans <|
  (smulGo_stepL 172 171 122048748467569988727598775085772810550 61024374233784994363799387542886405275 (Pt.aff 51106253774389618415956616375025100369306682409741318809555035054755131044651 19096191529214578339310607586494939516205198020637386689918208065018328909940) (Pt.aff 30631757234044589761610596472663825852645206250174772693469449398963380412853 34161695295857843253895535935609565112289278446988321881120552893708679753939) (Pt.aff 37249325454072554820905558493123970357913396884786027148704846589908972600585 54451406554808006259291003815936370756423842836501522620219171087745927642403) (Pt.aff 30631757234044589761610596472663825852645206250174772693469449398963380412853 34161695295857843253895535935609565112289278446988321881120552893708679753939) (by decide) (by decide) (by decide) (by decide!) (by decide!)).trans <|
  (smulGo_stepL 171 170 61024374233784994363799387542886405275 30512187116892497181899693771443202637 (Pt.aff 37249325454072554820905558493123970357913396884786027148704846589908972600585 54451406554808006259291003815936370756423842836501522620219171087745927642403) (Pt.aff 30631757234044589761610596472663825852645206250174772693469449398963380412853 34161695295857843253895535935609565112289278446988321881120552893708679753939) (Pt.aff 47343128284067437111992381711171348120561726445982839072110333685034979379789 47926433211008044516643533643638320669522900521641124382385305598229083317419) (Pt.aff 32218032154473831948430354175994448377737836585454798213235670886715082096944 35212900040636893421675683056703530636368803724459977212014376809340720540865) (by decide) (by decide) (by decide) (by decide!) (by decide!)).trans <|
  (smulGo_stepL 170 169 30512187116892497181899693771443202637 15256093558446248590949846885721601318 (Pt.aff 47343128284067437111992381711171348120561726445982839072110333685034979379789 47926433211008044516643533643638320669522900521641124382385305598229083317419) (Pt.aff 32218032154473831948430354175994448377737836585454798213235670886715082096944 35212900040636893421675683056703530636368803724459977212014376809340720540865) (Pt.aff 26975038273498187835569652149818531610965387451687868664900370382344079744150 40805189622115460190137243927894128480509010259539566539350321647440782575815) (Pt.aff 56000635540201981397801645412528812786679528270073011639785146068775140062118 2712806440799820247244910644245235315569831672419022021103519042666312654809) (by decide) (by decide) (by decide) (by decide!) (by decide!)).trans <|
  (smulGo_stepL 169 168 15256093558446248590949846885721601318 7628046779223124295474923442860800659 (Pt.aff 26975038273498187835569652149818531610965387451687868664900370382344079744150 40805189622115460190137243927894128480509010259539566539350321647440782575815) (Pt.aff 56000635540201981397801645412528812786679528270073011639785146068775140062118 2712806440799820247244910644245235315569831672419022021103519042666312654809) (Pt.aff 19750528111864391779701758219164583791146352179995986504636460157648802552460 12124638869446122253987739696991735175378583958372661170589060908047983255979) (Pt.aff 56000635540201981397801645412528812786679528270073011639785146068775140062118 2712806440799820247244910644245235315569831672419022021103519042666312654809) (by decide) (by decide) (by decide) (by decide!) (by decide!)).trans <|
  (smulGo_stepL 168 167 7628046779223124295474923442860800659 3814023389611562147737461721430400329 (Pt.aff 19750528111864391779701758219164583791146352179995986504636460157648802552460 12124638869446122253987739696991735175378583958372661170589060908047983255979) (Pt.aff 56000635540201981397801645412528812786679528270073011639785146068775140062118 2712806440799820247244910644245235315569831672419022021103519042666312654809) (Pt.aff 34884762300316629162940267867034531074200649939251591359889958888410484400460 51845853560455327320603380311294689118922208377549125666633357797517424430) (Pt.aff 21537254484524794608420652736093287238398906842233975952075901440404213436369 47082493851893967724397849704192610296422567578677691310591720072709959164643) (by decide) (by decide) (by decide) (by decide!) (by decide!)).trans <|
  (smulGo_stepL 167 166 3814023389611562147737461721430400329 1907011694805781073868730860715200164 (Pt.aff 34884762300316629162940267867034531074200649939251591359889958888410484400460 51845853560455327320603380311294689118922208377549125666633357797517424430) (Pt.aff 21537254484524794608420652736093287238398906842233975952075901440404213436369 47082493851893967724397849704192610296422567578677691310591720072709959164643) (Pt.aff 24961150231451894253445733659943821564068246459702806322918570398217553839105 47186404297984983646703078031780700304108500652584309171242339128277156617819) (Pt.aff 54718747605057939895010246136309704171111338584779194532081350566492170129314 18174257826128035007386910981859604603681502858470225068726894046723365913970) (by decide) (by decide) (by decide) (by decide!) (by decide!)).trans <|
  (smulGo_stepL 166 165 1907011694805781073868730860715200164 953505847402890536934365430357600082 (Pt.aff 24961150231451894253445733659943821564068246459702806322918570398217553839105 47186404297984983646703078031780700304108500652584309171242339128277156617819) (Pt.aff 54718747605057939895010246136309704171111338584779194532081350566492170129314 18174257826128035007386910981859604603681502858470225068726894046723365913970) (Pt.aff 57634273488998545910191003323955225589129079631753081181454946623039699130184 11372281771016344666744087798720149988711436979803117833874384668718784111318) (Pt.aff 54718747605057939895010246136309704171111338584779194532081350566492170129314 18174257826128035007386910981859604603681502858470225068726894046723365913970) (by decide) (by decide) (by decide) (by decide!) (by decide!)).trans <|
  (smulGo_stepL 165 164 953505847402890536934365430357600082 476752923701445268467182715178800041 (Pt.aff 57634273488998545910191003323955225589129079631753081181454946623039699130184 11372281771016344666744087798720149988711436979803117833874384668718784111318) (Pt.aff 54718747605057939895010246136309704171111338584779194532081350566492170129314 18174257826128035007386910981859604603681502858470225068726894046723365913970) (Pt.aff 24517091094122205067521312039901611149070171627177862651107085342356266508863 21809667071050572940063360495069172585037009251833647398781805434136075462411) (Pt.aff 54718747605057939895010246136309704171111338584779194532081350566492170129314 18174257826128035007386910981859604603681502858470225068726894046723365913970) (by decide) (by decide) (by decide) (by decide!) (by decide!)).trans <|
  (smulGo_stepL 164 163 476752923701445268467182715178800041 238376461850722634233591357589400020 (Pt.aff 24517091094122205067521312039901611149070171627177862651107085342356266508863 21809667071050572940063360495069172585037009251833647398781805434136075462411) (Pt.aff 54718747605057939895010246136309704171111338584779194532081350566492170129314 18174257826128035007386910981859604603681502858470225068726894046723365913970) (Pt.aff 51278713614069143649335848838305255325021813596727614319990818962570588009287 28474827252662811639945765752871938550681495468581930657793074798171377156876) (Pt.aff 31030349894383703072080758779174679000613266957980881825116751355431896667811 22610259542036218517515324144428500270696535482247981377888217640945895437859) (by decide) (by decide) (by decide) (by decide!) (by decide!)).trans <|
  (smulGo_stepL 163 162 238376461850722634233591357589400020 119188230925361317116795678794700010 (Pt.aff 51278713614069143649335848838305255325021813596727614319990818962570588009287 28474827252662811639945765752871938550681495468581930657793074798171377156876) (Pt.aff 31030349894383703072080758779174679000613266957980881825116751355431896667811 22610259542036218517515324144428500270696535482247981377888217640945895437859) (Pt.aff 25912911592999005761218805611090716495203983933093946475659693037761423229959 31748776944337231482203280743999334701983424920729814131296910238388881348275) (Pt.aff 31030349894383703072080758779174679000613266957980881825116751355431896667811 22610259542036218517515324144428500270696535482247981377888217640945895437859) (by decide) (by decide) (by decide) (by decide!) (by decide!)).trans <|
  (smulGo_stepL 162 161 119188230925361317116795678794700010 59594115462680658558397839397350005 (Pt.aff 25912911592999005761218805611090716495203983933093946475659693037761423229959 31748776944337231482203280743999334701983424920729814131296910238388881348275) (Pt.aff 31030349894383703072080758779174679000613266957980881825116751355431896667811 22610259542036218517515324144428500270696535482247981377888217640945895437859) (Pt.aff 15421008745080731355728858844673991288988676575237372452246458865704176375061 27438832338363545155659953756454337956083452571194210280789863294222866978265) (Pt.aff 31030349894383703072080758779174679000613266957980881825116751355431896667811 22610259542036218517515324144428500270696535482247981377888217640945895437859) (by decide) (by decide) (by decide) (by decide!) (by decide!)).trans <|
  (smulGo_stepL 161 160 59594115462680658558397839397350005 29797057731340329279198919698675002 (Pt.aff 15421008745080731355728858844673991288988676575237372452246458865704176375061 27438832338363545155659953756454337956083452571194210280789863294222866978265) (Pt.aff 31030349894383703072080758779174679000613266957980881825116751355431896667811 22610259542036218517515324144428500270696535482247981377888217640945895437859) (Pt.aff 39226106534217107385059910319420225548266924003524636600608899604865441436196 27723335598701804018316085362439829726402504829328399221224342160346510714084) (Pt.aff 41226883801132400065780676635232066411815612504983552362843636068380379911329 4637844261826724879296815331317018057021253785258078762675291244572291279304) (by decide) (by decide) (by decide) (by decide!) (by decide!)).trans <|
  (smulGo_stepL 160 159 29797057731340329279198919698675002 14898528865670164639599459849337501 (Pt.aff 39226106534217107385059910319420225548266924003524636600608899604865441436196 27723335598701804018316085362439829726402504829328399221224342160346510714084) (Pt.aff 41226883801132400065780676635232066411815612504983552362843636068380379911329 4637844261826724879296815331317018057021253785258078762675291244572291279304) (Pt.aff 41772880267831537096943496505525081766328953111881113812554004886225427693060 598864040325758241237685812818323508556254848459962698064036702984387508157) (Pt.aff 41226883801132400065780676635232066411815612504983552362843636068380379911329 4637844261826724879296815331317018057021253785258078762675291244572291279304) (by decide) (by decide) (by decide) (by decide!) (by decide!)).trans <|
  (smulGo_stepL 159 158 14898528865670164639599459849337501 7449264432835082319799729924668750 (Pt.aff 41772880267831537096943496505525081766328953111881113812554004886225427693060 598864040325758241237685812818323508556254848459962698064036702984387508157) (Pt.aff 41226883801132400065780676635232066411815612504983552362843636068380379911329 4637844261826724879296815331317018057021253785258078762675291244572291279304) (Pt.aff 33364659280189689214517671189670736537930647796308827699608414591496592405219 14634819748603455339108338897436733271653712392070570204368786453772757431785) (Pt.aff 6758157053817544209698493383108436895863390569036351659301890528087177690964 41232211925002332840540520945835324682592611859072948078268870055382490464061) (by decide) (by decide) (by decide) (by decide!) (by decide!)).trans <|
  (smulGo_stepL 158 157 7449264432835082319799729924668750 3724632216417541159899864962334375 (Pt.aff 33364659280189689214517671189670736537930647796308827699608414591496592405219 14634819748603455339108338897436733271653712392070570204368786453772757431785) (Pt.aff 6758157053817544209698493383108436895863390569036351659301890528087177690964 41232211925002332840540520945835324682592611859072948078268870055382490464061) (Pt.aff 48430655108391856938625718600538473958034223366523607483713089563345123900113 52130398500992333389587715845449433336022247357609569801666525113342848152191) (Pt.aff 6758157053817544209698493383108436895863390569036351659301890528087177690964 41232211925002332840540520945835324682592611859072948078268870055382490464061) (by decide) (by decide) (by decide) (by decide!) (by decide!)).trans <|
  (smulGo_stepL 157 156 3724632216417541159899864962334375 1862316108208770579949932481167187 (Pt.aff 48430655108391856938625718600538473958034223366523607483713089563345123900113 52130398500992333389587715845449433336022247357609569801666525113342848152191) (Pt.aff 6758157053817544209698493383108436895863390569036351659301890528087177690964 41232211925002332840540520945835324682592611859072948078268870055382490464061) (Pt.aff 9122349653463993535126960803741624737289936014194571807712717391360441677759 39998703038092392253333606712273074513179182259721141614370761659686613275376) (Pt.aff 16842296293921565055623176837023617353832447250661187366223665727229798267244 6157181913967014440778730122931940502238764471720180583959141967872088896873) (by decide) (by decide) (by decide) (by decide!) (by decide!)).trans <|
  (smulGo_stepL 156 155 1862316108208770579949932481167187 931158054104385289974966240583593 (Pt.aff 9122349653463993535126960803741624737289936014194571807712717391360441677759 39998703038092392253333606712273074513179182259721141614370761659686613275376) (Pt.aff 16842296293921565055623176837023617353832447250661187366223665727229798267244 6157181913967014440778730122931940502238764471720180583959141967872088896873) (Pt.aff 41528326362025496197059353846502210168389221709168488368141391596959198585800 46433757814062078691764480863395569061038470283572774769549017202929155404018) (Pt.aff 11806727797372942688221576271643087373121015255434409101833116374561682521576 8182475717893845890140787922043466347590614618277986507536176108206796052496) (by decide) (by decide) (by decide) (by decide!) (by decide!)).trans <|
  (smulGo_stepL 155 154 931158054104385289974966240583593 465579027052192644987483120291796 (Pt.aff 41528326362025496197059353846502210168389221709168488368141391596959198585800 46433757814062078691764480863395569061038470283572774769549017202929155404018) (Pt.aff 11806727797372942688221576271643087373121015255434409101833116374561682521576 8182475717893845890140787922043466347590614618277986507536176108206796052496) (Pt.aff 9393117927659476229684703455801643277591077459452097462493917962733059041838 10721171573695292674830142356545014902336336816408855645997175357841702483781) (Pt.aff 3110858682846085831613669127305712989684385799031278063558452140172758986687 12253902341870027465618273360384830593272430504640664891099121996393790118026) (by decide) (by decide) (by decide) (by decide!) (by decide!)).trans <|
  (smulGo_stepL 154 153 465579027052192644987483120291796 232789513526096322493741560145898 (Pt.aff 9393117927659476229684703455801643277591077459452097462493917962733059041838 10721171573695292674830142356545014902336336816408855645997175357841702483781) (Pt.aff 3110858682846085831613669127305712989684385799031278063558452140172758986687 12253902341870027465618273360384830593272430504640664891099121996393790118026) (Pt.aff 35657432084947952360989559282354771096986890165666542581132807166580910703934 41319760588260404176311464178546836900821969678092339494486021992256654155776) (Pt.aff 3110858682846085831613669127305712989684385799031278063558452140172758986687 12253902341870027465618273360384830593272430504640664891099121996393790118026) (by decide) (by decide) (by decide) (by decide!) (by decide!)).trans <|
  (smulGo_stepL 153 152 232789513526096322493741560145898 116394756763048161246870780072949 (Pt.aff 35657432084947952360989559282354771096986890165666542581132807166580910703934 41319760588260404176311464178546836900821969678092339494486021992256654155776) (Pt.aff 3110858682846085831613669127305712989684385799031278063558452140172758986687 12253902341870027465618273360384830593272430504640664891099121996393790118026) (Pt.aff 19861284629611120660868129542217982407358049865019699712041978611867487270682 44942103327311971005667925155046452398470505883144616628546454957149190404335) (Pt.aff 3110858682846085831613669127305712989684385799031278063558452140172758986687 12253902341870027465618273360384830593272430504640664891099121996393790118026) (by decide) (by decide) (by decide) (by decide!) (by decide!)).trans <|
  (smulGo_stepL 152 151 116394756763048161246870780072949 58197378381524080623435390036474 (Pt.aff 19861284629611120660868129542217982407358049865019699712041978611867487270682 44942103327311971005667925155046452398470505883144616628546454957149190404335) (Pt.aff 3110858682846085831613669127305712989684385799031278063558452140172758986687 12253902341870027465618273360384830593272430504640664891099121996393790118026) (Pt.aff 24759915601072095121820555768672037076053005973891682972978173405813861379995 53631740437088658464648671869189515305008406226929539036614789861259716394882) (Pt.aff 43444581679507077316410666161829611552451820769243601548438920851182888341595 7515055499982922234009852148614052093843612564372083077139678579910091350992) (by decide) (by decide) (by decide) (by decide!) (by decide!)).trans <|
  (smulGo_stepL 151 150 58197378381524080623435390036474 29098689190762040311717695018237 (Pt.aff 24759915601072095121820555768672037076053005973891682972978173405813861379995 53631740437088658464648671869189515305008406226929539036614789861259716394882) (Pt.aff 43444581679507077316410666161829611552451820769243601548438920851182888341595 7515055499982922234009852148614052093843612564372083077139678579910091350992) (Pt.aff 28396142433451826294954644829014630923599114698436665471955499882851147248732 5326554295552296210615436618851550637687492920606655547029826592019118867610) (Pt.aff 43444581679507077316410666161829611552451820769243601548438920851182888341595 7515055499982922234009852148614052093843612564372083077139678579910091350992) (by decide) (by decide) (by decide) (by decide!) (by decide!)).trans <|
  (smulGo_stepL 150 149 29098689190762040311717695018237 14549344595381020155858847509118 (Pt.aff 28396142433451826294954644829014630923599114698436665471955499882851147248732 5326554295552296210615436618851550637687492920606655547029826592019118867610) (Pt.aff 43444581679507077316410666161829611552451820769243601548438920851182888341595 7515055499982922234009852148614052093843612564372083077139678579910091350992) (Pt.aff 45460734848347431752658135941410377932487430307206727634296559598651717676659 43033357772843981794367771599733143580754543056237796882300249780454336991877) (Pt.aff 9836249608537239976542761263156062615365010903208245025798505102171631665002 17878792224701606313366961233648519370925430771557865796749549850129464977198) (by decide) (by decide) (by decide) (by decide!) (by decide!)).trans <|
  (smulGo_stepL 149 148 14549344595381020155858847509118 7274672297690510077929423754559 (Pt.aff 45460734848347431752658135941410377932487430307206727634296559598651717676659 43033357772843981794367771599733143580754543056237796882300249780454336991877) (Pt.aff 9836249608537239976542761263156062615365010903208245025798505102171631665002 17878792224701606313366961233648519370925430771557865796749549850129464977198) (Pt.aff 54910465250427854834700328938613784384695415080976672326124468928164753777972 24424108581798261392417175494018970223228467898911373987442012143802925545835) (Pt.aff 9836249608537239976542761263156062615365010903208245025798505102171631665002 17878792224701606313366961233648519370925430771557865796749549850129464977198) (by decide) (by decide) (by decide) (by decide!) (by decide!)).trans <|
  (smulGo_stepL 148 147 7274672297690510077929423754559 3637336148845255038964711877279 (Pt.aff 54910465250427854834700328938613784384695415080976672326124468928164753777972 24424108581798261392417175494018970223228467898911373987442012143802925545835) (Pt.aff 9836249608537239976542761263156062615365010903208245025798505102171631665002 17878792224701606313366961233648519370925430771557865796749549850129464977198) (Pt.aff 46057421719162200467903848867938719465721573639090650329505018328592617484695 8431783327734802623215380001015872374107041743019580950157619148289260765967) (Pt.aff 40689746183351031867927094035948386434106963650392877604122821512831130092501 40519331648763871992855256975267773486854446523522996567599284973780783664375) (by decide) (by decide) (by decide) (by decide!) (by decide!)).trans <|
  (smulGo_stepL 147 146 3637336148845255038964711877279 1818668074422627519482355938639 (Pt.aff 46057421719162200467903848867938719465721573639090650329505018328592617484695 8431783327734802623215380001015872374107041743019580950157619148289260765967) (Pt.aff 40689746183351031867927094035948386434106963650392877604122821512831130092501 40519331648763871992855256975267773486854446523522996567599284973780783664375) (Pt.aff 43979562853676656806755242055861577306341014755832166826751630691129329342279 34690753430310264542328463187450296371108811597100990530323041857772948256409) (Pt.aff 50162248752309427090861230892555462307666139666185000554354460382393305145130 53390437142705033230925735139609069370327883254030218497515208797608452974410) (by decide) (by decide) (by decide) (by decide!) (by decide!)).trans <|
  (smulGo_stepL 146 145 1818668074422627519482355938639 909334037211313759741177969319 (Pt.aff 43979562853676656806755242055861577306341014755832166826751630691129329342279 34690753430310264542328463187450296371108811597100990530323041857772948256409) (Pt.aff 50162248752309427090861230892555462307666139666185000554354460382393305145130 53390437142705033230925735139609069370327883254030218497515208797608452974410) (Pt.aff 1539967568000531359733649311851541695430757342874991320552872559312323810973 14818275811414001518017756987606824360546512945484493770911249751240677876887) (Pt.aff 29166843039744795825886564376076295296698174700531717141993813469123494078389 57429288273375353118350757685277419988003112539949624689996446229003722661629) (by decide) (by decide) (by decide) (by decide!) (by decide!)).trans <|
  (smulGo_stepL 145 144 909334037211313759741177969319 454667018605656879870588984659 (Pt.aff 1539967568000531359733649311851541695430757342874991320552872559312323810973 14818275811414001518017756987606824360546512945484493770911249751240677876887) (Pt.aff 29166843039744795825886564376076295296698174700531717141993813469123494078389 57429288273375353118350757685277419988003112539949624689996446229003722661629) (Pt.aff 53243557870778711699741334250001434820129547103108846561284002868017503956128 55547744588329508588379989948584304410660020200802663432092234900604155072261) (Pt.aff 53937307589182601570261109812939001861624231577885626222008332887627664434552 980124857040753560228230136982498218298635401168377436646516652270563822261) (by decide) (by decide) (by decide) (by decide!) (by decide!)).trans <|
  (smulGo_stepL 144 143 454667018605656879870588984659 227333509302828439935294492329 (Pt.aff 53243557870778711699741334250001434820129547103108846561284002868017503956128 55547744588329508588379989948584304410660020200802663432092234900604155072261) (Pt.aff 53937307589182601570261109812939001861624231577885626222008332887627664434552 980124857040753560228230136982498218298635401168377436646516652270563822261) (Pt.aff 3222032275229861329381079977929060908021771626867059108917881117718127660076 17273707422963374614469221997742630352915923055297063939113124095904261402297) (Pt.aff 80511949887473575068840616357804946445756485741460316811746525787904924460 46431990585057036539958653588423634380165645450955381354470839725954533232290) (by decide) (by decide) (by decide) (by decide!) (by decide!)).trans <|
  (smulGo_stepL 143 142 227333509302828439935294492329 113666754651414219967647246164 (Pt.aff 3222032275229861329381079977929060908021771626867059108917881117718127660076 17273707422963374614469221997742630352915923055297063939113124095904261402297) (Pt.aff 80511949887473575068840616357804946445756485741460316811746525787904924460 46431990585057036539958653588423634380165645450955381354470839725954533232290) (Pt.aff 48812029557641735332882487767268558429165739096215331646199424424661520489718 2377421210696161580753964436935827022988553019417380351851384851549570480151) (Pt.aff 47684932842121703154220153885015877345642378060171231597742216042638163616196 57329172399431206363245100919436262159520378883779184619060484522296805558864) (by decide) (by decide) (by decide) (by decide!) (by decide!)).trans <|
  (smulGo_stepL 142 141 113666754651414219967647246164 56833377325707109983823623082 (Pt.aff 48812029557641735332882487767268558429165739096215331646199424424661520489718 2377421210696161580753964436935827022988553019417380351851384851549570480151) (Pt.aff 47684932842121703154220153885015877345642378060171231597742216042638163616196 57329172399431206363245100919436262159520378883779184619060484522296805558864) (Pt.aff 50762328630258624799405502795055798982700488416718304941754078676284383312113 37237719480703426113226504698767392496415361413367431031386470749115712656455) (Pt.aff 47684932842121703154220153885015877345642378060171231597742216042638163616196 57329172399431206363245100919436262159520378883779184619060484522296805558864) (by decide) (by decide) (by decide) (by decide!) (by decide!)).trans <|
  (smulGo_stepL 141 140 56833377325707109983823623082 28416688662853554991911811541 (Pt.aff 50762328630258624799405502795055798982700488416718304941754078676284383312113 37237719480703426113226504698767392496415361413367431031386470749115712656455) (Pt.aff 47684932842121703154220153885015877345642378060171231597742216042638163616196 57329172399431206363245100919436262159520378883779184619060484522296805558864) (Pt.aff 24344380932132789428540601088096478561753979054378548508842556696935922439340 25129006685093182722441565784174411680559778103730325159859822374440870692196) (Pt.aff 47684932842121703154220153885015877345642378060171231597742216042638163616196 57329172399431206363245100919436262159520378883779184619060484522296805558864) (by decide) (by decide) (by decide) (by decide!) (by decide!)).trans <|
  (smulGo_stepL 140 139 28416688662853554991911811541 14208344331426777495955905770 (Pt.aff 24344380932132789428540601088096478561753979054378548508842556696935922439340 25129006685093182722441565784174411680559778103730325159859822374440870692196) (Pt.aff 47684932842121703154220153885015877345642378060171231597742216042638163616196 57329172399431206363245100919436262159520378883779184619060484522296805558864) (Pt.aff 24045027069032399888457823616118262416157897879040452163270997272600871163616 26642633156672951490938155219736546869917422173425684502241074211707502876366) (Pt.aff 2070840998134619025330710909201616383960422350559613708212824216993320889026 13695369489610347516476594622765226864611197064370073953040138865181595246262) (by decide) (by decide) (by decide) (by decide!) (by decide!)).trans <|
  (smulGo_stepL 139 138 14208344331426777495955905770 7104172165713388747977952885 (Pt.aff 24045027069032399888457823616118262416157897879040452163270997272600871163616 26642633156672951490938155219736546869917422173425684502241074211707502876366) (Pt.aff 2070840998134619025330710909201616383960422350559613708212824216993320889026 13695369489610347516476594622765226864611197064370073953040138865181595246262) (Pt.aff 2313745328117244969339927281361294790412898046843791555213392796125360740946 24911096657789658361424775189975677447690894086486804680706811678130503655718) (Pt.aff 2070840998134619025330710909201616383960422350559613708212824216993320889026 13695369489610347516476594622765226864611197064370073953040138865181595246262) (by decide) (by decide) (by decide) (by decide!) (by decide!)).trans <|
  (smulGo_stepL 138 137 7104172165713388747977952885 3552086082856694373988976442 (Pt.aff 2313745328117244969339927281361294790412898046843791555213392796125360740946 24911096657789658361424775189975677447690894086486804680706811678130503655718) (Pt.aff 2070840998134619025330710909201616383960422350559613708212824216993320889026 13695369489610347516476594622765226864611197064370073953040138865181595246262) (Pt.aff 36351821170547327215245376764894674502904493824531011836969538164990926113772 3193209284649495026811779238515702080632444013868255445224494818981602089133) (Pt.aff 18718210517535009327189598389667912585656153833617465439791801367632522272327 25178504818473035197114893298881916248544194865239562566879376643584407864895) (by decide) (by decide) (by decide) (by decide!) (by decide!)).trans <|
  (smulGo_stepL 137 136 3552086082856694373988976442 1776043041428347186994488221 (Pt.aff 36351821170547327215245376764894674502904493824531011836969538164990926113772 3193209284649495026811779238515702080632444013868255445224494818981602089133) (Pt.aff 18718210517535009327189598389667912585656153833617465439791801367632522272327 25178504818473035197114893298881916248544194865239562566879376643584407864895) (Pt.aff 30981983617492345602031361885890357007557805616416599670109930587125182862672 49004980343672184655477303873181112651498381302051573545352924729216386838171) (Pt.aff 18718210517535009327189598389667912585656153833617465439791801367632522272327 25178504818473035197114893298881916248544194865239562566879376643584407864895) (by decide) (by decide) (by decide) (by decide!) (by decide!)).trans <|
  (smulGo_stepL 136 135 1776043041428347186994488221 888021520714173593497244110 (Pt.aff 30981983617492345602031361885890357007557805616416599670109930587125182862672 49004980343672184655477303873181112651498381302051573545352924729216386838171) (Pt.aff 18718210517535009327189598389667912585656153833617465439791801367632522272327 25178504818473035197114893298881916248544194865239562566879376643584407864895) (Pt.aff 16899596368879680123965963420055208984157981774014523445634049358451570312979 48429394620938854516818540950323806486875343319240410772342868352692052713260) (Pt.aff 2568467332690759693591709094850548315349260263236473887050010135178457770161 22593095168821887554389818861510291947680787202647756605882587630246044212426) (by decide) (by decide) (by decide) (by decide!) (by decide!)).trans <|
  (smulGo_stepL 135 134 888021520714173593497244110 444010760357086796748622055 (Pt.aff 16899596368879680123965963420055208984157981774014523445634049358451570312979 48429394620938854516818540950323806486875343319240410772342868352692052713260) (Pt.aff 2568467332690759693591709094850548315349260263236473887050010135178457770161 22593095168821887554389818861510291947680787202647756605882587630246044212426) (Pt.aff 20559902657658264845835440517896937969018520929899839001423724441181539163507 23984336443851935407284254794576899957305141866281062086106975177966549291946) (Pt.aff 2568467332690759693591709094850548315349260263236473887050010135178457770161 22593095168821887554389818861510291947680787202647756605882587630246044212426) (by decide) (by decide) (by decide) (by decide!) (by decide!)).trans <|
  (smulGo_stepL 134 133 444010760357086796748622055 222005380178543398374311027 (Pt.aff 20559902657658264845835440517896937969018520929899839001423724441181539163507 23984336443851935407284254794576899957305141866281062086106975177966549291946) (Pt.aff 2568467332690759693591709094850548315349260263236473887050010135178457770161 22593095168821887554389818861510291947680787202647756605882587630246044212426) (Pt.aff 55743580191126147312763099237659575164216364687310551850107259002886913801297 34959292588917248710175802260137440075124491503385223155535685854355467193951) (Pt.aff 54552426381330113078036343612424138276641787881212233616957417723536782070880 24633160602910781987843636601512554882411967747596817679779301875813799829333) (by decide) (by decide) (by decide) (by decide!) (by decide!)).trans <|
  (smulGo_stepL 133 132 222005380178543398374311027 111002690089271699187155513 (Pt.aff 55743580191126147312763099237659575164216364687310551850107259002886913801297 34959292588917248710175802260137440075124491503385223155535685854355467193951) (Pt.aff 54552426381330113078036343612424138276641787881212233616957417723536782070880 24633160602910781987843636601512554882411967747596817679779301875813799829333) (Pt.aff 50503157447872306860121854771474354472985867193944435022516497616798894661477 17987708762395960206457695754945561324158984131657444905197532770916043011864) (Pt.aff 51542584075370571680166706266386238156408080602911937306874053539912439277542 28404585288979423751017613709933908603583236889966690232488321372261818398153) (by decide) (by decide) (by decide) (by decide!) (by decide!)).trans <|
  (smulGo_stepL 132 131 111002690089271699187155513 55501345044635849593577756 (Pt.aff 50503157447872306860121854771474354472985867193944435022516497616798894661477 17987708762395960206457695754945561324158984131657444905197532770916043011864) (Pt.aff 51542584075370571680166706266386238156408080602911937306874053539912439277542 28404585288979423751017613709933908603583236889966690232488321372261818398153) (Pt.aff 424187640350582461084201228179060212528216841812442511570737924388285075367 1134687490361257658603636975640792956109460031834647862265428197041474845711) (Pt.aff 44722757547270732660750231548734272720513065941850703020844124950354495627647 42307110814880721438266603929891133246391206669636924195246812522439527405683) (by decide) (by decide) (by decide) (by decide!) (by decide!)).trans <|
  (smulGo_stepL 131 130 55501345044635849593577756 27750672522317924796788878 (Pt.aff 424187640350582461084201228179060212528216841812442511570737924388285075367 1134687490361257658603636975640792956109460031834647862265428197041474845711) (Pt.aff 44722757547270732660750231548734272720513065941850703020844124950354495627647 42307110814880721438266603929891133246391206669636924195246812522439527405683) (Pt.aff 49752145758360688878009967897798844690436498003318065813508532192890131912533 57476474109548544933420995119083237967505493781269891412470852797643290512153) (Pt.aff 44722757547270732660750231548734272720513065941850703020844124950354495627647 42307110814880721438266603929891133246391206669636924195246812522439527405683) (by decide) (by decide) (by decide) (by decide!) (by decide!)).trans <|
  (smulGo_stepL 130 129 27750672522317924796788878 13875336261158962398394439 (Pt.aff 49752145758360688878009967897798844690436498003318065813508532192890131912533 57476474109548544933420995119083237967505493781269891412470852797643290512153) (Pt.aff 44722757547270732660750231548734272720513065941850703020844124950354495627647 42307110814880721438266603929891133246391206669636924195246812522439527405683) (Pt.aff 49662153886756638572394002398927458369557710739795845045009255684957381257283 23682783164938577713868454631018191534619886405647931759800512971869559249302) (Pt.aff 44722757547270732660750231548734272720513065941850703020844124950354495627647 42307110814880721438266603929891133246391206669636924195246812522439527405683) (by decide) (by decide) (by decide) (by decide!) (by decide!)).trans <|
  (smulGo_stepL 129 128 13875336261158962398394439 6937668130579481199197219 (Pt.aff 49662153886756638572394002398927458369557710739795845045009255684957381257283 23682783164938577713868454631018191534619886405647931759800512971869559249302) (Pt.aff 44722757547270732660750231548734272720513065941850703020844124950354495627647 42307110814880721438266603929891133246391206669636924195246812522439527405683) (Pt.aff 42339183044252115267599805832360595186498147027304792700821074643980663324303 30609644534193986429274859035755741551265321017136185557808394239972894150649) (Pt.aff 9087405022629798556837830130074642633680655645110094667432272411404346739133 57166795658036172663913593072525856520456621646456559581431587379143404392581) (by decide) (by decide) (by decide) (by decide!) (by decide!)).trans <|
  (smulGo_stepL 128 127 6937668130579481199197219 3468834065289740599598609 (Pt.aff 42339183044252115267599805832360595186498147027304792700821074643980663324303 30609644534193986429274859035755741551265321017136185557808394239972894150649) (Pt.aff 9087405022629798556837830130074642633680655645110094667432272411404346739133 57166795658036172663913593072525856520456621646456559581431587379143404392581) (Pt.aff 20720588799146556195836046741238682837675582917096428992979908189633179869676 33113607708891431080742945765359261516969551558484600749836385478945300665246) (Pt.aff 57618584427404332993049161885197636614670071760069968629038994497881082549452 3721563951216863299604155842853291355636290683235310297782788978086517115461) (by decide) (by decide) (by decide) (by decide!) (by decide!)).trans <|
  (smulGo_stepL 127 126 3468834065289740599598609 1734417032644870299799304 (Pt.aff 20720588799146556195836046741238682837675582917096428992979908189633179869676 33113607708891431080742945765359261516969551558484600749836385478945300665246) (Pt.aff 57618584427404332993049161885197636614670071760069968629038994497881082549452 3721563951216863299604155842853291355636290683235310297782788978086517115461) (Pt.aff 40238206376537694927618561617251037762870131718944700046799071452331417470787 29655159796648738679363703804061989765613564137804403309972402306767467960662) (Pt.aff 21193437745485245193046707238606274989771852141804458520097475431376626988980 19955839876514866461884395977262465937722902888267840393721190284862336807731) (by decide) (by decide) (by decide) (by decide!) (by decide!)).trans <|
  (smulGo_stepL 126 125 1734417032644870299799304 867208516322435149899652 (Pt.aff 40238206376537694927618561617251037762870131718944700046799071452331417470787 29655159796648738679363703804061989765613564137804403309972402306767467960662) (Pt.aff 21193437745485245193046707238606274989771852141804458520097475431376626988980 19955839876514866461884395977262465937722902888267840393721190284862336807731) (Pt.aff 3686655154843753323244998839289609317141464465801939597704828934206912157518 20699336171121076620185865007534286629844786957761722649198061127572156509705) (Pt.aff 21193437745485245193046707238606274989771852141804458520097475431376626988980 19955839876514866461884395977262465937722902888267840393721190284862336807731) (by decide) (by decide) (by decide) (by decide!) (by decide!)).trans <|
  (smulGo_stepL 125 124 867208516322435149899652 433604258161217574949826 (Pt.aff 3686655154843753323244998839289609317141464465801939597704828934206912157518 20699336171121076620185865007534286629844786957761722649198061127572156509705) (Pt.aff 21193437745485245193046707238606274989771852141804458520097475431376626988980 19955839876514866461884395977262465937722902888267840393721190284862336807731) (Pt.aff 21218782649790796121683111978638947015382021695499513896787235384935236806738 5251339713297935888611781471814804101266382413235976709666448746058821813326) (Pt.aff 21193437745485245193046707238606274989771852141804458520097475431376626988980 19955839876514866461884395977262465937722902888267840393721190284862336807731) (by decide) (by decide) (by decide) (by decide!) (by decide!)).trans <|
  (smulGo_stepL 124 123 433604258161217574949826 216802129080608787474913 (Pt.aff 21218782649790796121683111978638947015382021695499513896787235384935236806738 5251339713297935888611781471814804101266382413235976709666448746058821813326) (Pt.aff 21193437745485245193046707238606274989771852141804458520097475431376626988980 19955839876514866461884395977262465937722902888267840393721190284862336807731) (Pt.aff 19433494491250166620415646264670972579650846863149533420415768212755844457325 17935619574539825802990426100413443043626814942827307048053326039043181448700) (Pt.aff 21193437745485245193046707238606274989771852141804458520097475431376626988980 19955839876514866461884395977262465937722902888267840393721190284862336807731) (by decide) (by decide) (by decide) (by decide!) (by decide!)).trans <|
  (smulGo_stepL 123 122 216802129080608787474913 108401064540304393737456 (Pt.aff 19433494491250166620415646264670972579650846863149533420415768212755844457325 17935619574539825802990426100413443043626814942827307048053326039043181448700) (Pt.aff 21193437745485245193046707238606274989771852141804458520097475431376626988980 19955839876514866461884395977262465937722902888267840393721190284862336807731) (Pt.aff 6776226553791749000094018129974146952136853547768149601484116265132954380535 10894788404705979979690654160711841050488616646701394518443145403258729153119) (Pt.aff 15614572872223488093606677118680876450270302970498884252714853567090978719598 39370722216391211884295218477974612480724591766851645671919113372839909714912) (by decide) (by decide) (by decide) (by decide!) (by decide!)).trans <|
  (smulGo_stepL 122 121 108401064540304393737456 54200532270152196868728 (Pt.aff 6776226553791749000094018129974146952136853547768149601484116265132954380535 10894788404705979979690654160711841050488616646701394518443145403258729153119) (Pt.aff 15614572872223488093606677118680876450270302970498884252714853567090978719598 39370722216391211884295218477974612480724591766851645671919113372839909714912) (Pt.aff 22031766120891111546374264664021335102114185868089660441441731092819573014676 49462508842168179677790119856820864120123339100740006798655003375574139700543) (Pt.aff 15614572872223488093606677118680876450270302970498884252714853567090978719598 39370722216391211884295218477974612480724591766851645671919113372839909714912) (by decide) (by decide) (by decide) (by decide!) (by decide!)).trans <|
  (smulGo_stepL 121 120 54200532270152196868728 27100266135076098434364 (Pt.aff 22031766120891111546374264664021335102114185868089660441441731092819573014676 49462508842168179677790119856820864120123339100740006798655003375574139700543) (Pt.aff 15614572872223488093606677118680876450270302970498884252714853567090978719598 39370722216391211884295218477974612480724591766851645671919113372839909714912) (Pt.aff 15718596222684217462188584101014974558729272594911345573338216947525011970592 27375121368781414690702579808446488959973595543446562790218314796409637295377) (Pt.aff 15614572872223488093606677118680876450270302970498884252714853567090978719598 39370722216391211884295218477974612480724591766851645671919113372839909714912) (by decide) (by decide) (by decide) (by decide!) (by decide!)).trans <|
  (smulGo_stepL 120 119 27100266135076098434364 13550133067538049217182 (Pt.aff 15718596222684217462188584101014974558729272594911345573338216947525011970592 27375121368781414690702579808446488959973595543446562790218314796409637295377) (Pt.aff 15614572872223488093606677118680876450270302970498884252714853567090978719598 39370722216391211884295218477974612480724591766851645671919113372839909714912) (Pt.aff 19511338993283906796142349526838574788995468726103174739786659994109593682132 17863153988435199438299167286036745926516852658642921941734392230020320363726) (Pt.aff 15614572872223488093606677118680876450270302970498884252714853567090978719598 39370722216391211884295218477974612480724591766851645671919113372839909714912) (by decide) (by decide) (by decide) (by decide!) (by decide!)).trans <|
  (smulGo_stepL 119 118 13550133067538049217182 6775066533769024608591 (Pt.aff 19511338993283906796142349526838574788995468726103174739786659994109593682132 17863153988435199438299167286036745926516852658642921941734392230020320363726) (Pt.aff 15614572872223488093606677118680876450270302970498884252714853567090978719598 39370722216391211884295218477974612480724591766851645671919113372839909714912) (Pt.aff 21031624119834641885457831362742066062200302293179165064774449871747891021755 50089089038409846331824575843558618479331771973118246875662467472385353333974) (Pt.aff 15614572872223488093606677118680876450270302970498884252714853567090978719598 39370722216391211884295218477974612480724591766851645671919113372839909714912) (by decide) (by decide) (by decide) (by decide!) (by decide!)).trans <|
  (smulGo_stepL 118 117 6775066533769024608591 3387533266884512304295 (Pt.aff 21031624119834641885457831362742066062200302293179165064774449871747891021755 50089089038409846331824575843558618479331771973118246875662467472385353333974) (Pt.aff 15614572872223488093606677118680876450270302970498884252714853567090978719598 39370722216391211884295218477974612480724591766851645671919113372839909714912) (Pt.aff 28716964644433546746477433797456403543924743022636111592837742072547041548779 50594259579487349471509321579773050267582322488922625093420044974360726200556) (Pt.aff 27051137880008671058490555796239965223196351662388836615689547050491957261386 10261079136399460854963461733858175451179339861413354501082510934464810821323) (by decide) (by decide) (by decide) (by decide!) (by decide!)).trans <|
  (smulGo_stepL 117 116 3387533266884512304295 1693766633442256152147 (Pt.aff 28716964644433546746477433797456403543924743022636111592837742072547041548779 50594259579487349471509321579773050267582322488922625093420044974360726200556) (Pt.aff 27051137880008671058490555796239965223196351662388836615689547050491957261386 10261079136399460854963461733858175451179339861413354501082510934464810821323) (Pt.aff 7600374441948049869260908612524245777198490243791129007724079817953790481052 30095305366479906486216021869780208950314269424634236718653721109495871850313) (Pt.aff 20116518672003780815665617676430035882999789686757510788139354810113966123016 52519360702735145898797031751523332414986174618736450451973212446520644040961) (by decide) (by decide) (by decide) (by decide!) (by decide!)).trans <|
  (smulGo_stepL 116 115 1693766633442256152147 846883316721128076073 (Pt.aff 7600374441948049869260908612524245777198490243791129007724079817953790481052 30095305366479906486216021869780208950314269424634236718653721109495871850313) (Pt.aff 20116518672003780815665617676430035882999789686757510788139354810113966123016 52519360702735145898797031751523332414986174618736450451973212446520644040961) (Pt.aff 33200461899420398384711116039836899506603256929759307583180079862157804297810 32915421560465575792699607061361759098971891831959998590205749235736930567159) (Pt.aff 12474876794963611803187331447793426311709205666221074513533280278916058419510 31691232156135534158940805629723839280769698875865279923822789275918535366423) (by decide) (by decide) (by decide) (by decide!) (by decide!)).trans <|
  (smulGo_stepL 115 114 846883316721128076073 423441658360564038036 (Pt.aff 33200461899420398384711116039836899506603256929759307583180079862157804297810 32915421560465575792699607061361759098971891831959998590205749235736930567159) (Pt.aff 12474876794963611803187331447793426311709205666221074513533280278916058419510 31691232156135534158940805629723839280769698875865279923822789275918535366423) (Pt.aff 43456351758387241576291200743848405973975098854370215454408999037760747499072 47527572489733290608827782190169467800675665020231757218846655367113085472578) (Pt.aff 15642340701867612849968266771346953318186088683025813464647742313272216600221 41153864085678799669681704225950734602690584784553360723877070911019684278214) (by decide) (by decide) (by decide) (by decide!) (by decide!)).trans <|
  (smulGo_stepL 114 113 423441658360564038036 211720829180282019018 (Pt.aff 43456351758387241576291200743848405973975098854370215454408999037760747499072 47527572489733290608827782190169467800675665020231757218846655367113085472578) (Pt.aff 15642340701867612849968266771346953318186088683025813464647742313272216600221 41153864085678799669681704225950734602690584784553360723877070911019684278214) (Pt.aff 30257855721470090253790104436023743261497486484036890111478720091423140589734 37226153015441846908774820915253633397705632012652109427869978437313760265587) (Pt.aff 15642340701867612849968266771346953318186088683025813464647742313272216600221 41153864085678799669681704225950734602690584784553360723877070911019684278214) (by decide) (by decide) (by decide) (by decide!) (by decide!)).trans <|
  (smulGo_stepL 113 112 211720829180282019018 105860414590141009509 (Pt.aff 30257855721470090253790104436023743261497486484036890111478720091423140589734 37226153015441846908774820915253633397705632012652109427869978437313760265587) (Pt.aff 15642340701867612849968266771346953318186088683025813464647742313272216600221 41153864085678799669681704225950734602690584784553360723877070911019684278214) (Pt.aff 1884633742043290355015801158003924465476955748703025091804807057949378131424 739795149740479399993433668405630412164425051205645875812854550981356638060) (Pt.aff 15642340701867612849968266771346953318186088683025813464647742313272216600221 41153864085678799669681704225950734602690584784553360723877070911019684278214) (by decide) (by decide) (by decide) (by decide!) (by decide!)).trans <|
  (smulGo_stepL 112 111 105860414590141009509 52930207295070504754 (Pt.aff 1884633742043290355015801158003924465476955748703025091804807057949378131424 739795149740479399993433668405630412164425051205645875812854550981356638060) (Pt.aff 15642340701867612849968266771346953318186088683025813464647742313272216600221 41153864085678799669681704225950734602690584784553360723877070911019684278214) (Pt.aff 52714225609014013170102520644350902718022612951986382868519920320645442782934 15070030939530977987436509673125964703497953483955937699445749791017263644004) (Pt.aff 21290198829573783772191560434502958059248200430503359475800559969499488763782 32706871281911262059076976450907399200808712281560453175556801545637889164647) (by decide) (by decide) (by decide) (by decide!) (by decide!)).trans <|
  (smulGo_stepL 111 110 52930207295070504754 26465103647535252377 (Pt.aff 52714225609014013170102520644350902718022612951986382868519920320645442782934 15070030939530977987436509673125964703497953483955937699445749791017263644004) (Pt.aff 21290198829573783772191560434502958059248200430503359475800559969499488763782 32706871281911262059076976450907399200808712281560453175556801545637889164647) (Pt.aff 5563324464590213982892284971330278504848404770274352388496377793405533866515 18679568719260298261303432379577521167759731832224262450056188029518851286971) (Pt.aff 21290198829573783772191560434502958059248200430503359475800559969499488763782 32706871281911262059076976450907399200808712281560453175556801545637889164647) (by decide) (by decide) (by decide) (by decide!) (by decide!)).trans <|
  (smulGo_stepL 110 109 26465103647535252377 13232551823767626188 (Pt.aff 5563324464590213982892284971330278504848404770274352388496377793405533866515 18679568719260298261303432379577521167759731832224262450056188029518851286971) (Pt.aff 21290198829573783772191560434502958059248200430503359475800559969499488763782 32706871281911262059076976450907399200808712281560453175556801545637889164647) (Pt.aff 54530365299073576771781453190953364439544507998965943237389064605611203229242 41509110801881606160436106225941561043857025683098582659779133570081806895738) (Pt.aff 27104361675600032990699030520938453622763810988065872644215135866374465409207 23274706941048800377194397646498968651962265310175234839874860750150685948606) (by decide) (by decide) (by decide) (by decide!) (by decide!)).trans <|
  (smulGo_stepL 109 108 13232551823767626188 6616275911883813094 (Pt.aff 54530365299073576771781453190953364439544507998965943237389064605611203229242 41509110801881606160436106225941561043857025683098582659779133570081806895738) (Pt.aff 27104361675600032990699030520938453622763810988065872644215135866374465409207 23274706941048800377194397646498968651962265310175234839874860750150685948606) (Pt.aff 49710234752370436334897836076963075146091938597759963199963590915076404138614 224397574513697068853358195851326446950536202710575293731067314131818458928) (Pt.aff 27104361675600032990699030520938453622763810988065872644215135866374465409207 23274706941048800377194397646498968651962265310175234839874860750150685948606) (by decide) (by decide) (by decide) (by decide!) (by decide!)).trans <|
  (smulGo_stepL 108 107 6616275911883813094 3308137955941906547 (Pt.aff 49710234752370436334897836076963075146091938597759963199963590915076404138614 224397574513697068853358195851326446950536202710575293731067314131818458928) (Pt.aff 27104361675600032990699030520938453622763810988065872644215135866374465409207 23274706941048800377194397646498968651962265310175234839874860750150685948606) (Pt.aff 9530002884719071852649473494673930006441447262992253487876430401777359674763 2848844036269455508822714120356102665438502196005908510882339511085746962217) (Pt.aff 27104361675600032990699030520938453622763810988065872644215135866374465409207 23274706941048800377194397646498968651962265310175234839874860750150685948606) (by decide) (by decide) (by decide) (by decide!) (by decide!)).trans <|
  (smulGo_stepL 107 106 3308137955941906547 1654068977970953273 (Pt.aff 9530002884719071852649473494673930006441447262992253487876430401777359674763 2848844036269455508822714120356102665438502196005908510882339511085746962217) (Pt.aff 27104361675600032990699030520938453622763810988065872644215135866374465409207 23274706941048800377194397646498968651962265310175234839874860750150685948606) (Pt.aff 8650071519986671940575116063238259790500506321284634402101606934372308254350 5599842098795028598242980728754259636200153020041579593844807547098161339191) (Pt.aff 21776609170077621963551702423600013883726254448195902665658288696499978003626 5332120751155409656789661563135027349129922902366105024775054522756383715549) (by decide) (by decide) (by decide) (by decide!) (by decide!)).trans <|
  (smulGo_stepL 106 105 1654068977970953273 827034488985476636 (Pt.aff 8650071519986671940575116063238259790500506321284634402101606934372308254350 5599842098795028598242980728754259636200153020041579593844807547098161339191) (Pt.aff 21776609170077621963551702423600013883726254448195902665658288696499978003626 5332120751155409656789661563135027349129922902366105024775054522756383715549) (Pt.aff 12313065585683776702863460693223962572977225769898716690376889464745818289603 23447287436920309390403345330040410604114627861861722601990788440324159855877) (Pt.aff 33041977480448712543030794431986149606379654313702490854019207238023689645419 15341503821804262159964322610686638090565233874375442892609236045852680540603) (by decide) (by decide) (by decide) (by decide!) (by decide!)).trans <|
  (smulGo_stepL 105 104 827034488985476636 413517244492738318 (Pt.aff 12313065585683776702863460693223962572977225769898716690376889464745818289603 23447287436920309390403345330040410604114627861861722601990788440324159855877) (Pt.aff 33041977480448712543030794431986149606379654313702490854019207238023689645419 15341503821804262159964322610686638090565233874375442892609236045852680540603) (Pt.aff 17762526127047922948210598230390284554856809835033430893516865602618814840990 45096385700595170829219362506480112964593925142290299728362260806952966143309) (Pt.aff 33041977480448712543030794431986149606379654313702490854019207238023689645419 15341503821804262159964322610686638090565233874375442892609236045852680540603) (by decide) (by decide) (by decide) (by decide!) (by decide!)).trans <|
  (smulGo_stepL 104 103 413517244492738318 206758622246369159 (Pt.aff 17762526127047922948210598230390284554856809835033430893516865602618814840990 45096385700595170829219362506480112964593925142290299728362260806952966143309) (Pt.aff 33041977480448712543030794431986149606379654313702490854019207238023689645419 15341503821804262159964322610686638090565233874375442892609236045852680540603) (Pt.aff 12145851161496122653465839747869291415225143778174860772273512914858615096757 14250927170202726490255646202850193253876748162642900827383293612405088438831) (Pt.aff 33041977480448712543030794431986149606379654313702490854019207238023689645419 15341503821804262159964322610686638090565233874375442892609236045852680540603) (by decide) (by decide) (by decide) (by decide!) (by decide!)).trans <|
  (smulGo_stepL 103 102 206758622246369159 103379311123184579 (Pt.aff 12145851161496122653465839747869291415225143778174860772273512914858615096757 14250927170202726490255646202850193253876748162642900827383293612405088438831) (Pt.aff 33041977480448712543030794431986149606379654313702490854019207238023689645419 15341503821804262159964322610686638090565233874375442892609236045852680540603) (Pt.aff 49826271289858131154844531725363682255683598624785599866005477194222778632585 49060579473963996654679881937193624483405597004511989167959361813835456555677) (Pt.aff 10630171822285800709891111702533930379767904824398559920588277717318784720044 823687287679198129370177192622984326176307370045489172988430749478946821664) (by decide) (by decide) (by decide) (by decide!) (by decide!)).trans <|
  (smulGo_stepL 102 101 103379311123184579 51689655561592289 (Pt.aff 49826271289858131154844531725363682255683598624785599866005477194222778632585 49060579473963996654679881937193624483405597004511989167959361813835456555677) (Pt.aff 10630171822285800709891111702533930379767904824398559920588277717318784720044 823687287679198129370177192622984326176307370045489172988430749478946821664) (Pt.aff 51499328197824262933617110300600991280260790693232209826318804808274504281285 48097255321721461303362179109395650111484493406876961345400305537366964950427) (Pt.aff 48515620685748271562457891881808735857579892347238775980117147724227326653971 52294028540015223293314823749387805169137993623577101586932977554383187350348) (by decide) (by decide) (by decide) (by decide!) (by decide!)).trans <|
  (smulGo_stepL 101 100 51689655561592289 25844827780796144 (Pt.aff 51499328197824262933617110300600991280260790693232209826318804808274504281285 48097255321721461303362179109395650111484493406876961345400305537366964950427) (Pt.aff 48515620685748271562457891881808735857579892347238775980117147724227326653971 52294028540015223293314823749387805169137993623577101586932977554383187350348) (Pt.aff 55911677825325970740349949626124384643970736138745580027492771520908710791619 48815525641248028513767881565994016522155880218291941481887027595646283751201) (Pt.aff 7484611417346817825461453985238442491664716805564328457217737069266880993731 18760557658478714004883937309333814790536333276446627096015002041196749411619) (by decide) (by decide) (by decide) (by decide!) (by decide!)).trans <|
  (smulGo_stepL 100 99 25844827780796144 12922413890398072 (Pt.aff 55911677825325970740349949626124384643970736138745580027492771520908710791619 48815525641248028513767881565994016522155880218291941481887027595646283751201) (Pt.aff 7484611417346817825461453985238442491664716805564328457217737069266880993731 18760557658478714004883937309333814790536333276446627096015002041196749411619) (Pt.aff 6005865556250980007830613650456744812920805617405104881969441411749103783485 23529827538719955073117841485273365483067832726330542672684902353998980877873) (Pt.aff 7484611417346817825461453985238442491664716805564328457217737069266880993731 18760557658478714004883937309333814790536333276446627096015002041196749411619) (by decide) (by decide) (by decide) (by decide!) (by decide!)).trans <|
  (smulGo_stepL 99 98 12922413890398072 6461206945199036 (Pt.aff 6005865556250980007830613650456744812920805617405104881969441411749103783485 23529827538719955073117841485273365483067832726330542672684902353998980877873) (Pt.aff 7484611417346817825461453985238442491664716805564328457217737069266880993731 18760557658478714004883937309333814790536333276446627096015002041196749411619) (Pt.aff 5618829323857532964480376886457496833125171358754399328301944909905908172716 17531105758379479400168888988935049650445024077054762697809668293692399081561) (Pt.aff 7484611417346817825461453985238442491664716805564328457217737069266880993731 18760557658478714004883937309333814790536333276446627096015002041196749411619) (by decide) (by decide) (by decide) (by decide!) (by decide!)).trans <|
  (smulGo_stepL 98 97 6461206945199036 3230603472599518 (Pt.aff 5618829323857532964480376886457496833125171358754399328301944909905908172716 17531105758379479400168888988935049650445024077054762697809668293692399081561) (Pt.aff 7484611417346817825461453985238442491664716805564328457217737069266880993731 18760557658478714004883937309333814790536333276446627096015002041196749411619) (Pt.aff 52253523157045282704616744595003813448468696114074356565577936973128164184856 50021120562723992177023379100306641852314991366219901107573928581174907968677) (Pt.aff 7484611417346817825461453985238442491664716805564328457217737069266880993731 18760557658478714004883937309333814790536333276446627096015002041196749411619) (by decide) (by decide) (by decide) (by decide!) (by decide!)).trans <|
  (smulGo_stepL 97 96 3230603472599518 1615301736299759 (Pt.aff 52253523157045282704616744595003813448468696114074356565577936973128164184856 50021120562723992177023379100306641852314991366219901107573928581174907968677) (Pt.aff 7484611417346817825461453985238442491664716805564328457217737069266880993731 18760557658478714004883937309333814790536333276446627096015002041196749411619) (Pt.aff 52595042030602741645060447185705808377080612287944914913416056700034931280146 49066573730363267977621953588950522801891514428027531137903107219202678490269) (Pt.aff 7484611417346817825461453985238442491664716805564328457217737069266880993731 18760557658478714004883937309333814790536333276446627096015002041196749411619) (by decide) (by decide) (by decide) (by decide!) (by decide!)).trans <|
  (smulGo_stepL 96 95 1615301736299759 807650868149879 (Pt.aff 52595042030602741645060447185705808377080612287944914913416056700034931280146 49066573730363267977621953588950522801891514428027531137903107219202678490269) (Pt.aff 7484611417346817825461453985238442491664716805564328457217737069266880993731 18760557658478714004883937309333814790536333276446627096015002041196749411619) (Pt.aff 277928629873536386392392061078778390723960272311681848840124861414962183280 264860194831862384803798528751225330261133142193908367842553555631566502710) (Pt.aff 8875622147542089878625091048357491766463994617880346096171080498184069493026 11276522438714596152522170869169507259644401948627027436734550196806466950328) (by decide) (by decide) (by decide) (by decide!) (by decide!)).trans <|
  (smulGo_stepL 95 94 807650868149879 403825434074939 (Pt.aff 277928629873536386392392061078778390723960272311681848840124861414962183280 264860194831862384803798528751225330261133142193908367842553555631566502710) (Pt.aff 8875622147542089878625091048357491766463994617880346096171080498184069493026 11276522438714596152522170869169507259644401948627027436734550196806466950328) (Pt.aff 16718129508298487035482343828801082577661017262478884874815031842243513884367 41163604022281778475766040027310349041219072006221079383760184182268186041852) (Pt.aff 55937120377810613642709503168413438300398173738256623269040854415339680210354 7026953864775195590861585508717387322701139715746602035658199228184763286527) (by decide) (by decide) (by decide) (by decide!) (by decide!)).trans <|
  (smulGo_stepL 94 93 403825434074939 201912717037469 (Pt.aff 16718129508298487035482343828801082577661017262478884874815031842243513884367 41163604022281778475766040027310349041219072006221079383760184182268186041852) (Pt.aff 55937120377810613642709503168413438300398173738256623269040854415339680210354 7026953864775195590861585508717387322701139715746602035658199228184763286527) (Pt.aff 26431031043689999827333226781527176662545517848896404410792551950138833344633 32238039852201232352067560572497171856759102445057168604106535277337158034550) (Pt.aff 34658625121916878882016396951388148566614803785246063765434110728970905479930 13925462609403899697446063738002661596510265955180916785794372664549098220283) (by decide) (by decide) (by decide) (by decide!) (by decide!)).trans <|
  (smulGo_stepL 93 92 201912717037469 100956358518734 (Pt.aff 26431031043689999827333226781527176662545517848896404410792551950138833344633 32238039852201232352067560572497171856759102445057168604106535277337158034550) (Pt.aff 34658625121916878882016396951388148566614803785246063765434110728970905479930 13925462609403899697446063738002661596510265955180916785794372664549098220283) (Pt.aff 40403859189862311878754134171586993856406277429962208058672888329872157244951 46711916815035751789182623596345608366233315991622021405077165508419662676847) (Pt.aff 8172227092077801497820905025910868588246842906114809406917336805930244957228 55397314740047729782977601405193425957151539962428725347529324682711138787187) (by decide) (by decide) (by decide) (by decide!) (by decide!)).trans <|
  (smulGo_stepL 92 91 100956358518734 50478179259367 (Pt.aff 40403859189862311878754134171586993856406277429962208058672888329872157244951 46711916815035751789182623596345608366233315991622021405077165508419662676847) (Pt.aff 8172227092077801497820905025910868588246842906114809406917336805930244957228 55397314740047729782977601405193425957151539962428725347529324682711138787187) (Pt.aff 20134091241325019181333451032857106490575159013653646602660631637979752007494 52072312801314204238565763293639984580183708824643155721236578109602620578631) (Pt.aff 8172227092077801497820905025910868588246842906114809406917336805930244957228 55397314740047729782977601405193425957151539962428725347529324682711138787187) (by decide) (by decide) (by decide) (by decide!) (by decide!)).trans <|
  (smulGo_stepL 91 90 50478179259367 25239089629683 (Pt.aff 20134091241325019181333451032857106490575159013653646602660631637979752007494 52072312801314204238565763293639984580183708824643155721236578109602620578631) (Pt.aff 8172227092077801497820905025910868588246842906114809406917336805930244957228 55397314740047729782977601405193425957151539962428725347529324682711138787187) (Pt.aff 22393467730958418297661341399783793322314587598351841031802480563247118890524 44573149429498928176006182960543619816613619440136655296142979650630078554103) (Pt.aff 38177395248925404230844990565989408461172252998835141051386046004036382422608 31830874412113630195148291378602255588818409493905580496560767720130153728134) (by decide) (by decide) (by decide) (by decide!) (by decide!)).trans <|
  (smulGo_stepL 90 89 25239089629683 12619544814841 (Pt.aff 22393467730958418297661341399783793322314587598351841031802480563247118890524 44573149429498928176006182960543619816613619440136655296142979650630078554103) (Pt.aff 38177395248925404230844990565989408461172252998835141051386046004036382422608 31830874412113630195148291378602255588818409493905580496560767720130153728134) (Pt.aff 34203606180381053948251115661895254185292304103288250969628014484232068525118 20062267738438533274969189329366695909001861780540260496641111860709806962648) (Pt.aff 53442928359384310084836900724589822287034431930788421805437915526875926345418 33909192955318555490885683304709922415374967020469659765961822851681374382486) (by decide) (by decide) (by decide) (by decide!) (by decide!)).trans <|
  (smulGo_stepL 89 88 12619544814841 6309772407420 (Pt.aff 34203606180381053948251115661895254185292304103288250969628014484232068525118 20062267738438533274969189329366695909001861780540260496641111860709806962648) (Pt.aff 53442928359384310084836900724589822287034431930788421805437915526875926345418 33909192955318555490885683304709922415374967020469659765961822851681374382486) (Pt.aff 34288323716371321815419445860520384455222129189351387709425451778700655841674 2598217498253537617948459065005211662446204994654500613741593227766921948066) (Pt.aff 24442141715683261310446574247059511410522956732668284945296206578790296794480 33643302069447855528755301202564881714209601349619601806192946038631977354619) (by decide) (by decide) (by decide) (by decide!) (by decide!)).trans <|
  (smulGo_stepL 88 87 6309772407420 3154886203710 (Pt.aff 34288323716371321815419445860520384455222129189351387709425451778700655841674 2598217498253537617948459065005211662446204994654500613741593227766921948066) (Pt.aff 24442141715683261310446574247059511410522956732668284945296206578790296794480 33643302069447855528755301202564881714209601349619601806192946038631977354619) (Pt.aff 53542369979759159547286825263146458552753650575837268829766086400394195319994 37777449659008643494448179207164410967392024988218227786172690504689448946024) (Pt.aff 24442141715683261310446574247059511410522956732668284945296206578790296794480 33643302069447855528755301202564881714209601349619601806192946038631977354619) (by decide) (by decide) (by decide) (by decide!) (by decide!)).trans <|
  (smulGo_stepL 87 86 3154886203710 1577443101855 (Pt.aff 53542369979759159547286825263146458552753650575837268829766086400394195319994 37777449659008643494448179207164410967392024988218227786172690504689448946024) (Pt.aff 24442141715683261310446574247059511410522956732668284945296206578790296794480 33643302069447855528755301202564881714209601349619601806192946038631977354619) (Pt.aff 19487154846547447365286714295773117980747822827118195591587895140774390492564 40068599016667694978913627324906360243752185507301290844447749234569153435636) (Pt.aff 24442141715683261310446574247059511410522956732668284945296206578790296794480 33643302069447855528755301202564881714209601349619601806192946038631977354619) (by decide) (by decide) (by decide) (by decide!) (by decide!)).trans <|
  (smulGo_stepL 86 85 1577443101855 788721550927 (Pt.aff 19487154846547447365286714295773117980747822827118195591587895140774390492564 40068599016667694978913627324906360243752185507301290844447749234569153435636) (Pt.aff 24442141715683261310446574247059511410522956732668284945296206578790296794480 33643302069447855528755301202564881714209601349619601806192946038631977354619) (Pt.aff 24815375183439766757726150392205123926225191625186759333006086354876909871631 54123571419873274291914255104865437960578090318110053946943262105271667627750) (Pt.aff 15372235833030344889710023542540341106731529479433149692189265098723794616689 25897408387615787434892158492078270788097772204538017486341562650774896048898) (by decide) (by decide) (by decide) (by decide!) (by decide!)).trans <|
  (smulGo_stepL 85 84 788721550927 394360775463 (Pt.aff 24815375183439766757726150392205123926225191625186759333006086354876909871631 54123571419873274291914255104865437960578090318110053946943262105271667627750) (Pt.aff 15372235833030344889710023542540341106731529479433149692189265098723794616689 25897408387615787434892158492078270788097772204538017486341562650774896048898) (Pt.aff 16113964099325477350500826740245990753680981361425474249044363977292521848336 23989803794858955639494118311733445117087395293550382560363571735764250812977) (Pt.aff 47820578021479441798330031915482875633802989319407912138267753565067528949224 22874558439182886487227172504684173065617408523644105213329954252865549356357) (by decide) (by decide) (by decide) (by decide!) (by decide!)).trans <|
  (smulGo_stepL 84 83 394360775463 197180387731 (Pt.aff 16113964099325477350500826740245990753680981361425474249044363977292521848336 23989803794858955639494118311733445117087395293550382560363571735764250812977) (Pt.aff 47820578021479441798330031915482875633802989319407912138267753565067528949224 22874558439182886487227172504684173065617408523644105213329954252865549356357) (Pt.aff 2267871269907126422703049099044197977308631785969779037787650030177295045576 34159876304385809963120606904889690462019956046478152581632898733367752186377) (Pt.aff 20593933399989041789657633013900333737883564700153719897754112328607654197924 17385325907876768728593618372010170270230765915322533219924787186032696139697) (by decide) (by decide) (by decide) (by decide!) (by decide!)).trans <|
  (smulGo_stepL 83 82 197180387731 98590193865 (Pt.aff 2267871269907126422703049099044197977308631785969779037787650030177295045576 34159876304385809963120606904889690462019956046478152581632898733367752186377) (Pt.aff 20593933399989041789657633013900333737883564700153719897754112328607654197924 17385325907876768728593618372010170270230765915322533219924787186032696139697) (Pt.aff 29577358982248780684727414548221463900177103943241727939908243601618252951298 24811750313534092844090648127271592042305164161237425134969498556826664041178) (Pt.aff 7731306350293393710665317062204895615538050459999776281496873331555261062354 46462275564524668415764221681649150984624466139138634244904048999646596545578) (by decide) (by decide) (by decide) (by decide!) (by decide!)).trans <|
  (smulGo_stepL 82 81 98590193865 49295096932 (Pt.aff 29577358982248780684727414548221463900177103943241727939908243601618252951298 24811750313534092844090648127271592042305164161237425134969498556826664041178) (Pt.aff 7731306350293393710665317062204895615538050459999776281496873331555261062354 46462275564524668415764221681649150984624466139138634244904048999646596545578) (Pt.aff 11778724527785979321971963418861543677838396834578984065132167994565736122260 17582751111060412437932123585351170575202099895765681475006681528258112470754) (Pt.aff 33476857638636245961858857469551578055701930531427198195651750944260195727692 5288978725062821635280604287776239341170800598340324406671405934254331235108) (by decide) (by decide) (by decide) (by decide!) (by decide!)).trans <|
  (smulGo_stepL 81 80 49295096932 24647548466 (Pt.aff 11778724527785979321971963418861543677838396834578984065132167994565736122260 17582751111060412437932123585351170575202099895765681475006681528258112470754) (Pt.aff 33476857638636245961858857469551578055701930531427198195651750944260195727692 5288978725062821635280604287776239341170800598340324406671405934254331235108) (Pt.aff 2286229406166277028326589916971433766448242706232988247209889828134938511844 36423719273769198645902583391120209761321030557393529396136816418211945925652) (Pt.aff 33476857638636245961858857469551578055701930531427198195651750944260195727692 5288978725062821635280604287776239341170800598340324406671405934254331235108) (by decide) (by decide) (by decide) (by decide!) (by decide!)).trans <|
  (smulGo_stepL 80 79 24647548466 12323774233 (Pt.aff 2286229406166277028326589916971433766448242706232988247209889828134938511844 36423719273769198645902583391120209761321030557393529396136816418211945925652) (Pt.aff 33476857638636245961858857469551578055701930531427198195651750944260195727692 5288978725062821635280604287776239341170800598340324406671405934254331235108) (Pt.aff 30741716023273644359865106036754471798521577122699170386380845235757730004605 28331609782584372315035085475202740327683940841787840076333133240985202302013) (Pt.aff 33476857638636245961858857469551578055701930531427198195651750944260195727692 5288978725062821635280604287776239341170800598340324406671405934254331235108) (by decide) (by decide) (by decide) (by decide!) (by decide!)).trans <|
  (smulGo_stepL 79 78 12323774233 6161887116 (Pt.aff 30741716023273644359865106036754471798521577122699170386380845235757730004605 28331609782584372315035085475202740327683940841787840076333133240985202302013) (Pt.aff 33476857638636245961858857469551578055701930531427198195651750944260195727692 5288978725062821635280604287776239341170800598340324406671405934254331235108) (Pt.aff 40550594185838973711115500867342596275981245995165741030975209851603101841813 35338248972930425623420160223713661962673763549940488724932127640656211449283) (Pt.aff 4991599039086963651186068155266612969687056121757366227880439738866368596629 22833713483273575243208033647339324048644839077203358655473022245903720557341) (by decide) (by decide) (by decide) (by decide!) (by decide!)).trans <|
  (smulGo_stepL 78 77 6161887116 3080943558 (Pt.aff 40550594185838973711115500867342596275981245995165741030975209851603101841813 35338248972930425623420160223713661962673763549940488724932127640656211449283) (Pt.aff 4991599039086963651186068155266612969687056121757366227880439738866368596629 22833713483273575243208033647339324048644839077203358655473022245903720557341) (Pt.aff 52216722472265677269554289780233669656069363782928943068123263541978778810981 32428242248630651177053152596363168926791509334370533054733463350236822957532) (Pt.aff 4991599039086963651186068155266612969687056121757366227880439738866368596629 22833713483273575243208033647339324048644839077203358655473022245903720557341) (by decide) (by decide) (by decide) (by decide!) (by decide!)).trans <|
  (smulGo_stepL 77 76 3080943558 1540471779 (Pt.aff 52216722472265677269554289780233669656069363782928943068123263541978778810981 32428242248630651177053152596363168926791509334370533054733463350236822957532) (Pt.aff 4991599039086963651186068155266612969687056121757366227880439738866368596629 22833713483273575243208033647339324048644839077203358655473022245903720557341) (Pt.aff 42599608831131459828824212508644480638645610794157451186611372235413435548094 57070995840452842733963058393648587514225656296935347260991474801438967646092) (Pt.aff 4991599039086963651186068155266612969687056121757366227880439738866368596629 22833713483273575243208033647339324048644839077203358655473022245903720557341) (by decide) (by decide) (by decide) (by decide!) (by decide!)).trans <|
  (smulGo_stepL 76 75 1540471779 770235889 (Pt.aff 42599608831131459828824212508644480638645610794157451186611372235413435548094 57070995840452842733963058393648587514225656296935347260991474801438967646092) (Pt.aff 4991599039086963651186068155266612969687056121757366227880439738866368596629 22833713483273575243208033647339324048644839077203358655473022245903720557341) (Pt.aff 12030886157283027923313733877976889086343432643277709248608426393625939359883 49693283103033812656628319751875120595262821654945941618898219719651806832765) (Pt.aff 41083396682389307644736444853328361744988156763572077889118357697801438798760 470401939162672204980671544837139112514154827756590687387742749756189072701) (by decide) (by decide) (by decide) (by decide!) (by decide!)).trans <|
  (smulGo_stepL 75 74 770235889 385117944 (Pt.aff 12030886157283027923313733877976889086343432643277709248608426393625939359883 49693283103033812656628319751875120595262821654945941618898219719651806832765) (Pt.aff 41083396682389307644736444853328361744988156763572077889118357697801438798760 470401939162672204980671544837139112514154827756590687387742749756189072701) (Pt.aff 31870839105371554317091064136992270536540346252976406001142898243796329090394 19932623082793751257591365029013371455396529105521088828752062004729776855784) (Pt.aff 35270798636866695872791556821620727434815318880027347650087176360219750008303 35565317419265275293551824392653738197065343169275029188074611266798265292899) (by decide) (by decide) (by decide) (by decide!) (by decide!)).trans <|
  (smulGo_stepL 74 73 385117944 192558972 (Pt.aff 31870839105371554317091064136992270536540346252976406001142898243796329090394 19932623082793751257591365029013371455396529105521088828752062004729776855784) (Pt.aff 35270798636866695872791556821620727434815318880027347650087176360219750008303 35565317419265275293551824392653738197065343169275029188074611266798265292899) (Pt.aff 16793749618256068809214681529668117068684790859256568197164918665412781924499 22460081972798560573901561755178998573667120653440367060337931148054642019730) (Pt.aff 35270798636866695872791556821620727434815318880027347650087176360219750008303 35565317419265275293551824392653738197065343169275029188074611266798265292899) (by decide) (by decide) (by decide) (by decide!) (by decide!)).trans <|
  (smulGo_stepL 73 72 192558972 96279486 (Pt.aff 16793749618256068809214681529668117068684790859256568197164918665412781924499 22460081972798560573901561755178998573667120653440367060337931148054642019730) (Pt.aff 35270798636866695872791556821620727434815318880027347650087176360219750008303 35565317419265275293551824392653738197065343169275029188074611266798265292899) (Pt.aff 56885137514448559366550274097840784191519718070485367195164589923971004010883 3272116914058397925603837489835461382371020479734386910370201131716194671122) (Pt.aff 35270798636866695872791556821620727434815318880027347650087176360219750008303 35565317419265275293551824392653738197065343169275029188074611266798265292899) (by decide) (by decide) (by decide) (by decide!) (by decide!)).trans <|
  (smulGo_stepL 72 71 96279486 48139743 (Pt.aff 56885137514448559366550274097840784191519718070485367195164589923971004010883 3272116914058397925603837489835461382371020479734386910370201131716194671122) (Pt.aff 35270798636866695872791556821620727434815318880027347650087176360219750008303 35565317419265275293551824392653738197065343169275029188074611266798265292899) (Pt.aff 27754090144132660068740310713092055995315981720343247107776778747308783424757 14516267598685264367302534528589422092120150375465698752087064347712544559347) (Pt.aff 35270798636866695872791556821620727434815318880027347650087176360219750008303 35565317419265275293551824392653738197065343169275029188074611266798265292899) (by decide) (by decide) (by decide) (by decide!) (by decide!)).trans <|
  (smulGo_stepL 71 70 48139743 24069871 (Pt.aff 27754090144132660068740310713092055995315981720343247107776778747308783424757 14516267598685264367302534528589422092120150375465698752087064347712544559347) (Pt.aff 35270798636866695872791556821620727434815318880027347650087176360219750008303 35565317419265275293551824392653738197065343169275029188074611266798265292899) (Pt.aff 29092645043936645466937599105873319572065569439386794812993363378742537372086 16520984829754782117706826591697855291534413145351835106384257934738685852747) (Pt.aff 4202905515765831120399126307304667859892213020304791668016869148283153846611 50056771665872880381884150046109858693844569371891405890164199364510231975583) (by decide) (by decide) (by decide) (by decide!) (by decide!)).trans <|
  (smulGo_stepL 70 69 24069871 12034935 (Pt.aff 29092645043936645466937599105873319572065569439386794812993363378742537372086 16520984829754782117706826591697855291534413145351835106384257934738685852747) (Pt.aff 4202905515765831120399126307304667859892213020304791668016869148283153846611 50056771665872880381884150046109858693844569371891405890164199364510231975583) (Pt.aff 25753276451006530772609035119441511539702853951382939760237255287114279660974 2422583589014838157010093206618175316789735714365045471285397698769318037435) (Pt.aff 13581137407193613204811795254914394834232908686721452912386495632667530314320 41166096195829292648653301831057450447312426962690453322422065856712363940193) (by decide) (by decide) (by decide) (by decide!) (by decide!)).trans <|
  (smulGo_stepL 69 68 12034935 6017467 (Pt.aff 25753276451006530772609035119441511539702853951382939760237255287114279660974 2422583589014838157010093206618175316789735714365045471285397698769318037435) (Pt.aff 13581137407193613204811795254914394834232908686721452912386495632667530314320 41166096195829292648653301831057450447312426962690453322422065856712363940193) (Pt.aff 54970646928973620784629266883495887180241564268193613809715800770904854645121 57600418866697885528822998253983846938971609117909302135642057529119375427085) (Pt.aff 23648242009816836689277822195361638188315942891702945120996688576130113917110 32538608016221859300028672638266054299834562937141810920210280355800457913777) (by decide) (by decide) (by decide) (by decide!) (by decide!)).trans <|
  (smulGo_stepL 68 67 6017467 3008733 (Pt.aff 54970646928973620784629266883495887180241564268193613809715800770904854645121 57600418866697885528822998253983846938971609117909302135642057529119375427085) (Pt.aff 23648242009816836689277822195361638188315942891702945120996688576130113917110 32538608016221859300028672638266054299834562937141810920210280355800457913777) (Pt.aff 24600527939411616929972357856529187693203062829037218102551517795474024838428 39950847266375512850398282574487082564996332476831368282595204907110665969845) (Pt.aff 52438675641581552491615631522021074168441511958264345519078626383641333204067 18631795049344972599010349933794008355433553189218198139437303625753681868667) (by decide) (by decide) (by decide) (by decide!) (by decide!)).trans <|
  (smulGo_stepL 67 66 3008733 1504366 (Pt.aff 24600527939411616929972357856529187693203062829037218102551517795474024838428 39950847266375512850398282574487082564996332476831368282595204907110665969845) (Pt.aff 52438675641581552491615631522021074168441511958264345519078626383641333204067 18631795049344972599010349933794008355433553189218198139437303625753681868667) (Pt.aff 41153666554158629844666450890543502658858463740351008734841650979603142641157 6045189964225543350931417914561038843068372387714644717969044063453323279739) (Pt.aff 35544676625357747275050657945515906905561113866717864568343308524296415262968 2695772289717884568722554701099404141544096950104278214164357635742303569559) (by decide) (by decide) (by decide) (by decide!) (by decide!)).trans <|
  (smulGo_stepL 66 65 1504366 752183 (Pt.aff 41153666554158629844666450890543502658858463740351008734841650979603142641157 6045189964225543350931417914561038843068372387714644717969044063453323279739) (Pt.aff 35544676625357747275050657945515906905561113866717864568343308524296415262968 2695772289717884568722554701099404141544096950104278214164357635742303569559) (Pt.aff 40554475328978695480053290981576865551929406631466060531581427497356255019718 22365189061656610999012220463359964626212328975667565418646794652699013156003) (Pt.aff 35544676625357747275050657945515906905561113866717864568343308524296415262968 2695772289717884568722554701099404141544096950104278214164357635742303569559) (by decide) (by decide) (by decide) (by decide!) (by decide!)).trans <|
  (smulGo_stepL 65 64 752183 376091 (Pt.aff 40554475328978695480053290981576865551929406631466060531581427497356255019718 22365189061656610999012220463359964626212328975667565418646794652699013156003) (Pt.aff 35544676625357747275050657945515906905561113866717864568343308524296415262968 2695772289717884568722554701099404141544096950104278214164357635742303569559) (Pt.aff 25135219177597812203115522137300859915624139181538999621812577463093923432792 24119518112027476013436929574666843170013318789168202385700054416638634255606) (Pt.aff 12851004493204708350056659121137740215479137102623946766893100832476456390453 15931026789906679279691067509956874515891197479149793000886125957695226478038) (by decide) (by decide) (by decide) (by decide!) (by decide!)).trans <|
  (smulGo_stepL 64 63 376091 188045 (Pt.aff 25135219177597812203115522137300859915624139181538999621812577463093923432792 24119518112027476013436929574666843170013318789168202385700054416638634255606) (Pt.aff 12851004493204708350056659121137740215479137102623946766893100832476456390453 15931026789906679279691067509956874515891197479149793000886125957695226478038) (Pt.aff 4476017461945404380411622060432539106102276521225782155779146836683746387945 55693567054790469662158674681938665595879705377760760378865035392718707059144) (Pt.aff 23506678911831003345751906759479257781134082223605932893256426664494032852217 30793146293268753877963184280726246758612456034380830409381079226346887304013) (by decide) (by decide) (by decide) (by decide!) (by decide!)).trans <|
  (smulGo_stepL 63 62 188045 94022 (Pt.aff 4476017461945404380411622060432539106102276521225782155779146836683746387945 55693567054790469662158674681938665595879705377760760378865035392718707059144) (Pt.aff 23506678911831003345751906759479257781134082223605932893256426664494032852217 30793146293268753877963184280726246758612456034380830409381079226346887304013) (Pt.aff 35640477246090386174219768601987882822252165362228645160894532242182399001457 12042697659287720063819795980400196914726756068258492577414505546467326543394) (Pt.aff 2855283333101178640727754780136596241636957624393748740591600861402578762991 4510251104184690176012815229700477003547951861651318165021747492347258015545) (by decide) (by decide) (by decide) (by decide!) (by decide!)).trans <|
  (smulGo_stepL 62 61 94022 47011 (Pt.aff 35640477246090386174219768601987882822252165362228645160894532242182399001457 12042697659287720063819795980400196914726756068258492577414505546467326543394) (Pt.aff 2855283333101178640727754780136596241636957624393748740591600861402578762991 4510251104184690176012815229700477003547951861651318165021747492347258015545) (Pt.aff 55928765183448916094640582389269847895109765685488036927274751833610269968978 41533338212406703162298904101980177670822585343375269775984154635091881162466) (Pt.aff 2855283333101178640727754780136596241636957624393748740591600861402578762991 4510251104184690176012815229700477003547951861651318165021747492347258015545) (by decide) (by decide) (by decide) (by decide!) (by decide!)).trans <|
  (smulGo_stepL 61 60 47011 23505 (Pt.aff 55928765183448916094640582389269847895109765685488036927274751833610269968978 41533338212406703162298904101980177670822585343375269775984154635091881162466) (Pt.aff 2855283333101178640727754780136596241636957624393748740591600861402578762991 4510251104184690176012815229700477003547951861651318165021747492347258015545) (Pt.aff 44301063648916882390012851136806530915862230388304215235977481840670825351999 24102011861499833237425845116089679820786453557374923626569685061129524491353) (Pt.aff 14080855106336010239742944215977452626662239821541647467861941352419696368050 57531673565380640073910911619970155705328962883996813817145731220852428501959) (by decide) (by decide) (by decide) (by decide!) (by decide!)).trans <|
  (smulGo_stepL 60 59 23505 11752 (Pt.aff 44301063648916882390012851136806530915862230388304215235977481840670825351999 24102011861499833237425845116089679820786453557374923626569685061129524491353) (Pt.aff 14080855106336010239742944215977452626662239821541647467861941352419696368050 57531673565380640073910911619970155705328962883996813817145731220852428501959) (Pt.aff 45862396917147862744962271191511078520311373121103753283244868129153696554757 8418874672218803370375214920181847116315977025603427318073525127125880258024) (Pt.aff 53616540282563850373853734626305786122332712457064947800920371403746335940609 24475533080225947351067774904588834484384473364368796724162089347651047755901) (by decide) (by decide) (by decide) (by decide!) (by decide!)).trans <|
  (smulGo_stepL 59 58 11752 5876 (Pt.aff 45862396917147862744962271191511078520311373121103753283244868129153696554757 8418874672218803370375214920181847116315977025603427318073525127125880258024) (Pt.aff 53616540282563850373853734626305786122332712457064947800920371403746335940609 24475533080225947351067774904588834484384473364368796724162089347651047755901) (Pt.aff 46815536656749901164091122262700088011998700419347850330830909581192919015617 48037267419429700404918109144025517048317607153863607548405769534461669818845) (Pt.aff 53616540282563850373853734626305786122332712457064947800920371403746335940609 24475533080225947351067774904588834484384473364368796724162089347651047755901) (by decide) (by decide) (by decide) (by decide!) (by decide!)).trans <|
  (smulGo_stepL 58 57 5876 2938 (Pt.aff 46815536656749901164091122262700088011998700419347850330830909581192919015617 48037267419429700404918109144025517048317607153863607548405769534461669818845) (Pt.aff 53616540282563850373853734626305786122332712457064947800920371403746335940609 24475533080225947351067774904588834484384473364368796724162089347651047755901) (Pt.aff 37755874736301841421110386137559524744787242627565588828573271088866460441724 37840206871133959940803892255550180359465267363950533449484784255511151085764) (Pt.aff 53616540282563850373853734626305786122332712457064947800920371403746335940609 24475533080225947351067774904588834484384473364368796724162089347651047755901) (by decide) (by decide) (by decide) (by decide!) (by decide!)).trans <|
  (smulGo_stepL 57 56 2938 1469 (Pt.aff 37755874736301841421110386137559524744787242627565588828573271088866460441724 37840206871133959940803892255550180359465267363950533449484784255511151085764) (Pt.aff 53616540282563850373853734626305786122332712457064947800920371403746335940609 24475533080225947351067774904588834484384473364368796724162089347651047755901) (Pt.aff 37182313581857688339791657134331342886408872477168934944888422419061784603420 45834634315034957272339276899188927478519693766850174092439310925040638715497) (Pt.aff 53616540282563850373853734626305786122332712457064947800920371403746335940609 24475533080225947351067774904588834484384473364368796724162089347651047755901) (by decide) (by decide) (by decide) (by decide!) (by decide!)).trans <|
  (smulGo_stepL 56 55 1469 734 (Pt.aff 37182313581857688339791657134331342886408872477168934944888422419061784603420 45834634315034957272339276899188927478519693766850174092439310925040638715497) (Pt.aff 53616540282563850373853734626305786122332712457064947800920371403746335940609 24475533080225947351067774904588834484384473364368796724162089347651047755901) (Pt.aff 52844398534930202445628652606338752956880066907224009053635401248659956439133 391056080683014126516716764107386822337247742148211572529960400655265480673) (Pt.aff 27253341156099914686737712708534113021264612206493174600321922168594151543031 6370830494640602624901329769765158156735296718132717847850351966270276129646) (by decide) (by decide) (by decide) (by decide!) (by decide!)).trans <|
  (smulGo_stepL 55 54 734 367 (Pt.aff 52844398534930202445628652606338752956880066907224009053635401248659956439133 391056080683014126516716764107386822337247742148211572529960400655265480673) (Pt.aff 27253341156099914686737712708534113021264612206493174600321922168594151543031 6370830494640602624901329769765158156735296718132717847850351966270276129646) (Pt.aff 56093060104464572327244345787577659624918574504025226607398547784324428464966 14760036174939520229232730972569366193682072369227612593087980804614582908601) (Pt.aff 27253341156099914686737712708534113021264612206493174600321922168594151543031 6370830494640602624901329769765158156735296718132717847850351966270276129646) (by decide) (by decide) (by decide) (by decide!) (by decide!)).trans <|
  (smulGo_stepL 54 53 367 183 (Pt.aff 56093060104464572327244345787577659624918574504025226607398547784324428464966 14760036174939520229232730972569366193682072369227612593087980804614582908601) (Pt.aff 27253341156099914686737712708534113021264612206493174600321922168594151543031 6370830494640602624901329769765158156735296718132717847850351966270276129646) (Pt.aff 20703973288373728840463923986974294316610660057259237433344774386221981713244 29548334786263328021474125661558020973894901481333954174139858877493960574750) (Pt.aff 51108699050283079867416443315910553780648447276777292689286248740243141917544 23819650896293508970972546550440981992656738085883869268521418304224777657054) (by decide) (by decide) (by decide) (by decide!) (by decide!)).trans <|
  (smulGo_stepL 53 52 183 91 (Pt.aff 20703973288373728840463923986974294316610660057259237433344774386221981713244 29548334786263328021474125661558020973894901481333954174139858877493960574750) (Pt.aff 51108699050283079867416443315910553780648447276777292689286248740243141917544 23819650896293508970972546550440981992656738085883869268521418304224777657054) (Pt.aff 22941500391098203569940870486570917324471315846822289740109720791788523053576 44883350509589093200304545917951111248253455719507612740721727957151702957076) (Pt.aff 2122787487001078927187430631851922173277331563566060369394613862346555239104 28342610523375600636571079541923742236603588613859894496085308600003604082054) (by decide) (by decide) (by decide) (by decide!) (by decide!)).trans <|
  (smulGo_stepL 52 51 91 45 (Pt.aff 22941500391098203569940870486570917324471315846822289740109720791788523053576 44883350509589093200304545917951111248253455719507612740721727957151702957076) (Pt.aff 2122787487001078927187430631851922173277331563566060369394613862346555239104 28342610523375600636571079541923742236603588613859894496085308600003604082054) (Pt.aff 57098760385375207210480689506363973704397539640642936548828730480864798337734 9453962174848218863278663021642718676957944663019492989843844850350872570940) (Pt.aff 46636311284573428721462564129010195718733911725043722905930374042309067828832 36385793157981116064527327322169612427835318322772351578337805601407823627900) (by decide) (by decide) (by decide) (by decide!) (by decide!)).trans <|
  (smulGo_stepL 51 50 45 22 (Pt.aff 57098760385375207210480689506363973704397539640642936548828730480864798337734 9453962174848218863278663021642718676957944663019492989843844850350872570940) (Pt.aff 46636311284573428721462564129010195718733911725043722905930374042309067828832 36385793157981116064527327322169612427835318322772351578337805601407823627900) (Pt.aff 56019213217711291706995908607568457780976430274319656869778294628717108784713 32625279804219111533544168270362533072615158124927288546818742186069874526) (Pt.aff 8151680389417389239468949055623346691615771156703161528316092518821430595292 4084185366963790093394602742714239899837510095035742225670569263454194843975) (by decide) (by decide) (by decide) (by decide!) (by decide!)).trans <|
  (smulGo_stepL 50 49 22 11 (Pt.aff 56019213217711291706995908607568457780976430274319656869778294628717108784713 32625279804219111533544168270362533072615158124927288546818742186069874526) (Pt.aff 8151680389417389239468949055623346691615771156703161528316092518821430595292 4084185366963790093394602742714239899837510095035742225670569263454194843975) (Pt.aff 2153713071886143703270368385428634338439102761060087002816332486803728634869 22351859404740869116986377371713771431668042707688424964858696105622781492153) (Pt.aff 8151680389417389239468949055623346691615771156703161528316092518821430595292 4084185366963790093394602742714239899837510095035742225670569263454194843975) (by decide) (by decide) (by decide) (by decide!) (by decide!)).trans <|
  (smulGo_stepL 49 48 11 5 (Pt.aff 2153713071886143703270368385428634338439102761060087002816332486803728634869 22351859404740869116986377371713771431668042707688424964858696105622781492153) (Pt.aff 8151680389417389239468949055623346691615771156703161528316092518821430595292 4084185366963790093394602742714239899837510095035742225670569263454194843975) (Pt.aff 20931993745611343355730459522653189599906736148571890098165759885420956398038 43319123881856358153055021146785563223862639010429690984568639299063929870152) (Pt.aff 3527025625963662208140506758790415600171279428683483060794293437283897073116 15078217856965545458495033228818943920465514772791415745977504641402176901893) (by decide) (by decide) (by decide) (by decide!) (by decide!)).trans <|
  (smulGo_stepL 48 47 5 2 (Pt.aff 20931993745611343355730459522653189599906736148571890098165759885420956398038 43319123881856358153055021146785563223862639010429690984568639299063929870152) (Pt.aff 3527025625963662208140506758790415600171279428683483060794293437283897073116 15078217856965545458495033228818943920465514772791415745977504641402176901893) (Pt.aff 40027493928163144730086481152840285958651667952378572013830761366370756740785 12579616621834317767321335090314610878988337059323758817608502181239272459157) (Pt.aff 44256308720147510895901508856338702936739837238791299633561526488262790854916 47585501438927217042557319380515449546197973600785067174977456313127891955182) (by decide) (by decide) (by decide) (by decide!) (by decide!)).trans <|
  (smulGo_stepL 47 46 2 1 (Pt.aff 40027493928163144730086481152840285958651667952378572013830761366370756740785 12579616621834317767321335090314610878988337059323758817608502181239272459157) (Pt.aff 44256308720147510895901508856338702936739837238791299633561526488262790854916 47585501438927217042557319380515449546197973600785067174977456313127891955182) (Pt.aff 52573937849532372069814888178136277301931757964231753054399601207743438775599 25761691797514593891492937847355509663844710598012890245665149468775083643323) (Pt.aff 44256308720147510895901508856338702936739837238791299633561526488262790854916 47585501438927217042557319380515449546197973600785067174977456313127891955182) (by decide) (by decide) (by decide) (by decide!) (by decide!)).trans <|
  (smulGo_stepL 46 45 1 0 (Pt.aff 52573937849532372069814888178136277301931757964231753054399601207743438775599 25761691797514593891492937847355509663844710598012890245665149468775083643323) (Pt.aff 44256308720147510895901508856338702936739837238791299633561526488262790854916 47585501438927217042557319380515449546197973600785067174977456313127891955182) (Pt.aff 53551331189324009570066081172479755946792847623093405127541712452696841490077 29574278207726102609082400836285639003488651616245406107926790459737579672621) (Pt.aff 12684577714678343884694524943516399583222203110438026454326903105395096669352 3345269853934786668046993437196630450756041231044741834715409013521034031419) (by decide) (by decide) (by decide) (by decide!) (by decide!)).trans <|
  smulGo_k0 45 (Pt.aff 53551331189324009570066081172479755946792847623093405127541712452696841490077 29574278207726102609082400836285639003488651616245406107926790459737579672621) (Pt.aff 12684577714678343884694524943516399583222203110438026454326903105395096669352 3345269853934786668046993437196630450756041231044741834715409013521034031419)


/-- The checked point of the iteration at `data = []`, `d = 1`, `k = 2`:
its x-coordinate is `x(2·G)`, which exceeds `n`. -/
theorem signCheck_12 :
    signCheck [] 1 2 = some (Pt.aff 14847277145635483483963372537557091634710985132825781088887140890597596352251 48981431527428949880507557032295310859754924433568441600873610210018059225738) :=
  (signCheck_eq [] 1 2 373265990970959056016999411471103152996752414065965876883239014026687850273 41531037008282976916172442357309632128607250080678331808209173051927585313624 1890996455710596367666677020948333316535448075601113827802532577785140192312
      [61, 171, 234, 216, 194, 239, 175, 250, 148, 226, 81, 26, 176, 160, 5, 66, 26, 215, 219, 168, 224, 48, 253, 72, 26, 145, 103, 136, 238, 200, 77, 233]
      G25519 (Pt.aff 14230460879622459435911779204800955537840525050907288535874576759141620645132 16896811615854149225310527173281493920415754006836902566566823292928215269874) (Pt.aff 12684577714678343884694524943516399583222203110438026454326903105395096669352 3345269853934786668046993437196630450756041231044741834715409013521034031419)
      signParts_12 (by decide!) smul_s12_chain smul_e12_chain).trans (by decide!)

/-- C2 counterexample: message `b''`, private scalar `d = 1`, nonce
scalar `k = 2`.  Here `x(s·Pub + e·G) mod n` equals the nonce — the
claim's condition holds — yet the signing iteration rejects `k`, because
the code compares the x-coordinate unreduced (`x ≥ n` here).
`signStepSpec` is the iteration with the claimed `mod n` comparison. -/
theorem sign_accept_mod_n_differs :
    signStep [] 1 2 = none ∧ (signStepSpec [] 1 2).isSome = true := by
  have hstep := signStep_eq [] 1 2 373265990970959056016999411471103152996752414065965876883239014026687850273 41531037008282976916172442357309632128607250080678331808209173051927585313624 1890996455710596367666677020948333316535448075601113827802532577785140192312
    14847277145635483483963372537557091634710985132825781088887140890597596352251
    [61, 171, 234, 216, 194, 239, 175, 250, 148, 226, 81, 26, 176, 160, 5, 66, 26, 215, 219, 168, 224, 48, 253, 72, 26, 145, 103, 136, 238, 200, 77, 233]
    (Pt.aff 14847277145635483483963372537557091634710985132825781088887140890597596352251
      48981431527428949880507557032295310859754924433568441600873610210018059225738)
    signParts_12 signCheck_12 rfl
  have hspec := signStepSpec_eq [] 1 2 373265990970959056016999411471103152996752414065965876883239014026687850273 41531037008282976916172442357309632128607250080678331808209173051927585313624 1890996455710596367666677020948333316535448075601113827802532577785140192312
    14847277145635483483963372537557091634710985132825781088887140890597596352251
    [61, 171, 234, 216, 194, 239, 175, 250, 148, 226, 81, 26, 176, 160, 5, 66, 26, 215, 219, 168, 224, 48, 253, 72, 26, 145, 103, 136, 238, 200, 77, 233]
    (Pt.aff 14847277145635483483963372537557091634710985132825781088887140890597596352251
      48981431527428949880507557032295310859754924433568441600873610210018059225738)
    signParts_12 signCheck_12 rfl
  refine ⟨?_, ?_⟩
  · rw [hstep, if_neg (by decide)]
  · rw [hspec, if_pos (by decide)]
    rfl

theorem sign_verify_accept_unreduced_witness :
    ((nonceOf 2 = some 373265990970959056016999411471103152996752414065965876883239014026687850273 ∧
        signCheck [] 1 2 =
          some (.aff 14847277145635483483963372537557091634710985132825781088887140890597596352251
            48981431527428949880507557032295310859754924433568441600873610210018059225738) ∧
        ((signStep [] 1 2).isSome ↔
          xNat (.aff 14847277145635483483963372537557091634710985132825781088887140890597596352251
              48981431527428949880507557032295310859754924433568441600873610210018059225738) =
            some 373265990970959056016999411471103152996752414065965876883239014026687850273))) ∧
      (verifyCandX 1 1 G25519 =
          some 14847277145635483483963372537557091634710985132825781088887140890597596352251 ∧
        verifyLoop [G25519] 1 1 [] =
          if (mikroSha256 (leBytes 32 14847277145635483483963372537557091634710985132825781088887140890597596352251)).take
              ([] : List ℕ).length = ([] : List ℕ) then some true
          else verifyLoop [] 1 1 []) := by
  have h1 : nonceOf 2 = some 373265990970959056016999411471103152996752414065965876883239014026687850273 := by decide!
  have h3 : verifyCandX 1 1 G25519 =
      some 14847277145635483483963372537557091634710985132825781088887140890597596352251 := by
    decide!
  exact ⟨⟨h1, signCheck_12, sign_verify_accept_unreduced.1 [] 1 2 373265990970959056016999411471103152996752414065965876883239014026687850273 _ h1 signCheck_12⟩,
    ⟨h3, sign_verify_accept_unreduced.2 1 1 G25519 [] [] _ h3⟩⟩
